import Mathlib

/-! pico-atari2600: a shallow embedding of the emulator core.

The C sources keep every chip in module-scope variables.  Here each chip is a
structure, the whole machine is the record `Atari`, and a C function becomes a
function on these records.  Machine integers are natural numbers reduced
explicitly (`% 256` for `uint8_t`, `% 65536` for `uint16_t`); C `int`
expressions that may go negative are computed in `Int` and converted with
`u8` / `u16`.  An array access outside the array is undefined behaviour in C
and is reported as a `Fault`.
-/

namespace Atari2600

/-! ## Machine integers -/

/-- Conversion of a C `int` value to `uint8_t`. -/
def u8 (x : Int) : Nat := (x % 256).toNat

/-- Conversion of a C `int` value to `uint16_t`. -/
def u16 (x : Int) : Nat := (x % 65536).toNat

/-- Conversion of a C `int` value to `uint32_t`. -/
def u32 (x : Int) : Nat := (x % 4294967296).toNat

/-- Conversion of a C `int` value to `int8_t` (two's complement wrap). -/
def i8 (x : Int) : Int := (x + 128) % 256 - 128

/-- Conversion of a C `uint32_t` value to `int` (two's complement wrap). -/
def i32 (x : Int) : Int := (x + 2147483648) % 4294967296 - 2147483648

/-- The C operator `!` on an integer: 1 when the operand is zero, else 0. -/
def lnot (x : Nat) : Nat := if x = 0 then 1 else 0

/-- The value of a C comparison: 1 when it holds, else 0. -/
def cbool (b : Bool) : Nat := if b then 1 else 0

/-- The C operator `~` on a (promoted, 32-bit) `int` holding a small
non-negative value, seen as its 32-bit pattern. -/
def bnot32 (x : Nat) : Nat := 0xFFFFFFFF - x

/-! ## mos6507.h -/

abbrev STACK_PAGE : Nat := 0x01

abbrev MOS6507_STATUS_FLAG_NEGATIVE : Nat := 0x80
abbrev MOS6507_STATUS_FLAG_OVERFLOW : Nat := 0x40
abbrev MOS6507_STATUS_FLAG_BREAK : Nat := 0x10
abbrev MOS6507_STATUS_FLAG_DECIMAL : Nat := 0x08
abbrev MOS6507_STATUS_FLAG_INTERRUPT : Nat := 0x04
abbrev MOS6507_STATUS_FLAG_ZERO : Nat := 0x02
abbrev MOS6507_STATUS_FLAG_CARRY : Nat := 0x01

inductive mos6507_register_t where
  | MOS6507_REG_A
  | MOS6507_REG_Y
  | MOS6507_REG_X
  | MOS6507_REG_PC
  | MOS6507_REG_S
  | MOS6507_REG_P
  deriving DecidableEq, Repr

open mos6507_register_t

/-- The C struct `mos6507`: registers, latched instruction, cycle and buses. -/
structure mos6507 where
  A : Nat
  Y : Nat
  X : Nat
  PC : Nat
  S : Nat
  P : Nat
  current_instruction : Nat
  current_clock : Nat
  address_bus : Nat
  data_bus : Nat
  deriving DecidableEq, Repr, Inhabited

/-- All fields hold values of their C width. -/
def mos6507.wf (cpu : mos6507) : Prop :=
  cpu.A < 256 ∧ cpu.Y < 256 ∧ cpu.X < 256 ∧ cpu.PC < 65536 ∧ cpu.S < 256 ∧ cpu.P < 256 ∧
  cpu.current_instruction < 256 ∧ cpu.current_clock < 256 ∧
  cpu.address_bus < 65536 ∧ cpu.data_bus < 256

instance (cpu : mos6507) : Decidable cpu.wf := by
  unfold mos6507.wf; infer_instance

/-! ## mos6507.c: register access (CPU-local functions) -/

def mos6507_init (_cpu : mos6507) : mos6507 :=
  { A := 0, Y := 0, X := 0, PC := 0, S := 0xFD, P := 0, data_bus := 0, address_bus := 0,
    current_instruction := 0, current_clock := 0 }

/-- The parameter `value` is a `uint8_t`, so the argument is reduced modulo 256. -/
def mos6507_set_register (reg : mos6507_register_t) (value : Nat) (cpu : mos6507) : mos6507 :=
  match reg with
  | MOS6507_REG_A => { cpu with A := value % 256 }
  | MOS6507_REG_Y => { cpu with Y := value % 256 }
  | MOS6507_REG_X => { cpu with X := value % 256 }
  | MOS6507_REG_PC => { cpu with PC := value % 256 }
  | MOS6507_REG_S => { cpu with S := value % 256 }
  | MOS6507_REG_P => { cpu with P := value % 256 }

/-- The result is stored through a `uint8_t *`, so `PC` is truncated. -/
def mos6507_get_register (reg : mos6507_register_t) (cpu : mos6507) : Nat :=
  match reg with
  | MOS6507_REG_A => cpu.A
  | MOS6507_REG_Y => cpu.Y
  | MOS6507_REG_X => cpu.X
  | MOS6507_REG_PC => cpu.PC % 256
  | MOS6507_REG_S => cpu.S
  | MOS6507_REG_P => cpu.P

def mos6507_increment_PC (cpu : mos6507) : mos6507 :=
  { cpu with PC := (cpu.PC + 1) % 65536 }

def mos6507_get_PC (cpu : mos6507) : Nat := cpu.PC

def mos6507_set_PC (pc : Nat) (cpu : mos6507) : mos6507 :=
  { cpu with PC := pc % 65536 }

def mos6507_set_PC_hl (pch pcl : Nat) (cpu : mos6507) : mos6507 :=
  { cpu with PC := ((0 ||| ((pch % 256) <<< 8)) % 65536 ||| (pcl % 256)) % 65536 }

def mos6507_set_address_bus_hl (adh adl : Nat) (cpu : mos6507) : mos6507 :=
  { cpu with address_bus := ((0 ||| ((adh % 256) <<< 8)) % 65536 ||| (adl % 256)) % 65536 }

def mos6507_set_address_bus (address : Nat) (cpu : mos6507) : mos6507 :=
  { cpu with address_bus := address % 65536 }

def mos6507_get_address_bus (cpu : mos6507) : Nat := cpu.address_bus

def mos6507_set_data_bus (data : Nat) (cpu : mos6507) : mos6507 :=
  { cpu with data_bus := data % 256 }

def mos6507_get_data_bus (cpu : mos6507) : Nat := cpu.data_bus

/-- The parameter `value` is a C `int` used only as a truth value; every call
site passes a non-negative value. -/
def mos6507_set_status_flag (flag : Nat) (value : Nat) (cpu : mos6507) : mos6507 :=
  let status := mos6507_get_register MOS6507_REG_P cpu
  let status := if value ≠ 0 then (status ||| flag) % 256 else (status &&& bnot32 flag) % 256
  mos6507_set_register MOS6507_REG_P status cpu

def mos6507_get_status_flag (flag : Nat) (cpu : mos6507) : Nat :=
  let status := mos6507_get_register MOS6507_REG_P cpu
  if status &&& flag ≠ 0 then 1 else 0

/-! ## mos6507-microcode.c -/

def mos6507_ADC (data : Nat) (cpu : mos6507) : mos6507 :=
  let tmp : Nat := 0
  let accumulator := mos6507_get_register MOS6507_REG_A cpu
  if mos6507_get_status_flag MOS6507_STATUS_FLAG_DECIMAL cpu ≠ 0 then
    mos6507_set_register MOS6507_REG_A (tmp &&& 0xFF) cpu
  else
    let tmp := (data + accumulator +
      (if mos6507_get_status_flag MOS6507_STATUS_FLAG_CARRY cpu ≠ 0 then 1 else 0)) % 65536
    let cpu := mos6507_set_status_flag MOS6507_STATUS_FLAG_NEGATIVE (tmp &&& 0x80) cpu
    let cpu := mos6507_set_status_flag MOS6507_STATUS_FLAG_CARRY (cbool (decide (tmp > 0xFF))) cpu
    let cpu := mos6507_set_status_flag MOS6507_STATUS_FLAG_ZERO (lnot (tmp &&& 0xFF)) cpu
    let cpu := mos6507_set_status_flag MOS6507_STATUS_FLAG_OVERFLOW
      (cbool (decide (lnot ((accumulator ^^^ data) &&& 0x80) ≠ 0 ∧
        ((accumulator ^^^ tmp) &&& 0x80) ≠ 0))) cpu
    mos6507_set_register MOS6507_REG_A (tmp &&& 0xFF) cpu

def mos6507_AND (data : Nat) (cpu : mos6507) : mos6507 :=
  let accumulator := mos6507_get_register MOS6507_REG_A cpu
  let tmp := (accumulator &&& data) % 256
  let cpu := mos6507_set_status_flag MOS6507_STATUS_FLAG_NEGATIVE (tmp &&& 0x80) cpu
  let cpu := mos6507_set_status_flag MOS6507_STATUS_FLAG_ZERO (lnot (tmp &&& 0xFF)) cpu
  mos6507_set_register MOS6507_REG_A tmp cpu

/-- The operand is passed by pointer: the result pairs the new `*data` with the CPU. -/
def mos6507_ASL (data : Nat) (cpu : mos6507) : Nat × mos6507 :=
  let tmp := data
  let tmp := (tmp <<< 1) % 65536
  let cpu := mos6507_set_status_flag MOS6507_STATUS_FLAG_CARRY (tmp &&& 0x100) cpu
  let cpu := mos6507_set_status_flag MOS6507_STATUS_FLAG_NEGATIVE (tmp &&& 0x80) cpu
  let cpu := mos6507_set_status_flag MOS6507_STATUS_FLAG_ZERO (lnot (tmp &&& 0xFF)) cpu
  ((tmp &&& 0xFF) % 256, cpu)

def mos6507_ASL_Accumulator (cpu : mos6507) : mos6507 :=
  let accumulator := mos6507_get_register MOS6507_REG_A cpu
  let tmp := accumulator
  let tmp := (tmp <<< 1) % 65536
  let cpu := mos6507_set_status_flag MOS6507_STATUS_FLAG_CARRY (tmp &&& 0x100) cpu
  let cpu := mos6507_set_status_flag MOS6507_STATUS_FLAG_NEGATIVE (tmp &&& 0x80) cpu
  let cpu := mos6507_set_status_flag MOS6507_STATUS_FLAG_ZERO (lnot (tmp &&& 0xFF)) cpu
  let accumulator := (tmp &&& 0xFF) % 256
  mos6507_set_register MOS6507_REG_A accumulator cpu

def mos6507_BIT (data : Nat) (cpu : mos6507) : mos6507 :=
  let accumulator := mos6507_get_register MOS6507_REG_A cpu
  let tmp := (accumulator &&& data) % 256
  let cpu := mos6507_set_status_flag MOS6507_STATUS_FLAG_NEGATIVE
    (data &&& MOS6507_STATUS_FLAG_NEGATIVE) cpu
  let cpu := mos6507_set_status_flag MOS6507_STATUS_FLAG_OVERFLOW
    (data &&& MOS6507_STATUS_FLAG_OVERFLOW) cpu
  mos6507_set_status_flag MOS6507_STATUS_FLAG_ZERO (lnot (tmp &&& 0xFF)) cpu

def mos6507_CMP (data : Nat) (cpu : mos6507) : mos6507 :=
  let accumulator := mos6507_get_register MOS6507_REG_A cpu
  let tmp := u16 ((accumulator : Int) - (data : Int))
  let cpu := mos6507_set_status_flag MOS6507_STATUS_FLAG_CARRY (cbool (decide (tmp < 0x0100))) cpu
  let cpu := mos6507_set_status_flag MOS6507_STATUS_FLAG_NEGATIVE (tmp &&& 0x80) cpu
  mos6507_set_status_flag MOS6507_STATUS_FLAG_ZERO (lnot (tmp &&& 0xFF)) cpu

def mos6507_CPX (data : Nat) (cpu : mos6507) : mos6507 :=
  let X := mos6507_get_register MOS6507_REG_X cpu
  let tmp := u16 ((X : Int) - (data : Int))
  let cpu := mos6507_set_status_flag MOS6507_STATUS_FLAG_CARRY (cbool (decide (tmp < 0x0100))) cpu
  let cpu := mos6507_set_status_flag MOS6507_STATUS_FLAG_NEGATIVE (tmp &&& 0x80) cpu
  mos6507_set_status_flag MOS6507_STATUS_FLAG_ZERO (lnot (tmp &&& 0xFF)) cpu

def mos6507_CPY (data : Nat) (cpu : mos6507) : mos6507 :=
  let Y := mos6507_get_register MOS6507_REG_Y cpu
  let tmp := u16 ((Y : Int) - (data : Int))
  let cpu := mos6507_set_status_flag MOS6507_STATUS_FLAG_CARRY (cbool (decide (tmp < 0x0100))) cpu
  let cpu := mos6507_set_status_flag MOS6507_STATUS_FLAG_NEGATIVE (tmp &&& 0x80) cpu
  mos6507_set_status_flag MOS6507_STATUS_FLAG_ZERO (lnot (tmp &&& 0xFF)) cpu

def mos6507_EOR (data : Nat) (cpu : mos6507) : mos6507 :=
  let accumulator := mos6507_get_register MOS6507_REG_A cpu
  let tmp := (accumulator ^^^ data) % 256
  let cpu := mos6507_set_status_flag MOS6507_STATUS_FLAG_NEGATIVE (tmp &&& 0x80) cpu
  let cpu := mos6507_set_status_flag MOS6507_STATUS_FLAG_ZERO (lnot (tmp &&& 0xFF)) cpu
  mos6507_set_register MOS6507_REG_A tmp cpu

/-- The operand is passed by pointer: the result pairs the new `*data` with the CPU. -/
def mos6507_LSR (data : Nat) (cpu : mos6507) : Nat × mos6507 :=
  let cpu := mos6507_set_status_flag MOS6507_STATUS_FLAG_CARRY (data &&& 0x01) cpu
  let data := (data >>> 1) % 256
  let cpu := mos6507_set_status_flag MOS6507_STATUS_FLAG_ZERO (lnot (data &&& 0xFF)) cpu
  (data, cpu)

def mos6507_LSR_Accumulator (cpu : mos6507) : mos6507 :=
  let accumulator := mos6507_get_register MOS6507_REG_A cpu
  let cpu := mos6507_set_status_flag MOS6507_STATUS_FLAG_CARRY (accumulator &&& 0x01) cpu
  let accumulator := (accumulator >>> 1) % 256
  let cpu := mos6507_set_status_flag MOS6507_STATUS_FLAG_ZERO (lnot (accumulator &&& 0xFF)) cpu
  mos6507_set_register MOS6507_REG_A accumulator cpu

/-- The operand is passed by pointer and only read. -/
def mos6507_ORA (data : Nat) (cpu : mos6507) : mos6507 :=
  let accumulator := mos6507_get_register MOS6507_REG_A cpu
  let tmp := (accumulator ||| data) % 256
  let cpu := mos6507_set_status_flag MOS6507_STATUS_FLAG_NEGATIVE (tmp &&& 0x80) cpu
  let cpu := mos6507_set_status_flag MOS6507_STATUS_FLAG_ZERO (lnot (tmp &&& 0xFF)) cpu
  mos6507_set_register MOS6507_REG_A tmp cpu

/-- The operand is passed by pointer and only read. -/
def mos6507_TSB (data : Nat) (cpu : mos6507) : mos6507 :=
  let accumulator := mos6507_get_register MOS6507_REG_A cpu
  let tmp := (accumulator ||| data) % 256
  let cpu := mos6507_set_status_flag MOS6507_STATUS_FLAG_ZERO (data &&& tmp) cpu
  mos6507_set_register MOS6507_REG_A tmp cpu

/-- The operand is passed by pointer: the result pairs the new `*data` with the CPU. -/
def mos6507_ROL (data : Nat) (cpu : mos6507) : Nat × mos6507 :=
  let tmp := (data <<< 1) % 65536
  let tmp := if mos6507_get_status_flag MOS6507_STATUS_FLAG_CARRY cpu ≠ 0 then tmp ||| 0x01 else tmp
  let cpu := mos6507_set_status_flag MOS6507_STATUS_FLAG_NEGATIVE (tmp &&& 0x80) cpu
  let cpu := mos6507_set_status_flag MOS6507_STATUS_FLAG_ZERO (lnot (tmp &&& 0xFF)) cpu
  let cpu := mos6507_set_status_flag MOS6507_STATUS_FLAG_CARRY (tmp &&& 0x0100) cpu
  ((tmp &&& 0xFF) % 256, cpu)

def mos6507_ROL_Accumulator (cpu : mos6507) : mos6507 :=
  let accumulator := mos6507_get_register MOS6507_REG_A cpu
  let tmp := (accumulator <<< 1) % 65536
  let tmp := if mos6507_get_status_flag MOS6507_STATUS_FLAG_CARRY cpu ≠ 0 then tmp ||| 0x01 else tmp
  let cpu := mos6507_set_status_flag MOS6507_STATUS_FLAG_NEGATIVE (tmp &&& 0x80) cpu
  let cpu := mos6507_set_status_flag MOS6507_STATUS_FLAG_ZERO (lnot (tmp &&& 0xFF)) cpu
  let cpu := mos6507_set_status_flag MOS6507_STATUS_FLAG_CARRY (tmp &&& 0x0100) cpu
  let accumulator := (tmp &&& 0xFF) % 256
  mos6507_set_register MOS6507_REG_A accumulator cpu

/-- The operand is passed by pointer: the result pairs the new `*data` with the CPU. -/
def mos6507_ROR (data : Nat) (cpu : mos6507) : Nat × mos6507 :=
  let tmpCarry := (data &&& 0x01) % 256
  let tmp := (data >>> 1) % 65536
  let tmp := if mos6507_get_status_flag MOS6507_STATUS_FLAG_CARRY cpu ≠ 0 then tmp ||| 0x80 else tmp
  let cpu := mos6507_set_status_flag MOS6507_STATUS_FLAG_NEGATIVE (tmp &&& 0x80) cpu
  let cpu := mos6507_set_status_flag MOS6507_STATUS_FLAG_ZERO (lnot (tmp &&& 0xFF)) cpu
  let cpu := mos6507_set_status_flag MOS6507_STATUS_FLAG_CARRY tmpCarry cpu
  ((tmp &&& 0xFF) % 256, cpu)

def mos6507_ROR_Accumulator (cpu : mos6507) : mos6507 :=
  let accumulator := mos6507_get_register MOS6507_REG_A cpu
  let tmpCarry := (accumulator &&& 0x01) % 65536
  let tmp := (accumulator >>> 1) % 65536
  let tmp := if mos6507_get_status_flag MOS6507_STATUS_FLAG_CARRY cpu ≠ 0 then tmp ||| 0x80 else tmp
  let cpu := mos6507_set_status_flag MOS6507_STATUS_FLAG_NEGATIVE (tmp &&& 0x80) cpu
  let cpu := mos6507_set_status_flag MOS6507_STATUS_FLAG_ZERO (lnot (tmp &&& 0xFF)) cpu
  let cpu := mos6507_set_status_flag MOS6507_STATUS_FLAG_CARRY tmpCarry cpu
  let accumulator := (tmp &&& 0xFF) % 256
  mos6507_set_register MOS6507_REG_A accumulator cpu

def mos6507_SBC (data : Nat) (cpu : mos6507) : mos6507 :=
  let tmp : Nat := 0
  let accumulator := mos6507_get_register MOS6507_REG_A cpu
  if mos6507_get_status_flag MOS6507_STATUS_FLAG_DECIMAL cpu ≠ 0 then
    mos6507_set_register MOS6507_REG_A (tmp &&& 0xFF) cpu
  else
    let tmp := u16 ((accumulator : Int) - (data : Int) -
      (if mos6507_get_status_flag MOS6507_STATUS_FLAG_CARRY cpu ≠ 0 then 1 else 0))
    let cpu := mos6507_set_status_flag MOS6507_STATUS_FLAG_NEGATIVE (tmp &&& 0x80) cpu
    let cpu := mos6507_set_status_flag MOS6507_STATUS_FLAG_CARRY (lnot (tmp &&& 0x8000)) cpu
    let cpu := mos6507_set_status_flag MOS6507_STATUS_FLAG_ZERO (lnot (tmp &&& 0xFF)) cpu
    let cpu := mos6507_set_status_flag MOS6507_STATUS_FLAG_OVERFLOW
      (cbool (decide (lnot ((accumulator ^^^ data) &&& 0x80) ≠ 0 ∧
        ((accumulator ^^^ tmp) &&& 0x80) ≠ 0))) cpu
    mos6507_set_register MOS6507_REG_A (tmp &&& 0xFF) cpu

/-! ## Faults: array accesses outside the array -/

/-- The C arrays whose indices are computed at run time. -/
inductive ArrayId where
  | riot_memory
  | ISA_table
  | tia_write_regs
  | tia_read_regs
  | tia_players
  | tia_missiles
  | tia_player_size_map
  | player_line_buffer
  | missile_line_buffer
  | ball_line_buffer
  | playfield_line_buffer
  | tia_raw_buffer
  | tia_rgb_color_map
  deriving DecidableEq, Repr

/-- An access to `array[index]` with `index` outside the array: undefined
behaviour in C, at which the model stops. -/
structure Fault where
  array : ArrayId
  index : Int
  deriving DecidableEq, Repr

instance {ε α : Type} [DecidableEq ε] [DecidableEq α] : DecidableEq (Except ε α)
  | .ok a, .ok b =>
    if h : a = b then isTrue (by rw [h]) else isFalse (by intro h2; cases h2; exact h rfl)
  | .error a, .error b =>
    if h : a = b then isTrue (by rw [h]) else isFalse (by intro h2; cases h2; exact h rfl)
  | .ok _, .error _ => isFalse (by intro h; cases h)
  | .error _, .ok _ => isFalse (by intro h; cases h)

/-- Read of `a[i]` for a C array of `size` elements. -/
def arr_get {α : Type} (id : ArrayId) (size : Nat) (a : Nat → α) (i : Int) : Except Fault α :=
  if 0 ≤ i ∧ i < size then .ok (a i.toNat) else .error ⟨id, i⟩

/-- Write `a[i] = v` for a C array of `size` elements. -/
def arr_set {α : Type} (id : ArrayId) (size : Nat) (a : Nat → α) (i : Int) (v : α) :
    Except Fault (Nat → α) :=
  if 0 ≤ i ∧ i < size then .ok (Function.update a i.toNat v) else .error ⟨id, i⟩

/-! ## Atari-TIA.h -/

abbrev TIA_COLOUR_CLOCK_VISIBLE : Nat := 160
abbrev TIA_COLOUR_CLOCK_VISIBLE_HALF : Nat := TIA_COLOUR_CLOCK_VISIBLE / 2
abbrev TIA_COLOUR_CLOCK_HSYNC : Nat := 68
abbrev TIA_COLOUR_CLOCK_TOTAL : Nat := TIA_COLOUR_CLOCK_VISIBLE + TIA_COLOUR_CLOCK_HSYNC

abbrev TIA_WRITE_REG_VSYNC : Nat := 0x00
abbrev TIA_WRITE_REG_VBLANK : Nat := 0x01
abbrev TIA_WRITE_REG_WSYNC : Nat := 0x02
abbrev TIA_WRITE_REG_RSYNC : Nat := 0x03
abbrev TIA_WRITE_REG_NUSIZ0 : Nat := 0x04
abbrev TIA_WRITE_REG_NUSIZ1 : Nat := 0x05
abbrev TIA_WRITE_REG_COLUP0 : Nat := 0x06
abbrev TIA_WRITE_REG_COLUP1 : Nat := 0x07
abbrev TIA_WRITE_REG_COLUPF : Nat := 0x08
abbrev TIA_WRITE_REG_COLUBK : Nat := 0x09
abbrev TIA_WRITE_REG_CTRLPF : Nat := 0x0A
abbrev TIA_WRITE_REG_REFP0 : Nat := 0x0B
abbrev TIA_WRITE_REG_REFP1 : Nat := 0x0C
abbrev TIA_WRITE_REG_PF0 : Nat := 0x0D
abbrev TIA_WRITE_REG_PF1 : Nat := 0x0E
abbrev TIA_WRITE_REG_PF2 : Nat := 0x0F
abbrev TIA_WRITE_REG_RESP0 : Nat := 0x10
abbrev TIA_WRITE_REG_RESP1 : Nat := 0x11
abbrev TIA_WRITE_REG_RESM0 : Nat := 0x12
abbrev TIA_WRITE_REG_RESM1 : Nat := 0x13
abbrev TIA_WRITE_REG_RESBL : Nat := 0x14
abbrev TIA_WRITE_REG_AUDC0 : Nat := 0x15
abbrev TIA_WRITE_REG_AUDC1 : Nat := 0x16
abbrev TIA_WRITE_REG_AUDF0 : Nat := 0x17
abbrev TIA_WRITE_REG_AUDF1 : Nat := 0x18
abbrev TIA_WRITE_REG_AUDV0 : Nat := 0x19
abbrev TIA_WRITE_REG_AUDV1 : Nat := 0x1A
abbrev TIA_WRITE_REG_GRP0 : Nat := 0x1B
abbrev TIA_WRITE_REG_GRP1 : Nat := 0x1C
abbrev TIA_WRITE_REG_ENAM0 : Nat := 0x1D
abbrev TIA_WRITE_REG_ENAM1 : Nat := 0x1E
abbrev TIA_WRITE_REG_ENABL : Nat := 0x1F
abbrev TIA_WRITE_REG_HMP0 : Nat := 0x20
abbrev TIA_WRITE_REG_HMP1 : Nat := 0x21
abbrev TIA_WRITE_REG_HMM0 : Nat := 0x22
abbrev TIA_WRITE_REG_HMM1 : Nat := 0x23
abbrev TIA_WRITE_REG_HMBL : Nat := 0x24
abbrev TIA_WRITE_REG_VDELP0 : Nat := 0x25
abbrev TIA_WRITE_REG_VDELP1 : Nat := 0x26
abbrev TIA_WRITE_REG_VDELBL : Nat := 0x27
abbrev TIA_WRITE_REG_RESMP0 : Nat := 0x28
abbrev TIA_WRITE_REG_RESMP1 : Nat := 0x29
abbrev TIA_WRITE_REG_HMOVE : Nat := 0x2A
abbrev TIA_WRITE_REG_HMCLR : Nat := 0x2B
abbrev TIA_WRITE_REG_CXCLR : Nat := 0x2C
abbrev TIA_WRITE_REG_LEN : Nat := 0x2D

abbrev TIA_READ_REG_CXM0P : Nat := 0x00
abbrev TIA_READ_REG_CXM1P : Nat := 0x01
abbrev TIA_READ_REG_CXP0FB : Nat := 0x02
abbrev TIA_READ_REG_CXP1FB : Nat := 0x03
abbrev TIA_READ_REG_CXM0FB : Nat := 0x04
abbrev TIA_READ_REG_CXM1FB : Nat := 0x05
abbrev TIA_READ_REG_CXBLPF : Nat := 0x06
abbrev TIA_READ_REG_CXPPMM : Nat := 0x07
abbrev TIA_READ_REG_INPT0 : Nat := 0x08
abbrev TIA_READ_REG_INPT1 : Nat := 0x09
abbrev TIA_READ_REG_INPT2 : Nat := 0x0A
abbrev TIA_READ_REG_INPT3 : Nat := 0x0B
abbrev TIA_READ_REG_INPT4 : Nat := 0x0C
abbrev TIA_READ_REG_INPT5 : Nat := 0x0D
abbrev TIA_READ_REG_LEN : Nat := 0x0E

/-- The C struct `tia_missile_t`; `position_clock` is a `uint32_t`,
`horizontal_offset` an `int8_t`, `line_buffer` has 160 entries. -/
structure tia_missile_t where
  scanline_reset : Nat
  enabled : Nat
  position_clock : Nat
  width : Nat
  horizontal_offset : Int
  line_buffer : Nat → Nat

/-- The C struct `tia_ball_t`; `position_clock` is a `uint32_t`. -/
structure tia_ball_t where
  scanline_reset : Nat
  enabled : Nat
  position_clock : Nat
  width : Nat
  horizontal_offset : Int
  vertical_delay : Nat
  line_buffer : Nat → Nat

/-- The C struct `tia_playfield_t`. -/
structure tia_playfield_t where
  mirror_enable : Nat
  score_enabled : Nat
  line_buffer : Nat → Nat

/-- The C struct `tia_player_t`; here `position_clock` is an `int8_t`. -/
structure tia_player_t where
  scanline_reset : Nat
  position_clock : Int
  horizontal_offset : Int
  vertical_delay : Nat
  pattern : Nat
  line_buffer : Nat → Nat

/-- The C struct `atari_tia` (45 write registers, 14 read registers, two
missiles, two players), together with two module-scope arrays of Atari-TIA.c
in the build for the device (`PICO_ON_DEVICE`): the output line
`tia_raw_buffer[160]` and the palette `tia_rgb_color_map[128]`. -/
structure atari_tia where
  write_regs : Nat → Nat
  read_regs : Nat → Nat
  colour_clock : Nat
  ball : tia_ball_t
  missiles : Nat → tia_missile_t
  players : Nat → tia_player_t
  playfield : tia_playfield_t
  tia_raw_buffer : Nat → Nat
  tia_rgb_color_map : Nat → Nat

/-! ## Atari-TIA.c: register file -/

/-- The table `tia_player_size_map` (8 entries). -/
def tia_player_size_map (i : Nat) : Nat :=
  [0b1000000000, 0b1010000000, 0b1000100000, 0b1010100000,
   0b1000000010, 0b1100000000, 0b1000100010, 0b1111000000].getD i 0

def TIA_reverse_byte (byte : Nat) : Nat :=
  let byte := (((byte &&& 0xF0) >>> 4) ||| ((byte &&& 0x0F) <<< 4)) % 256
  let byte := (((byte &&& 0xCC) >>> 2) ||| ((byte &&& 0x33) <<< 2)) % 256
  let byte := (((byte &&& 0xAA) >>> 1) ||| ((byte &&& 0x55) <<< 1)) % 256
  byte

/-- The C `memset(line_buffer, 0, TIA_COLOUR_CLOCK_VISIBLE)`. -/
def TIA_reset_line_buffer (line_buffer : Nat → Nat) : Nat → Nat :=
  fun i => if i < TIA_COLOUR_CLOCK_VISIBLE then 0 else line_buffer i

/-- The register codes selected for a player:
(reflect, graphics, offset, vertical, size). -/
def TIA_get_player_registers (player : Nat) : Nat × Nat × Nat × Nat × Nat :=
  (if player ≠ 0 then TIA_WRITE_REG_REFP1 else TIA_WRITE_REG_REFP0,
   if player ≠ 0 then TIA_WRITE_REG_GRP1 else TIA_WRITE_REG_GRP0,
   if player ≠ 0 then TIA_WRITE_REG_HMP1 else TIA_WRITE_REG_HMP0,
   if player ≠ 0 then TIA_WRITE_REG_VDELP1 else TIA_WRITE_REG_VDELP0,
   if player ≠ 0 then TIA_WRITE_REG_NUSIZ1 else TIA_WRITE_REG_NUSIZ0)

/-- The register codes selected for a missile: (enable, size, offset). -/
def TIA_get_missile_registers (missile : Nat) : Nat × Nat × Nat :=
  (if missile ≠ 0 then TIA_WRITE_REG_ENAM1 else TIA_WRITE_REG_ENAM0,
   if missile ≠ 0 then TIA_WRITE_REG_NUSIZ1 else TIA_WRITE_REG_NUSIZ0,
   if missile ≠ 0 then TIA_WRITE_REG_HMM1 else TIA_WRITE_REG_HMM0)

/-- The loop of `TIA_update_player_buffer`: `n` iterations remain, the loop
variable is `i`; the result is the line buffer after the loop. -/
def TIA_update_player_buffer_loop (pattern size_mask : Nat) :
    Nat → Int → Int → Nat → (Nat → Nat) → Except Fault (Nat → Nat)
  | 0, _, _, _, line_buffer => .ok line_buffer
  | n + 1, i, draw_count, pixel_clock, line_buffer =>
    let draw_count := if pixel_clock > 7 then draw_count - 1 else draw_count
    let pixel_clock := if pixel_clock > 7 then 0 else pixel_clock
    if draw_count > -1 ∧ size_mask &&& (1 <<< draw_count.toNat) ≠ 0 then
      match arr_set .player_line_buffer TIA_COLOUR_CLOCK_VISIBLE line_buffer i
          (if pattern &&& (1 <<< pixel_clock) ≠ 0 then 1 else 0) with
      | .error e => .error e
      | .ok line_buffer =>
        TIA_update_player_buffer_loop pattern size_mask n (i + 1) draw_count (pixel_clock + 1)
          line_buffer
    else
      TIA_update_player_buffer_loop pattern size_mask n (i + 1) draw_count (pixel_clock + 1)
        line_buffer

def TIA_update_player_buffer (player : Nat) (tia : atari_tia) : Except Fault atari_tia := do
  let p ← arr_get .tia_players 2 tia.players player
  let line_buffer := TIA_reset_line_buffer p.line_buffer
  let (reflect_reg, graphics_reg, _offset_reg, _vertical_reg, size_reg) :=
    TIA_get_player_registers player
  let position : Int := p.position_clock
  let mirror : Nat := if tia.write_regs reflect_reg &&& 0b100 ≠ 0 then 0 else 1
  let pattern := if mirror ≠ 0 then TIA_reverse_byte (tia.write_regs graphics_reg)
    else TIA_reverse_byte (tia.write_regs graphics_reg)
  let size_mask := tia_player_size_map (tia.write_regs size_reg &&& 0x7)
  let line_buffer ← TIA_update_player_buffer_loop pattern size_mask
    ((TIA_COLOUR_CLOCK_VISIBLE : Int) - position).toNat position 10 0 line_buffer
  pure { tia with players := Function.update tia.players player { p with line_buffer := line_buffer } }

/-- The loop `for (i = position; i < bound; i++) line_buffer[i] = 1` over
`uint32_t` values; `n` iterations remain. -/
def TIA_fill_loop (id : ArrayId) : Nat → Nat → (Nat → Nat) → Except Fault (Nat → Nat)
  | 0, _, line_buffer => .ok line_buffer
  | n + 1, i, line_buffer =>
    match arr_set id TIA_COLOUR_CLOCK_VISIBLE line_buffer i 1 with
    | .error e => .error e
    | .ok line_buffer => TIA_fill_loop id n ((i + 1) % 4294967296) line_buffer

def TIA_update_missile_buffer (missile : Nat) (tia : atari_tia) : Except Fault atari_tia := do
  let m ← arr_get .tia_missiles 2 tia.missiles missile
  let m := { m with line_buffer := TIA_reset_line_buffer m.line_buffer }
  let (enable_reg, size_reg, _offset_reg) := TIA_get_missile_registers missile
  if tia.write_regs enable_reg ≠ 0 then
    let position := m.position_clock
    let m := { m with width := (1 <<< (tia.write_regs size_reg >>> 4)) % 256 }
    let bound := (position + m.width) % 4294967296
    let line_buffer ← TIA_fill_loop .missile_line_buffer (bound - position) position m.line_buffer
    pure { tia with missiles := Function.update tia.missiles missile { m with line_buffer := line_buffer } }
  else
    pure { tia with missiles := Function.update tia.missiles missile m }

def TIA_update_ball_buffer (tia : atari_tia) : Except Fault atari_tia := do
  let b := { tia.ball with line_buffer := TIA_reset_line_buffer tia.ball.line_buffer }
  if tia.write_regs TIA_WRITE_REG_ENABL ≠ 0 then
    let position := b.position_clock
    let b := { b with width := (1 <<< (tia.write_regs TIA_WRITE_REG_CTRLPF >>> 4)) % 256 }
    let bound := (position + b.width) % 4294967296
    let line_buffer ← TIA_fill_loop .ball_line_buffer (bound - position) position b.line_buffer
    pure { tia with ball := { b with line_buffer := line_buffer } }
  else
    pure { tia with ball := b }

/-- The loop of `TIA_update_playfield` over `i < 80`, written as a fold over
the indices in increasing order. -/
def TIA_update_playfield (tia : atari_tia) : atari_tia :=
  let pattern := ((tia.write_regs TIA_WRITE_REG_PF0 >>> 4)
    ||| (TIA_reverse_byte (tia.write_regs TIA_WRITE_REG_PF1) <<< 4)
    ||| (tia.write_regs TIA_WRITE_REG_PF2 <<< 12)) % 4294967296
  let mirror_enable : Nat := if tia.write_regs TIA_WRITE_REG_CTRLPF &&& 0x01 ≠ 0 then 1 else 0
  let line_buffer := (List.range TIA_COLOUR_CLOCK_VISIBLE_HALF).foldl
    (fun (lb : Nat → Nat) (i : Nat) =>
      let bitIndex := i >>> 2
      let lb := Function.update lb i (if pattern &&& (1 <<< bitIndex) ≠ 0 then 1 else 0)
      if mirror_enable ≠ 0 then
        Function.update lb (i + TIA_COLOUR_CLOCK_VISIBLE_HALF)
          (if pattern &&& (0x80000 >>> bitIndex) ≠ 0 then 1 else 0)
      else
        Function.update lb (i + TIA_COLOUR_CLOCK_VISIBLE_HALF) (lb i))
    tia.playfield.line_buffer
  { tia with playfield := { tia.playfield with line_buffer := line_buffer } }

def TIA_reset_player (player : Nat) (tia : atari_tia) : Except Fault atari_tia := do
  let p ← arr_get .tia_players 2 tia.players player
  let p := { p with scanline_reset := 1, position_clock := 0, horizontal_offset := 0 }
  let p := if tia.colour_clock > TIA_COLOUR_CLOCK_HSYNC then
      { p with position_clock := i8 (u32 ((tia.colour_clock : Int) - TIA_COLOUR_CLOCK_HSYNC)) }
    else p
  TIA_update_player_buffer player { tia with players := Function.update tia.players player p }

def TIA_reset_missile (missile : Nat) (tia : atari_tia) : Except Fault atari_tia := do
  let m ← arr_get .tia_missiles 2 tia.missiles missile
  let m := { m with scanline_reset := 1, position_clock := 0, horizontal_offset := 0 }
  let m := if tia.colour_clock > TIA_COLOUR_CLOCK_HSYNC then
      { m with position_clock := u32 ((tia.colour_clock : Int) - TIA_COLOUR_CLOCK_HSYNC - 2) }
    else m
  TIA_update_missile_buffer missile { tia with missiles := Function.update tia.missiles missile m }

def TIA_reset_ball (tia : atari_tia) : Except Fault atari_tia :=
  let b := { tia.ball with scanline_reset := 1, position_clock := 0, horizontal_offset := 0 }
  let b := if tia.colour_clock > TIA_COLOUR_CLOCK_HSYNC then
      { b with position_clock := u32 ((tia.colour_clock : Int) - TIA_COLOUR_CLOCK_HSYNC - 2) }
    else b
  TIA_update_ball_buffer { tia with ball := b }

/-- C remainder of `int` operands (truncation toward zero). -/
def c_rem (a b : Int) : Int := Int.tmod a b

/-- Players hold an `int8_t` position, so the difference is an `int`; missiles
and ball hold a `uint32_t` position, so the `int8_t` offset is converted to
`unsigned` and the difference wraps modulo 2^32 before `% 160`. -/
def TIA_apply_HMOVE (tia : atari_tia) : atari_tia :=
  let p0 := tia.players 0
  let p1 := tia.players 1
  let m0 := tia.missiles 0
  let m1 := tia.missiles 1
  let players := Function.update tia.players 0
    { p0 with position_clock := i8 (c_rem (p0.position_clock - p0.horizontal_offset) 160) }
  let players := Function.update players 1
    { p1 with position_clock := i8 (c_rem (p1.position_clock - p1.horizontal_offset) 160) }
  let missiles := Function.update tia.missiles 0
    { m0 with position_clock := u32 ((m0.position_clock : Int) - m0.horizontal_offset) % 160 }
  let missiles := Function.update missiles 1
    { m1 with position_clock := u32 ((m1.position_clock : Int) - m1.horizontal_offset) % 160 }
  let b := tia.ball
  let ball := { b with position_clock := u32 ((b.position_clock : Int) - b.horizontal_offset) % 160 }
  { tia with players := players, missiles := missiles, ball := ball }

def TIA_update_player_HMOVE (player : Nat) (tia : atari_tia) : Except Fault atari_tia := do
  let offset := tia.write_regs (if player ≠ 0 then TIA_WRITE_REG_HMP1 else TIA_WRITE_REG_HMP0)
  let p ← arr_get .tia_players 2 tia.players player
  let p := { p with horizontal_offset := i8 ((if offset > 127 then -16 else 0) + ((offset >>> 4 : Nat) : Int)) }
  pure { tia with players := Function.update tia.players player p }

def TIA_update_missile_HMOVE (missile : Nat) (tia : atari_tia) : Except Fault atari_tia := do
  let offset := tia.write_regs (if missile ≠ 0 then TIA_WRITE_REG_HMM1 else TIA_WRITE_REG_HMM0)
  let m ← arr_get .tia_missiles 2 tia.missiles missile
  let m := { m with horizontal_offset := i8 ((if offset > 127 then -16 else 0) + ((offset >>> 4 : Nat) : Int)) }
  pure { tia with missiles := Function.update tia.missiles missile m }

def TIA_update_ball_HMOVE (tia : atari_tia) : atari_tia :=
  let offset := tia.write_regs TIA_WRITE_REG_HMBL
  { tia with ball := { tia.ball with
      horizontal_offset := i8 ((if offset > 127 then -16 else 0) + ((offset >>> 4 : Nat) : Int)) } }

/-- Store into `tia.write_regs[reg]`. -/
def TIA_set_write_reg (reg value : Nat) (tia : atari_tia) : Except Fault atari_tia := do
  let regs ← arr_set .tia_write_regs TIA_WRITE_REG_LEN tia.write_regs reg (value % 256)
  pure { tia with write_regs := regs }

/-- Store into `tia.read_regs[reg]`. -/
def TIA_set_read_reg (reg value : Nat) (tia : atari_tia) : Except Fault atari_tia := do
  let regs ← arr_set .tia_read_regs TIA_READ_REG_LEN tia.read_regs reg (value % 256)
  pure { tia with read_regs := regs }

/-- The result is the new value of `*value`. -/
def TIA_read_register (reg : Nat) (tia : atari_tia) : Except Fault Nat :=
  arr_get .tia_read_regs TIA_READ_REG_LEN tia.read_regs reg

def TIA_write_register (reg value : Nat) (tia : atari_tia) : Except Fault atari_tia :=
  if reg = TIA_WRITE_REG_COLUBK then
    TIA_set_write_reg reg value tia
  else if reg = TIA_WRITE_REG_PF0 ∨ reg = TIA_WRITE_REG_PF1 ∨ reg = TIA_WRITE_REG_PF2
      ∨ reg = TIA_WRITE_REG_CTRLPF then do
    let tia ← TIA_set_write_reg reg value tia
    let tia := TIA_update_playfield tia
    TIA_update_ball_buffer tia
  else if reg = TIA_WRITE_REG_WSYNC then
    TIA_set_write_reg TIA_WRITE_REG_WSYNC 1 tia
  else if reg = TIA_WRITE_REG_RSYNC then
    pure { tia with colour_clock := 0 }
  else if reg = TIA_WRITE_REG_RESP0 then TIA_reset_player 0 tia
  else if reg = TIA_WRITE_REG_RESP1 then TIA_reset_player 1 tia
  else if reg = TIA_WRITE_REG_RESM0 then TIA_reset_missile 0 tia
  else if reg = TIA_WRITE_REG_RESM1 then TIA_reset_missile 1 tia
  else if reg = TIA_WRITE_REG_RESBL then TIA_reset_ball tia
  else if reg = TIA_WRITE_REG_RESMP0 then do
    let tia ← TIA_set_write_reg TIA_WRITE_REG_RESMP0 value tia
    let m := tia.missiles 0
    let m := { m with position_clock := u32 (tia.players 0).position_clock }
    let tia := if value &&& 0b01 ≠ 0 then { tia with missiles := Function.update tia.missiles 0 m }
      else tia
    TIA_update_missile_buffer 0 tia
  else if reg = TIA_WRITE_REG_RESMP1 then do
    let tia ← TIA_set_write_reg TIA_WRITE_REG_RESMP1 value tia
    let m := tia.missiles 1
    let m := { m with position_clock := u32 (tia.players 1).position_clock }
    let tia := if value &&& 0b01 ≠ 0 then { tia with missiles := Function.update tia.missiles 1 m }
      else tia
    TIA_update_missile_buffer 1 tia
  else if reg = TIA_WRITE_REG_VDELP0 ∨ reg = TIA_WRITE_REG_VDELP1 ∨ reg = TIA_WRITE_REG_VDELBL then
    TIA_set_write_reg reg value tia
  else if reg = TIA_WRITE_REG_GRP0 then do
    let p := tia.players 0
    let p := { p with vertical_delay := value % 256 }
    let tia ← if tia.write_regs TIA_WRITE_REG_VDELP0 ≠ 0 then
        pure { tia with players := Function.update tia.players 0 p }
      else do
        let tia ← TIA_set_write_reg reg value tia
        TIA_update_player_buffer 0 tia
    if tia.write_regs TIA_WRITE_REG_VDELP1 ≠ 0 then do
      let tia ← TIA_set_write_reg TIA_WRITE_REG_GRP1 (tia.players 1).vertical_delay tia
      TIA_update_player_buffer 1 tia
    else pure tia
  else if reg = TIA_WRITE_REG_GRP1 then do
    let p := tia.players 1
    let p := { p with vertical_delay := value % 256 }
    let tia ← if tia.write_regs TIA_WRITE_REG_VDELP1 ≠ 0 then
        pure { tia with players := Function.update tia.players 1 p }
      else do
        let tia ← TIA_set_write_reg reg value tia
        TIA_update_player_buffer 1 tia
    if tia.write_regs TIA_WRITE_REG_VDELP0 ≠ 0 then do
      let tia ← TIA_set_write_reg TIA_WRITE_REG_GRP0 (tia.players 0).vertical_delay tia
      TIA_update_player_buffer 0 tia
    else pure tia
  else if reg = TIA_WRITE_REG_HMOVE then
    if tia.colour_clock < TIA_COLOUR_CLOCK_HSYNC then pure (TIA_apply_HMOVE tia) else pure tia
  else if reg = TIA_WRITE_REG_ENAM0 then do
    let tia ← TIA_set_write_reg reg value tia
    TIA_update_missile_buffer 0 tia
  else if reg = TIA_WRITE_REG_ENAM1 then do
    let tia ← TIA_set_write_reg reg value tia
    TIA_update_missile_buffer 1 tia
  else if reg = TIA_WRITE_REG_ENABL then do
    let tia ← TIA_set_write_reg reg value tia
    TIA_update_ball_buffer tia
  else if reg = TIA_WRITE_REG_HMP0 then do
    let tia ← TIA_set_write_reg reg value tia
    TIA_update_player_HMOVE 0 tia
  else if reg = TIA_WRITE_REG_HMP1 then do
    let tia ← TIA_set_write_reg reg value tia
    TIA_update_player_HMOVE 1 tia
  else if reg = TIA_WRITE_REG_HMM0 then do
    let tia ← TIA_set_write_reg reg value tia
    TIA_update_missile_HMOVE 0 tia
  else if reg = TIA_WRITE_REG_HMM1 then do
    let tia ← TIA_set_write_reg reg value tia
    TIA_update_missile_HMOVE 1 tia
  else if reg = TIA_WRITE_REG_HMBL then do
    let tia ← TIA_set_write_reg reg value tia
    pure (TIA_update_ball_HMOVE tia)
  else if reg = TIA_WRITE_REG_NUSIZ0 then do
    let tia ← TIA_set_write_reg reg value tia
    let tia ← TIA_update_missile_buffer 0 tia
    TIA_update_player_buffer 0 tia
  else if reg = TIA_WRITE_REG_NUSIZ1 then do
    let tia ← TIA_set_write_reg reg value tia
    let tia ← TIA_update_missile_buffer 1 tia
    TIA_update_player_buffer 1 tia
  else if reg = TIA_WRITE_REG_HMCLR then do
    let tia ← TIA_set_write_reg TIA_WRITE_REG_HMM0 0 tia
    let tia ← TIA_set_write_reg TIA_WRITE_REG_HMM1 0 tia
    let tia ← TIA_set_write_reg TIA_WRITE_REG_HMP0 0 tia
    let tia ← TIA_set_write_reg TIA_WRITE_REG_HMP1 0 tia
    TIA_set_write_reg TIA_WRITE_REG_HMBL 0 tia
  else if reg = TIA_WRITE_REG_CXCLR then do
    let tia ← TIA_set_read_reg TIA_READ_REG_CXM0P 0 tia
    let tia ← TIA_set_read_reg TIA_READ_REG_CXM1P 0 tia
    let tia ← TIA_set_read_reg TIA_READ_REG_CXP0FB 0 tia
    let tia ← TIA_set_read_reg TIA_READ_REG_CXP1FB 0 tia
    let tia ← TIA_set_read_reg TIA_READ_REG_CXM0FB 0 tia
    let tia ← TIA_set_read_reg TIA_READ_REG_CXM1FB 0 tia
    let tia ← TIA_set_read_reg TIA_READ_REG_CXBLPF 0 tia
    TIA_set_read_reg TIA_READ_REG_CXPPMM 0 tia
  else
    TIA_set_write_reg reg value tia

/-- The table `tia_colour_map`: 128 entries `{R, G, B, A}`. -/
def tia_colour_map : List (Nat × Nat × Nat × Nat) :=
  [
   (0x00, 0x00, 0x00, 0xFF), (0x1A, 0x1A, 0x1A, 0xFF), (0x39, 0x39, 0x39, 0xFF), (0x58, 0x58, 0x58, 0xFF),
   (0x7E, 0x7E, 0x7E, 0xFF), (0xA2, 0xA2, 0xA2, 0xFF), (0xC7, 0xC7, 0xC7, 0xFF), (0xED, 0xED, 0xED, 0xFF),
   (0x19, 0x02, 0x00, 0xFF), (0x3A, 0x1F, 0x00, 0xFF), (0x5D, 0x41, 0x00, 0xFF), (0x82, 0x64, 0x00, 0xFF),
   (0xA7, 0x88, 0x00, 0xFF), (0xCC, 0xAD, 0x00, 0xFF), (0xF2, 0xD2, 0x19, 0xFF), (0xFE, 0xFA, 0x40, 0xFF),
   (0x37, 0x00, 0x00, 0xFF), (0x5E, 0x08, 0x00, 0xFF), (0x83, 0x27, 0x00, 0xFF), (0xA9, 0x49, 0x00, 0xFF),
   (0xCF, 0x6C, 0x00, 0xFF), (0xF5, 0x8F, 0x17, 0xFF), (0xFE, 0xB4, 0x38, 0xFF), (0xFE, 0xDF, 0x6F, 0xFF),
   (0x47, 0x00, 0x00, 0xFF), (0x73, 0x00, 0x00, 0xFF), (0x98, 0x13, 0x00, 0xFF), (0xBE, 0x32, 0x16, 0xFF),
   (0xE4, 0x53, 0x35, 0xFF), (0xFE, 0x76, 0x57, 0xFF), (0xFE, 0x9C, 0x81, 0xFF), (0xFE, 0xC6, 0xBB, 0xFF),
   (0x44, 0x00, 0x08, 0xFF), (0x6F, 0x00, 0x1F, 0xFF), (0x96, 0x06, 0x40, 0xFF), (0xBB, 0x24, 0x62, 0xFF),
   (0xE1, 0x45, 0x85, 0xFF), (0xFE, 0x67, 0xAA, 0xFF), (0xFE, 0x8C, 0xD6, 0xFF), (0xFE, 0xB7, 0xF6, 0xFF),
   (0x2D, 0x00, 0x4A, 0xFF), (0x57, 0x00, 0x67, 0xFF), (0x7D, 0x05, 0x8C, 0xFF), (0xA1, 0x22, 0xB1, 0xFF),
   (0xC7, 0x43, 0xD7, 0xFF), (0xED, 0x65, 0xFE, 0xFF), (0xFE, 0x8A, 0xF6, 0xFF), (0xFE, 0xB5, 0xF7, 0xFF),
   (0x0D, 0x00, 0x82, 0xFF), (0x33, 0x00, 0xA2, 0xFF), (0x55, 0x0F, 0xC9, 0xFF), (0x78, 0x2D, 0xF0, 0xFF),
   (0x9C, 0x4E, 0xFE, 0xFF), (0xC3, 0x72, 0xFE, 0xFF), (0xEB, 0x98, 0xFE, 0xFF), (0xFE, 0xC0, 0xF9, 0xFF),
   (0x00, 0x00, 0x91, 0xFF), (0x0A, 0x05, 0xBD, 0xFF), (0x28, 0x22, 0xE4, 0xFF), (0x48, 0x42, 0xFE, 0xFF),
   (0x6B, 0x64, 0xFE, 0xFF), (0x90, 0x8A, 0xFE, 0xFF), (0xB7, 0xB0, 0xFE, 0xFF), (0xDF, 0xD8, 0xFE, 0xFF),
   (0x00, 0x00, 0x72, 0xFF), (0x00, 0x1C, 0xAB, 0xFF), (0x03, 0x3C, 0xD6, 0xFF), (0x20, 0x5E, 0xFD, 0xFF),
   (0x40, 0x81, 0xFE, 0xFF), (0x64, 0xA6, 0xFE, 0xFF), (0x89, 0xCE, 0xFE, 0xFF), (0xB0, 0xF6, 0xFE, 0xFF),
   (0x00, 0x10, 0x3A, 0xFF), (0x00, 0x31, 0x6E, 0xFF), (0x00, 0x55, 0xA2, 0xFF), (0x05, 0x79, 0xC8, 0xFF),
   (0x23, 0x9D, 0xEE, 0xFF), (0x44, 0xC2, 0xFE, 0xFF), (0x68, 0xE9, 0xFE, 0xFF), (0x8F, 0xFE, 0xFE, 0xFF),
   (0x00, 0x1F, 0x02, 0xFF), (0x00, 0x43, 0x26, 0xFF), (0x00, 0x69, 0x57, 0xFF), (0x00, 0x8D, 0x7A, 0xFF),
   (0x1B, 0xB1, 0x9E, 0xFF), (0x3B, 0xD7, 0xC3, 0xFF), (0x5D, 0xFE, 0xE9, 0xFF), (0x86, 0xFE, 0xFE, 0xFF),
   (0x00, 0x24, 0x03, 0xFF), (0x00, 0x4A, 0x05, 0xFF), (0x00, 0x70, 0x0C, 0xFF), (0x09, 0x95, 0x2B, 0xFF),
   (0x28, 0xBA, 0x4C, 0xFF), (0x49, 0xE0, 0x6E, 0xFF), (0x6C, 0xFE, 0x92, 0xFF), (0x97, 0xFE, 0xB5, 0xFF),
   (0x00, 0x21, 0x02, 0xFF), (0x00, 0x46, 0x04, 0xFF), (0x08, 0x6B, 0x00, 0xFF), (0x28, 0x90, 0x00, 0xFF),
   (0x49, 0xB5, 0x09, 0xFF), (0x6B, 0xDB, 0x28, 0xFF), (0x8F, 0xFE, 0x49, 0xFF), (0xBB, 0xFE, 0x69, 0xFF),
   (0x00, 0x15, 0x01, 0xFF), (0x10, 0x36, 0x00, 0xFF), (0x30, 0x59, 0x00, 0xFF), (0x53, 0x7E, 0x00, 0xFF),
   (0x76, 0xA3, 0x00, 0xFF), (0x9A, 0xC8, 0x00, 0xFF), (0xBF, 0xEE, 0x1E, 0xFF), (0xE8, 0xFE, 0x3E, 0xFF),
   (0x1A, 0x02, 0x00, 0xFF), (0x3B, 0x1F, 0x00, 0xFF), (0x5E, 0x41, 0x00, 0xFF), (0x83, 0x64, 0x00, 0xFF),
   (0xA8, 0x88, 0x00, 0xFF), (0xCE, 0xAD, 0x00, 0xFF), (0xF4, 0xD2, 0x18, 0xFF), (0xFE, 0xFA, 0x40, 0xFF),
   (0x38, 0x00, 0x00, 0xFF), (0x5F, 0x08, 0x00, 0xFF), (0x84, 0x27, 0x00, 0xFF), (0xAA, 0x49, 0x00, 0xFF),
   (0xD0, 0x6B, 0x00, 0xFF), (0xF6, 0x8F, 0x18, 0xFF), (0xFE, 0xB4, 0x39, 0xFF), (0xFE, 0xDF, 0x70, 0xFF)]

/-- The macro `VGA_RGB_222`. -/
def VGA_RGB_222 (r g b : Nat) : Nat := (r <<< 4) ||| (g <<< 2) ||| b

/-- The macro `X4`; its value is stored in a `uint32_t`. -/
def X4 (a : Nat) : Nat := (a ||| (a <<< 8) ||| (a <<< 16) ||| (a <<< 24)) % 4294967296

/-- The state `TIA_init` leaves: the palette `tia_rgb_color_map` filled from
`tia_colour_map`, registers cleared, the six input ports at 0x80, missiles,
players and ball zeroed.  The playfield and the output line are not touched by
`TIA_init`; they are zero as module-scope data. -/
def TIA_init (tia : atari_tia) : atari_tia :=
  { tia with
    tia_rgb_color_map := fun i =>
      if i < 128 then
        let c := tia_colour_map.getD i (0, 0, 0, 0)
        (VGA_RGB_222 (c.1 >>> 6) (c.2.1 >>> 6) (c.2.2.1 >>> 6)) % 256
      else tia.tia_rgb_color_map i
    write_regs := fun i => if i < TIA_WRITE_REG_LEN then 0 else tia.write_regs i
    read_regs := fun i =>
      if TIA_READ_REG_INPT0 ≤ i ∧ i ≤ TIA_READ_REG_INPT5 then 0x80
      else if i < TIA_READ_REG_LEN then 0 else tia.read_regs i
    missiles := fun i =>
      if i < 2 then { scanline_reset := 0, enabled := 0, position_clock := 0, width := 0,
                      horizontal_offset := 0, line_buffer := fun _ => 0 }
      else tia.missiles i
    players := fun i =>
      if i < 2 then { scanline_reset := 0, position_clock := 0, horizontal_offset := 0,
                      vertical_delay := 0, pattern := 0, line_buffer := fun _ => 0 }
      else tia.players i
    ball := { scanline_reset := 0, enabled := 0, position_clock := 0, width := 0,
              horizontal_offset := 0, vertical_delay := 0, line_buffer := fun _ => 0 } }

/-! ## Atari-TIA.c: pixel generation -/

def TIA_test_ball_bit (tia : atari_tia) : Except Fault Nat :=
  if tia.colour_clock < TIA_COLOUR_CLOCK_HSYNC then pure 0
  else do
    let v ← arr_get .ball_line_buffer TIA_COLOUR_CLOCK_VISIBLE tia.ball.line_buffer
      ((tia.colour_clock : Int) - TIA_COLOUR_CLOCK_HSYNC)
    pure (if v ≠ 0 then 1 else 0)

def TIA_test_playfield_bit (tia : atari_tia) : Except Fault Nat :=
  if tia.colour_clock < TIA_COLOUR_CLOCK_HSYNC then pure 0
  else do
    let v ← arr_get .playfield_line_buffer TIA_COLOUR_CLOCK_VISIBLE tia.playfield.line_buffer
      ((tia.colour_clock : Int) - TIA_COLOUR_CLOCK_HSYNC)
    pure (if v ≠ 0 then 1 else 0)

def TIA_test_missile_bit (missile : Nat) (tia : atari_tia) : Except Fault Nat :=
  if tia.colour_clock < TIA_COLOUR_CLOCK_HSYNC then pure 0
  else do
    let m ← arr_get .tia_missiles 2 tia.missiles missile
    let v ← arr_get .missile_line_buffer TIA_COLOUR_CLOCK_VISIBLE m.line_buffer
      ((tia.colour_clock : Int) - TIA_COLOUR_CLOCK_HSYNC)
    pure (if v ≠ 0 then 1 else 0)

def TIA_test_player_bit (player : Nat) (tia : atari_tia) : Except Fault Nat :=
  if tia.colour_clock < TIA_COLOUR_CLOCK_HSYNC then pure 0
  else do
    let p ← arr_get .tia_players 2 tia.players player
    let v ← arr_get .player_line_buffer TIA_COLOUR_CLOCK_VISIBLE p.line_buffer
      ((tia.colour_clock : Int) - TIA_COLOUR_CLOCK_HSYNC)
    pure (if v ≠ 0 then 1 else 0)

/-- The colour byte `tia_color` that `TIA_generate_colour` settles on, from the
six samples; `x` is `tia.colour_clock - TIA_COLOUR_CLOCK_HSYNC` as a
`uint32_t`. -/
def TIA_select_colour (tia : atari_tia) (x M0 M1 P0 P1 BL PF : Nat) : Nat :=
  let tia_color := tia.write_regs TIA_WRITE_REG_COLUBK
  if tia.write_regs TIA_WRITE_REG_CTRLPF &&& 0b100 ≠ 0 then
    if PF ≠ 0 then
      if tia.write_regs TIA_WRITE_REG_CTRLPF &&& 0b10 ≠ 0 then
        tia.write_regs
          (if x < TIA_COLOUR_CLOCK_VISIBLE_HALF then TIA_WRITE_REG_COLUP0
            else TIA_WRITE_REG_COLUP1)
      else tia.write_regs TIA_WRITE_REG_COLUPF
    else if BL ≠ 0 then tia.write_regs TIA_WRITE_REG_COLUPF
    else if P0 ≠ 0 ∨ M0 ≠ 0 then tia.write_regs TIA_WRITE_REG_COLUP0
    else if P1 ≠ 0 ∨ M1 ≠ 0 then tia.write_regs TIA_WRITE_REG_COLUP1
    else tia_color
  else
    if P0 ≠ 0 ∨ M0 ≠ 0 then tia.write_regs TIA_WRITE_REG_COLUP0
    else if P1 ≠ 0 ∨ M1 ≠ 0 then tia.write_regs TIA_WRITE_REG_COLUP1
    else if PF ≠ 0 then
      if tia.write_regs TIA_WRITE_REG_CTRLPF &&& 0b10 ≠ 0 then
        tia.write_regs
          (if x < TIA_COLOUR_CLOCK_VISIBLE_HALF then TIA_WRITE_REG_COLUP0
            else TIA_WRITE_REG_COLUP1)
      else tia.write_regs TIA_WRITE_REG_COLUPF
    else if BL ≠ 0 then tia.write_regs TIA_WRITE_REG_COLUPF
    else tia_color

/-- The output line written is `tia_raw_buffer` (the `PICO_ON_DEVICE` branch). -/
def TIA_generate_colour (tia : atari_tia) : Except Fault atari_tia := do
  let M0 ← TIA_test_missile_bit 0 tia
  let M1 ← TIA_test_missile_bit 1 tia
  let P0 ← TIA_test_player_bit 0 tia
  let P1 ← TIA_test_player_bit 1 tia
  let BL ← TIA_test_ball_bit tia
  let PF ← TIA_test_playfield_bit tia
  let x := u32 ((tia.colour_clock : Int) - TIA_COLOUR_CLOCK_HSYNC)
  let tia_color := TIA_select_colour tia x M0 M1 P0 P1 BL PF
  let entry ← arr_get .tia_rgb_color_map 128 tia.tia_rgb_color_map (tia_color >>> 1)
  let line ← arr_set .tia_raw_buffer TIA_COLOUR_CLOCK_VISIBLE tia.tia_raw_buffer x (X4 entry)
  let tia := { tia with tia_raw_buffer := line }
  let tia ← TIA_set_read_reg TIA_READ_REG_CXM0P (((P0 &&& P1) <<< 7) ||| ((M0 &&& M0) <<< 6)) tia
  let tia ← TIA_set_read_reg TIA_READ_REG_CXM1P (((M1 &&& P0) <<< 7) ||| ((M1 &&& P1) <<< 6)) tia
  let tia ← TIA_set_read_reg TIA_READ_REG_CXP0FB (((P0 &&& PF) <<< 7) ||| ((P0 &&& BL) <<< 6)) tia
  let tia ← TIA_set_read_reg TIA_READ_REG_CXP1FB (((P1 &&& PF) <<< 7) ||| ((P1 &&& BL) <<< 6)) tia
  let tia ← TIA_set_read_reg TIA_READ_REG_CXM0FB (((M0 &&& PF) <<< 7) ||| ((M0 &&& BL) <<< 6)) tia
  let tia ← TIA_set_read_reg TIA_READ_REG_CXM1FB (((M1 &&& PF) <<< 7) ||| ((M1 &&& BL) <<< 6)) tia
  let tia ← TIA_set_read_reg TIA_READ_REG_CXBLPF ((BL &&& PF) <<< 7) tia
  TIA_set_read_reg TIA_READ_REG_CXPPMM (((P0 &&& P1) <<< 7) ||| ((M0 &&& M1) <<< 6)) tia

/-- One colour clock.  At `TIA_COLOUR_CLOCK_TOTAL` the line starts again, at
`TIA_COLOUR_CLOCK_HSYNC` the five line masks are rebuilt, above it a pixel is
generated; the result is the incremented colour clock, returned as an `int`. -/
def TIA_clock_tick (tia : atari_tia) : Except Fault (Int × atari_tia) := do
  let tia :=
    if tia.colour_clock ≥ TIA_COLOUR_CLOCK_TOTAL then
      let tia := { tia with colour_clock := 0 }
      let tia := { tia with write_regs := Function.update tia.write_regs TIA_WRITE_REG_WSYNC 0 }
      let tia := { tia with
        missiles := Function.update tia.missiles 0 { tia.missiles 0 with scanline_reset := 0 } }
      let tia := { tia with
        missiles := Function.update tia.missiles 1 { tia.missiles 1 with scanline_reset := 0 } }
      let tia := { tia with ball := { tia.ball with scanline_reset := 0 } }
      { tia with write_regs := Function.update tia.write_regs TIA_WRITE_REG_HMOVE 0 }
    else tia
  let tia ←
    if tia.colour_clock = TIA_COLOUR_CLOCK_HSYNC then do
      let tia ← TIA_update_player_buffer 0 tia
      let tia ← TIA_update_player_buffer 1 tia
      let tia ← TIA_update_missile_buffer 0 tia
      let tia ← TIA_update_missile_buffer 1 tia
      TIA_update_ball_buffer tia
    else pure tia
  let tia ←
    if tia.colour_clock > TIA_COLOUR_CLOCK_HSYNC then TIA_generate_colour tia
    else pure tia
  let tia := { tia with colour_clock := (tia.colour_clock + 1) % 4294967296 }
  pure (i32 tia.colour_clock, tia)

def TIA_get_WSYNC (tia : atari_tia) : Int :=
  if tia.write_regs TIA_WRITE_REG_WSYNC ≠ 0 then 1 else 0

def TIA_get_VSYNC (tia : atari_tia) : Int :=
  if tia.write_regs TIA_WRITE_REG_VSYNC ≠ 0 then 1 else 0

def TIA_get_VBLANK (tia : atari_tia) : Int :=
  if tia.write_regs TIA_WRITE_REG_VBLANK ≠ 0 then 1 else 0

/-! ## mos6532.h / mos6532.c -/

abbrev MEM_SIZE : Nat := 128

abbrev SWCHA : Nat := 0x280
abbrev SWACNT : Nat := 0x281
abbrev SWCHB : Nat := 0x282
abbrev SWBCNT : Nat := 0x283

abbrev MOS6532_MEMMAP_INTIM : Nat := 0x284
abbrev MOS6532_MEMMAP_TIM1T : Nat := 0x294
abbrev MOS6532_MEMMAP_TIM8T : Nat := 0x295
abbrev MOS6532_MEMMAP_TIM64T : Nat := 0x296
abbrev MOS6532_MEMMAP_TIM1024T : Nat := 0x297

abbrev MOS6532_TIMER_DIVISOR_NONE : Nat := 0
abbrev MOS6532_TIMER_DIVISOR_T1 : Nat := 1
abbrev MOS6532_TIMER_DIVISOR_T8 : Nat := 8
abbrev MOS6532_TIMER_DIVISOR_T64 : Nat := 64
abbrev MOS6532_TIMER_DIVISOR_T1024 : Nat := 1024

/-- The C struct `mos6532_timer_t`: three `uint8_t` fields and the divisor enum. -/
structure mos6532_timer_t where
  counter : Nat
  interval_timer : Nat
  fired : Nat
  timer_set : Nat
  deriving DecidableEq, Repr

/-- The module-scope data of mos6532.c: `memory[MEM_SIZE]`, `timer`,
`joy1_state` and `switches_state`. -/
structure mos6532 where
  memory : Nat → Nat
  timer : mos6532_timer_t
  joy1_state : Nat
  switches_state : Nat

def mos6532_clear_memory (riot : mos6532) : mos6532 :=
  { riot with memory := fun i => if i < MEM_SIZE then 0 else riot.memory i }

def mos6532_init (riot : mos6532) : mos6532 :=
  let riot := { riot with timer :=
    { counter := 0, interval_timer := 0, fired := 0, timer_set := MOS6532_TIMER_DIVISOR_NONE } }
  mos6532_clear_memory riot

def mos6532_bounds_check (address : Nat) : Int :=
  if address > MEM_SIZE then -1 else 0

def mos6532_map_mirrored_addresses (address : Nat) : Nat :=
  if address &&& 0x0100 ≠ 0 then address &&& 0x00FF else address

/-- The result pairs the return code with the new value of `*data`. -/
def mos6532_read (address : Nat) (data : Nat) (riot : mos6532) : Except Fault (Int × Nat) :=
  let address := mos6532_map_mirrored_addresses address
  if address = SWCHA then pure (0, riot.joy1_state)
  else if address = SWACNT then pure (0, 0x00)
  else if address = SWCHB then pure (0, riot.switches_state)
  else if address = SWBCNT then pure (0, 0x00)
  else if address = MOS6532_MEMMAP_INTIM then pure (0, riot.timer.counter)
  else if -1 = mos6532_bounds_check address then pure (-1, data)
  else do
    let v ← arr_get .riot_memory MEM_SIZE riot.memory address
    pure (0, v)

/-- The C function falls off its end without a `return`; callers ignore the value. -/
def mos6532_set_timer (divisor : Nat) (data : Nat) (riot : mos6532) : mos6532 :=
  { riot with timer :=
    { timer_set := divisor, interval_timer := divisor % 256, counter := data % 256, fired := 0 } }

/-- The result pairs the return code with the chip state. -/
def mos6532_write (address : Nat) (data : Nat) (riot : mos6532) : Except Fault (Int × mos6532) :=
  let address := mos6532_map_mirrored_addresses address
  if address = SWCHA then pure (0, { riot with joy1_state := data % 256 })
  else if address = SWCHB then pure (0, { riot with switches_state := data % 256 })
  else if address = SWACNT ∨ address = SWBCNT then pure (0, riot)
  else if address = MOS6532_MEMMAP_TIM1T then
    pure (0, mos6532_set_timer MOS6532_TIMER_DIVISOR_T1 data riot)
  else if address = MOS6532_MEMMAP_TIM8T then
    pure (0, mos6532_set_timer MOS6532_TIMER_DIVISOR_T8 data riot)
  else if address = MOS6532_MEMMAP_TIM64T then
    pure (0, mos6532_set_timer MOS6532_TIMER_DIVISOR_T64 data riot)
  else if address = MOS6532_MEMMAP_TIM1024T then
    pure (0, mos6532_set_timer MOS6532_TIMER_DIVISOR_T1024 data riot)
  else if -1 = mos6532_bounds_check address then pure (-1, riot)
  else do
    let memory ← arr_set .riot_memory MEM_SIZE riot.memory address (data % 256)
    pure (0, { riot with memory := memory })

/-- The parameter `divisor` is not used by the C function. -/
def mos6532_timer_interval (_divisor : Nat) (riot : mos6532) : mos6532 :=
  let timer : mos6532_timer_t := riot.timer
  let timer : mos6532_timer_t := { timer with interval_timer := (timer.interval_timer + 255) % 256 }
  let timer : mos6532_timer_t :=
    if timer.interval_timer = 0 then
      let timer : mos6532_timer_t := { timer with interval_timer := timer.timer_set % 256 }
      let timer : mos6532_timer_t := { timer with counter := (timer.counter + 255) % 256 }
      if timer.fired = 1 then { timer with timer_set := MOS6532_TIMER_DIVISOR_NONE } else timer
    else timer
  let timer : mos6532_timer_t := if timer.counter = 0 then { timer with fired := 1 } else timer
  { riot with timer := timer }

def mos6532_clock_tick (riot : mos6532) : mos6532 :=
  if riot.timer.timer_set = MOS6532_TIMER_DIVISOR_T1 then
    mos6532_timer_interval MOS6532_TIMER_DIVISOR_T1 riot
  else if riot.timer.timer_set = MOS6532_TIMER_DIVISOR_T8 then
    mos6532_timer_interval MOS6532_TIMER_DIVISOR_T8 riot
  else if riot.timer.timer_set = MOS6532_TIMER_DIVISOR_T64 then
    mos6532_timer_interval MOS6532_TIMER_DIVISOR_T64 riot
  else if riot.timer.timer_set = MOS6532_TIMER_DIVISOR_T1024 then
    mos6532_timer_interval MOS6532_TIMER_DIVISOR_T1024 riot
  else if riot.timer.timer_set = MOS6532_TIMER_DIVISOR_NONE then
    { riot with timer := { riot.timer with counter := (riot.timer.counter + 255) % 256 } }
  else riot

/-! ## Atari-cart.c -/

/-- The pointer `cartridge`: `none` is the null pointer, `some image` points
at a cartridge image, `image k` being the byte at offset `k` from the pointer
(the pointer carries no length).  A byte read is reduced modulo 256. -/
abbrev cartridge_t := Option (Nat → Nat)

/-- The result is the new value of `*data`. -/
def cartridge_read (address : Nat) (data : Nat) (cartridge : cartridge_t) : Nat :=
  match cartridge with
  | some image => image address % 256
  | none => data

def cartridge_eject (_cartridge : cartridge_t) : cartridge_t := none

def cartridge_load (cart : Nat → Nat) (cartridge : cartridge_t) : cartridge_t :=
  let _cartridge := if cartridge.isSome then cartridge_eject cartridge else cartridge
  some cart

/-! ## The whole machine -/

/-- The opcode functions of mos6507-opcodes.c (the targets of the function
pointers stored in `ISA_table`). -/
inductive opcode_fn where
  | ILL | ADC | AND | ASL | BCC | BCS | BEQ | BIT | BMI | BNE | BPL | BRK | BVC | BVS
  | CLC | CLD | CLI | CLV | CMP | CPX | CPY | DEC | DEX | DEY | EOR | INC | INX | INY
  | JMP | JSR | LDA | LDX | LDY | LSR | NOP | ORA | TSB | PHA | PHP | PLA | PLP | ROL
  | ROR | RTI | RTS | SBC | SEC | SED | SEI | STA | STX | STY | TAX | TAY | TSX | TXA
  | TXS | TYA
  deriving DecidableEq, Repr

/-- The names of the function-local `static` variables of the opcode
functions; an opcode function owns the variables it declares. -/
inductive static_var where
  | adl | adh | ial | bal | bah | data | condition | offset | addr
  | pcl | pch | S | P | nuS | value | source
  deriving DecidableEq, Repr

/-- All module-scope and function-static data of the emulator core:
`cpu` (mos6507.c), the RIOT data (mos6532.c), `tia` (Atari-TIA.c), the pointer
`cartridge` (Atari-cart.c), the `static int cycle` of `opcode_execute` and the
`static` locals of the opcode functions. -/
structure Atari where
  cpu : mos6507
  riot : mos6532
  tia : atari_tia
  cartridge : cartridge_t
  cycle : Nat
  statics : opcode_fn → static_var → Nat

/-- A C function acting on the machine: it may read and write the state and
stops at a `Fault`. -/
abbrev Emu (α : Type) := StateT Atari (Except Fault) α

/-- Run a CPU-local function on `cpu`. -/
def on_cpu (f : mos6507 → mos6507) : Emu Unit :=
  fun s => .ok ((), { s with cpu := f s.cpu })

/-- Read a `static` local of an opcode function. -/
def get_static (fn : opcode_fn) (v : static_var) : Emu Nat :=
  fun s => .ok (s.statics fn v, s)

/-- Assign a `static` local of an opcode function. -/
def set_static (fn : opcode_fn) (v : static_var) (x : Nat) : Emu Unit :=
  fun s => .ok ((), { s with statics := fun f w => if f = fn ∧ w = v then x else s.statics f w })

/-! ## Atari-memmap.h / Atari-memmap.c -/

abbrev MEMMAP_TIA_START : Nat := 0x0000
abbrev MEMMAP_TIA_END : Nat := 0x007F
abbrev MEMMAP_RIOT_RAM_START : Nat := 0x0080
abbrev MEMMAP_RIOT_RAM_END : Nat := 0x00FF
abbrev MEMMAP_RIOT_RAM_MIRROR_START : Nat := 0x0180
abbrev MEMMAP_RIOT_RAM_MIRROR_END : Nat := 0x01FF
abbrev MEMMAP_RIOT_PERIPH_START : Nat := 0x0280
abbrev MEMMAP_RIOT_PERIPH_END : Nat := 0x0297
abbrev MEMMAP_RIOT_PERIPH_MIRROR_START : Nat := 0x0380
abbrev MEMMAP_RIOT_PERIPH_MIRROR_END : Nat := 0x0397
abbrev MEMMAP_CART_START : Nat := 0x1000
abbrev MEMMAP_CART_END : Nat := 0x1FFF

def IS_TIA (x : Nat) : Bool := decide (x ≥ MEMMAP_TIA_START ∧ x ≤ MEMMAP_TIA_END)

def IS_RIOT (x : Nat) : Bool :=
  decide ((x ≥ MEMMAP_RIOT_RAM_START ∧ x ≤ MEMMAP_RIOT_RAM_END) ∨
    (x ≥ MEMMAP_RIOT_RAM_MIRROR_START ∧ x ≤ MEMMAP_RIOT_RAM_MIRROR_END) ∨
    (x ≥ MEMMAP_RIOT_PERIPH_START ∧ x ≤ MEMMAP_RIOT_PERIPH_END) ∨
    (x ≥ MEMMAP_RIOT_PERIPH_MIRROR_START ∧ x ≤ MEMMAP_RIOT_PERIPH_MIRROR_END))

def IS_CART (x : Nat) : Bool := decide (x ≥ MEMMAP_CART_START ∧ x ≤ MEMMAP_CART_END)

def memmap_map_address (address : Nat) : Nat := address &&& 0x1FFF

def memmap_map_riot_address (address : Nat) : Nat :=
  let address :=
    if address ≥ MEMMAP_RIOT_RAM_START ∧ address ≤ MEMMAP_RIOT_RAM_END then
      address - MEMMAP_RIOT_RAM_START
    else address
  let address :=
    if address ≥ MEMMAP_RIOT_RAM_MIRROR_START ∧ address ≤ MEMMAP_RIOT_RAM_MIRROR_END then
      address - MEMMAP_RIOT_RAM_MIRROR_START
    else address
  let address :=
    if address ≥ MEMMAP_RIOT_PERIPH_MIRROR_START ∧ address ≤ MEMMAP_RIOT_PERIPH_MIRROR_END then
      address - 0x100
    else address
  address

/-- Data and address come from the CPU buses. -/
def memmap_write : Emu Unit := fun s => do
  let data := mos6507_get_data_bus s.cpu
  let address := mos6507_get_address_bus s.cpu
  let address := memmap_map_address address
  let tia ← if IS_TIA address then
      TIA_write_register ((address - MEMMAP_TIA_START) % 256) data s.tia
    else pure s.tia
  let s := { s with tia := tia }
  if IS_RIOT address then
    let address := memmap_map_riot_address address
    let (_, riot) ← mos6532_write address data s.riot
    pure ((), { s with riot := riot })
  else pure ((), s)

/-- The argument is the value `*data` holds before the call, the result the
value it holds after it: a device that does not answer leaves it as it was. -/
def memmap_read (data : Nat) : Emu Nat := fun s => do
  let address := mos6507_get_address_bus s.cpu
  let address := memmap_map_address address
  let data ← if IS_TIA address then
      TIA_read_register ((address - MEMMAP_TIA_START) % 256) s.tia
    else pure data
  let (address, data) ← if IS_RIOT address then do
      let address := memmap_map_riot_address address
      let (_, data) ← mos6532_read address data s.riot
      pure (address, data)
    else pure (address, data)
  let data := if IS_CART address then
      cartridge_read (address - MEMMAP_CART_START) data s.cartridge
    else data
  pure (data, { s with cpu := mos6507_set_data_bus data s.cpu })

/-- The C call `memmap_read(&v)` for a `static` local `v` of an opcode function. -/
def memmap_read_static (fn : opcode_fn) (v : static_var) : Emu Unit := do
  let old ← get_static fn v
  let new ← memmap_read old
  set_static fn v new

/-! ## mos6507.c: reset, stack -/

/-- The local `pch` is declared without an initialiser; `pch0` is the
indeterminate value it holds before `memmap_read(&pch)`. -/
def mos6507_reset (pch0 : Nat) : Emu Unit := do
  let pcl : Nat := 0
  let pc : Nat := 0
  on_cpu mos6507_init
  on_cpu (mos6507_set_status_flag MOS6507_STATUS_FLAG_INTERRUPT 1)
  on_cpu (mos6507_set_address_bus 0xFFFC)
  let pcl ← memmap_read pcl
  on_cpu (mos6507_set_address_bus 0xFFFD)
  let pch ← memmap_read (pch0 % 256)
  let pc := (pc ||| (pch <<< 8)) % 65536
  let pc := (pc ||| pcl) % 65536
  on_cpu (mos6507_set_PC pc)
  on_cpu fun cpu => mos6507_set_address_bus (mos6507_get_PC cpu) cpu

def mos6507_push_stack (byte : Nat) : Emu Unit := do
  let S := mos6507_get_register MOS6507_REG_S (← get).cpu
  on_cpu (mos6507_set_address_bus_hl STACK_PAGE S)
  on_cpu (mos6507_set_data_bus byte)
  memmap_write
  on_cpu (mos6507_set_register MOS6507_REG_S (u8 ((S : Int) - 1)))

/-- The argument is the value `*byte` holds before the call, the result the
value it holds after it. -/
def mos6507_pull_stack (byte : Nat) : Emu Nat := do
  let S := mos6507_get_register MOS6507_REG_S (← get).cpu
  on_cpu (mos6507_set_address_bus_hl STACK_PAGE (S + 1))
  let byte ← memmap_read byte
  on_cpu (mos6507_set_register MOS6507_REG_S (S + 1))
  pure byte

/-- The C call `mos6507_pull_stack(&v)` for a `static` local `v`. -/
def mos6507_pull_stack_static (fn : opcode_fn) (v : static_var) : Emu Unit := do
  let old ← get_static fn v
  let new ← mos6507_pull_stack old
  set_static fn v new

/-! ## mos6507-opcodes.h -/

abbrev ISA_LENGTH : Nat := 255

inductive addressing_mode_t where
  | OPCODE_ADDRESSING_MODE_ACCUMULATOR
  | OPCODE_ADDRESSING_MODE_ABSOLUTE
  | OPCODE_ADDRESSING_MODE_ABSOLUTE_X_INDEXED
  | OPCODE_ADDRESSING_MODE_ABSOLUTE_Y_INDEXED
  | OPCODE_ADDRESSING_MODE_IMMEDIATE
  | OPCODE_ADDRESSING_MODE_IMPLIED
  | OPCODE_ADDRESSING_MODE_INDIRECT
  | OPCODE_ADDRESSING_MODE_INDIRECT_X_INDEXED
  | OPCODE_ADDRESSING_MODE_INDIRECT_Y_INDEXED
  | OPCODE_ADDRESSING_MODE_RELATIVE
  | OPCODE_ADDRESSING_MODE_ZERO_PAGE
  | OPCODE_ADDRESSING_MODE_ZERO_PAGE_X_INDEXED
  | OPCODE_ADDRESSING_MODE_ZERO_PAGE_Y_INDEXED
  deriving DecidableEq, Repr

open addressing_mode_t

/-- The C struct `instruction_t`: the function pointer is the name of the
opcode function it points at. -/
structure instruction_t where
  opcode : opcode_fn
  addressing_mode : addressing_mode_t
  deriving DecidableEq, Repr

/-! ## mos6507-addressing-macros.h

A macro of this header expands inside an opcode function `fn` and uses its
`static` locals.  Each macro is a `switch (cycle)`: a case ends either in
`return -1` (the result `true` here: the opcode function returns -1) or leaves
the switch (the result `false`: the opcode function goes on after the macro). -/

def NOT_SAME_PAGE (addr1 addr2 : Nat) : Nat := (addr1 ^^^ addr2) &&& 0xFF00

/-- The macro `END_OPCODE` of mos6507-opcodes.c. -/
def END_OPCODE : Emu Unit := do
  on_cpu mos6507_increment_PC
  on_cpu fun cpu => mos6507_set_address_bus (mos6507_get_PC cpu) cpu

/-- The recurring statements `mos6507_increment_PC();
mos6507_set_address_bus(mos6507_get_PC()); memmap_read(&v);`. -/
def fetch_next_byte (fn : opcode_fn) (v : static_var) : Emu Unit := do
  on_cpu mos6507_increment_PC
  on_cpu fun cpu => mos6507_set_address_bus (mos6507_get_PC cpu) cpu
  memmap_read_static fn v

/-- The recurring statements of the indexed modes, for index register `reg`:
`adl = bal + R; if ((bal + R) & 0x0100) c = 1; adh = bah + c;
mos6507_set_address_bus_hl(adh, adl);`.  The result is the local `c`. -/
def indexed_address (fn : opcode_fn) (reg : mos6507_register_t) : Emu Nat := do
  let R := mos6507_get_register reg (← get).cpu
  let bal ← get_static fn .bal
  let bah ← get_static fn .bah
  let adl := (bal + R) % 256
  set_static fn .adl adl
  let c : Nat := if (bal + R) &&& 0x0100 ≠ 0 then 1 else 0
  let adh := (bah + c) % 256
  set_static fn .adh adh
  on_cpu (mos6507_set_address_bus_hl adh adl)
  pure c

/-- The result is `some r` when the macro returns `r` from the opcode
function and `none` when control leaves the switch. -/
def CALC_BRANCH (fn : opcode_fn) (cycle : Nat) : Emu (Option Int) := do
  match cycle with
  | 0 => pure (some (-1))
  | 1 =>
    fetch_next_byte fn .offset
    if (← get_static fn .condition) = 0 then
      END_OPCODE
      pure (some 0)
    else pure (some (-1))
  | 2 =>
    on_cpu mos6507_increment_PC
    let offset ← get_static fn .offset
    let PC := mos6507_get_PC (← get).cpu
    if offset &&& 0x80 ≠ 0 then
      let compliment := u8 (-((offset &&& 0x7F : Nat) : Int) - 1)
      let compliment := (compliment + 1) % 256
      set_static fn .addr (u16 ((PC : Int) - ((compliment &&& 0x7F : Nat) : Int)))
    else
      set_static fn .addr ((PC + (offset &&& 0x7F)) % 65536)
    let addr ← get_static fn .addr
    if NOT_SAME_PAGE PC addr ≠ 0 then pure (some (-1))
    else
      on_cpu (mos6507_set_PC addr)
      on_cpu (mos6507_set_address_bus addr)
      pure (some 0)
  | 3 =>
    on_cpu (mos6507_set_PC (← get_static fn .addr))
    pure none
  | _ => pure none

def FETCH_STORE_ADDRESS_ABSOLUTE (fn : opcode_fn) (cycle : Nat) : Emu Bool := do
  match cycle with
  | 0 => pure true
  | 1 => fetch_next_byte fn .adl; pure true
  | 2 => fetch_next_byte fn .adh; pure true
  | 3 =>
    on_cpu (mos6507_set_address_bus_hl (← get_static fn .adh) (← get_static fn .adl))
    pure false
  | _ => pure false

def FETCH_STORE_ADDRESS_IMMEDIATE (_fn : opcode_fn) (cycle : Nat) : Emu Bool := do
  match cycle with
  | 0 => pure true
  | 1 =>
    on_cpu mos6507_increment_PC
    on_cpu fun cpu => mos6507_set_address_bus (mos6507_get_PC cpu) cpu
    pure false
  | _ => pure false

def FETCH_STORE_ADDRESS_ZERO_PAGE (fn : opcode_fn) (cycle : Nat) : Emu Bool := do
  match cycle with
  | 0 => pure true
  | 1 => fetch_next_byte fn .adl; pure true
  | 2 =>
    on_cpu (mos6507_set_address_bus_hl 0 (← get_static fn .adl))
    pure false
  | _ => pure false

def FETCH_STORE_ADDRESS_INDIRECT_X_INDEXED (fn : opcode_fn) (cycle : Nat) : Emu Bool := do
  match cycle with
  | 0 => pure true
  | 1 => fetch_next_byte fn .bal; pure true
  | 2 =>
    on_cpu (mos6507_set_address_bus_hl 0 (← get_static fn .bal))
    pure true
  | 3 =>
    let X := mos6507_get_register MOS6507_REG_X (← get).cpu
    on_cpu (mos6507_set_address_bus_hl 0 ((← get_static fn .bal) + X))
    memmap_read_static fn .adl
    pure true
  | 4 =>
    let X := mos6507_get_register MOS6507_REG_X (← get).cpu
    on_cpu (mos6507_set_address_bus_hl 0 (((← get_static fn .bal) + X) + 1))
    memmap_read_static fn .adh
    pure true
  | 5 =>
    on_cpu (mos6507_set_address_bus_hl (← get_static fn .adh) (← get_static fn .adl))
    pure false
  | _ => pure false

def FETCH_STORE_ADDRESS_ABSOLUTE_X_INDEXED (fn : opcode_fn) (cycle : Nat) : Emu Bool := do
  match cycle with
  | 0 => pure true
  | 1 => fetch_next_byte fn .bal; pure true
  | 2 => fetch_next_byte fn .bah; pure true
  | 3 =>
    let c ← indexed_address fn MOS6507_REG_X
    memmap_read_static fn .data
    if c ≠ 0 then pure true else pure false
  | 4 =>
    let _c ← indexed_address fn MOS6507_REG_X
    pure false
  | _ => pure false

def FETCH_STORE_ADDRESS_ABSOLUTE_Y_INDEXED (fn : opcode_fn) (cycle : Nat) : Emu Bool := do
  match cycle with
  | 0 => pure true
  | 1 => fetch_next_byte fn .bal; pure true
  | 2 => fetch_next_byte fn .bah; pure true
  | 3 =>
    let c ← indexed_address fn MOS6507_REG_Y
    memmap_read_static fn .data
    if c ≠ 0 then pure true else pure false
  | 4 =>
    let _c ← indexed_address fn MOS6507_REG_Y
    memmap_read_static fn .data
    pure false
  | _ => pure false

def FETCH_STORE_ADDRESS_ZERO_PAGE_X_INDEXED (fn : opcode_fn) (cycle : Nat) : Emu Bool := do
  match cycle with
  | 0 => pure true
  | 1 => fetch_next_byte fn .bal; pure true
  | 2 =>
    on_cpu (mos6507_set_address_bus_hl 0 (← get_static fn .bal))
    pure true
  | 3 =>
    let X := mos6507_get_register MOS6507_REG_X (← get).cpu
    on_cpu (mos6507_set_address_bus_hl 0 ((← get_static fn .bal) + X))
    pure false
  | _ => pure false

def FETCH_STORE_ADDRESS_ZERO_PAGE_Y_INDEXED (fn : opcode_fn) (cycle : Nat) : Emu Bool := do
  match cycle with
  | 0 => pure true
  | 1 => fetch_next_byte fn .bal; pure true
  | 2 =>
    on_cpu (mos6507_set_address_bus_hl 0 (← get_static fn .bal))
    pure true
  | 3 =>
    let Y := mos6507_get_register MOS6507_REG_Y (← get).cpu
    on_cpu (mos6507_set_address_bus_hl 0 ((← get_static fn .bal) + Y))
    pure false
  | _ => pure false

def FETCH_DATA_ABSOLUTE (fn : opcode_fn) (cycle : Nat) : Emu Bool := do
  match cycle with
  | 0 => pure true
  | 1 => fetch_next_byte fn .adl; pure true
  | 2 => fetch_next_byte fn .adh; pure true
  | 3 =>
    on_cpu (mos6507_set_address_bus_hl (← get_static fn .adh) (← get_static fn .adl))
    memmap_read_static fn .data
    pure false
  | _ => pure false

def FETCH_DATA_IMMEDIATE (fn : opcode_fn) (cycle : Nat) : Emu Bool := do
  match cycle with
  | 0 => pure true
  | 1 => fetch_next_byte fn .data; pure false
  | _ => pure false

def FETCH_DATA_ZERO_PAGE (fn : opcode_fn) (cycle : Nat) : Emu Bool := do
  match cycle with
  | 0 => pure true
  | 1 => fetch_next_byte fn .adl; pure true
  | 2 =>
    on_cpu (mos6507_set_address_bus_hl 0 (← get_static fn .adl))
    memmap_read_static fn .data
    pure false
  | _ => pure false

def FETCH_DATA_INDIRECT_X_INDEXED (fn : opcode_fn) (cycle : Nat) : Emu Bool := do
  match cycle with
  | 0 => pure true
  | 1 => fetch_next_byte fn .bal; pure true
  | 2 =>
    on_cpu (mos6507_set_address_bus_hl 0 (← get_static fn .bal))
    pure true
  | 3 =>
    let X := mos6507_get_register MOS6507_REG_X (← get).cpu
    on_cpu (mos6507_set_address_bus_hl 0 ((← get_static fn .bal) + X))
    memmap_read_static fn .adl
    pure true
  | 4 =>
    let X := mos6507_get_register MOS6507_REG_X (← get).cpu
    on_cpu (mos6507_set_address_bus_hl 0 (((← get_static fn .bal) + X) + 1))
    memmap_read_static fn .adh
    pure true
  | 5 =>
    on_cpu (mos6507_set_address_bus_hl (← get_static fn .adh) (← get_static fn .adl))
    memmap_read_static fn .data
    pure false
  | _ => pure false

def FETCH_DATA_INDIRECT_Y_INDEXED (fn : opcode_fn) (cycle : Nat) : Emu Bool := do
  match cycle with
  | 0 => pure true
  | 1 => fetch_next_byte fn .ial; pure true
  | 2 =>
    on_cpu (mos6507_set_address_bus_hl 0 (← get_static fn .ial))
    memmap_read_static fn .bal
    pure true
  | 3 =>
    on_cpu (mos6507_set_address_bus_hl 0 ((← get_static fn .ial) + 1))
    memmap_read_static fn .bah
    pure true
  | 4 =>
    let c ← indexed_address fn MOS6507_REG_Y
    memmap_read_static fn .data
    if c ≠ 0 then pure true else pure false
  | 5 =>
    let _c ← indexed_address fn MOS6507_REG_Y
    memmap_read_static fn .data
    pure false
  | _ => pure false

def FETCH_DATA_ABSOLUTE_X_INDEXED (fn : opcode_fn) (cycle : Nat) : Emu Bool := do
  match cycle with
  | 0 => pure true
  | 1 => fetch_next_byte fn .bal; pure true
  | 2 => fetch_next_byte fn .bah; pure true
  | 3 =>
    let c ← indexed_address fn MOS6507_REG_X
    memmap_read_static fn .data
    if c ≠ 0 then pure true else pure false
  | 4 =>
    let _c ← indexed_address fn MOS6507_REG_X
    memmap_read_static fn .data
    pure false
  | _ => pure false

def FETCH_DATA_ABSOLUTE_Y_INDEXED (fn : opcode_fn) (cycle : Nat) : Emu Bool := do
  match cycle with
  | 0 => pure true
  | 1 => fetch_next_byte fn .bal; pure true
  | 2 => fetch_next_byte fn .bah; pure true
  | 3 =>
    let c ← indexed_address fn MOS6507_REG_Y
    memmap_read_static fn .data
    if c ≠ 0 then pure true else pure false
  | 4 =>
    let _c ← indexed_address fn MOS6507_REG_Y
    memmap_read_static fn .data
    pure false
  | _ => pure false

def FETCH_DATA_ZERO_PAGE_X_INDEXED (fn : opcode_fn) (cycle : Nat) : Emu Bool := do
  match cycle with
  | 0 => pure true
  | 1 => fetch_next_byte fn .bal; pure true
  | 2 =>
    on_cpu (mos6507_set_address_bus_hl 0 (← get_static fn .bal))
    pure true
  | 3 =>
    let X := mos6507_get_register MOS6507_REG_X (← get).cpu
    on_cpu (mos6507_set_address_bus_hl 0 ((← get_static fn .bal) + X))
    memmap_read_static fn .data
    pure false
  | _ => pure false

def FETCH_DATA_ZERO_PAGE_Y_INDEXED (fn : opcode_fn) (cycle : Nat) : Emu Bool := do
  match cycle with
  | 0 => pure true
  | 1 => fetch_next_byte fn .bal; pure true
  | 2 =>
    on_cpu (mos6507_set_address_bus_hl 0 (← get_static fn .bal))
    pure true
  | 3 =>
    let Y := mos6507_get_register MOS6507_REG_Y (← get).cpu
    on_cpu (mos6507_set_address_bus_hl 0 ((← get_static fn .bal) + Y))
    memmap_read_static fn .data
    pure false
  | _ => pure false

/-- No branch of the macro matches the accumulator, implied, indirect and
relative modes: control goes on after the macro. -/
def FETCH_DATA (fn : opcode_fn) (cycle : Nat) (address_mode : addressing_mode_t) : Emu Bool :=
  match address_mode with
  | OPCODE_ADDRESSING_MODE_IMMEDIATE => FETCH_DATA_IMMEDIATE fn cycle
  | OPCODE_ADDRESSING_MODE_ZERO_PAGE => FETCH_DATA_ZERO_PAGE fn cycle
  | OPCODE_ADDRESSING_MODE_ABSOLUTE => FETCH_DATA_ABSOLUTE fn cycle
  | OPCODE_ADDRESSING_MODE_INDIRECT_X_INDEXED => FETCH_DATA_INDIRECT_X_INDEXED fn cycle
  | OPCODE_ADDRESSING_MODE_INDIRECT_Y_INDEXED => FETCH_DATA_INDIRECT_Y_INDEXED fn cycle
  | OPCODE_ADDRESSING_MODE_ABSOLUTE_X_INDEXED => FETCH_DATA_ABSOLUTE_X_INDEXED fn cycle
  | OPCODE_ADDRESSING_MODE_ABSOLUTE_Y_INDEXED => FETCH_DATA_ABSOLUTE_Y_INDEXED fn cycle
  | OPCODE_ADDRESSING_MODE_ZERO_PAGE_X_INDEXED => FETCH_DATA_ZERO_PAGE_X_INDEXED fn cycle
  | OPCODE_ADDRESSING_MODE_ZERO_PAGE_Y_INDEXED => FETCH_DATA_ZERO_PAGE_Y_INDEXED fn cycle
  | _ => pure false

/-- The macro has no branch for the (indirect),Y mode, nor for the
accumulator, implied, indirect and relative modes. -/
def FETCH_STORE_ADDRESS (fn : opcode_fn) (cycle : Nat) (address_mode : addressing_mode_t) :
    Emu Bool :=
  match address_mode with
  | OPCODE_ADDRESSING_MODE_IMMEDIATE => FETCH_STORE_ADDRESS_IMMEDIATE fn cycle
  | OPCODE_ADDRESSING_MODE_ZERO_PAGE => FETCH_STORE_ADDRESS_ZERO_PAGE fn cycle
  | OPCODE_ADDRESSING_MODE_ABSOLUTE => FETCH_STORE_ADDRESS_ABSOLUTE fn cycle
  | OPCODE_ADDRESSING_MODE_INDIRECT_X_INDEXED => FETCH_STORE_ADDRESS_INDIRECT_X_INDEXED fn cycle
  | OPCODE_ADDRESSING_MODE_ABSOLUTE_X_INDEXED => FETCH_STORE_ADDRESS_ABSOLUTE_X_INDEXED fn cycle
  | OPCODE_ADDRESSING_MODE_ABSOLUTE_Y_INDEXED => FETCH_STORE_ADDRESS_ABSOLUTE_Y_INDEXED fn cycle
  | OPCODE_ADDRESSING_MODE_ZERO_PAGE_X_INDEXED => FETCH_STORE_ADDRESS_ZERO_PAGE_X_INDEXED fn cycle
  | OPCODE_ADDRESSING_MODE_ZERO_PAGE_Y_INDEXED => FETCH_STORE_ADDRESS_ZERO_PAGE_Y_INDEXED fn cycle
  | _ => pure false

/-! ## mos6507-opcodes.c: the opcode functions

Each function takes the cycle index and the addressing mode and returns -1
("not done") or 0 ("done"). -/

def opcode_ILL (_cycle : Nat) (_address_mode : addressing_mode_t) : Emu Int :=
  pure 0

def opcode_ADC (cycle : Nat) (address_mode : addressing_mode_t) : Emu Int := do
  if ← FETCH_DATA .ADC cycle address_mode then pure (-1)
  else
    on_cpu (mos6507_ADC (← get_static .ADC .data))
    END_OPCODE
    pure 0

def opcode_AND (cycle : Nat) (address_mode : addressing_mode_t) : Emu Int := do
  if ← FETCH_DATA .AND cycle address_mode then pure (-1)
  else
    on_cpu (mos6507_AND (← get_static .AND .data))
    END_OPCODE
    pure 0

def opcode_BIT (cycle : Nat) (address_mode : addressing_mode_t) : Emu Int := do
  if ← FETCH_DATA .BIT cycle address_mode then pure (-1)
  else
    on_cpu (mos6507_BIT (← get_static .BIT .data))
    END_OPCODE
    pure 0

def opcode_CMP (cycle : Nat) (address_mode : addressing_mode_t) : Emu Int := do
  if ← FETCH_DATA .CMP cycle address_mode then pure (-1)
  else
    on_cpu (mos6507_CMP (← get_static .CMP .data))
    END_OPCODE
    pure 0

def opcode_CPX (cycle : Nat) (address_mode : addressing_mode_t) : Emu Int := do
  if ← FETCH_DATA .CPX cycle address_mode then pure (-1)
  else
    on_cpu (mos6507_CPX (← get_static .CPX .data))
    END_OPCODE
    pure 0

def opcode_CPY (cycle : Nat) (address_mode : addressing_mode_t) : Emu Int := do
  if ← FETCH_DATA .CPY cycle address_mode then pure (-1)
  else
    on_cpu (mos6507_CPY (← get_static .CPY .data))
    END_OPCODE
    pure 0

def opcode_EOR (cycle : Nat) (address_mode : addressing_mode_t) : Emu Int := do
  if ← FETCH_DATA .EOR cycle address_mode then pure (-1)
  else
    on_cpu (mos6507_EOR (← get_static .EOR .data))
    END_OPCODE
    pure 0

def opcode_ORA (cycle : Nat) (address_mode : addressing_mode_t) : Emu Int := do
  if ← FETCH_DATA .ORA cycle address_mode then pure (-1)
  else
    on_cpu (mos6507_ORA (← get_static .ORA .data))
    END_OPCODE
    pure 0

def opcode_TSB (cycle : Nat) (address_mode : addressing_mode_t) : Emu Int := do
  if ← FETCH_DATA .TSB cycle address_mode then pure (-1)
  else
    on_cpu (mos6507_TSB (← get_static .TSB .data))
    END_OPCODE
    pure 0

def opcode_SBC (cycle : Nat) (address_mode : addressing_mode_t) : Emu Int := do
  if ← FETCH_DATA .SBC cycle address_mode then pure (-1)
  else
    on_cpu (mos6507_SBC (← get_static .SBC .data))
    END_OPCODE
    pure 0

/-- In the memory modes the result of the shift is left in the local `data`. -/
def opcode_ASL (cycle : Nat) (address_mode : addressing_mode_t) : Emu Int := do
  if address_mode = OPCODE_ADDRESSING_MODE_ACCUMULATOR then
    match cycle with
    | 0 => pure (-1)
    | 1 =>
      on_cpu mos6507_ASL_Accumulator
      END_OPCODE
      pure 0
    | _ =>
      END_OPCODE
      pure 0
  else
    if ← FETCH_DATA .ASL cycle address_mode then pure (-1)
    else
      let r := mos6507_ASL (← get_static .ASL .data) (← get).cpu
      set_static .ASL .data r.1
      on_cpu fun _ => r.2
      END_OPCODE
      pure 0

/-- In the memory modes the result of the shift is left in the local `data`. -/
def opcode_LSR (cycle : Nat) (address_mode : addressing_mode_t) : Emu Int := do
  if address_mode = OPCODE_ADDRESSING_MODE_ACCUMULATOR then
    match cycle with
    | 0 => pure (-1)
    | 1 =>
      on_cpu mos6507_LSR_Accumulator
      END_OPCODE
      pure 0
    | _ =>
      END_OPCODE
      pure 0
  else
    if ← FETCH_DATA .LSR cycle address_mode then pure (-1)
    else
      let r := mos6507_LSR (← get_static .LSR .data) (← get).cpu
      set_static .LSR .data r.1
      on_cpu fun _ => r.2
      END_OPCODE
      pure 0

/-- In the memory modes the result of the shift is left in the local `data`. -/
def opcode_ROL (cycle : Nat) (address_mode : addressing_mode_t) : Emu Int := do
  if address_mode = OPCODE_ADDRESSING_MODE_ACCUMULATOR then
    match cycle with
    | 0 => pure (-1)
    | 1 =>
      on_cpu mos6507_ROL_Accumulator
      END_OPCODE
      pure 0
    | _ =>
      END_OPCODE
      pure 0
  else
    if ← FETCH_DATA .ROL cycle address_mode then pure (-1)
    else
      let r := mos6507_ROL (← get_static .ROL .data) (← get).cpu
      set_static .ROL .data r.1
      on_cpu fun _ => r.2
      END_OPCODE
      pure 0

/-- In the memory modes the result of the shift is left in the local `data`. -/
def opcode_ROR (cycle : Nat) (address_mode : addressing_mode_t) : Emu Int := do
  if address_mode = OPCODE_ADDRESSING_MODE_ACCUMULATOR then
    match cycle with
    | 0 => pure (-1)
    | 1 =>
      on_cpu mos6507_ROR_Accumulator
      END_OPCODE
      pure 0
    | _ =>
      END_OPCODE
      pure 0
  else
    if ← FETCH_DATA .ROR cycle address_mode then pure (-1)
    else
      let r := mos6507_ROR (← get_static .ROR .data) (← get).cpu
      set_static .ROR .data r.1
      on_cpu fun _ => r.2
      END_OPCODE
      pure 0

def opcode_BCC (cycle : Nat) (_address_mode : addressing_mode_t) : Emu Int := do
  set_static .BCC .condition (lnot (mos6507_get_status_flag MOS6507_STATUS_FLAG_CARRY (← get).cpu))
  match ← CALC_BRANCH .BCC cycle with
  | some r => pure r
  | none =>
    on_cpu fun cpu => mos6507_set_address_bus (mos6507_get_PC cpu) cpu
    pure 0

def opcode_BCS (cycle : Nat) (_address_mode : addressing_mode_t) : Emu Int := do
  set_static .BCS .condition (mos6507_get_status_flag MOS6507_STATUS_FLAG_CARRY (← get).cpu)
  match ← CALC_BRANCH .BCS cycle with
  | some r => pure r
  | none =>
    on_cpu fun cpu => mos6507_set_address_bus (mos6507_get_PC cpu) cpu
    pure 0

def opcode_BEQ (cycle : Nat) (_address_mode : addressing_mode_t) : Emu Int := do
  set_static .BEQ .condition (mos6507_get_status_flag MOS6507_STATUS_FLAG_ZERO (← get).cpu)
  match ← CALC_BRANCH .BEQ cycle with
  | some r => pure r
  | none =>
    on_cpu fun cpu => mos6507_set_address_bus (mos6507_get_PC cpu) cpu
    pure 0

def opcode_BMI (cycle : Nat) (_address_mode : addressing_mode_t) : Emu Int := do
  set_static .BMI .condition (mos6507_get_status_flag MOS6507_STATUS_FLAG_NEGATIVE (← get).cpu)
  match ← CALC_BRANCH .BMI cycle with
  | some r => pure r
  | none =>
    on_cpu fun cpu => mos6507_set_address_bus (mos6507_get_PC cpu) cpu
    pure 0

def opcode_BNE (cycle : Nat) (_address_mode : addressing_mode_t) : Emu Int := do
  set_static .BNE .condition (lnot (mos6507_get_status_flag MOS6507_STATUS_FLAG_ZERO (← get).cpu))
  match ← CALC_BRANCH .BNE cycle with
  | some r => pure r
  | none =>
    on_cpu fun cpu => mos6507_set_address_bus (mos6507_get_PC cpu) cpu
    pure 0

def opcode_BPL (cycle : Nat) (_address_mode : addressing_mode_t) : Emu Int := do
  set_static .BPL .condition (lnot (mos6507_get_status_flag MOS6507_STATUS_FLAG_NEGATIVE (← get).cpu))
  match ← CALC_BRANCH .BPL cycle with
  | some r => pure r
  | none =>
    on_cpu fun cpu => mos6507_set_address_bus (mos6507_get_PC cpu) cpu
    pure 0

def opcode_BVC (cycle : Nat) (_address_mode : addressing_mode_t) : Emu Int := do
  set_static .BVC .condition (lnot (mos6507_get_status_flag MOS6507_STATUS_FLAG_OVERFLOW (← get).cpu))
  match ← CALC_BRANCH .BVC cycle with
  | some r => pure r
  | none =>
    on_cpu fun cpu => mos6507_set_address_bus (mos6507_get_PC cpu) cpu
    pure 0

def opcode_BVS (cycle : Nat) (_address_mode : addressing_mode_t) : Emu Int := do
  set_static .BVS .condition (mos6507_get_status_flag MOS6507_STATUS_FLAG_OVERFLOW (← get).cpu)
  match ← CALC_BRANCH .BVS cycle with
  | some r => pure r
  | none =>
    END_OPCODE
    pure 0

def opcode_BRK (cycle : Nat) (_address_mode : addressing_mode_t) : Emu Int := do
  match cycle with
  | 0 => pure (-1)
  | 1 =>
    on_cpu mos6507_increment_PC
    pure (-1)
  | 2 =>
    set_static .BRK .pch ((mos6507_get_PC (← get).cpu >>> 8) % 256)
    mos6507_push_stack (← get_static .BRK .pch)
    pure (-1)
  | 3 =>
    set_static .BRK .pcl (mos6507_get_PC (← get).cpu % 256)
    mos6507_push_stack (← get_static .BRK .pcl)
    pure (-1)
  | 4 =>
    set_static .BRK .P (mos6507_get_register MOS6507_REG_P (← get).cpu)
    mos6507_push_stack (← get_static .BRK .P)
    pure (-1)
  | 5 =>
    on_cpu (mos6507_set_address_bus 0xFFFE)
    memmap_read_static .BRK .adl
    pure (-1)
  | 6 =>
    on_cpu (mos6507_set_address_bus 0xFFFF)
    memmap_read_static .BRK .adh
    on_cpu (mos6507_set_PC_hl (← get_static .BRK .adh) (← get_static .BRK .adl))
    on_cpu fun cpu => mos6507_set_address_bus (mos6507_get_PC cpu) cpu
    pure 0
  | _ =>
    on_cpu (mos6507_set_PC_hl (← get_static .BRK .adh) (← get_static .BRK .adl))
    on_cpu fun cpu => mos6507_set_address_bus (mos6507_get_PC cpu) cpu
    pure 0

def opcode_CLC (cycle : Nat) (_address_mode : addressing_mode_t) : Emu Int := do
  match cycle with
  | 0 => pure (-1)
  | 1 =>
    on_cpu (mos6507_set_status_flag MOS6507_STATUS_FLAG_CARRY 0)
    END_OPCODE
    pure 0
  | _ =>
    END_OPCODE
    pure 0

def opcode_CLD (cycle : Nat) (_address_mode : addressing_mode_t) : Emu Int := do
  match cycle with
  | 0 => pure (-1)
  | 1 =>
    on_cpu (mos6507_set_status_flag MOS6507_STATUS_FLAG_DECIMAL 0)
    END_OPCODE
    pure 0
  | _ =>
    END_OPCODE
    pure 0

def opcode_CLI (cycle : Nat) (_address_mode : addressing_mode_t) : Emu Int := do
  match cycle with
  | 0 => pure (-1)
  | 1 =>
    on_cpu (mos6507_set_status_flag MOS6507_STATUS_FLAG_INTERRUPT 0)
    END_OPCODE
    pure 0
  | _ =>
    END_OPCODE
    pure 0

def opcode_CLV (cycle : Nat) (_address_mode : addressing_mode_t) : Emu Int := do
  match cycle with
  | 0 => pure (-1)
  | 1 =>
    on_cpu (mos6507_set_status_flag MOS6507_STATUS_FLAG_OVERFLOW 0)
    END_OPCODE
    pure 0
  | _ =>
    END_OPCODE
    pure 0

def opcode_SEC (cycle : Nat) (_address_mode : addressing_mode_t) : Emu Int := do
  match cycle with
  | 0 => pure (-1)
  | 1 =>
    on_cpu (mos6507_set_status_flag MOS6507_STATUS_FLAG_CARRY 1)
    END_OPCODE
    pure 0
  | _ =>
    END_OPCODE
    pure 0

def opcode_SED (cycle : Nat) (_address_mode : addressing_mode_t) : Emu Int := do
  match cycle with
  | 0 => pure (-1)
  | 1 =>
    on_cpu (mos6507_set_status_flag MOS6507_STATUS_FLAG_DECIMAL 1)
    END_OPCODE
    pure 0
  | _ =>
    END_OPCODE
    pure 0

def opcode_SEI (cycle : Nat) (_address_mode : addressing_mode_t) : Emu Int := do
  match cycle with
  | 0 => pure (-1)
  | 1 =>
    on_cpu (mos6507_set_status_flag MOS6507_STATUS_FLAG_INTERRUPT 1)
    END_OPCODE
    pure 0
  | _ =>
    END_OPCODE
    pure 0

def opcode_DEC (cycle : Nat) (address_mode : addressing_mode_t) : Emu Int := do
  if ← FETCH_DATA .DEC cycle address_mode then pure (-1)
  else
    let data ← get_static .DEC .data
    let data := (data + 255) % 256
    set_static .DEC .data data
    on_cpu (mos6507_set_data_bus data)
    memmap_write
    on_cpu (mos6507_set_status_flag MOS6507_STATUS_FLAG_ZERO (lnot (data &&& 0xFF)))
    on_cpu (mos6507_set_status_flag MOS6507_STATUS_FLAG_NEGATIVE (data &&& 0x80))
    END_OPCODE
    pure 0

def opcode_INC (cycle : Nat) (address_mode : addressing_mode_t) : Emu Int := do
  if ← FETCH_DATA .INC cycle address_mode then pure (-1)
  else
    let data ← get_static .INC .data
    let data := (data + 1) % 256
    set_static .INC .data data
    on_cpu (mos6507_set_data_bus data)
    memmap_write
    on_cpu (mos6507_set_status_flag MOS6507_STATUS_FLAG_ZERO (lnot (data &&& 0xFF)))
    on_cpu (mos6507_set_status_flag MOS6507_STATUS_FLAG_NEGATIVE (data &&& 0x80))
    END_OPCODE
    pure 0

def opcode_DEX (cycle : Nat) (_address_mode : addressing_mode_t) : Emu Int := do
  match cycle with
  | 0 => pure (-1)
  | 1 =>
    set_static .DEX .value (mos6507_get_register MOS6507_REG_X (← get).cpu)
    set_static .DEX .value (((← get_static .DEX .value) + 255) % 256)
    let value ← get_static .DEX .value
    on_cpu (mos6507_set_register MOS6507_REG_X value)
    on_cpu (mos6507_set_status_flag MOS6507_STATUS_FLAG_ZERO (lnot (value &&& 0xFF)))
    on_cpu (mos6507_set_status_flag MOS6507_STATUS_FLAG_NEGATIVE (value &&& 0x80))
    END_OPCODE
    pure 0
  | _ =>
    END_OPCODE
    pure 0

def opcode_DEY (cycle : Nat) (_address_mode : addressing_mode_t) : Emu Int := do
  match cycle with
  | 0 => pure (-1)
  | 1 =>
    set_static .DEY .value (mos6507_get_register MOS6507_REG_Y (← get).cpu)
    set_static .DEY .value (((← get_static .DEY .value) + 255) % 256)
    let value ← get_static .DEY .value
    on_cpu (mos6507_set_register MOS6507_REG_Y value)
    on_cpu (mos6507_set_status_flag MOS6507_STATUS_FLAG_ZERO (lnot (value &&& 0xFF)))
    on_cpu (mos6507_set_status_flag MOS6507_STATUS_FLAG_NEGATIVE (value &&& 0x80))
    END_OPCODE
    pure 0
  | _ =>
    END_OPCODE
    pure 0

def opcode_INX (cycle : Nat) (_address_mode : addressing_mode_t) : Emu Int := do
  match cycle with
  | 0 => pure (-1)
  | 1 =>
    let value := mos6507_get_register MOS6507_REG_X (← get).cpu
    let value := (value + 1) % 256
    on_cpu (mos6507_set_register MOS6507_REG_X value)
    on_cpu (mos6507_set_status_flag MOS6507_STATUS_FLAG_ZERO (lnot (value &&& 0xFF)))
    on_cpu (mos6507_set_status_flag MOS6507_STATUS_FLAG_NEGATIVE (value &&& 0x80))
    END_OPCODE
    pure 0
  | _ =>
    END_OPCODE
    pure 0

def opcode_INY (cycle : Nat) (_address_mode : addressing_mode_t) : Emu Int := do
  match cycle with
  | 0 => pure (-1)
  | 1 =>
    let value := mos6507_get_register MOS6507_REG_Y (← get).cpu
    let value := (value + 1) % 256
    on_cpu (mos6507_set_register MOS6507_REG_Y value)
    on_cpu (mos6507_set_status_flag MOS6507_STATUS_FLAG_ZERO (lnot (value &&& 0xFF)))
    on_cpu (mos6507_set_status_flag MOS6507_STATUS_FLAG_NEGATIVE (value &&& 0x80))
    END_OPCODE
    pure 0
  | _ =>
    END_OPCODE
    pure 0

/-- The function does not look at the addressing mode. -/
def opcode_JMP (cycle : Nat) (_address_mode : addressing_mode_t) : Emu Int := do
  match cycle with
  | 0 => pure (-1)
  | 1 => fetch_next_byte .JMP .adl; pure (-1)
  | 2 => fetch_next_byte .JMP .adh; pure (-1)
  | _ =>
    on_cpu (mos6507_set_PC_hl (← get_static .JMP .adh) (← get_static .JMP .adl))
    on_cpu (mos6507_set_address_bus_hl (← get_static .JMP .adh) (← get_static .JMP .adl))
    pure 0

def opcode_JSR (cycle : Nat) (_address_mode : addressing_mode_t) : Emu Int := do
  match cycle with
  | 0 => pure (-1)
  | 1 => fetch_next_byte .JSR .adl; pure (-1)
  | 2 =>
    set_static .JSR .S (mos6507_get_register MOS6507_REG_S (← get).cpu)
    on_cpu (mos6507_set_address_bus_hl STACK_PAGE (← get_static .JSR .S))
    pure (-1)
  | 3 =>
    set_static .JSR .pch ((mos6507_get_PC (← get).cpu >>> 8) % 256)
    mos6507_push_stack (← get_static .JSR .pch)
    pure (-1)
  | 4 =>
    set_static .JSR .pcl (mos6507_get_PC (← get).cpu % 256)
    mos6507_push_stack (← get_static .JSR .pcl)
    pure (-1)
  | 5 =>
    fetch_next_byte .JSR .adh
    on_cpu (mos6507_set_address_bus_hl (← get_static .JSR .adh) (← get_static .JSR .adl))
    on_cpu (mos6507_set_PC_hl (← get_static .JSR .adh) (← get_static .JSR .adl))
    pure 0
  | _ =>
    on_cpu (mos6507_set_address_bus_hl (← get_static .JSR .adh) (← get_static .JSR .adl))
    on_cpu (mos6507_set_PC_hl (← get_static .JSR .adh) (← get_static .JSR .adl))
    pure 0

def opcode_LDA (cycle : Nat) (address_mode : addressing_mode_t) : Emu Int := do
  if ← FETCH_DATA .LDA cycle address_mode then pure (-1)
  else
    let data ← get_static .LDA .data
    on_cpu (mos6507_set_register MOS6507_REG_A data)
    on_cpu (mos6507_set_status_flag MOS6507_STATUS_FLAG_ZERO (lnot (data &&& 0xFF)))
    on_cpu (mos6507_set_status_flag MOS6507_STATUS_FLAG_NEGATIVE (data &&& 0x80))
    END_OPCODE
    pure 0

def opcode_LDX (cycle : Nat) (address_mode : addressing_mode_t) : Emu Int := do
  if ← FETCH_DATA .LDX cycle address_mode then pure (-1)
  else
    let data ← get_static .LDX .data
    on_cpu (mos6507_set_register MOS6507_REG_X data)
    on_cpu (mos6507_set_status_flag MOS6507_STATUS_FLAG_ZERO (lnot (data &&& 0xFF)))
    on_cpu (mos6507_set_status_flag MOS6507_STATUS_FLAG_NEGATIVE (data &&& 0x80))
    END_OPCODE
    pure 0

def opcode_LDY (cycle : Nat) (address_mode : addressing_mode_t) : Emu Int := do
  if ← FETCH_DATA .LDY cycle address_mode then pure (-1)
  else
    let data ← get_static .LDY .data
    on_cpu (mos6507_set_register MOS6507_REG_Y data)
    on_cpu (mos6507_set_status_flag MOS6507_STATUS_FLAG_ZERO (lnot (data &&& 0xFF)))
    on_cpu (mos6507_set_status_flag MOS6507_STATUS_FLAG_NEGATIVE (data &&& 0x80))
    END_OPCODE
    pure 0

def opcode_NOP (cycle : Nat) (_address_mode : addressing_mode_t) : Emu Int := do
  match cycle with
  | 0 => pure (-1)
  | _ =>
    END_OPCODE
    pure 0

def opcode_PHA (cycle : Nat) (_address_mode : addressing_mode_t) : Emu Int := do
  match cycle with
  | 0 => pure (-1)
  | 1 =>
    on_cpu mos6507_increment_PC
    on_cpu fun cpu => mos6507_set_address_bus (mos6507_get_PC cpu) cpu
    pure (-1)
  | 2 =>
    set_static .PHA .value (mos6507_get_register MOS6507_REG_A (← get).cpu)
    mos6507_push_stack (← get_static .PHA .value)
    on_cpu fun cpu => mos6507_set_address_bus (mos6507_get_PC cpu) cpu
    pure 0
  | _ =>
    on_cpu fun cpu => mos6507_set_address_bus (mos6507_get_PC cpu) cpu
    pure 0

def opcode_PHP (cycle : Nat) (_address_mode : addressing_mode_t) : Emu Int := do
  match cycle with
  | 0 => pure (-1)
  | 1 =>
    on_cpu mos6507_increment_PC
    on_cpu fun cpu => mos6507_set_address_bus (mos6507_get_PC cpu) cpu
    pure (-1)
  | 2 =>
    set_static .PHP .value (mos6507_get_register MOS6507_REG_P (← get).cpu)
    mos6507_push_stack (← get_static .PHP .value)
    on_cpu fun cpu => mos6507_set_address_bus (mos6507_get_PC cpu) cpu
    pure 0
  | _ =>
    on_cpu fun cpu => mos6507_set_address_bus (mos6507_get_PC cpu) cpu
    pure 0

def opcode_PLA (cycle : Nat) (_address_mode : addressing_mode_t) : Emu Int := do
  match cycle with
  | 0 => pure (-1)
  | 1 =>
    on_cpu mos6507_increment_PC
    on_cpu fun cpu => mos6507_set_address_bus (mos6507_get_PC cpu) cpu
    pure (-1)
  | 2 =>
    set_static .PLA .source (mos6507_get_register MOS6507_REG_S (← get).cpu)
    on_cpu (mos6507_set_address_bus_hl STACK_PAGE (← get_static .PLA .source))
    pure (-1)
  | 3 =>
    mos6507_pull_stack_static .PLA .value
    let value ← get_static .PLA .value
    on_cpu (mos6507_set_register MOS6507_REG_A value)
    on_cpu (mos6507_set_status_flag MOS6507_STATUS_FLAG_NEGATIVE (value &&& 0x80))
    on_cpu (mos6507_set_status_flag MOS6507_STATUS_FLAG_ZERO (lnot (value &&& 0xFF)))
    on_cpu fun cpu => mos6507_set_address_bus (mos6507_get_PC cpu) cpu
    pure 0
  | _ =>
    on_cpu fun cpu => mos6507_set_address_bus (mos6507_get_PC cpu) cpu
    pure 0

def opcode_PLP (cycle : Nat) (_address_mode : addressing_mode_t) : Emu Int := do
  match cycle with
  | 0 => pure (-1)
  | 1 =>
    on_cpu mos6507_increment_PC
    on_cpu fun cpu => mos6507_set_address_bus (mos6507_get_PC cpu) cpu
    pure (-1)
  | 2 =>
    set_static .PLP .source (mos6507_get_register MOS6507_REG_S (← get).cpu)
    on_cpu (mos6507_set_address_bus_hl STACK_PAGE (← get_static .PLP .source))
    pure (-1)
  | 3 =>
    mos6507_pull_stack_static .PLP .value
    on_cpu (mos6507_set_register MOS6507_REG_P (← get_static .PLP .value))
    on_cpu fun cpu => mos6507_set_address_bus (mos6507_get_PC cpu) cpu
    pure 0
  | _ =>
    on_cpu fun cpu => mos6507_set_address_bus (mos6507_get_PC cpu) cpu
    pure 0

def opcode_RTI (cycle : Nat) (_address_mode : addressing_mode_t) : Emu Int := do
  match cycle with
  | 0 => pure (-1)
  | 1 =>
    on_cpu mos6507_increment_PC
    on_cpu fun cpu => mos6507_set_address_bus (mos6507_get_PC cpu) cpu
    pure (-1)
  | 2 =>
    set_static .RTI .S (mos6507_get_register MOS6507_REG_S (← get).cpu)
    on_cpu (mos6507_set_address_bus_hl STACK_PAGE (← get_static .RTI .S))
    pure (-1)
  | 3 =>
    mos6507_pull_stack_static .RTI .nuS
    on_cpu (mos6507_set_register MOS6507_REG_S (← get_static .RTI .nuS))
    pure (-1)
  | 4 =>
    mos6507_pull_stack_static .RTI .pcl
    pure (-1)
  | 5 =>
    mos6507_pull_stack_static .RTI .pch
    on_cpu (mos6507_set_PC_hl (← get_static .RTI .pch) (← get_static .RTI .pcl))
    on_cpu (mos6507_set_address_bus_hl (← get_static .RTI .pch) (← get_static .RTI .pcl))
    pure 0
  | _ => pure 0

def opcode_RTS (cycle : Nat) (_address_mode : addressing_mode_t) : Emu Int := do
  match cycle with
  | 0 => pure (-1)
  | 1 =>
    on_cpu mos6507_increment_PC
    on_cpu fun cpu => mos6507_set_address_bus (mos6507_get_PC cpu) cpu
    pure (-1)
  | 2 =>
    set_static .RTS .S (mos6507_get_register MOS6507_REG_S (← get).cpu)
    on_cpu (mos6507_set_address_bus_hl STACK_PAGE (← get_static .RTS .S))
    pure (-1)
  | 3 =>
    mos6507_pull_stack_static .RTS .pcl
    pure (-1)
  | 4 =>
    mos6507_pull_stack_static .RTS .pch
    pure (-1)
  | 5 =>
    on_cpu (mos6507_set_PC_hl (← get_static .RTS .pch) (← get_static .RTS .pcl))
    on_cpu (mos6507_set_address_bus_hl (← get_static .RTS .pch) (← get_static .RTS .pcl))
    on_cpu mos6507_increment_PC
    on_cpu fun cpu => mos6507_set_address_bus (mos6507_get_PC cpu) cpu
    END_OPCODE
    pure 0
  | _ =>
    END_OPCODE
    pure 0

def opcode_STA (cycle : Nat) (address_mode : addressing_mode_t) : Emu Int := do
  if ← FETCH_STORE_ADDRESS .STA cycle address_mode then pure (-1)
  else
    set_static .STA .data (mos6507_get_register MOS6507_REG_A (← get).cpu)
    on_cpu (mos6507_set_data_bus (← get_static .STA .data))
    memmap_write
    END_OPCODE
    pure 0

def opcode_STX (cycle : Nat) (address_mode : addressing_mode_t) : Emu Int := do
  if ← FETCH_STORE_ADDRESS .STX cycle address_mode then pure (-1)
  else
    set_static .STX .data (mos6507_get_register MOS6507_REG_X (← get).cpu)
    on_cpu (mos6507_set_data_bus (← get_static .STX .data))
    memmap_write
    END_OPCODE
    pure 0

def opcode_STY (cycle : Nat) (address_mode : addressing_mode_t) : Emu Int := do
  if ← FETCH_STORE_ADDRESS .STY cycle address_mode then pure (-1)
  else
    set_static .STY .data (mos6507_get_register MOS6507_REG_Y (← get).cpu)
    on_cpu (mos6507_set_data_bus (← get_static .STY .data))
    memmap_write
    END_OPCODE
    pure 0

def opcode_TAX (cycle : Nat) (_address_mode : addressing_mode_t) : Emu Int := do
  match cycle with
  | 0 => pure (-1)
  | 1 =>
    let value := mos6507_get_register MOS6507_REG_A (← get).cpu
    on_cpu (mos6507_set_register MOS6507_REG_X value)
    on_cpu (mos6507_set_status_flag MOS6507_STATUS_FLAG_ZERO (lnot (value &&& 0xFF)))
    on_cpu (mos6507_set_status_flag MOS6507_STATUS_FLAG_NEGATIVE (value &&& 0x80))
    END_OPCODE
    pure 0
  | _ =>
    END_OPCODE
    pure 0

def opcode_TAY (cycle : Nat) (_address_mode : addressing_mode_t) : Emu Int := do
  match cycle with
  | 0 => pure (-1)
  | 1 =>
    let value := mos6507_get_register MOS6507_REG_A (← get).cpu
    on_cpu (mos6507_set_register MOS6507_REG_Y value)
    on_cpu (mos6507_set_status_flag MOS6507_STATUS_FLAG_ZERO (lnot (value &&& 0xFF)))
    on_cpu (mos6507_set_status_flag MOS6507_STATUS_FLAG_NEGATIVE (value &&& 0x80))
    END_OPCODE
    pure 0
  | _ =>
    END_OPCODE
    pure 0

def opcode_TSX (cycle : Nat) (_address_mode : addressing_mode_t) : Emu Int := do
  match cycle with
  | 0 => pure (-1)
  | 1 =>
    let value := mos6507_get_register MOS6507_REG_S (← get).cpu
    on_cpu (mos6507_set_register MOS6507_REG_X value)
    on_cpu (mos6507_set_status_flag MOS6507_STATUS_FLAG_ZERO (lnot (value &&& 0xFF)))
    on_cpu (mos6507_set_status_flag MOS6507_STATUS_FLAG_NEGATIVE (value &&& 0x80))
    END_OPCODE
    pure 0
  | _ =>
    END_OPCODE
    pure 0

def opcode_TXA (cycle : Nat) (_address_mode : addressing_mode_t) : Emu Int := do
  match cycle with
  | 0 => pure (-1)
  | 1 =>
    let value := mos6507_get_register MOS6507_REG_X (← get).cpu
    on_cpu (mos6507_set_register MOS6507_REG_A value)
    on_cpu (mos6507_set_status_flag MOS6507_STATUS_FLAG_ZERO (lnot (value &&& 0xFF)))
    on_cpu (mos6507_set_status_flag MOS6507_STATUS_FLAG_NEGATIVE (value &&& 0x80))
    END_OPCODE
    pure 0
  | _ =>
    END_OPCODE
    pure 0

def opcode_TXS (cycle : Nat) (_address_mode : addressing_mode_t) : Emu Int := do
  match cycle with
  | 0 => pure (-1)
  | 1 =>
    let value := mos6507_get_register MOS6507_REG_X (← get).cpu
    on_cpu (mos6507_set_register MOS6507_REG_S value)
    END_OPCODE
    pure 0
  | _ =>
    END_OPCODE
    pure 0

def opcode_TYA (cycle : Nat) (_address_mode : addressing_mode_t) : Emu Int := do
  match cycle with
  | 0 => pure (-1)
  | 1 =>
    let value := mos6507_get_register MOS6507_REG_Y (← get).cpu
    on_cpu (mos6507_set_register MOS6507_REG_A value)
    on_cpu (mos6507_set_status_flag MOS6507_STATUS_FLAG_ZERO (lnot (value &&& 0xFF)))
    on_cpu (mos6507_set_status_flag MOS6507_STATUS_FLAG_NEGATIVE (value &&& 0x80))
    END_OPCODE
    pure 0
  | _ =>
    END_OPCODE
    pure 0

/-! ## mos6507-opcodes.c: the instruction table and the sequencer -/

/-- The contents `opcode_populate_ISA_table` gives the array
`ISA_table[ISA_LENGTH]`: every entry is first set to (ILL, implied), then the
assignments follow in source order.  `main` calls it once before the CPU runs
and nothing else writes the table, so the table is this constant. -/
def opcode_populate_ISA_table : List instruction_t :=
  let t : List instruction_t :=
    List.replicate ISA_LENGTH ⟨.ILL, OPCODE_ADDRESSING_MODE_IMPLIED⟩
  let t := t.set 0x00 ⟨.BRK, OPCODE_ADDRESSING_MODE_IMPLIED⟩
  let t := t.set 0xA9 ⟨.LDA, OPCODE_ADDRESSING_MODE_IMMEDIATE⟩
  let t := t.set 0xA5 ⟨.LDA, OPCODE_ADDRESSING_MODE_ZERO_PAGE⟩
  let t := t.set 0xB5 ⟨.LDA, OPCODE_ADDRESSING_MODE_ZERO_PAGE_X_INDEXED⟩
  let t := t.set 0xAD ⟨.LDA, OPCODE_ADDRESSING_MODE_ABSOLUTE⟩
  let t := t.set 0xBD ⟨.LDA, OPCODE_ADDRESSING_MODE_ABSOLUTE_X_INDEXED⟩
  let t := t.set 0xB9 ⟨.LDA, OPCODE_ADDRESSING_MODE_ABSOLUTE_Y_INDEXED⟩
  let t := t.set 0xA1 ⟨.LDA, OPCODE_ADDRESSING_MODE_INDIRECT_X_INDEXED⟩
  let t := t.set 0xB1 ⟨.LDA, OPCODE_ADDRESSING_MODE_INDIRECT_Y_INDEXED⟩
  let t := t.set 0xA2 ⟨.LDX, OPCODE_ADDRESSING_MODE_IMMEDIATE⟩
  let t := t.set 0xA6 ⟨.LDX, OPCODE_ADDRESSING_MODE_ZERO_PAGE⟩
  let t := t.set 0xB6 ⟨.LDX, OPCODE_ADDRESSING_MODE_ZERO_PAGE_Y_INDEXED⟩
  let t := t.set 0xAE ⟨.LDX, OPCODE_ADDRESSING_MODE_ABSOLUTE⟩
  let t := t.set 0xBE ⟨.LDX, OPCODE_ADDRESSING_MODE_ABSOLUTE_Y_INDEXED⟩
  let t := t.set 0xA0 ⟨.LDY, OPCODE_ADDRESSING_MODE_IMMEDIATE⟩
  let t := t.set 0xA4 ⟨.LDY, OPCODE_ADDRESSING_MODE_ZERO_PAGE⟩
  let t := t.set 0xB4 ⟨.LDY, OPCODE_ADDRESSING_MODE_ZERO_PAGE_X_INDEXED⟩
  let t := t.set 0xAC ⟨.LDY, OPCODE_ADDRESSING_MODE_ABSOLUTE⟩
  let t := t.set 0xBC ⟨.LDY, OPCODE_ADDRESSING_MODE_ABSOLUTE_X_INDEXED⟩
  let t := t.set 0x85 ⟨.STA, OPCODE_ADDRESSING_MODE_ZERO_PAGE⟩
  let t := t.set 0x95 ⟨.STA, OPCODE_ADDRESSING_MODE_ZERO_PAGE_X_INDEXED⟩
  let t := t.set 0x8D ⟨.STA, OPCODE_ADDRESSING_MODE_ABSOLUTE⟩
  let t := t.set 0x9D ⟨.STA, OPCODE_ADDRESSING_MODE_ABSOLUTE_X_INDEXED⟩
  let t := t.set 0x99 ⟨.STA, OPCODE_ADDRESSING_MODE_ABSOLUTE_Y_INDEXED⟩
  let t := t.set 0x81 ⟨.STA, OPCODE_ADDRESSING_MODE_INDIRECT_X_INDEXED⟩
  let t := t.set 0x91 ⟨.STA, OPCODE_ADDRESSING_MODE_INDIRECT_Y_INDEXED⟩
  let t := t.set 0x86 ⟨.STX, OPCODE_ADDRESSING_MODE_ZERO_PAGE⟩
  let t := t.set 0x96 ⟨.STX, OPCODE_ADDRESSING_MODE_ZERO_PAGE_Y_INDEXED⟩
  let t := t.set 0x8E ⟨.STX, OPCODE_ADDRESSING_MODE_ABSOLUTE⟩
  let t := t.set 0x84 ⟨.STY, OPCODE_ADDRESSING_MODE_ZERO_PAGE⟩
  let t := t.set 0x94 ⟨.STY, OPCODE_ADDRESSING_MODE_ZERO_PAGE_X_INDEXED⟩
  let t := t.set 0x8C ⟨.STY, OPCODE_ADDRESSING_MODE_ABSOLUTE⟩
  let t := t.set 0x69 ⟨.ADC, OPCODE_ADDRESSING_MODE_IMMEDIATE⟩
  let t := t.set 0x65 ⟨.ADC, OPCODE_ADDRESSING_MODE_ZERO_PAGE⟩
  let t := t.set 0x75 ⟨.ADC, OPCODE_ADDRESSING_MODE_ZERO_PAGE_X_INDEXED⟩
  let t := t.set 0x6D ⟨.ADC, OPCODE_ADDRESSING_MODE_ABSOLUTE⟩
  let t := t.set 0x7D ⟨.ADC, OPCODE_ADDRESSING_MODE_ABSOLUTE_X_INDEXED⟩
  let t := t.set 0x79 ⟨.ADC, OPCODE_ADDRESSING_MODE_ABSOLUTE_Y_INDEXED⟩
  let t := t.set 0x61 ⟨.ADC, OPCODE_ADDRESSING_MODE_INDIRECT_X_INDEXED⟩
  let t := t.set 0x71 ⟨.ADC, OPCODE_ADDRESSING_MODE_INDIRECT_Y_INDEXED⟩
  let t := t.set 0xE9 ⟨.SBC, OPCODE_ADDRESSING_MODE_IMMEDIATE⟩
  let t := t.set 0xE5 ⟨.SBC, OPCODE_ADDRESSING_MODE_ZERO_PAGE⟩
  let t := t.set 0xF5 ⟨.SBC, OPCODE_ADDRESSING_MODE_ZERO_PAGE_X_INDEXED⟩
  let t := t.set 0xED ⟨.SBC, OPCODE_ADDRESSING_MODE_ABSOLUTE⟩
  let t := t.set 0xFD ⟨.SBC, OPCODE_ADDRESSING_MODE_ABSOLUTE_X_INDEXED⟩
  let t := t.set 0xF9 ⟨.SBC, OPCODE_ADDRESSING_MODE_ABSOLUTE_Y_INDEXED⟩
  let t := t.set 0xE1 ⟨.SBC, OPCODE_ADDRESSING_MODE_INDIRECT_X_INDEXED⟩
  let t := t.set 0xF1 ⟨.SBC, OPCODE_ADDRESSING_MODE_INDIRECT_Y_INDEXED⟩
  let t := t.set 0xE6 ⟨.INC, OPCODE_ADDRESSING_MODE_ZERO_PAGE⟩
  let t := t.set 0xF6 ⟨.INC, OPCODE_ADDRESSING_MODE_ZERO_PAGE_X_INDEXED⟩
  let t := t.set 0xEE ⟨.INC, OPCODE_ADDRESSING_MODE_ABSOLUTE⟩
  let t := t.set 0xFE ⟨.INC, OPCODE_ADDRESSING_MODE_ABSOLUTE_X_INDEXED⟩
  let t := t.set 0xE8 ⟨.INX, OPCODE_ADDRESSING_MODE_IMPLIED⟩
  let t := t.set 0xC8 ⟨.INY, OPCODE_ADDRESSING_MODE_IMPLIED⟩
  let t := t.set 0xC6 ⟨.DEC, OPCODE_ADDRESSING_MODE_ZERO_PAGE⟩
  let t := t.set 0xD6 ⟨.DEC, OPCODE_ADDRESSING_MODE_ZERO_PAGE_X_INDEXED⟩
  let t := t.set 0xCE ⟨.DEC, OPCODE_ADDRESSING_MODE_ABSOLUTE⟩
  let t := t.set 0xDE ⟨.DEC, OPCODE_ADDRESSING_MODE_ABSOLUTE_X_INDEXED⟩
  let t := t.set 0xCA ⟨.DEX, OPCODE_ADDRESSING_MODE_IMPLIED⟩
  let t := t.set 0x88 ⟨.DEY, OPCODE_ADDRESSING_MODE_IMPLIED⟩
  let t := t.set 0x21 ⟨.AND, OPCODE_ADDRESSING_MODE_INDIRECT_X_INDEXED⟩
  let t := t.set 0x25 ⟨.AND, OPCODE_ADDRESSING_MODE_ZERO_PAGE⟩
  let t := t.set 0x29 ⟨.AND, OPCODE_ADDRESSING_MODE_IMMEDIATE⟩
  let t := t.set 0x2D ⟨.AND, OPCODE_ADDRESSING_MODE_ABSOLUTE⟩
  let t := t.set 0x31 ⟨.AND, OPCODE_ADDRESSING_MODE_INDIRECT_Y_INDEXED⟩
  let t := t.set 0x35 ⟨.AND, OPCODE_ADDRESSING_MODE_ZERO_PAGE_X_INDEXED⟩
  let t := t.set 0x39 ⟨.AND, OPCODE_ADDRESSING_MODE_ABSOLUTE_Y_INDEXED⟩
  let t := t.set 0x3D ⟨.AND, OPCODE_ADDRESSING_MODE_ABSOLUTE_X_INDEXED⟩
  let t := t.set 0x01 ⟨.ORA, OPCODE_ADDRESSING_MODE_INDIRECT_X_INDEXED⟩
  let t := t.set 0x05 ⟨.ORA, OPCODE_ADDRESSING_MODE_ZERO_PAGE⟩
  let t := t.set 0x09 ⟨.ORA, OPCODE_ADDRESSING_MODE_IMMEDIATE⟩
  let t := t.set 0x0D ⟨.ORA, OPCODE_ADDRESSING_MODE_ABSOLUTE⟩
  let t := t.set 0x11 ⟨.ORA, OPCODE_ADDRESSING_MODE_INDIRECT_Y_INDEXED⟩
  let t := t.set 0x15 ⟨.ORA, OPCODE_ADDRESSING_MODE_ZERO_PAGE_X_INDEXED⟩
  let t := t.set 0x19 ⟨.ORA, OPCODE_ADDRESSING_MODE_ABSOLUTE_Y_INDEXED⟩
  let t := t.set 0x1D ⟨.ORA, OPCODE_ADDRESSING_MODE_ABSOLUTE_X_INDEXED⟩
  let t := t.set 0x41 ⟨.EOR, OPCODE_ADDRESSING_MODE_INDIRECT_X_INDEXED⟩
  let t := t.set 0x45 ⟨.EOR, OPCODE_ADDRESSING_MODE_ZERO_PAGE⟩
  let t := t.set 0x49 ⟨.EOR, OPCODE_ADDRESSING_MODE_IMMEDIATE⟩
  let t := t.set 0x4D ⟨.EOR, OPCODE_ADDRESSING_MODE_ABSOLUTE⟩
  let t := t.set 0x51 ⟨.EOR, OPCODE_ADDRESSING_MODE_INDIRECT_Y_INDEXED⟩
  let t := t.set 0x55 ⟨.EOR, OPCODE_ADDRESSING_MODE_ZERO_PAGE_X_INDEXED⟩
  let t := t.set 0x59 ⟨.EOR, OPCODE_ADDRESSING_MODE_ABSOLUTE_Y_INDEXED⟩
  let t := t.set 0x5D ⟨.EOR, OPCODE_ADDRESSING_MODE_ABSOLUTE_X_INDEXED⟩
  let t := t.set 0x4C ⟨.JMP, OPCODE_ADDRESSING_MODE_ABSOLUTE⟩
  let t := t.set 0x6C ⟨.JMP, OPCODE_ADDRESSING_MODE_INDIRECT⟩
  let t := t.set 0x90 ⟨.BCC, OPCODE_ADDRESSING_MODE_RELATIVE⟩
  let t := t.set 0xB0 ⟨.BCS, OPCODE_ADDRESSING_MODE_RELATIVE⟩
  let t := t.set 0xF0 ⟨.BEQ, OPCODE_ADDRESSING_MODE_RELATIVE⟩
  let t := t.set 0xD0 ⟨.BNE, OPCODE_ADDRESSING_MODE_RELATIVE⟩
  let t := t.set 0x30 ⟨.BMI, OPCODE_ADDRESSING_MODE_RELATIVE⟩
  let t := t.set 0x10 ⟨.BPL, OPCODE_ADDRESSING_MODE_RELATIVE⟩
  let t := t.set 0x70 ⟨.BVS, OPCODE_ADDRESSING_MODE_RELATIVE⟩
  let t := t.set 0x50 ⟨.BVC, OPCODE_ADDRESSING_MODE_RELATIVE⟩
  let t := t.set 0xC9 ⟨.CMP, OPCODE_ADDRESSING_MODE_IMMEDIATE⟩
  let t := t.set 0xC5 ⟨.CMP, OPCODE_ADDRESSING_MODE_ZERO_PAGE⟩
  let t := t.set 0xD5 ⟨.CMP, OPCODE_ADDRESSING_MODE_ZERO_PAGE_X_INDEXED⟩
  let t := t.set 0xCD ⟨.CMP, OPCODE_ADDRESSING_MODE_ABSOLUTE⟩
  let t := t.set 0xDD ⟨.CMP, OPCODE_ADDRESSING_MODE_ABSOLUTE_X_INDEXED⟩
  let t := t.set 0xD9 ⟨.CMP, OPCODE_ADDRESSING_MODE_ABSOLUTE_Y_INDEXED⟩
  let t := t.set 0xC1 ⟨.CMP, OPCODE_ADDRESSING_MODE_INDIRECT_X_INDEXED⟩
  let t := t.set 0xD1 ⟨.CMP, OPCODE_ADDRESSING_MODE_INDIRECT_Y_INDEXED⟩
  let t := t.set 0xE0 ⟨.CPX, OPCODE_ADDRESSING_MODE_IMMEDIATE⟩
  let t := t.set 0xE4 ⟨.CPX, OPCODE_ADDRESSING_MODE_ZERO_PAGE⟩
  let t := t.set 0xEC ⟨.CPX, OPCODE_ADDRESSING_MODE_ABSOLUTE⟩
  let t := t.set 0xC0 ⟨.CPY, OPCODE_ADDRESSING_MODE_IMMEDIATE⟩
  let t := t.set 0xC4 ⟨.CPY, OPCODE_ADDRESSING_MODE_ZERO_PAGE⟩
  let t := t.set 0xCC ⟨.CPY, OPCODE_ADDRESSING_MODE_ABSOLUTE⟩
  let t := t.set 0x24 ⟨.BIT, OPCODE_ADDRESSING_MODE_ZERO_PAGE⟩
  let t := t.set 0x2C ⟨.BIT, OPCODE_ADDRESSING_MODE_ABSOLUTE⟩
  let t := t.set 0x0A ⟨.ASL, OPCODE_ADDRESSING_MODE_ACCUMULATOR⟩
  let t := t.set 0x06 ⟨.ASL, OPCODE_ADDRESSING_MODE_ZERO_PAGE⟩
  let t := t.set 0x16 ⟨.ASL, OPCODE_ADDRESSING_MODE_ZERO_PAGE_X_INDEXED⟩
  let t := t.set 0x0E ⟨.ASL, OPCODE_ADDRESSING_MODE_ABSOLUTE⟩
  let t := t.set 0x1E ⟨.ASL, OPCODE_ADDRESSING_MODE_ABSOLUTE_X_INDEXED⟩
  let t := t.set 0x4A ⟨.LSR, OPCODE_ADDRESSING_MODE_ACCUMULATOR⟩
  let t := t.set 0x46 ⟨.LSR, OPCODE_ADDRESSING_MODE_ZERO_PAGE⟩
  let t := t.set 0x56 ⟨.LSR, OPCODE_ADDRESSING_MODE_ZERO_PAGE_X_INDEXED⟩
  let t := t.set 0x4E ⟨.LSR, OPCODE_ADDRESSING_MODE_ABSOLUTE⟩
  let t := t.set 0x5E ⟨.LSR, OPCODE_ADDRESSING_MODE_ABSOLUTE_X_INDEXED⟩
  let t := t.set 0x2A ⟨.ROL, OPCODE_ADDRESSING_MODE_ACCUMULATOR⟩
  let t := t.set 0x26 ⟨.ROL, OPCODE_ADDRESSING_MODE_ZERO_PAGE⟩
  let t := t.set 0x36 ⟨.ROL, OPCODE_ADDRESSING_MODE_ZERO_PAGE_X_INDEXED⟩
  let t := t.set 0x2E ⟨.ROL, OPCODE_ADDRESSING_MODE_ABSOLUTE⟩
  let t := t.set 0x3E ⟨.ROL, OPCODE_ADDRESSING_MODE_ABSOLUTE_X_INDEXED⟩
  let t := t.set 0x6A ⟨.ROR, OPCODE_ADDRESSING_MODE_ACCUMULATOR⟩
  let t := t.set 0x66 ⟨.ROR, OPCODE_ADDRESSING_MODE_ZERO_PAGE⟩
  let t := t.set 0x76 ⟨.ROR, OPCODE_ADDRESSING_MODE_ZERO_PAGE_X_INDEXED⟩
  let t := t.set 0x6E ⟨.ROR, OPCODE_ADDRESSING_MODE_ABSOLUTE⟩
  let t := t.set 0x7E ⟨.ROR, OPCODE_ADDRESSING_MODE_ABSOLUTE_X_INDEXED⟩
  let t := t.set 0xAA ⟨.TAX, OPCODE_ADDRESSING_MODE_IMPLIED⟩
  let t := t.set 0xA8 ⟨.TAY, OPCODE_ADDRESSING_MODE_IMPLIED⟩
  let t := t.set 0x8A ⟨.TXA, OPCODE_ADDRESSING_MODE_IMPLIED⟩
  let t := t.set 0x98 ⟨.TYA, OPCODE_ADDRESSING_MODE_IMPLIED⟩
  let t := t.set 0xBA ⟨.TSX, OPCODE_ADDRESSING_MODE_IMPLIED⟩
  let t := t.set 0x9A ⟨.TXS, OPCODE_ADDRESSING_MODE_IMPLIED⟩
  let t := t.set 0x48 ⟨.PHA, OPCODE_ADDRESSING_MODE_IMPLIED⟩
  let t := t.set 0x08 ⟨.PHP, OPCODE_ADDRESSING_MODE_IMPLIED⟩
  let t := t.set 0x68 ⟨.PLA, OPCODE_ADDRESSING_MODE_IMPLIED⟩
  let t := t.set 0x28 ⟨.PLP, OPCODE_ADDRESSING_MODE_IMPLIED⟩
  let t := t.set 0x20 ⟨.JSR, OPCODE_ADDRESSING_MODE_ABSOLUTE⟩
  let t := t.set 0x60 ⟨.RTS, OPCODE_ADDRESSING_MODE_IMPLIED⟩
  let t := t.set 0x40 ⟨.RTI, OPCODE_ADDRESSING_MODE_IMPLIED⟩
  let t := t.set 0x18 ⟨.CLC, OPCODE_ADDRESSING_MODE_IMPLIED⟩
  let t := t.set 0xD8 ⟨.CLD, OPCODE_ADDRESSING_MODE_IMPLIED⟩
  let t := t.set 0x58 ⟨.CLI, OPCODE_ADDRESSING_MODE_IMPLIED⟩
  let t := t.set 0xB8 ⟨.CLV, OPCODE_ADDRESSING_MODE_IMPLIED⟩
  let t := t.set 0x38 ⟨.SEC, OPCODE_ADDRESSING_MODE_IMPLIED⟩
  let t := t.set 0xF8 ⟨.SED, OPCODE_ADDRESSING_MODE_IMPLIED⟩
  let t := t.set 0x78 ⟨.SEI, OPCODE_ADDRESSING_MODE_IMPLIED⟩
  let t := t.set 0xEA ⟨.NOP, OPCODE_ADDRESSING_MODE_IMPLIED⟩
  let t := t.set 0x02 ⟨.NOP, OPCODE_ADDRESSING_MODE_IMPLIED⟩
  let t := t.set 0x77 ⟨.NOP, OPCODE_ADDRESSING_MODE_IMPLIED⟩
  let t := t.set 0x9C ⟨.NOP, OPCODE_ADDRESSING_MODE_IMPLIED⟩
  let t := t.set 0x04 ⟨.TSB, OPCODE_ADDRESSING_MODE_ZERO_PAGE⟩
  t

/-- The array `ISA_table`. -/
def ISA_table : List instruction_t := opcode_populate_ISA_table

/-- The access `ISA_table[opcode]`. -/
def ISA_table_get (opcode : Nat) : Except Fault instruction_t :=
  match ISA_table.get? opcode with
  | some e => .ok e
  | none => .error ⟨.ISA_table, opcode⟩

/-- A function that does not change the machine, run inside `Emu`. -/
def lift_except {α : Type} (x : Except Fault α) : Emu α := fun s =>
  match x with
  | .ok a => .ok (a, s)
  | .error e => .error e

/-- The call through the function pointer `ISA_table[opcode].opcode`. -/
def opcode_call (fn : opcode_fn) (cycle : Nat) (address_mode : addressing_mode_t) : Emu Int :=
  match fn with
  | .ILL => opcode_ILL cycle address_mode
  | .ADC => opcode_ADC cycle address_mode
  | .AND => opcode_AND cycle address_mode
  | .ASL => opcode_ASL cycle address_mode
  | .BCC => opcode_BCC cycle address_mode
  | .BCS => opcode_BCS cycle address_mode
  | .BEQ => opcode_BEQ cycle address_mode
  | .BIT => opcode_BIT cycle address_mode
  | .BMI => opcode_BMI cycle address_mode
  | .BNE => opcode_BNE cycle address_mode
  | .BPL => opcode_BPL cycle address_mode
  | .BRK => opcode_BRK cycle address_mode
  | .BVC => opcode_BVC cycle address_mode
  | .BVS => opcode_BVS cycle address_mode
  | .CLC => opcode_CLC cycle address_mode
  | .CLD => opcode_CLD cycle address_mode
  | .CLI => opcode_CLI cycle address_mode
  | .CLV => opcode_CLV cycle address_mode
  | .CMP => opcode_CMP cycle address_mode
  | .CPX => opcode_CPX cycle address_mode
  | .CPY => opcode_CPY cycle address_mode
  | .DEC => opcode_DEC cycle address_mode
  | .DEX => opcode_DEX cycle address_mode
  | .DEY => opcode_DEY cycle address_mode
  | .EOR => opcode_EOR cycle address_mode
  | .INC => opcode_INC cycle address_mode
  | .INX => opcode_INX cycle address_mode
  | .INY => opcode_INY cycle address_mode
  | .JMP => opcode_JMP cycle address_mode
  | .JSR => opcode_JSR cycle address_mode
  | .LDA => opcode_LDA cycle address_mode
  | .LDX => opcode_LDX cycle address_mode
  | .LDY => opcode_LDY cycle address_mode
  | .LSR => opcode_LSR cycle address_mode
  | .NOP => opcode_NOP cycle address_mode
  | .ORA => opcode_ORA cycle address_mode
  | .TSB => opcode_TSB cycle address_mode
  | .PHA => opcode_PHA cycle address_mode
  | .PHP => opcode_PHP cycle address_mode
  | .PLA => opcode_PLA cycle address_mode
  | .PLP => opcode_PLP cycle address_mode
  | .ROL => opcode_ROL cycle address_mode
  | .ROR => opcode_ROR cycle address_mode
  | .RTI => opcode_RTI cycle address_mode
  | .RTS => opcode_RTS cycle address_mode
  | .SBC => opcode_SBC cycle address_mode
  | .SEC => opcode_SEC cycle address_mode
  | .SED => opcode_SED cycle address_mode
  | .SEI => opcode_SEI cycle address_mode
  | .STA => opcode_STA cycle address_mode
  | .STX => opcode_STX cycle address_mode
  | .STY => opcode_STY cycle address_mode
  | .TAX => opcode_TAX cycle address_mode
  | .TAY => opcode_TAY cycle address_mode
  | .TSX => opcode_TSX cycle address_mode
  | .TXA => opcode_TXA cycle address_mode
  | .TXS => opcode_TXS cycle address_mode
  | .TYA => opcode_TYA cycle address_mode

/-- The `static int cycle` is the field `cycle` of the machine. -/
def opcode_execute (opcode : Nat) : Emu Nat := do
  let cycle := (← get).cycle
  let entry ← lift_except (ISA_table_get opcode)
  if -1 = (← opcode_call entry.opcode cycle entry.addressing_mode) then
    modify fun s => { s with cycle := s.cycle + 1 }
  else
    modify fun s => { s with cycle := 0 }
  pure (← get).cycle

def opcode_validate (opcode : Nat) : Except Fault Int := do
  let entry ← ISA_table_get opcode
  if entry.opcode = .ILL then pure (-1) else pure 0

/-! ## mos6507.c: the clock tick -/

def mos6507_clock_tick : Emu Int := do
  if (← get).cpu.current_instruction = 0 then
    let v ← memmap_read (← get).cpu.current_instruction
    on_cpu fun cpu => { cpu with current_instruction := v }
  if (← lift_except (opcode_validate (← get).cpu.current_instruction)) ≠ 0 then
    pure (-1)
  else
    let c ← opcode_execute (← get).cpu.current_instruction
    on_cpu fun cpu => { cpu with current_clock := c % 256 }
    if (← get).cpu.current_clock = 0 then
      on_cpu fun cpu => { cpu with current_instruction := 0 }
    pure 0

/-! ## main.c: start-up -/

/-- The module-scope data as the C loader leaves it: everything zero, except
the two initialised bytes `joy1_state = 0xFF` and `switches_state = 0b00001011`;
the pointer `cartridge` is null. -/
def power_on : Atari where
  cpu := { A := 0, Y := 0, X := 0, PC := 0, S := 0, P := 0, current_instruction := 0,
           current_clock := 0, address_bus := 0, data_bus := 0 }
  riot := { memory := fun _ => 0,
            timer := { counter := 0, interval_timer := 0, fired := 0, timer_set := 0 },
            joy1_state := 0xFF, switches_state := 0b00001011 }
  tia := { write_regs := fun _ => 0, read_regs := fun _ => 0, colour_clock := 0,
           ball := { scanline_reset := 0, enabled := 0, position_clock := 0, width := 0,
                     horizontal_offset := 0, vertical_delay := 0, line_buffer := fun _ => 0 },
           missiles := fun _ => { scanline_reset := 0, enabled := 0, position_clock := 0,
                                  width := 0, horizontal_offset := 0, line_buffer := fun _ => 0 },
           players := fun _ => { scanline_reset := 0, position_clock := 0, horizontal_offset := 0,
                                 vertical_delay := 0, pattern := 0, line_buffer := fun _ => 0 },
           playfield := { mirror_enable := 0, score_enabled := 0, line_buffer := fun _ => 0 },
           tia_raw_buffer := fun _ => 0, tia_rgb_color_map := fun _ => 0 }
  cartridge := none
  cycle := 0
  statics := fun _ _ => 0

/-- The set-up `main` performs before `main_loop`: `mos6532_init(); TIA_init();
cartridge_load(CARTRIDGE); mos6507_reset();` (the table set-up
`opcode_populate_ISA_table()` is the constant `ISA_table`). -/
def main_setup (CARTRIDGE : Nat → Nat) (pch0 : Nat) : Emu Unit := do
  modify fun s => { s with riot := mos6532_init s.riot }
  modify fun s => { s with tia := TIA_init s.tia }
  modify fun s => { s with cartridge := cartridge_load CARTRIDGE s.cartridge }
  mos6507_reset pch0

/-- Call `mos6507_clock_tick` `n` times in a row, whatever it returns; the
result lists the return values, first call first. -/
def clock_ticks : Nat → Emu (List Int)
  | 0 => pure []
  | n + 1 => do
    let r ← mos6507_clock_tick
    let rs ← clock_ticks n
    pure (r :: rs)

/-! ## main.c: the loop of `main_loop` -/

/-- One iteration of the inner `for` loop of `main_loop`:
`clock_count = TIA_clock_tick(); if (!TIA_get_WSYNC() && !((clock_count + 1) % 3))
{ mos6532_clock_tick(); if (mos6507_clock_tick()) return; }`.  The result
is `none` when the CPU was not stepped, and `some r` when it was, `r` being
the value `mos6507_clock_tick` returned (`main_loop` returns when it is not 0). -/
def main_loop_step : Emu (Option Int) := do
  let (clock_count, tia) ← lift_except (TIA_clock_tick (← get).tia)
  modify fun s => { s with tia := tia }
  if TIA_get_WSYNC (← get).tia = 0 ∧ c_rem (clock_count + 1) 3 = 0 then
    modify fun s => { s with riot := mos6532_clock_tick s.riot }
    let r ← mos6507_clock_tick
    pure (some r)
  else
    pure none

/-- The inner `for` loop of `main_loop` with `n` iterations left; the result
lists what the iterations made returned (see `main_loop_step`), first iteration
first.  The loop stops after an iteration in which `mos6507_clock_tick`
returned a non-zero value. -/
def main_loop_for : Nat → Emu (List (Option Int))
  | 0 => pure []
  | n + 1 => do
    let r ← main_loop_step
    if r.any (· ≠ 0) then pure [r]
    else do
      let rs ← main_loop_for n
      pure (r :: rs)

/-! ## Vocabulary of the statements -/

/-- Sequencing of a result with a continuation: what `>>=` of `Emu` does with
the result of its first action. -/
def emu_then {α β : Type} (r : Except Fault (α × Atari))
    (f : α → Atari → Except Fault (β × Atari)) : Except Fault (β × Atari) :=
  match r with
  | .ok (a, s) => f a s
  | .error e => .error e

/-- The reset vector of a cartridge image: high byte at offset 0xFFD, low byte
at offset 0xFFC (CPU addresses 0xFFFD and 0xFFFC). -/
def reset_vector (image : Nat → Nat) : Nat :=
  ((image 0xFFD % 256) <<< 8) ||| (image 0xFFC % 256)

/-- The 151 opcodes of the standard 6502 instruction set, instruction by
instruction (the list the programming manual defines; written from the
instruction set, not from the emulator). -/
def standard_6502_opcodes : List Nat :=
  [ 0x69, 0x65, 0x75, 0x6D, 0x7D, 0x79, 0x61, 0x71,   -- ADC
    0x29, 0x25, 0x35, 0x2D, 0x3D, 0x39, 0x21, 0x31,   -- AND
    0x0A, 0x06, 0x16, 0x0E, 0x1E,                     -- ASL
    0x90, 0xB0, 0xF0,                                 -- BCC BCS BEQ
    0x24, 0x2C,                                       -- BIT
    0x30, 0xD0, 0x10,                                 -- BMI BNE BPL
    0x00,                                             -- BRK
    0x50, 0x70,                                       -- BVC BVS
    0x18, 0xD8, 0x58, 0xB8,                           -- CLC CLD CLI CLV
    0xC9, 0xC5, 0xD5, 0xCD, 0xDD, 0xD9, 0xC1, 0xD1,   -- CMP
    0xE0, 0xE4, 0xEC,                                 -- CPX
    0xC0, 0xC4, 0xCC,                                 -- CPY
    0xC6, 0xD6, 0xCE, 0xDE,                           -- DEC
    0xCA, 0x88,                                       -- DEX DEY
    0x49, 0x45, 0x55, 0x4D, 0x5D, 0x59, 0x41, 0x51,   -- EOR
    0xE6, 0xF6, 0xEE, 0xFE,                           -- INC
    0xE8, 0xC8,                                       -- INX INY
    0x4C, 0x6C,                                       -- JMP
    0x20,                                             -- JSR
    0xA9, 0xA5, 0xB5, 0xAD, 0xBD, 0xB9, 0xA1, 0xB1,   -- LDA
    0xA2, 0xA6, 0xB6, 0xAE, 0xBE,                     -- LDX
    0xA0, 0xA4, 0xB4, 0xAC, 0xBC,                     -- LDY
    0x4A, 0x46, 0x56, 0x4E, 0x5E,                     -- LSR
    0xEA,                                             -- NOP
    0x09, 0x05, 0x15, 0x0D, 0x1D, 0x19, 0x01, 0x11,   -- ORA
    0x48, 0x08, 0x68, 0x28,                           -- PHA PHP PLA PLP
    0x2A, 0x26, 0x36, 0x2E, 0x3E,                     -- ROL
    0x6A, 0x66, 0x76, 0x6E, 0x7E,                     -- ROR
    0x40, 0x60,                                       -- RTI RTS
    0xE9, 0xE5, 0xF5, 0xED, 0xFD, 0xF9, 0xE1, 0xF1,   -- SBC
    0x38, 0xF8, 0x78,                                 -- SEC SED SEI
    0x85, 0x95, 0x8D, 0x9D, 0x99, 0x81, 0x91,         -- STA
    0x86, 0x96, 0x8E,                                 -- STX
    0x84, 0x94, 0x8C,                                 -- STY
    0xAA, 0xA8, 0xBA, 0x8A, 0x9A, 0x98 ]              -- TAX TAY TSX TXA TXS TYA

/-- The four further bytes `opcode_populate_ISA_table` gives an entry: three
extra NOPs and TSB. -/
def extra_opcodes : List Nat := [0x02, 0x77, 0x9C, 0x04]

/-- A cartridge image with reset vector 0x1234 (bytes 0x34, 0x12 at offsets
0xFFC, 0xFFD) and the bytes `program` from offset 0x234 on (CPU address
0x1234); every other byte is 0. -/
def program_image (program : List Nat) : Nat → Nat := fun k =>
  if k = 0xFFC then 0x34 else if k = 0xFFD then 0x12
  else if 0x234 ≤ k then program.getD (k - 0x234) 0 else 0

/-- The machine after the set-up of `main` with cartridge `image`, followed by
`n` calls of `mos6507_clock_tick`: their return values and the final state. -/
def run (image : Nat → Nat) (n : Nat) : Except Fault (List Int × Atari) :=
  emu_then (main_setup image 0 power_on) (fun _ s => clock_ticks n s)

/-- A status-flag mask: a single bit of the 8-bit status register. -/
class IsFlag (f : Nat) : Prop where
  bit : ∃ i, i < 8 ∧ f = 2 ^ i

instance : IsFlag 0x80 := ⟨7, by decide, by decide⟩
instance : IsFlag 0x40 := ⟨6, by decide, by decide⟩
instance : IsFlag 0x10 := ⟨4, by decide, by decide⟩
instance : IsFlag 0x08 := ⟨3, by decide, by decide⟩
instance : IsFlag 0x04 := ⟨2, by decide, by decide⟩
instance : IsFlag 0x02 := ⟨1, by decide, by decide⟩
instance : IsFlag 0x01 := ⟨0, by decide, by decide⟩

/-- The two's-complement reading of a byte. -/
def signed8 (x : Nat) : Int := if x ≥ 128 then (x : Int) - 256 else (x : Int)

/-- A CPU whose accumulator is `a` and whose status byte is `p`. -/
def cpu_with (a p : Nat) : mos6507 :=
  { A := a, Y := 0, X := 0, PC := 0, S := 0xFD, P := p, current_instruction := 0,
    current_clock := 0, address_bus := 0, data_bus := 0 }

/-- ADC of `b` with carry clear, then carry set, then SBC of `b`. -/
def adc_then_sbc (b : Nat) (cpu : mos6507) : mos6507 :=
  mos6507_SBC b (mos6507_set_status_flag MOS6507_STATUS_FLAG_CARRY 1
    (mos6507_ADC b (mos6507_set_status_flag MOS6507_STATUS_FLAG_CARRY 0 cpu)))

/-- N equals bit 7 of the accumulator and Z is set iff the accumulator is 0. -/
def NZ_follow_A (cpu : mos6507) : Prop :=
  mos6507_get_status_flag MOS6507_STATUS_FLAG_NEGATIVE cpu = cpu.A / 128 % 2 ∧
  (mos6507_get_status_flag MOS6507_STATUS_FLAG_ZERO cpu = 1 ↔ cpu.A = 0)

instance (cpu : mos6507) : Decidable (NZ_follow_A cpu) := by
  unfold NZ_follow_A; infer_instance

/-- The machine at power-on with the cartridge `image` loaded, before reset. -/
def inserted (image : Nat → Nat) : Atari :=
  { power_on with cartridge := cartridge_load image power_on.cartridge }

/-- The state the set-up of `main` leaves for a cartridge `image` whose reset
vector is 0x1234: registers as `mos6507_reset` sets them, RIOT and TIA
initialised, nothing in flight. -/
def booted (image : Nat → Nat) : Atari :=
  ⟨⟨0, 0, 0, 0x1234, 0xFD, 4, 0, 0, 0x1234, 0x12⟩, mos6532_init power_on.riot,
    TIA_init power_on.tia, some image, 0, fun _ _ => 0⟩

/-- The byte with its bit order reversed: bit `7 - i` of the result is bit `i`
of `b`, for `i` in 0..7. -/
def reverse_bits (b : Nat) : Nat :=
  (List.range 8).foldl (fun acc i => acc ||| (if b.testBit i then 2 ^ (7 - i) else 0)) 0

/-- The 20-bit playfield pattern of the specification. -/
def playfield_pattern (pf0 pf1 pf2 : Nat) : Nat :=
  (pf0 >>> 4) ||| (reverse_bits pf1 <<< 4) ||| (pf2 <<< 12)


/-- A TIA whose playfield registers hold `pf0`, `pf1`, `pf2` and whose CTRLPF
holds `ctrlpf`; everything else as at power-on. -/
def tia_with_playfield (pf0 pf1 pf2 ctrlpf : Nat) : atari_tia :=
  { power_on.tia with write_regs := fun r =>
      if r = TIA_WRITE_REG_PF0 then pf0 else if r = TIA_WRITE_REG_PF1 then pf1
      else if r = TIA_WRITE_REG_PF2 then pf2
      else if r = TIA_WRITE_REG_CTRLPF then ctrlpf else 0 }

/-- The sample of a line mask at visible pixel `x`, as the `TIA_test_*_bit`
functions return it. -/
def line_sample (line_buffer : Nat → Nat) (x : Nat) : Nat := if line_buffer x ≠ 0 then 1 else 0

/-- The colour register the priority rule of the specification selects, from
the priority bit (CTRLPF bit 2) and the six object samples. -/
def priority_register (pfp : Bool) (P0 P1 M0 M1 BL PF : Nat) : Nat :=
  if pfp then
    if PF ≠ 0 ∨ BL ≠ 0 then TIA_WRITE_REG_COLUPF
    else if P0 ≠ 0 ∨ M0 ≠ 0 then TIA_WRITE_REG_COLUP0
    else if P1 ≠ 0 ∨ M1 ≠ 0 then TIA_WRITE_REG_COLUP1
    else TIA_WRITE_REG_COLUBK
  else
    if P0 ≠ 0 ∨ M0 ≠ 0 then TIA_WRITE_REG_COLUP0
    else if P1 ≠ 0 ∨ M1 ≠ 0 then TIA_WRITE_REG_COLUP1
    else if PF ≠ 0 ∨ BL ≠ 0 then TIA_WRITE_REG_COLUPF
    else TIA_WRITE_REG_COLUBK


/-- A TIA after `TIA_init`, at colour clock 100 (visible pixel 32), with
colour registers COLUP0 = 0x42, COLUP1 = 0x84, COLUPF = 0xC6, COLUBK = 0x0E and
CTRLPF = `ctrlpf`; the line masks of player 0 and of the playfield are set at
every pixel, the other masks are clear. -/
def tia_pixel_example (ctrlpf : Nat) : atari_tia :=
  { TIA_init power_on.tia with
    colour_clock := 100
    write_regs := fun r =>
      if r = TIA_WRITE_REG_COLUP0 then 0x42 else if r = TIA_WRITE_REG_COLUP1 then 0x84
      else if r = TIA_WRITE_REG_COLUPF then 0xC6 else if r = TIA_WRITE_REG_COLUBK then 0x0E
      else if r = TIA_WRITE_REG_CTRLPF then ctrlpf else 0
    players := fun i =>
      { (TIA_init power_on.tia).players i with line_buffer := fun _ => if i = 0 then 1 else 0 }
    playfield := { (TIA_init power_on.tia).playfield with line_buffer := fun _ => 1 } }

/-- The return values of the first `n` calls of `mos6507_clock_tick` after the
set-up of `main` with cartridge `image`, and the CPU registers they leave. -/
def cpu_after (image : Nat → Nat) (n : Nat) : Except Fault (List Int × mos6507) :=
  Except.map (fun r => (r.1, r.2.cpu)) (run image n)

/-- The byte at offset `k` of the RIOT RAM after the set-up of `main` with
cartridge `image` and `n` calls of `mos6507_clock_tick`. -/
def ram_after (image : Nat → Nat) (n k : Nat) : Except Fault Nat :=
  Except.map (fun r => r.2.riot.memory k) (run image n)

/-- The target of a relative branch as the 6502 defines it: the address of
the next instruction plus the offset byte read as a two's-complement number,
modulo 65536. -/
def branch_target (next offset : Nat) : Nat := u16 ((next : Int) + signed8 offset)

/-- Call `mos6507_clock_tick` until a call leaves `current_clock = 0`, that is
until the instruction in flight is complete, at most `fuel` times.  The result
is the number of calls made; it is `none` if a call returned non-zero or the
fuel ran out. -/
def run_instruction : Nat → Emu (Option Nat)
  | 0 => pure none
  | fuel + 1 => do
    let r ← mos6507_clock_tick
    if r ≠ 0 then pure none
    else if (← get).cpu.current_clock = 0 then pure (some 1)
    else do
      let n ← run_instruction fuel
      pure (n.map (· + 1))

/-- The byte at address `ea` is `v`: whatever the registers hold, a
`memmap_read` with the address bus at `ea` returns `v` and changes nothing but
the data bus, which takes `v`.  It holds for cartridge and RIOT RAM addresses
(`reads_as_cart`, `reads_as_ram`). -/
def reads_as (riot : mos6532) (tia : atari_tia) (cart : cartridge_t) (ea v : Nat) : Prop :=
  ∀ (d a y x pc sp p ci cc db cyc : Nat) (st : opcode_fn → static_var → Nat),
    memmap_read d ⟨⟨a, y, x, pc, sp, p, ci, cc, ea, db⟩, riot, tia, cart, cyc, st⟩ =
      .ok (v, ⟨⟨a, y, x, pc, sp, p, ci, cc, ea, v % 256⟩, riot, tia, cart, cyc, st⟩)

/-- The state the set-up of `main` leaves (see `booted`), with the index
registers set to `x` and `y`. -/
def booted_xy (image : Nat → Nat) (x y : Nat) : Atari :=
  ⟨⟨0, y, x, 0x1234, 0xFD, 4, 0, 0, 0x1234, 0x12⟩, mos6532_init power_on.riot,
    TIA_init power_on.tia, some image, 0, fun _ _ => 0⟩

/-- The address `CALC_BRANCH` computes for a taken branch: the target the
offset designates, except for the offset byte 0x80, for which it is the
address of the next instruction. -/
def computed_target (next offset : Nat) : Nat :=
  if offset = 0x80 then next else branch_target next offset

/-- The condition of a branch opcode on the status byte `p`: BPL (0x10) N
clear, BMI (0x30) N set, BVC (0x50) V clear, BVS (0x70) V set, BCC (0x90) C
clear, BCS (0xB0) C set, BNE (0xD0) Z clear, BEQ (0xF0) Z set. -/
def branch_taken (op p : Nat) : Bool :=
  if op = 0x10 then !p.testBit 7 else if op = 0x30 then p.testBit 7
  else if op = 0x50 then !p.testBit 6 else if op = 0x70 then p.testBit 6
  else if op = 0x90 then !p.testBit 0 else if op = 0xB0 then p.testBit 0
  else if op = 0xD0 then !p.testBit 1 else if op = 0xF0 then p.testBit 1
  else false

/-- The value a branch function assigns to its `static` local `condition` at
the start of every call. -/
def branch_condition (fn : opcode_fn) (cpu : mos6507) : Nat :=
  match fn with
  | .BCC => lnot (mos6507_get_status_flag MOS6507_STATUS_FLAG_CARRY cpu)
  | .BCS => mos6507_get_status_flag MOS6507_STATUS_FLAG_CARRY cpu
  | .BEQ => mos6507_get_status_flag MOS6507_STATUS_FLAG_ZERO cpu
  | .BMI => mos6507_get_status_flag MOS6507_STATUS_FLAG_NEGATIVE cpu
  | .BNE => lnot (mos6507_get_status_flag MOS6507_STATUS_FLAG_ZERO cpu)
  | .BPL => lnot (mos6507_get_status_flag MOS6507_STATUS_FLAG_NEGATIVE cpu)
  | .BVC => lnot (mos6507_get_status_flag MOS6507_STATUS_FLAG_OVERFLOW cpu)
  | .BVS => mos6507_get_status_flag MOS6507_STATUS_FLAG_OVERFLOW cpu
  | _ => 0

/-- The line mask `TIA_update_player_buffer` leaves for a player at `position`,
in closed form: slot `j` lies in section `(j - position) / 8` after the
position, section `s` is drawn when bit `10 - s` of the size mask is set, and
a drawn slot holds bit `(j - position) % 8` of the pattern; `old` is the
buffer before the call. -/
def player_line_mask (pattern size_mask position : Nat) (old : Nat → Nat) (j : Nat) : Nat :=
  if position ≤ j ∧ j < 160 ∧ (j - position) / 8 ≤ 10 ∧
      size_mask &&& (1 <<< (10 - (j - position) / 8)) ≠ 0 then
    (if pattern &&& (1 <<< ((j - position) % 8)) ≠ 0 then 1 else 0)
  else if j < 160 then 0 else old j

/-- The line mask `TIA_update_missile_buffer` and `TIA_update_ball_buffer`
leave for an enabled object: slots `position .. position + width - 1` set. -/
def fill_line_mask (position width : Nat) (old : Nat → Nat) (j : Nat) : Nat :=
  if position ≤ j ∧ j < position + width then 1 else if j < 160 then 0 else old j

/-- The registers of player `x`, as `TIA_get_player_registers` selects them. -/
def reg_REFP (x : Nat) : Nat := (TIA_get_player_registers x).1

def reg_GRP (x : Nat) : Nat := (TIA_get_player_registers x).2.1

def reg_NUSIZ (x : Nat) : Nat := (TIA_get_player_registers x).2.2.2.2

/-- The enable register of missile `x`, as `TIA_get_missile_registers` selects
it (the size register of missile `x` is `reg_NUSIZ x`). -/
def reg_ENAM (x : Nat) : Nat := (TIA_get_missile_registers x).1

/-- A TIA after `TIA_init` in which player 0 has graphics byte `g` (GRP0) and
reflect register `refp` (REFP0), NUSIZ0 = 0 and position 0. -/
def tia_player_example (g refp : Nat) : atari_tia :=
  { TIA_init power_on.tia with
    write_regs := fun r =>
      if r = TIA_WRITE_REG_GRP0 then g else if r = TIA_WRITE_REG_REFP0 then refp else 0 }

/-- The RESMP register of missile `x`. -/
def reg_RESMP (x : Nat) : Nat := if x ≠ 0 then TIA_WRITE_REG_RESMP1 else TIA_WRITE_REG_RESMP0

/-- The RESM register of missile `x`. -/
def reg_RESM (x : Nat) : Nat := if x ≠ 0 then TIA_WRITE_REG_RESM1 else TIA_WRITE_REG_RESM0

/-- The RESP register of player `x`. -/
def reg_RESP (x : Nat) : Nat := if x ≠ 0 then TIA_WRITE_REG_RESP1 else TIA_WRITE_REG_RESP0

/-- A TIA after `TIA_init` with missile 0 and the ball enabled
(ENAM0 = ENABL = 2), NUSIZ0 = `nusiz`, CTRLPF = `ctrlpf`, and missile 0 and the
ball at `position`. -/
def tia_missile_example (nusiz ctrlpf position : Nat) : atari_tia :=
  { TIA_init power_on.tia with
    write_regs := fun r =>
      if r = TIA_WRITE_REG_ENAM0 then 2 else if r = TIA_WRITE_REG_ENABL then 2
      else if r = TIA_WRITE_REG_NUSIZ0 then nusiz
      else if r = TIA_WRITE_REG_CTRLPF then ctrlpf else 0
    missiles := fun i => { (TIA_init power_on.tia).missiles i with position_clock := position }
    ball := { (TIA_init power_on.tia).ball with position_clock := position } }

/-- All five movable objects are at position `p` with horizontal offset `h`. -/
def objects_at (tia : atari_tia) (p : Nat) (h : Int) : Prop :=
  (tia.players 0).position_clock = p ∧ (tia.players 0).horizontal_offset = h ∧
  (tia.players 1).position_clock = p ∧ (tia.players 1).horizontal_offset = h ∧
  (tia.missiles 0).position_clock = p ∧ (tia.missiles 0).horizontal_offset = h ∧
  (tia.missiles 1).position_clock = p ∧ (tia.missiles 1).horizontal_offset = h ∧
  tia.ball.position_clock = p ∧ tia.ball.horizontal_offset = h

instance (tia : atari_tia) (p : Nat) (h : Int) : Decidable (objects_at tia p h) := by
  unfold objects_at; infer_instance

/-- A TIA after `TIA_init`, at colour clock `c`, with the five movable objects
at position `p` and with horizontal offset `h`. -/
def tia_objects_example (c p : Nat) (h : Int) : atari_tia :=
  { TIA_init power_on.tia with
    colour_clock := c
    players := fun i =>
      { (TIA_init power_on.tia).players i with position_clock := p, horizontal_offset := h }
    missiles := fun i =>
      { (TIA_init power_on.tia).missiles i with position_clock := p, horizontal_offset := h }
    ball := { (TIA_init power_on.tia).ball with position_clock := p, horizontal_offset := h } }

/-- A TIA after `TIA_init` with player 0 at position 40 and missile 0 at
position 10 (missile 0 is disabled: ENAM0 = 0). -/
def tia_resmp_example : atari_tia :=
  { TIA_init power_on.tia with
    players := fun i => { (TIA_init power_on.tia).players i with position_clock := 40 }
    missiles := fun i => { (TIA_init power_on.tia).missiles i with position_clock := 10 } }

/-- The byte `TIA_generate_colour` assigns to collision register `k`
(CXM0P = 0 .. CXPPMM = 7) from the six samples of the pixel. -/
def collision_latch (k M0 M1 P0 P1 BL PF : Nat) : Nat :=
  if k = TIA_READ_REG_CXM0P then ((P0 &&& P1) <<< 7) ||| ((M0 &&& M0) <<< 6)
  else if k = TIA_READ_REG_CXM1P then ((M1 &&& P0) <<< 7) ||| ((M1 &&& P1) <<< 6)
  else if k = TIA_READ_REG_CXP0FB then ((P0 &&& PF) <<< 7) ||| ((P0 &&& BL) <<< 6)
  else if k = TIA_READ_REG_CXP1FB then ((P1 &&& PF) <<< 7) ||| ((P1 &&& BL) <<< 6)
  else if k = TIA_READ_REG_CXM0FB then ((M0 &&& PF) <<< 7) ||| ((M0 &&& BL) <<< 6)
  else if k = TIA_READ_REG_CXM1FB then ((M1 &&& PF) <<< 7) ||| ((M1 &&& BL) <<< 6)
  else if k = TIA_READ_REG_CXBLPF then (BL &&& PF) <<< 7
  else ((P0 &&& P1) <<< 7) ||| ((M0 &&& M1) <<< 6)

/-- The colour register selected in score mode at a pixel with the playfield
sample set, from the priority bit (CTRLPF bit 2), the player and missile
samples and the pixel `x`. -/
def score_register (pfp : Bool) (P0 P1 M0 M1 x : Nat) : Nat :=
  if ¬ pfp ∧ (P0 ≠ 0 ∨ M0 ≠ 0) then TIA_WRITE_REG_COLUP0
  else if ¬ pfp ∧ (P1 ≠ 0 ∨ M1 ≠ 0) then TIA_WRITE_REG_COLUP1
  else if x < 80 then TIA_WRITE_REG_COLUP0 else TIA_WRITE_REG_COLUP1

/-- Every movable object lies on the line: the players have a position in
[0, 160], an enabled missile or ball has `position + width ≤ 160`. -/
def objects_fit (tia : atari_tia) : Prop :=
  (0 ≤ (tia.players 0).position_clock ∧ (tia.players 0).position_clock ≤ 160) ∧
  (0 ≤ (tia.players 1).position_clock ∧ (tia.players 1).position_clock ≤ 160) ∧
  (tia.write_regs (reg_ENAM 0) = 0 ∨ (tia.missiles 0).position_clock +
    (1 <<< (tia.write_regs (reg_NUSIZ 0) >>> 4)) % 256 ≤ 160) ∧
  (tia.write_regs (reg_ENAM 1) = 0 ∨ (tia.missiles 1).position_clock +
    (1 <<< (tia.write_regs (reg_NUSIZ 1) >>> 4)) % 256 ≤ 160) ∧
  (tia.write_regs TIA_WRITE_REG_ENABL = 0 ∨ tia.ball.position_clock +
    (1 <<< (tia.write_regs TIA_WRITE_REG_CTRLPF >>> 4)) % 256 ≤ 160)

instance (tia : atari_tia) : Decidable (objects_fit tia) := by
  unfold objects_fit; infer_instance

/-- The state of `tia_pixel_example` at colour clock `c`, with the output line
filled with the value 7 and the eight collision registers holding 0xC0. -/
def tia_line_example (ctrlpf c : Nat) : atari_tia :=
  { tia_pixel_example ctrlpf with
    colour_clock := c
    tia_raw_buffer := fun _ => 7
    read_regs := fun k => if k < 8 then 0xC0 else 0x80 }

/-- A TIA after `TIA_init` at colour clock `c`, with all line masks clear and
the eight collision registers holding 0xC0. -/
def tia_latched_example (c : Nat) : atari_tia :=
  { TIA_init power_on.tia with
    colour_clock := c
    read_regs := fun k => if k < 8 then 0xC0 else 0x80 }

/-- The collision table of the specification: the byte of collision register
`k` (CXM0P = 0 .. CXPPMM = 7) for the six samples of a pixel, the first pair
of the row in bit 7 and the second in bit 6. -/
def collision_table (k M0 M1 P0 P1 BL PF : Nat) : Nat :=
  if k = TIA_READ_REG_CXM0P then ((M0 &&& P1) <<< 7) ||| ((M0 &&& P0) <<< 6)
  else if k = TIA_READ_REG_CXM1P then ((M1 &&& P0) <<< 7) ||| ((M1 &&& P1) <<< 6)
  else if k = TIA_READ_REG_CXP0FB then ((P0 &&& PF) <<< 7) ||| ((P0 &&& BL) <<< 6)
  else if k = TIA_READ_REG_CXP1FB then ((P1 &&& PF) <<< 7) ||| ((P1 &&& BL) <<< 6)
  else if k = TIA_READ_REG_CXM0FB then ((M0 &&& PF) <<< 7) ||| ((M0 &&& BL) <<< 6)
  else if k = TIA_READ_REG_CXM1FB then ((M1 &&& PF) <<< 7) ||| ((M1 &&& BL) <<< 6)
  else if k = TIA_READ_REG_CXBLPF then (BL &&& PF) <<< 7
  else ((P0 &&& P1) <<< 7) ||| ((M0 &&& M1) <<< 6)

/-- A TIA after `TIA_init` at colour clock `c`, in which the line mask of
missile 0 is set at every pixel and every other mask is clear. -/
def tia_missile0_example (c : Nat) : atari_tia :=
  { TIA_init power_on.tia with
    colour_clock := c
    missiles := fun i =>
      { (TIA_init power_on.tia).missiles i with line_buffer := fun _ => if i = 0 then 1 else 0 } }

/-- The state the set-up of `main` leaves (see `booted`), with the address bus
at `address` and the data bus at `data`. -/
def booted_bus (image : Nat → Nat) (address data : Nat) : Atari :=
  ⟨⟨0, 0, 0, 0x1234, 0xFD, 4, 0, 0, address, data⟩, mos6532_init power_on.riot,
    TIA_init power_on.tia, some image, 0, fun _ _ => 0⟩

/-- The RIOT after `n` calls of `mos6532_clock_tick` in a row. -/
def mos6532_clock_ticks : Nat → mos6532 → mos6532
  | 0, riot => riot
  | n + 1, riot => mos6532_clock_ticks n (mos6532_clock_tick riot)

/-- The state the set-up of `main` leaves (see `booted`), with the status
register holding `p`. -/
def booted_status (image : Nat → Nat) (p : Nat) : Atari :=
  ⟨⟨0, 0, 0, 0x1234, 0xFD, p, 0, 0, 0x1234, 0x12⟩, mos6532_init power_on.riot,
    TIA_init power_on.tia, some image, 0, fun _ _ => 0⟩

/-- The return values of `n` calls of `opcode_execute(opcode)` in a row. -/
def opcode_execute_calls (opcode : Nat) : Nat → Emu (List Nat)
  | 0 => pure []
  | n + 1 => do
    let r ← opcode_execute opcode
    let rs ← opcode_execute_calls opcode n
    pure (r :: rs)

/-- A cartridge image with the reset vector 0x1234, the interrupt vector
0x1300, BRK (0x00) at 0x1234 and RTI (0x40) at 0x1300. -/
def interrupt_image : Nat → Nat := fun k =>
  if k = 0xFFC then 0x34 else if k = 0xFFD then 0x12
  else if k = 0xFFE then 0x00 else if k = 0xFFF then 0x13
  else if k = 0x300 then 0x40 else 0

/-- The registers after BRK and then RTI, each run to completion by calls of
`opcode_execute`, from the state `s`: the return values of the calls of
both, the registers, and the three bytes BRK pushed (read back from RIOT RAM
below the initial stack pointer). -/
def brk_then_rti (s : Atari) : Except Fault (List Nat × List Nat × mos6507 × List Nat) :=
  Except.map (fun r => (r.1.1, r.1.2, r.2.cpu,
      [r.2.riot.memory (s.cpu.S - 0x80), r.2.riot.memory (s.cpu.S - 0x81),
        r.2.riot.memory (s.cpu.S - 0x82)]))
    (emu_then (opcode_execute_calls 0x00 7 s) (fun a s1 =>
      emu_then (opcode_execute_calls 0x40 6 s1) (fun b s2 => .ok ((a, b), s2))))

/-- What reaches the TIA: a write of `value` to the write register `reg`, or a
colour-clock tick. -/
inductive TIA_event where
  | write (reg value : Nat)
  | tick
  deriving DecidableEq, Repr

/-- The TIA after a sequence of register writes and clock ticks, by
`TIA_write_register` and `TIA_clock_tick`. -/
def TIA_run : List TIA_event → atari_tia → Except Fault atari_tia
  | [], tia => .ok tia
  | .write reg value :: es, tia =>
    match TIA_write_register reg value tia with
    | .error e => .error e
    | .ok t => TIA_run es t
  | .tick :: es, tia =>
    match TIA_clock_tick tia with
    | .error e => .error e
    | .ok (_, t) => TIA_run es t

/-- The motion value of the specification for the byte `r` of a motion
register: the upper nibble read as a two's-complement number. -/
def motion_decode (r : Nat) : Int := (if r > 127 then -16 else 0) + ((r >>> 4 : Nat) : Int)

/-- The colour clock, and the position, width and motion offset of missile 0
and of player 0, of a TIA state. -/
def TIA_positions (tia : atari_tia) : Nat × (Nat × Nat × Int) × (Int × Int) :=
  (tia.colour_clock,
    ((tia.missiles 0).position_clock, (tia.missiles 0).width, (tia.missiles 0).horizontal_offset),
    ((tia.players 0).position_clock, (tia.players 0).horizontal_offset))

theorem and_two_pow_ne_zero_iff (x i : Nat) : (x &&& 2 ^ i ≠ 0) ↔ x.testBit i = true := by
  constructor
  · intro h
    by_contra hb
    apply h
    apply Nat.eq_of_testBit_eq
    intro j
    simp [Nat.testBit_two_pow]
    intro h1 h2
    subst h2
    exact hb h1
  · intro h h0
    have := congrArg (fun y => y.testBit i) h0
    simp [Nat.testBit_two_pow, h] at this

theorem and_two_pow_eq_zero_iff (x i : Nat) : (x &&& 2 ^ i = 0) ↔ x / 2 ^ i % 2 = 0 := by
  have h := and_two_pow_ne_zero_iff x i
  rw [Nat.testBit_to_div_mod] at h
  simp only [decide_eq_true_eq] at h
  constructor
  · intro h0
    by_contra h1
    have : x / 2 ^ i % 2 = 1 := by omega
    exact (h.mpr this) h0
  · intro h0
    by_contra h1
    have := h.mp h1
    omega

theorem and_0xFF (x : Nat) : x &&& 0xFF = x % 256 := Nat.and_pow_two_sub_one_eq_mod x 8

theorem and_0x80_eq_zero_iff (x : Nat) : (x &&& 0x80 = 0) ↔ x / 128 % 2 = 0 :=
  and_two_pow_eq_zero_iff x 7

theorem and_0x100_eq_zero_iff (x : Nat) : (x &&& 0x100 = 0) ↔ x / 256 % 2 = 0 :=
  and_two_pow_eq_zero_iff x 8

theorem and_0x8000_eq_zero_iff (x : Nat) : (x &&& 0x8000 = 0) ↔ x / 32768 % 2 = 0 :=
  and_two_pow_eq_zero_iff x 15

theorem xor_bit7 (a b : Nat) : (a ^^^ b) / 128 % 2 = (a / 128 % 2 + b / 128 % 2) % 2 := by
  have h := Nat.testBit_xor a b 7
  simp only [Nat.testBit_to_div_mod] at h
  have e : (2:Nat) ^ 7 = 128 := by norm_num
  rw [e] at h
  by_cases h1 : a / 128 % 2 = 1 <;> by_cases h2 : b / 128 % 2 = 1 <;>
    by_cases h3 : (a ^^^ b) / 128 % 2 = 1 <;> simp [h1, h2, h3] at h ⊢ <;> omega

theorem and_bit7 (a b : Nat) : (a &&& b) / 128 % 2 = min (a / 128 % 2) (b / 128 % 2) := by
  have h := Nat.testBit_and a b 7
  simp only [Nat.testBit_to_div_mod] at h
  have e : (2:Nat) ^ 7 = 128 := by norm_num
  rw [e] at h
  by_cases h1 : a / 128 % 2 = 1 <;> by_cases h2 : b / 128 % 2 = 1 <;>
    by_cases h3 : (a &&& b) / 128 % 2 = 1 <;> simp [h1, h2, h3] at h ⊢ <;> omega

theorem or_bit7 (a b : Nat) : (a ||| b) / 128 % 2 = max (a / 128 % 2) (b / 128 % 2) := by
  have h := Nat.testBit_or a b 7
  simp only [Nat.testBit_to_div_mod] at h
  have e : (2:Nat) ^ 7 = 128 := by norm_num
  rw [e] at h
  by_cases h1 : a / 128 % 2 = 1 <;> by_cases h2 : b / 128 % 2 = 1 <;>
    by_cases h3 : (a ||| b) / 128 % 2 = 1 <;> simp [h1, h2, h3] at h ⊢ <;> omega

theorem get_status_flag_eq (f : Nat) (cpu : mos6507) :
    mos6507_get_status_flag f cpu = if cpu.P &&& f ≠ 0 then 1 else 0 := rfl

theorem get_set_status_flag (f g v : Nat) [hf : IsFlag f] [hg : IsFlag g] (cpu : mos6507) :
    mos6507_get_status_flag f (mos6507_set_status_flag g v cpu) =
      if f = g then (if v ≠ 0 then 1 else 0) else mos6507_get_status_flag f cpu := by
  obtain ⟨i, hi, rfl⟩ := hf.bit
  obtain ⟨j, hj, rfl⟩ := hg.bit
  have hpow : (2:Nat) ^ i = 2 ^ j ↔ i = j := by
    constructor
    · intro h; exact Nat.pow_right_injective (le_refl 2) h
    · intro h; rw [h]
  have hsub : bnot32 (2 ^ j) = 2 ^ 32 - (2 ^ j + 1) := by
    unfold bnot32; norm_num; omega
  have hlt : 2 ^ j < 2 ^ 32 := Nat.pow_lt_pow_right (by norm_num) (by omega)
  simp only [mos6507_get_status_flag, mos6507_set_status_flag, mos6507_get_register,
    mos6507_set_register, and_two_pow_ne_zero_iff, hpow, hsub]
  have e8 : (256:Nat) = 2 ^ 8 := by norm_num
  by_cases hv : v = 0
  · simp only [hv, ne_eq, not_true_eq_false, ite_false, e8, Nat.testBit_mod_two_pow,
      Nat.testBit_and, Nat.testBit_two_pow_sub_succ hlt, Nat.testBit_two_pow]
    by_cases hij : i = j
    · subst hij; simp
    · have hji : ¬ j = i := fun h => hij h.symm
      have hi32 : i < 32 := by omega
      simp [hij, hji, hi, hi32]
  · simp only [hv, ne_eq, not_false_eq_true, ite_true, e8, Nat.testBit_mod_two_pow,
      Nat.testBit_or, Nat.testBit_two_pow]
    by_cases hij : i = j
    · subst hij; simp [hi]
    · have hji : ¬ j = i := fun h => hij h.symm
      simp [hij, hji, hi]

@[simp] theorem set_status_flag_A (f v : Nat) (cpu : mos6507) :
    (mos6507_set_status_flag f v cpu).A = cpu.A := rfl

@[simp] theorem get_status_flag_set_A (f v : Nat) (cpu : mos6507) :
    mos6507_get_status_flag f (mos6507_set_register MOS6507_REG_A v cpu) =
      mos6507_get_status_flag f cpu := rfl

@[simp] theorem set_register_A_A (v : Nat) (cpu : mos6507) :
    (mos6507_set_register MOS6507_REG_A v cpu).A = v % 256 := rfl

@[simp] theorem get_register_A (cpu : mos6507) :
    mos6507_get_register MOS6507_REG_A cpu = cpu.A := rfl

theorem get_status_flag_le_one (f : Nat) (cpu : mos6507) : mos6507_get_status_flag f cpu ≤ 1 := by
  rw [get_status_flag_eq]; split <;> omega

theorem and_0x1FFF (x : Nat) : x &&& 0x1FFF = x % 8192 := Nat.and_pow_two_sub_one_eq_mod x 13

/-! ### Running `Emu` programs -/

theorem bind_run {α β : Type} (x : Emu α) (f : α → Emu β) (s : Atari) :
    (x >>= f) s = emu_then (x s) (fun a s1 => f a s1) := by
  show Except.bind (x s) (fun v => f v.1 v.2) = _
  unfold emu_then
  cases x s with
  | ok v => rfl
  | error e => rfl

theorem emu_then_ok {α β : Type} (a : α) (s : Atari) (f : α → Atari → Except Fault (β × Atari)) :
    emu_then (.ok (a, s)) f = f a s := by
  unfold emu_then; exact rfl

theorem emu_then_error {α β : Type} (e : Fault) (f : α → Atari → Except Fault (β × Atari)) :
    emu_then (.error e) f = .error e := by
  unfold emu_then; exact rfl

theorem on_cpu_run (g : mos6507 → mos6507) (s : Atari) :
    on_cpu g s = .ok ((), { s with cpu := g s.cpu }) := by
  unfold on_cpu; exact rfl

theorem pure_run {α : Type} (a : α) (s : Atari) : (pure a : Emu α) s = .ok (a, s) := by
  show Except.ok (a, s) = _; exact Eq.trans rfl rfl

theorem ite_run {α : Type} (c : Prop) [Decidable c] (x y : Emu α) (s : Atari) :
    (if c then x else y) s = if c then x s else y s := by
  split <;> rfl

theorem get_run (s : Atari) : (get : Emu Atari) s = .ok (s, s) := by
  show Except.ok (s, s) = _; exact Eq.trans rfl rfl

theorem getThe_run (s : Atari) : (getThe Atari : Emu Atari) s = .ok (s, s) := by
  show Except.ok (s, s) = _; exact Eq.trans rfl rfl

theorem modify_run (f : Atari → Atari) (s : Atari) :
    (modify f : Emu PUnit) s = .ok (PUnit.unit, f s) := by
  show Except.ok (PUnit.unit, f s) = _; exact Eq.trans rfl rfl

theorem get_static_run (fn : opcode_fn) (v : static_var) (s : Atari) :
    get_static fn v s = .ok (s.statics fn v, s) := by
  unfold get_static; exact rfl

theorem set_static_run (fn : opcode_fn) (v : static_var) (x : Nat) (s : Atari) :
    set_static fn v x s =
      .ok ((), { s with statics := fun f w => if f = fn ∧ w = v then x else s.statics f w }) := by
  unfold set_static; exact rfl

theorem lift_except_ok {α : Type} (a : α) (s : Atari) :
    lift_except (.ok a : Except Fault α) s = .ok (a, s) := by
  unfold lift_except; exact rfl

theorem lift_except_error {α : Type} (e : Fault) (s : Atari) :
    lift_except (.error e : Except Fault α) s = .error e := by
  unfold lift_except; exact rfl

/-! ### The CPU-local functions on an explicit register file -/

theorem init_mk (c : mos6507) : mos6507_init c = ⟨0, 0, 0, 0, 0xFD, 0, 0, 0, 0, 0⟩ := by
  unfold mos6507_init; exact rfl

theorem set_address_bus_mk (v a y x pc sp p ci cc ab db : Nat) :
    mos6507_set_address_bus v ⟨a, y, x, pc, sp, p, ci, cc, ab, db⟩
      = ⟨a, y, x, pc, sp, p, ci, cc, v % 65536, db⟩ := by
  unfold mos6507_set_address_bus; exact rfl

theorem set_address_bus_hl_mk (h l a y x pc sp p ci cc ab db : Nat) :
    mos6507_set_address_bus_hl h l ⟨a, y, x, pc, sp, p, ci, cc, ab, db⟩
      = ⟨a, y, x, pc, sp, p, ci, cc,
          ((0 ||| ((h % 256) <<< 8)) % 65536 ||| (l % 256)) % 65536, db⟩ := by
  unfold mos6507_set_address_bus_hl; exact rfl

theorem get_address_bus_mk (a y x pc sp p ci cc ab db : Nat) :
    mos6507_get_address_bus ⟨a, y, x, pc, sp, p, ci, cc, ab, db⟩ = ab := by
  unfold mos6507_get_address_bus; exact rfl

theorem set_data_bus_mk (v a y x pc sp p ci cc ab db : Nat) :
    mos6507_set_data_bus v ⟨a, y, x, pc, sp, p, ci, cc, ab, db⟩
      = ⟨a, y, x, pc, sp, p, ci, cc, ab, v % 256⟩ := by
  unfold mos6507_set_data_bus; exact rfl

theorem get_data_bus_mk (a y x pc sp p ci cc ab db : Nat) :
    mos6507_get_data_bus ⟨a, y, x, pc, sp, p, ci, cc, ab, db⟩ = db := by
  unfold mos6507_get_data_bus; exact rfl

theorem increment_PC_mk (a y x pc sp p ci cc ab db : Nat) :
    mos6507_increment_PC ⟨a, y, x, pc, sp, p, ci, cc, ab, db⟩
      = ⟨a, y, x, (pc + 1) % 65536, sp, p, ci, cc, ab, db⟩ := by
  unfold mos6507_increment_PC; exact rfl

theorem get_PC_mk (a y x pc sp p ci cc ab db : Nat) :
    mos6507_get_PC ⟨a, y, x, pc, sp, p, ci, cc, ab, db⟩ = pc := by
  unfold mos6507_get_PC; exact rfl

theorem set_PC_mk (v a y x pc sp p ci cc ab db : Nat) :
    mos6507_set_PC v ⟨a, y, x, pc, sp, p, ci, cc, ab, db⟩
      = ⟨a, y, x, v % 65536, sp, p, ci, cc, ab, db⟩ := by
  unfold mos6507_set_PC; exact rfl

theorem set_PC_hl_mk (h l a y x pc sp p ci cc ab db : Nat) :
    mos6507_set_PC_hl h l ⟨a, y, x, pc, sp, p, ci, cc, ab, db⟩
      = ⟨a, y, x, ((0 ||| ((h % 256) <<< 8)) % 65536 ||| (l % 256)) % 65536,
          sp, p, ci, cc, ab, db⟩ := by
  unfold mos6507_set_PC_hl; exact rfl

theorem set_register_A_mk (v a y x pc sp p ci cc ab db : Nat) :
    mos6507_set_register MOS6507_REG_A v ⟨a, y, x, pc, sp, p, ci, cc, ab, db⟩
      = ⟨v % 256, y, x, pc, sp, p, ci, cc, ab, db⟩ := by
  unfold mos6507_set_register; exact rfl

theorem set_register_Y_mk (v a y x pc sp p ci cc ab db : Nat) :
    mos6507_set_register MOS6507_REG_Y v ⟨a, y, x, pc, sp, p, ci, cc, ab, db⟩
      = ⟨a, v % 256, x, pc, sp, p, ci, cc, ab, db⟩ := by
  unfold mos6507_set_register; exact rfl

theorem set_register_X_mk (v a y x pc sp p ci cc ab db : Nat) :
    mos6507_set_register MOS6507_REG_X v ⟨a, y, x, pc, sp, p, ci, cc, ab, db⟩
      = ⟨a, y, v % 256, pc, sp, p, ci, cc, ab, db⟩ := by
  unfold mos6507_set_register; exact rfl

theorem set_register_PC_mk (v a y x pc sp p ci cc ab db : Nat) :
    mos6507_set_register MOS6507_REG_PC v ⟨a, y, x, pc, sp, p, ci, cc, ab, db⟩
      = ⟨a, y, x, v % 256, sp, p, ci, cc, ab, db⟩ := by
  unfold mos6507_set_register; exact rfl

theorem set_register_S_mk (v a y x pc sp p ci cc ab db : Nat) :
    mos6507_set_register MOS6507_REG_S v ⟨a, y, x, pc, sp, p, ci, cc, ab, db⟩
      = ⟨a, y, x, pc, v % 256, p, ci, cc, ab, db⟩ := by
  unfold mos6507_set_register; exact rfl

theorem set_register_P_mk (v a y x pc sp p ci cc ab db : Nat) :
    mos6507_set_register MOS6507_REG_P v ⟨a, y, x, pc, sp, p, ci, cc, ab, db⟩
      = ⟨a, y, x, pc, sp, v % 256, ci, cc, ab, db⟩ := by
  unfold mos6507_set_register; exact rfl

theorem get_register_A_mk (a y x pc sp p ci cc ab db : Nat) :
    mos6507_get_register MOS6507_REG_A ⟨a, y, x, pc, sp, p, ci, cc, ab, db⟩ = a := by
  unfold mos6507_get_register; exact rfl

theorem get_register_Y_mk (a y x pc sp p ci cc ab db : Nat) :
    mos6507_get_register MOS6507_REG_Y ⟨a, y, x, pc, sp, p, ci, cc, ab, db⟩ = y := by
  unfold mos6507_get_register; exact rfl

theorem get_register_X_mk (a y x pc sp p ci cc ab db : Nat) :
    mos6507_get_register MOS6507_REG_X ⟨a, y, x, pc, sp, p, ci, cc, ab, db⟩ = x := by
  unfold mos6507_get_register; exact rfl

theorem get_register_PC_mk (a y x pc sp p ci cc ab db : Nat) :
    mos6507_get_register MOS6507_REG_PC ⟨a, y, x, pc, sp, p, ci, cc, ab, db⟩ = pc % 256 := by
  unfold mos6507_get_register; exact rfl

theorem get_register_S_mk (a y x pc sp p ci cc ab db : Nat) :
    mos6507_get_register MOS6507_REG_S ⟨a, y, x, pc, sp, p, ci, cc, ab, db⟩ = sp := by
  unfold mos6507_get_register; exact rfl

theorem get_register_P_mk (a y x pc sp p ci cc ab db : Nat) :
    mos6507_get_register MOS6507_REG_P ⟨a, y, x, pc, sp, p, ci, cc, ab, db⟩ = p := by
  unfold mos6507_get_register; exact rfl

theorem set_status_flag_mk (f v a y x pc sp p ci cc ab db : Nat) :
    mos6507_set_status_flag f v ⟨a, y, x, pc, sp, p, ci, cc, ab, db⟩
      = ⟨a, y, x, pc, sp,
          (if v ≠ 0 then (p ||| f) % 256 else (p &&& bnot32 f) % 256) % 256,
          ci, cc, ab, db⟩ := by
  unfold mos6507_set_status_flag mos6507_set_register mos6507_get_register; exact rfl

theorem get_status_flag_mk (f a y x pc sp p ci cc ab db : Nat) :
    mos6507_get_status_flag f ⟨a, y, x, pc, sp, p, ci, cc, ab, db⟩
      = if p &&& f ≠ 0 then 1 else 0 := by
  unfold mos6507_get_status_flag mos6507_get_register; exact rfl

/-! ### Memory map -/

theorem memmap_read_cart (image : Nat → Nat) (data : Nat) (s : Atari)
    (hc : s.cartridge = some image)
    (ha : 0x1000 ≤ s.cpu.address_bus % 8192) :
    memmap_read data s =
      let v := image (s.cpu.address_bus % 8192 - 0x1000) % 256
      .ok (v, { s with cpu := mos6507_set_data_bus v s.cpu }) := by
  have h1 : s.cpu.address_bus % 8192 < 8192 := Nat.mod_lt _ (by norm_num)
  have hT : IS_TIA (s.cpu.address_bus % 8192) = false := by
    simp [IS_TIA, MEMMAP_TIA_END]; omega
  have hR : IS_RIOT (s.cpu.address_bus % 8192) = false := by
    simp [IS_RIOT, MEMMAP_RIOT_RAM_START, MEMMAP_RIOT_RAM_END, MEMMAP_RIOT_RAM_MIRROR_START,
      MEMMAP_RIOT_RAM_MIRROR_END, MEMMAP_RIOT_PERIPH_START, MEMMAP_RIOT_PERIPH_END,
      MEMMAP_RIOT_PERIPH_MIRROR_START, MEMMAP_RIOT_PERIPH_MIRROR_END]; omega
  have hC : IS_CART (s.cpu.address_bus % 8192) = true := by
    simp [IS_CART, MEMMAP_CART_START, MEMMAP_CART_END]; omega
  simp [memmap_read, mos6507_get_address_bus, memmap_map_address, and_0x1FFF, hT, hR, hC,
    cartridge_read, hc, bind, Except.bind, pure, Except.pure,
    MEMMAP_CART_START]

theorem memmap_read_cart_mk (image : Nat → Nat) (data a y x pc sp p ci cc ab db : Nat)
    (riot : mos6532) (tia : atari_tia) (cyc : Nat) (st : opcode_fn → static_var → Nat)
    (ha : 0x1000 ≤ ab % 8192) :
    memmap_read data ⟨⟨a, y, x, pc, sp, p, ci, cc, ab, db⟩, riot, tia, some image, cyc, st⟩ =
      .ok (image (ab % 8192 - 0x1000) % 256,
        ⟨⟨a, y, x, pc, sp, p, ci, cc, ab, image (ab % 8192 - 0x1000) % 256⟩,
          riot, tia, some image, cyc, st⟩) := by
  rw [memmap_read_cart image data _ rfl ha]
  simp only [set_data_bus_mk, Nat.mod_mod]

/-! ### Reset, memory map, clock tick -/

theorem shl8_lt (x : Nat) (h : x < 256) : x <<< 8 < 65536 := by
  rw [Nat.shiftLeft_eq]; omega

theorem shl8_or_lt (x y : Nat) (hx : x < 256) (hy : y < 256) : (x <<< 8) ||| y < 65536 := by
  have e : (65536 : Nat) = 2 ^ 16 := by norm_num
  rw [e]
  apply Nat.or_lt_two_pow
  · rw [← e]; exact shl8_lt x hx
  · omega

theorem reset_vector_lt (image : Nat → Nat) : reset_vector image < 65536 :=
  shl8_or_lt _ _ (Nat.mod_lt _ (by norm_num)) (Nat.mod_lt _ (by norm_num))

theorem hl_eq (h l : Nat) (hh : h < 256) (hl : l < 256) :
    ((h <<< 8) % 65536 ||| l) % 65536 = (h <<< 8) ||| l := by
  rw [Nat.mod_eq_of_lt (shl8_lt h hh), Nat.mod_eq_of_lt (shl8_or_lt h l hh hl)]

theorem mos6507_reset_eq (s : Atari) (pch0 : Nat) (image : Nat → Nat)
    (hc : s.cartridge = some image) :
    mos6507_reset pch0 s = .ok ((), { s with cpu :=
      { A := 0, Y := 0, X := 0, PC := reset_vector image, S := 0xFD, P := 0x04,
        current_instruction := 0, current_clock := 0,
        address_bus := reset_vector image, data_bus := image 0xFFD % 256 } }) := by
  have e := hl_eq (image 0xFFD % 256) (image 0xFFC % 256) (Nat.mod_lt _ (by norm_num))
    (Nat.mod_lt _ (by norm_num))
  have hlt := reset_vector_lt image
  unfold reset_vector at hlt
  obtain ⟨cpu, riot, tia, cart, cyc, st⟩ := s
  simp only at hc
  subst hc
  unfold mos6507_reset
  simp only [bind_run, on_cpu_run, emu_then_ok, pure_run, memmap_read_cart_mk, init_mk,
    set_status_flag_mk, set_address_bus_mk, set_data_bus_mk, set_PC_mk, get_PC_mk,
    Nat.reduceMod, Nat.reduceSub, Nat.reduceLeDiff, e, Nat.mod_mod, Nat.mod_eq_of_lt hlt,
    reset_vector, MOS6507_STATUS_FLAG_INTERRUPT, ne_eq, one_ne_zero, not_false_eq_true,
    ite_true, Nat.zero_or]

theorem map_mirrored_small (k : Nat) (hk : k ≤ 0x7F) : mos6532_map_mirrored_addresses k = k := by
  have h : k &&& 0x0100 = 0 := (and_0x100_eq_zero_iff k).mpr (by omega)
  simp [mos6532_map_mirrored_addresses, h]

theorem map_riot_address_ram (x k : Nat) (hk : k ≤ 0x7F) (hx : x = 0x80 + k ∨ x = 0x180 + k) :
    memmap_map_riot_address x = k := by
  simp only [memmap_map_riot_address, MEMMAP_RIOT_RAM_START, MEMMAP_RIOT_RAM_END,
      MEMMAP_RIOT_RAM_MIRROR_START, MEMMAP_RIOT_RAM_MIRROR_END,
      MEMMAP_RIOT_PERIPH_MIRROR_START, MEMMAP_RIOT_PERIPH_MIRROR_END]
  split_ifs <;> omega

theorem IS_TIA_ram (x k : Nat) (hx : x = 0x80 + k ∨ x = 0x180 + k) : IS_TIA x = false := by
  simp [IS_TIA, MEMMAP_TIA_END]; omega

theorem IS_RIOT_ram (x k : Nat) (hk : k ≤ 0x7F) (hx : x = 0x80 + k ∨ x = 0x180 + k) :
    IS_RIOT x = true := by
  simp [IS_RIOT, MEMMAP_RIOT_RAM_START, MEMMAP_RIOT_RAM_END, MEMMAP_RIOT_RAM_MIRROR_START,
      MEMMAP_RIOT_RAM_MIRROR_END, MEMMAP_RIOT_PERIPH_START, MEMMAP_RIOT_PERIPH_END,
      MEMMAP_RIOT_PERIPH_MIRROR_START, MEMMAP_RIOT_PERIPH_MIRROR_END]; omega

theorem IS_CART_small (k : Nat) (hk : k ≤ 0x7F) : IS_CART k = false := by
  simp [IS_CART, MEMMAP_CART_START, MEMMAP_CART_END]; omega

theorem mos6532_write_ram (k data : Nat) (riot : mos6532) (hk : k ≤ 0x7F) :
    mos6532_write k data riot =
      .ok (0, { riot with memory := Function.update riot.memory k (data % 256) }) := by
  have h2 : ¬ k > 128 := by omega
  have h3 : k < 128 := by omega
  have h4 : ¬ k = 640 := by omega
  have h5 : ¬ k = 641 := by omega
  have h6 : ¬ k = 642 := by omega
  have h7 : ¬ k = 643 := by omega
  have h8 : ¬ k = 660 := by omega
  have h9 : ¬ k = 661 := by omega
  have h10 : ¬ k = 662 := by omega
  have h11 : ¬ k = 663 := by omega
  simp [mos6532_write, map_mirrored_small k hk, SWCHA, SWCHB, SWACNT, SWBCNT,
    MOS6532_MEMMAP_TIM1T, MOS6532_MEMMAP_TIM8T, MOS6532_MEMMAP_TIM64T, MOS6532_MEMMAP_TIM1024T,
    mos6532_bounds_check, MEM_SIZE, arr_set, h2, h3, h4, h5, h6, h7, h8, h9, h10, h11,
    bind, Except.bind, pure, Except.pure]

theorem mos6532_read_ram (k data : Nat) (riot : mos6532) (hk : k ≤ 0x7F) :
    mos6532_read k data riot = .ok (0, riot.memory k) := by
  have h2 : ¬ k > 128 := by omega
  have h3 : k < 128 := by omega
  have h4 : ¬ k = 640 := by omega
  have h5 : ¬ k = 641 := by omega
  have h6 : ¬ k = 642 := by omega
  have h7 : ¬ k = 643 := by omega
  have h8 : ¬ k = 644 := by omega
  have h12 : (0 : Int) ≤ (k : Int) ∧ (k : Int) < ((128 : Nat) : Int) := by constructor <;> omega
  unfold mos6532_read
  simp only [map_mirrored_small k hk, SWCHA, SWCHB, SWACNT, SWBCNT,
    MOS6532_MEMMAP_INTIM, mos6532_bounds_check, MEM_SIZE, h2, h4, h5, h6, h7, h8,
    ite_false, arr_get, h12]
  simp [bind, Except.bind, pure, Except.pure]

theorem memmap_write_ram (k : Nat) (s : Atari) (hk : k ≤ 0x7F)
    (ha : s.cpu.address_bus % 8192 = 0x80 + k ∨ s.cpu.address_bus % 8192 = 0x180 + k) :
    memmap_write s = .ok ((), { s with riot :=
      { s.riot with memory := Function.update s.riot.memory k (s.cpu.data_bus % 256) } }) := by
  simp [memmap_write, memmap_map_address, and_0x1FFF, mos6507_get_address_bus,
    mos6507_get_data_bus, IS_TIA_ram _ k ha, IS_RIOT_ram _ k hk ha,
    map_riot_address_ram _ k hk ha, mos6532_write_ram k _ _ hk, bind, Except.bind, pure,
    Except.pure]

theorem memmap_read_ram (k data : Nat) (s : Atari) (hk : k ≤ 0x7F)
    (ha : s.cpu.address_bus % 8192 = 0x80 + k ∨ s.cpu.address_bus % 8192 = 0x180 + k) :
    memmap_read data s = .ok (s.riot.memory k,
      { s with cpu := mos6507_set_data_bus (s.riot.memory k) s.cpu }) := by
  simp [memmap_read, memmap_map_address, and_0x1FFF, mos6507_get_address_bus,
    IS_TIA_ram _ k ha, IS_RIOT_ram _ k hk ha,
    map_riot_address_ram _ k hk ha, mos6532_read_ram k _ _ hk, IS_CART_small k hk, bind,
    Except.bind, pure, Except.pure]

set_option maxRecDepth 1000000 in
theorem ISA_table_get_A9 :
    ISA_table_get 0xA9 = .ok ⟨.LDA, OPCODE_ADDRESSING_MODE_IMMEDIATE⟩ := by decide!

set_option maxRecDepth 1000000 in
theorem ISA_table_get_85 :
    ISA_table_get 0x85 = .ok ⟨.STA, OPCODE_ADDRESSING_MODE_ZERO_PAGE⟩ := by decide!

theorem opcode_validate_A9 : opcode_validate 0xA9 = .ok 0 := by decide!
theorem opcode_validate_85 : opcode_validate 0x85 = .ok 0 := by decide!

theorem program_image_at (l : List Nat) (k : Nat) (h1 : 0x234 ≤ k) (h2 : k < 0xFFC) :
    program_image l k = l.getD (k - 0x234) 0 := by
  unfold program_image
  rw [if_neg (by omega), if_neg (by omega), if_pos h1]

theorem program_image_FFC (l : List Nat) : program_image l 0xFFC = 0x34 := by
  unfold program_image; exact rfl

theorem program_image_FFD (l : List Nat) : program_image l 0xFFD = 0x12 := by
  unfold program_image; exact rfl

theorem boot_eq (l : List Nat) :
    main_setup (program_image l) 0 power_on = .ok ((),
      ⟨⟨0, 0, 0, 0x1234, 0xFD, 4, 0, 0, 0x1234, 0x12⟩, mos6532_init power_on.riot,
        TIA_init power_on.tia, some (program_image l), 0, fun _ _ => 0⟩) := by
  unfold main_setup
  simp only [bind_run, modify_run, emu_then_ok]
  rw [mos6507_reset_eq _ _ (program_image l) (by unfold cartridge_load; exact rfl)]
  simp only [reset_vector, program_image_FFC, program_image_FFD]
  rfl

theorem program_image_5 (a b c d e : Nat) :
    program_image [a, b, c, d, e] 0x234 = a ∧ program_image [a, b, c, d, e] 0x235 = b ∧
    program_image [a, b, c, d, e] 0x236 = c ∧ program_image [a, b, c, d, e] 0x237 = d ∧
    program_image [a, b, c, d, e] 0x238 = e := by
  refine ⟨?_, ?_, ?_, ?_, ?_⟩ <;> rw [program_image_at _ _ (by norm_num) (by norm_num)] <;> rfl

theorem opcode_execute_eq (op : Nat) (fn : opcode_fn) (mode : addressing_mode_t) (s s' : Atari)
    (r : Int) (ht : ISA_table_get op = .ok ⟨fn, mode⟩)
    (hc : opcode_call fn s.cycle mode s = .ok (r, s')) :
    opcode_execute op s = .ok (if -1 = r then s'.cycle + 1 else 0,
      { s' with cycle := if -1 = r then s'.cycle + 1 else 0 }) := by
  unfold opcode_execute
  simp only [bind_run, get_run, getThe_run, emu_then_ok, ht, lift_except_ok, hc, ite_run,
    modify_run, pure_run]
  split <;> simp only [emu_then_ok]

theorem clock_tick_fetch_ok (s s1 s2 : Atari) (b c : Nat)
    (hi : s.cpu.current_instruction = 0) (hf : memmap_read 0 s = .ok (b, s1))
    (hv : opcode_validate b = .ok 0)
    (he : opcode_execute b { s1 with cpu := { s1.cpu with current_instruction := b } }
      = .ok (c, s2)) :
    mos6507_clock_tick s = .ok (0, { s2 with cpu := { s2.cpu with
      current_clock := c % 256,
      current_instruction := if c % 256 = 0 then 0 else s2.cpu.current_instruction } }) := by
  unfold mos6507_clock_tick
  simp only [bind_run, get_run, getThe_run, emu_then_ok, hi, ite_true, hf, on_cpu_run, pure_run,
    hv, lift_except_ok, ite_run, ne_eq, not_true_eq_false, ite_false, he]
  split <;> simp only [emu_then_ok]

theorem clock_tick_cont_ok (s s2 : Atari) (c : Nat)
    (hi : s.cpu.current_instruction ≠ 0)
    (hv : opcode_validate s.cpu.current_instruction = .ok 0)
    (he : opcode_execute s.cpu.current_instruction s = .ok (c, s2)) :
    mos6507_clock_tick s = .ok (0, { s2 with cpu := { s2.cpu with
      current_clock := c % 256,
      current_instruction := if c % 256 = 0 then 0 else s2.cpu.current_instruction } }) := by
  unfold mos6507_clock_tick
  simp only [bind_run, get_run, getThe_run, emu_then_ok, hi, ite_false, on_cpu_run, pure_run,
    hv, lift_except_ok, ite_run, ne_eq, not_true_eq_false, he]
  split <;> simp only [emu_then_ok]

theorem clock_ticks_zero (s : Atari) : clock_ticks 0 s = .ok ([], s) := by
  unfold clock_ticks; exact pure_run _ _

theorem clock_ticks_succ (n : Nat) (s s1 : Atari) (r : Int)
    (h : mos6507_clock_tick s = .ok (r, s1)) :
    clock_ticks (n + 1) s = emu_then (clock_ticks n s1) (fun rs s2 => .ok (r :: rs, s2)) := by
  rw [clock_ticks]
  simp only [bind_run, h, emu_then_ok, pure_run]

theorem call_LDA_immediate_0 (s : Atari) :
    opcode_call .LDA 0 OPCODE_ADDRESSING_MODE_IMMEDIATE s = .ok (-1, s) := by
  unfold opcode_call opcode_LDA FETCH_DATA FETCH_DATA_IMMEDIATE
  simp only [bind_run, pure_run, emu_then_ok, ite_true, ite_run]

theorem call_LDA_immediate_1 (image : Nat → Nat) (a y x pc sp p ci cc ab db : Nat)
    (riot : mos6532) (tia : atari_tia) (cyc : Nat) (st : opcode_fn → static_var → Nat)
    (h1 : 0x1000 ≤ pc % 8192) (h2 : pc % 8192 + 2 < 8192) (h3 : pc < 65536) :
    ∃ p' st', opcode_call .LDA 1 OPCODE_ADDRESSING_MODE_IMMEDIATE
      ⟨⟨a, y, x, pc, sp, p, ci, cc, ab, db⟩, riot, tia, some image, cyc, st⟩ =
      .ok (0, ⟨⟨image (pc % 8192 + 1 - 0x1000) % 256, y, x, pc + 2, sp, p', ci, cc, pc + 2,
        image (pc % 8192 + 1 - 0x1000) % 256⟩, riot, tia, some image, cyc, st'⟩) := by
  have e1 : (pc + 1) % 65536 = pc + 1 := by omega
  have e2 : (pc + 1 + 1) % 65536 = pc + 2 := by omega
  have e3 : (pc + 1) % 8192 = pc % 8192 + 1 := by omega
  have e4 : 4096 ≤ pc % 8192 + 1 := by omega
  have e5 : (pc + 2) % 65536 = pc + 2 := by omega
  apply Exists.intro
  apply Exists.intro
  unfold opcode_call opcode_LDA FETCH_DATA FETCH_DATA_IMMEDIATE fetch_next_byte
    memmap_read_static END_OPCODE
  simp only [bind_run, pure_run, emu_then_ok, ite_run, on_cpu_run, get_static_run,
    set_static_run, increment_PC_mk, get_PC_mk, set_address_bus_mk, e1, e2, e3, e4, e5,
    memmap_read_cart_mk, set_register_A_mk, set_status_flag_mk, Nat.mod_mod, ite_true,
    ite_false, Bool.false_eq_true, and_self]
  rfl

theorem call_STA_zero_page_0 (s : Atari) :
    opcode_call .STA 0 OPCODE_ADDRESSING_MODE_ZERO_PAGE s = .ok (-1, s) := by
  unfold opcode_call opcode_STA FETCH_STORE_ADDRESS FETCH_STORE_ADDRESS_ZERO_PAGE
  simp only [bind_run, pure_run, emu_then_ok, ite_true, ite_run]

theorem call_STA_zero_page_1 (image : Nat → Nat) (a y x pc sp p ci cc ab db : Nat)
    (riot : mos6532) (tia : atari_tia) (cyc : Nat) (st : opcode_fn → static_var → Nat)
    (h1 : 0x1000 ≤ pc % 8192) (h2 : pc % 8192 + 2 < 8192) (h3 : pc < 65536) :
    opcode_call .STA 1 OPCODE_ADDRESSING_MODE_ZERO_PAGE
      ⟨⟨a, y, x, pc, sp, p, ci, cc, ab, db⟩, riot, tia, some image, cyc, st⟩ =
      .ok (-1, ⟨⟨a, y, x, pc + 1, sp, p, ci, cc, pc + 1,
        image (pc % 8192 + 1 - 0x1000) % 256⟩, riot, tia, some image, cyc,
        fun f w => if f = .STA ∧ w = .adl then image (pc % 8192 + 1 - 0x1000) % 256
          else st f w⟩) := by
  have e1 : (pc + 1) % 65536 = pc + 1 := by omega
  have e3 : (pc + 1) % 8192 = pc % 8192 + 1 := by omega
  have e4 : 4096 ≤ pc % 8192 + 1 := by omega
  unfold opcode_call opcode_STA FETCH_STORE_ADDRESS FETCH_STORE_ADDRESS_ZERO_PAGE
    fetch_next_byte memmap_read_static
  simp only [bind_run, pure_run, emu_then_ok, ite_run, on_cpu_run, get_static_run,
    set_static_run, increment_PC_mk, get_PC_mk, set_address_bus_mk, e1, e3, e4,
    memmap_read_cart_mk, Nat.mod_mod, ite_true]

theorem hl_zero (z : Nat) (hz : z < 256) :
    ((0 ||| ((0 % 256) <<< 8)) % 65536 ||| (z % 256)) % 65536 = z := by
  have e : (0 ||| ((0 % 256) <<< 8)) % 65536 = 0 := by decide
  rw [e, Nat.zero_or]
  omega

theorem memmap_write_ram_mk (k a y x pc sp p ci cc ab db : Nat) (riot : mos6532)
    (tia : atari_tia) (cart : cartridge_t) (cyc : Nat) (st : opcode_fn → static_var → Nat)
    (hk : k ≤ 0x7F) (ha : ab % 8192 = 0x80 + k ∨ ab % 8192 = 0x180 + k) :
    memmap_write ⟨⟨a, y, x, pc, sp, p, ci, cc, ab, db⟩, riot, tia, cart, cyc, st⟩ =
      .ok ((), ⟨⟨a, y, x, pc, sp, p, ci, cc, ab, db⟩,
        ⟨Function.update riot.memory k (db % 256), riot.timer, riot.joy1_state,
          riot.switches_state⟩, tia, cart, cyc, st⟩) :=
  memmap_write_ram k _ hk ha

theorem call_STA_zero_page_2 (z a y x pc sp p ci cc ab db : Nat)
    (riot : mos6532) (tia : atari_tia) (cart : cartridge_t) (cyc : Nat)
    (st : opcode_fn → static_var → Nat)
    (hz1 : 0x80 ≤ z) (hz2 : z ≤ 0xFF) (hst : st .STA .adl = z) (hpc : pc + 1 < 65536) :
    ∃ st', opcode_call .STA 2 OPCODE_ADDRESSING_MODE_ZERO_PAGE
      ⟨⟨a, y, x, pc, sp, p, ci, cc, ab, db⟩, riot, tia, cart, cyc, st⟩ =
      .ok (0, ⟨⟨a, y, x, pc + 1, sp, p, ci, cc, pc + 1, a % 256⟩,
        ⟨Function.update riot.memory (z - 0x80) (a % 256), riot.timer, riot.joy1_state,
          riot.switches_state⟩, tia, cart, cyc, st'⟩) := by
  have e1 : (pc + 1) % 65536 = pc + 1 := by omega
  have hw : z % 8192 = 0x80 + (z - 0x80) ∨ z % 8192 = 0x180 + (z - 0x80) := by omega
  apply Exists.intro
  unfold opcode_call opcode_STA FETCH_STORE_ADDRESS FETCH_STORE_ADDRESS_ZERO_PAGE END_OPCODE
  simp only [bind_run, pure_run, emu_then_ok, ite_run, on_cpu_run, get_static_run,
    set_static_run, get_run, getThe_run, hst, set_address_bus_hl_mk, hl_zero z (by omega),
    get_register_A_mk, set_data_bus_mk, and_self, ite_true, ite_false, Bool.false_eq_true]
  rw [memmap_write_ram_mk (z - 0x80) _ _ _ _ _ _ _ _ _ _ _ _ _ _ _ (by omega) hw]
  simp only [emu_then_ok, increment_PC_mk, get_PC_mk, set_address_bus_mk, e1, Nat.mod_mod]
  rfl

theorem clock_tick_first (image : Nat → Nat) (a y x pc sp p cc ab db : Nat) (riot : mos6532)
    (tia : atari_tia) (st : opcode_fn → static_var → Nat) (op : Nat) (fn : opcode_fn)
    (mode : addressing_mode_t) (ha : 0x1000 ≤ ab % 8192)
    (hb : image (ab % 8192 - 0x1000) % 256 = op) (hv : opcode_validate op = .ok 0)
    (ht : ISA_table_get op = .ok ⟨fn, mode⟩)
    (h0 : ∀ s, opcode_call fn 0 mode s = .ok (-1, s)) :
    mos6507_clock_tick ⟨⟨a, y, x, pc, sp, p, 0, cc, ab, db⟩, riot, tia, some image, 0, st⟩ =
      .ok (0, ⟨⟨a, y, x, pc, sp, p, op, 1, ab, op⟩, riot, tia, some image, 1, st⟩) := by
  have hf := memmap_read_cart_mk image 0 a y x pc sp p 0 cc ab db riot tia 0 st ha
  rw [hb] at hf
  rw [clock_tick_fetch_ok _ _ _ op _ rfl hf hv (opcode_execute_eq op fn mode _ _ _ ht (h0 _))]
  simp only [ite_true, Nat.zero_add, Nat.reduceMod, Nat.reduceEqDiff, ite_false]

theorem clock_tick_next (s s' : Atari) (op n : Nat) (fn : opcode_fn) (mode : addressing_mode_t)
    (r : Int) (hc : opcode_call fn n mode s = .ok (r, s')) (hn : s.cycle = n)
    (hs : s.cpu.current_instruction = op) (hop : op ≠ 0)
    (hv : opcode_validate op = .ok 0) (ht : ISA_table_get op = .ok ⟨fn, mode⟩) :
    mos6507_clock_tick s =
      .ok (0, ⟨⟨s'.cpu.A, s'.cpu.Y, s'.cpu.X, s'.cpu.PC, s'.cpu.S, s'.cpu.P,
          if (if -1 = r then s'.cycle + 1 else 0) % 256 = 0 then 0
            else s'.cpu.current_instruction,
          (if -1 = r then s'.cycle + 1 else 0) % 256, s'.cpu.address_bus, s'.cpu.data_bus⟩,
        s'.riot, s'.tia, s'.cartridge, if -1 = r then s'.cycle + 1 else 0, s'.statics⟩) := by
  subst hs hn
  rw [clock_tick_cont_ok _ _ _ hop hv (opcode_execute_eq _ fn mode _ _ _ ht hc)]

theorem run_eq (image : Nat → Nat) (n : Nat) (s : Atari)
    (h : main_setup image 0 power_on = .ok ((), s)) : run image n = clock_ticks n s := by
  unfold run; rw [h, emu_then_ok]

theorem standard_6502_opcodes_card :
    standard_6502_opcodes.length = 151 ∧ standard_6502_opcodes.Nodup := by decide!

set_option maxRecDepth 1000000 in
set_option maxHeartbeats 4000000 in
theorem opcode_validate_table : ∀ b, b < 255 → opcode_validate b =
    .ok (if b ∈ standard_6502_opcodes ∨ b ∈ extra_opcodes then 0 else -1) := by
  decide!

theorem opcode_validate_0xFF : opcode_validate 0xFF = .error ⟨.ISA_table, 255⟩ := by decide!

theorem clock_tick_fetch (s s1 : Atari) (b : Nat) (hi : s.cpu.current_instruction = 0)
    (hf : memmap_read 0 s = .ok (b, s1)) (hb : b < 255) :
    mos6507_clock_tick s =
      if b ∈ standard_6502_opcodes ∨ b ∈ extra_opcodes then
        emu_then (opcode_execute b { s1 with cpu := { s1.cpu with current_instruction := b } })
          (fun c s2 =>
            if c % 256 = 0 then
              .ok (0, { s2 with cpu :=
                { s2.cpu with current_clock := c % 256, current_instruction := 0 } })
            else .ok (0, { s2 with cpu := { s2.cpu with current_clock := c % 256 } }))
      else .ok (-1, { s1 with cpu := { s1.cpu with current_instruction := b } }) := by
  unfold mos6507_clock_tick
  simp only [bind_run, get_run, getThe_run, emu_then_ok, hi, ite_true, hf, on_cpu_run, pure_run,
    opcode_validate_table b hb, lift_except_ok, ite_run]
  by_cases hm : b ∈ standard_6502_opcodes ∨ b ∈ extra_opcodes
  · simp only [hm, ite_true, ne_eq, not_true_eq_false, ite_false]
  · simp only [hm, ite_false, ne_eq]
    rfl

theorem hl_page (h l : Nat) (hh : h < 256) (hl : l < 256) :
    ((0 ||| ((h % 256) <<< 8)) % 65536 ||| (l % 256)) % 65536 = h * 256 + l := by
  have e := Nat.mul_add_lt_is_or (show l < 2 ^ 8 by omega) h
  rw [Nat.zero_or, Nat.mod_eq_of_lt hh, Nat.mod_eq_of_lt hl,
    Nat.mod_eq_of_lt (shl8_lt h hh), Nat.mod_eq_of_lt (shl8_or_lt h l hh hl),
    Nat.shiftLeft_eq, Nat.mul_comm h (2 ^ 8), ← e]

theorem u8_pred (x : Nat) (_h : x < 256) : u8 ((x : Int) - 1) = (x + 255) % 256 := by
  unfold u8; omega

theorem memmap_read_ram_mk (k data a y x pc sp p ci cc ab db : Nat) (riot : mos6532)
    (tia : atari_tia) (cart : cartridge_t) (cyc : Nat) (st : opcode_fn → static_var → Nat)
    (hk : k ≤ 0x7F) (ha : ab % 8192 = 0x80 + k ∨ ab % 8192 = 0x180 + k) :
    memmap_read data ⟨⟨a, y, x, pc, sp, p, ci, cc, ab, db⟩, riot, tia, cart, cyc, st⟩ =
      .ok (riot.memory k, ⟨⟨a, y, x, pc, sp, p, ci, cc, ab, riot.memory k % 256⟩,
        riot, tia, cart, cyc, st⟩) := by
  rw [memmap_read_ram k data _ hk ha]
  simp only [set_data_bus_mk]

theorem push_stack_mk (v a y x pc sp p ci cc ab db : Nat) (riot : mos6532)
    (tia : atari_tia) (cart : cartridge_t) (cyc : Nat) (st : opcode_fn → static_var → Nat)
    (h1 : 0x80 ≤ sp) (h2 : sp ≤ 0xFF) :
    mos6507_push_stack v ⟨⟨a, y, x, pc, sp, p, ci, cc, ab, db⟩, riot, tia, cart, cyc, st⟩ =
      .ok ((), ⟨⟨a, y, x, pc, (sp + 255) % 256, p, ci, cc, 0x100 + sp, v % 256⟩,
        ⟨Function.update riot.memory (sp - 0x80) (v % 256), riot.timer, riot.joy1_state,
          riot.switches_state⟩, tia, cart, cyc, st⟩) := by
  have e := hl_page STACK_PAGE sp (by norm_num) (by omega)
  have e' : STACK_PAGE * 256 + sp = 0x100 + sp := by norm_num
  rw [e'] at e
  have hw : (0x100 + sp) % 8192 = 0x80 + (sp - 0x80) ∨ (0x100 + sp) % 8192 = 0x180 + (sp - 0x80) := by
    omega
  unfold mos6507_push_stack
  simp only [bind_run, get_run, getThe_run, emu_then_ok, on_cpu_run, get_register_S_mk,
    set_address_bus_hl_mk, set_data_bus_mk, e]
  rw [memmap_write_ram_mk (sp - 0x80) _ _ _ _ _ _ _ _ _ _ _ _ _ _ _ (by omega) hw]
  simp only [emu_then_ok, on_cpu_run, set_register_S_mk, u8_pred sp (by omega), Nat.mod_mod]

theorem pull_stack_mk (d a y x pc sp p ci cc ab db : Nat) (riot : mos6532)
    (tia : atari_tia) (cart : cartridge_t) (cyc : Nat) (st : opcode_fn → static_var → Nat)
    (h1 : 0x80 ≤ (sp + 1) % 256) :
    mos6507_pull_stack d ⟨⟨a, y, x, pc, sp, p, ci, cc, ab, db⟩, riot, tia, cart, cyc, st⟩ =
      .ok (riot.memory ((sp + 1) % 256 - 0x80),
        ⟨⟨a, y, x, pc, (sp + 1) % 256, p, ci, cc, 0x100 + (sp + 1) % 256,
          riot.memory ((sp + 1) % 256 - 0x80) % 256⟩, riot, tia, cart, cyc, st⟩) := by
  have hlt : (sp + 1) % 256 < 256 := Nat.mod_lt _ (by norm_num)
  have e := hl_page STACK_PAGE ((sp + 1) % 256) (by norm_num) hlt
  have e' : STACK_PAGE * 256 + (sp + 1) % 256 = 0x100 + (sp + 1) % 256 := by norm_num
  rw [e', Nat.mod_mod] at e
  have hw : (0x100 + (sp + 1) % 256) % 8192 = 0x80 + ((sp + 1) % 256 - 0x80) ∨
      (0x100 + (sp + 1) % 256) % 8192 = 0x180 + ((sp + 1) % 256 - 0x80) := by
    omega
  unfold mos6507_pull_stack
  simp only [bind_run, get_run, getThe_run, emu_then_ok, on_cpu_run, get_register_S_mk,
    set_address_bus_hl_mk, e]
  rw [memmap_read_ram_mk ((sp + 1) % 256 - 0x80) _ _ _ _ _ _ _ _ _ _ _ _ _ _ _ _ (by omega) hw]
  simp only [emu_then_ok, on_cpu_run, set_register_S_mk, pure_run, Nat.mod_mod]

set_option maxRecDepth 1000000 in
theorem TIA_reverse_byte_byte : ∀ b, b < 256 → TIA_reverse_byte b = reverse_bits b := by
  decide!

theorem and_mask_mod (x m : Nat) (hm : m &&& 0xFF = m) : x &&& m = (x % 256) &&& m := by
  rw [← and_0xFF x, Nat.and_assoc, Nat.and_comm 0xFF m, hm]

theorem TIA_reverse_byte_mod (x : Nat) : TIA_reverse_byte x = TIA_reverse_byte (x % 256) := by
  unfold TIA_reverse_byte
  rw [and_mask_mod x 0xF0 (by decide), and_mask_mod x 0x0F (by decide)]

theorem reverse_bits_mod (x : Nat) : reverse_bits x = reverse_bits (x % 256) := by
  have h : ∀ i, i < 8 → (x % 256).testBit i = x.testBit i := by
    intro i hi
    have e : (256 : Nat) = 2 ^ 8 := by norm_num
    rw [e, Nat.testBit_mod_two_pow]
    simp [hi]
  simp only [reverse_bits, List.range, List.range.loop, List.foldl, h, Nat.lt_irrefl,
    show (0:Nat) < 8 by norm_num, show (1:Nat) < 8 by norm_num, show (2:Nat) < 8 by norm_num,
    show (3:Nat) < 8 by norm_num, show (4:Nat) < 8 by norm_num, show (5:Nat) < 8 by norm_num,
    show (6:Nat) < 8 by norm_num, show (7:Nat) < 8 by norm_num]

theorem TIA_reverse_byte_eq (x : Nat) : TIA_reverse_byte x = reverse_bits x := by
  rw [TIA_reverse_byte_mod, reverse_bits_mod]
  exact TIA_reverse_byte_byte _ (Nat.mod_lt _ (by norm_num))


theorem fold_two_halves (a c : Nat → Nat) (lb0 : Nat → Nat) :
    ∀ n, n ≤ 80 → ∀ j,
      (List.range n).foldl
        (fun (lb : Nat → Nat) (i : Nat) =>
          Function.update (Function.update lb i (a i)) (i + 80) (c i)) lb0 j =
      if j < n then a j else if 80 ≤ j ∧ j < 80 + n then c (j - 80) else lb0 j := by
  intro n
  induction n with
  | zero =>
    intro _ j
    simp only [List.range_zero, List.foldl_nil]
    rw [if_neg (by omega), if_neg (by omega)]
  | succ n ih =>
    intro hn j
    have ih' := ih (by omega)
    rw [List.range_succ, List.foldl_append]
    simp only [List.foldl_cons, List.foldl_nil, Function.update_apply, ih']
    by_cases h1 : j = n + 80
    · subst h1
      have e : n + 80 - 80 = n := by omega
      simp only [e, if_true]
      rw [if_neg (by omega), if_pos (by omega)]
    · by_cases h2 : j = n
      · subst h2
        simp only [if_true]
        rw [if_neg h1, if_pos (by omega)]
      · simp only [h1, h2, if_false]
        split_ifs <;> first | rfl | omega

theorem playfield_step (pattern m : Nat) :
    (fun (lb : Nat → Nat) (i : Nat) =>
      let bitIndex := i >>> 2
      let lb := Function.update lb i (if pattern &&& (1 <<< bitIndex) ≠ 0 then 1 else 0)
      if m ≠ 0 then
        Function.update lb (i + TIA_COLOUR_CLOCK_VISIBLE_HALF)
          (if pattern &&& (0x80000 >>> bitIndex) ≠ 0 then 1 else 0)
      else
        Function.update lb (i + TIA_COLOUR_CLOCK_VISIBLE_HALF) (lb i)) =
    (fun (lb : Nat → Nat) (i : Nat) =>
      Function.update
        (Function.update lb i (if pattern &&& (1 <<< (i >>> 2)) ≠ 0 then 1 else 0)) (i + 80)
        (if m ≠ 0 then (if pattern &&& (0x80000 >>> (i >>> 2)) ≠ 0 then 1 else 0)
          else (if pattern &&& (1 <<< (i >>> 2)) ≠ 0 then 1 else 0))) := by
  funext lb i
  by_cases hm : m = 0
  · simp only [hm, ne_eq, not_true_eq_false, ite_false, Function.update_same,
      TIA_COLOUR_CLOCK_VISIBLE_HALF, TIA_COLOUR_CLOCK_VISIBLE, Nat.reduceDiv]
  · simp only [hm, ne_eq, not_false_eq_true, ite_true,
      TIA_COLOUR_CLOCK_VISIBLE_HALF, TIA_COLOUR_CLOCK_VISIBLE, Nat.reduceDiv]

theorem and_one_shl (x b : Nat) : (x &&& (1 <<< b) ≠ 0) ↔ x.testBit b = true := by
  rw [Nat.one_shiftLeft]
  exact and_two_pow_ne_zero_iff x b

theorem and_top_shr (x b : Nat) (hb : b ≤ 19) :
    (x &&& (0x80000 >>> b) ≠ 0) ↔ x.testBit (19 - b) = true := by
  have e : (0x80000 : Nat) >>> b = 2 ^ (19 - b) := by
    rw [Nat.shiftRight_eq_div_pow, show (0x80000 : Nat) = 2 ^ 19 by norm_num,
      Nat.pow_div hb (by norm_num)]
  rw [e]
  exact and_two_pow_ne_zero_iff x _

theorem testBit_mod_u32 (x b : Nat) (hb : b < 32) :
    (x % 4294967296).testBit b = x.testBit b := by
  rw [show (4294967296 : Nat) = 2 ^ 32 by norm_num, Nat.testBit_mod_two_pow]
  simp [hb]

theorem arr_get_ok {α : Type} (id : ArrayId) (size : Nat) (a : Nat → α) (i : Nat)
    (h : i < size) : arr_get id size a (i : Int) = .ok (a i) := by
  unfold arr_get
  rw [if_pos ⟨by omega, by omega⟩]
  simp

theorem arr_set_ok {α : Type} (id : ArrayId) (size : Nat) (a : Nat → α) (i : Nat) (v : α)
    (h : i < size) : arr_set id size a (i : Int) v = .ok (Function.update a i v) := by
  unfold arr_set
  rw [if_pos ⟨by omega, by omega⟩]
  simp

theorem TIA_set_read_reg_ok (reg value : Nat) (tia : atari_tia) (h : reg < TIA_READ_REG_LEN) :
    TIA_set_read_reg reg value tia =
      .ok { tia with read_regs := Function.update tia.read_regs reg (value % 256) } := by
  unfold TIA_set_read_reg
  rw [arr_set_ok _ _ _ _ _ h]
  rfl

theorem except_bind_ok {α β : Type} (a : α) (f : α → Except Fault β) :
    (Except.ok a >>= f) = f a := by
  show Except.bind (Except.ok a) f = f a
  unfold Except.bind; exact rfl

theorem except_pure {α : Type} (a : α) : (pure a : Except Fault α) = .ok a := by
  show Except.pure a = _; unfold Except.pure; exact rfl

theorem visible_index (cc : Nat) (h1 : 68 ≤ cc) :
    ((cc : Int) - (TIA_COLOUR_CLOCK_HSYNC : Nat)) = ((cc - 68 : Nat) : Int) := by
  simp only [TIA_COLOUR_CLOCK_HSYNC]; omega

theorem TIA_test_ball_bit_visible (tia : atari_tia) (h1 : 68 ≤ tia.colour_clock)
    (h2 : tia.colour_clock < 228) :
    TIA_test_ball_bit tia = .ok (line_sample tia.ball.line_buffer (tia.colour_clock - 68)) := by
  unfold TIA_test_ball_bit line_sample
  rw [if_neg (by simp only [TIA_COLOUR_CLOCK_HSYNC]; omega), visible_index _ h1,
    arr_get_ok _ _ _ _ (by simp only [TIA_COLOUR_CLOCK_VISIBLE]; omega), except_bind_ok,
    except_pure]

theorem TIA_test_playfield_bit_visible (tia : atari_tia) (h1 : 68 ≤ tia.colour_clock)
    (h2 : tia.colour_clock < 228) :
    TIA_test_playfield_bit tia =
      .ok (line_sample tia.playfield.line_buffer (tia.colour_clock - 68)) := by
  unfold TIA_test_playfield_bit line_sample
  rw [if_neg (by simp only [TIA_COLOUR_CLOCK_HSYNC]; omega), visible_index _ h1,
    arr_get_ok _ _ _ _ (by simp only [TIA_COLOUR_CLOCK_VISIBLE]; omega), except_bind_ok,
    except_pure]

theorem TIA_test_missile_bit_visible (m : Nat) (tia : atari_tia) (hm : m < 2)
    (h1 : 68 ≤ tia.colour_clock) (h2 : tia.colour_clock < 228) :
    TIA_test_missile_bit m tia =
      .ok (line_sample (tia.missiles m).line_buffer (tia.colour_clock - 68)) := by
  unfold TIA_test_missile_bit line_sample
  rw [if_neg (by simp only [TIA_COLOUR_CLOCK_HSYNC]; omega), visible_index _ h1,
    arr_get_ok _ _ _ _ hm, except_bind_ok,
    arr_get_ok _ _ _ _ (by simp only [TIA_COLOUR_CLOCK_VISIBLE]; omega), except_bind_ok,
    except_pure]

theorem TIA_test_player_bit_visible (m : Nat) (tia : atari_tia) (hm : m < 2)
    (h1 : 68 ≤ tia.colour_clock) (h2 : tia.colour_clock < 228) :
    TIA_test_player_bit m tia =
      .ok (line_sample (tia.players m).line_buffer (tia.colour_clock - 68)) := by
  unfold TIA_test_player_bit line_sample
  rw [if_neg (by simp only [TIA_COLOUR_CLOCK_HSYNC]; omega), visible_index _ h1,
    arr_get_ok _ _ _ _ hm, except_bind_ok,
    arr_get_ok _ _ _ _ (by simp only [TIA_COLOUR_CLOCK_VISIBLE]; omega), except_bind_ok,
    except_pure]

/-- In the visible part of a line, with the colour registers holding bytes,
`TIA_generate_colour` succeeds and stores the palette entry of the selected
colour at the current pixel. -/
theorem TIA_generate_colour_visible (tia : atari_tia) (h1 : 68 ≤ tia.colour_clock)
    (h2 : tia.colour_clock < 228) (hregs : ∀ r, tia.write_regs r < 256) :
    ∃ tia', TIA_generate_colour tia = .ok tia' ∧
      tia'.tia_raw_buffer = Function.update tia.tia_raw_buffer (tia.colour_clock - 68)
        (X4 (tia.tia_rgb_color_map (TIA_select_colour tia (tia.colour_clock - 68)
          (line_sample (tia.missiles 0).line_buffer (tia.colour_clock - 68))
          (line_sample (tia.missiles 1).line_buffer (tia.colour_clock - 68))
          (line_sample (tia.players 0).line_buffer (tia.colour_clock - 68))
          (line_sample (tia.players 1).line_buffer (tia.colour_clock - 68))
          (line_sample tia.ball.line_buffer (tia.colour_clock - 68))
          (line_sample tia.playfield.line_buffer (tia.colour_clock - 68)) >>> 1))) := by
  have hu : u32 ((tia.colour_clock : Int) - (TIA_COLOUR_CLOCK_HSYNC : Nat)) =
      tia.colour_clock - 68 := by
    unfold u32; simp only [TIA_COLOUR_CLOCK_HSYNC]; omega
  have hi : tia.colour_clock - 68 < TIA_COLOUR_CLOCK_VISIBLE := by
    simp only [TIA_COLOUR_CLOCK_VISIBLE]; omega
  have hsel : ∀ x a b c d e f, TIA_select_colour tia x a b c d e f < 256 := by
    intro x a b c d e f
    unfold TIA_select_colour
    simp only
    split_ifs <;> exact hregs _
  have hpal : ∀ x a b c d e f, TIA_select_colour tia x a b c d e f >>> 1 < 128 := by
    intro x a b c d e f
    have := hsel x a b c d e f
    rw [Nat.shiftRight_eq_div_pow]; omega
  unfold TIA_generate_colour
  rw [TIA_test_missile_bit_visible 0 tia (by norm_num) h1 h2, except_bind_ok,
    TIA_test_missile_bit_visible 1 tia (by norm_num) h1 h2, except_bind_ok,
    TIA_test_player_bit_visible 0 tia (by norm_num) h1 h2, except_bind_ok,
    TIA_test_player_bit_visible 1 tia (by norm_num) h1 h2, except_bind_ok,
    TIA_test_ball_bit_visible tia h1 h2, except_bind_ok,
    TIA_test_playfield_bit_visible tia h1 h2, except_bind_ok]
  simp only [hu, arr_get_ok _ _ _ _ (hpal _ _ _ _ _ _ _), except_bind_ok,
    arr_set_ok _ _ _ _ _ hi,
    TIA_set_read_reg_ok _ _ _ (show TIA_READ_REG_CXM0P < TIA_READ_REG_LEN by decide),
    TIA_set_read_reg_ok _ _ _ (show TIA_READ_REG_CXM1P < TIA_READ_REG_LEN by decide),
    TIA_set_read_reg_ok _ _ _ (show TIA_READ_REG_CXP0FB < TIA_READ_REG_LEN by decide),
    TIA_set_read_reg_ok _ _ _ (show TIA_READ_REG_CXP1FB < TIA_READ_REG_LEN by decide),
    TIA_set_read_reg_ok _ _ _ (show TIA_READ_REG_CXM0FB < TIA_READ_REG_LEN by decide),
    TIA_set_read_reg_ok _ _ _ (show TIA_READ_REG_CXM1FB < TIA_READ_REG_LEN by decide),
    TIA_set_read_reg_ok _ _ _ (show TIA_READ_REG_CXBLPF < TIA_READ_REG_LEN by decide),
    TIA_set_read_reg_ok _ _ _ (show TIA_READ_REG_CXPPMM < TIA_READ_REG_LEN by decide)]
  exact ⟨_, rfl, rfl⟩

theorem TIA_select_colour_priority (tia : atari_tia) (x M0 M1 P0 P1 BL PF : Nat)
    (hscore : tia.write_regs TIA_WRITE_REG_CTRLPF &&& 0b10 = 0) :
    TIA_select_colour tia x M0 M1 P0 P1 BL PF =
      tia.write_regs (priority_register
        (decide (tia.write_regs TIA_WRITE_REG_CTRLPF &&& 0b100 ≠ 0)) P0 P1 M0 M1 BL PF) := by
  unfold TIA_select_colour priority_register
  simp only [hscore, ne_eq, not_true_eq_false, ite_false, decide_eq_true_eq]
  split_ifs <;> simp_all

theorem run_instruction_last (fuel : Nat) (s s1 : Atari)
    (h : mos6507_clock_tick s = .ok (0, s1)) (hc : s1.cpu.current_clock = 0) :
    run_instruction (fuel + 1) s = .ok (some 1, s1) := by
  rw [run_instruction]
  simp only [bind_run, h, emu_then_ok, ite_run, pure_run, get_run, getThe_run, hc, ne_eq,
    not_true_eq_false, ite_false, ite_true]

theorem run_instruction_step (fuel n : Nat) (s s1 s' : Atari)
    (h : mos6507_clock_tick s = .ok (0, s1)) (hc : s1.cpu.current_clock ≠ 0)
    (hr : run_instruction fuel s1 = .ok (some n, s')) :
    run_instruction (fuel + 1) s = .ok (some (n + 1), s') := by
  rw [run_instruction]
  simp only [bind_run, h, emu_then_ok, ite_run, pure_run, get_run, getThe_run, hc, ne_eq,
    not_true_eq_false, ite_false, hr, Option.map_some']

theorem tick_more {op n : Nat} {fn : opcode_fn} {mode : addressing_mode_t}
    {a y x pc sp p cc ab db : Nat} {riot : mos6532} {tia : atari_tia} {cart : cartridge_t}
    {st : opcode_fn → static_var → Nat}
    {a' y' x' pc' sp' p' ci' cc' ab' db' n' : Nat} {riot' : mos6532} {tia' : atari_tia}
    {cart' : cartridge_t} {st' : opcode_fn → static_var → Nat}
    (hc : opcode_call fn n mode ⟨⟨a, y, x, pc, sp, p, op, cc, ab, db⟩, riot, tia, cart, n, st⟩ =
      .ok (-1, ⟨⟨a', y', x', pc', sp', p', ci', cc', ab', db'⟩, riot', tia', cart', n', st'⟩))
    (hop : op ≠ 0) (hv : opcode_validate op = .ok 0) (ht : ISA_table_get op = .ok ⟨fn, mode⟩)
    (hn : n' + 1 < 256) :
    mos6507_clock_tick ⟨⟨a, y, x, pc, sp, p, op, cc, ab, db⟩, riot, tia, cart, n, st⟩ =
      .ok (0, ⟨⟨a', y', x', pc', sp', p', ci', n' + 1, ab', db'⟩, riot', tia', cart', n' + 1,
        st'⟩) := by
  rw [clock_tick_next _ _ op n fn mode _ hc rfl rfl hop hv ht]
  have e : (n' + 1) % 256 = n' + 1 := Nat.mod_eq_of_lt hn
  simp only [ite_true, e, Nat.succ_ne_zero, ite_false]

theorem tick_done {op n : Nat} {fn : opcode_fn} {mode : addressing_mode_t}
    {a y x pc sp p cc ab db : Nat} {riot : mos6532} {tia : atari_tia} {cart : cartridge_t}
    {st : opcode_fn → static_var → Nat}
    {a' y' x' pc' sp' p' ci' cc' ab' db' n' : Nat} {riot' : mos6532} {tia' : atari_tia}
    {cart' : cartridge_t} {st' : opcode_fn → static_var → Nat}
    (hc : opcode_call fn n mode ⟨⟨a, y, x, pc, sp, p, op, cc, ab, db⟩, riot, tia, cart, n, st⟩ =
      .ok (0, ⟨⟨a', y', x', pc', sp', p', ci', cc', ab', db'⟩, riot', tia', cart', n', st'⟩))
    (hop : op ≠ 0) (hv : opcode_validate op = .ok 0) (ht : ISA_table_get op = .ok ⟨fn, mode⟩) :
    mos6507_clock_tick ⟨⟨a, y, x, pc, sp, p, op, cc, ab, db⟩, riot, tia, cart, n, st⟩ =
      .ok (0, ⟨⟨a', y', x', pc', sp', p', 0, 0, ab', db'⟩, riot', tia', cart', 0, st'⟩) := by
  rw [clock_tick_next _ _ op n fn mode _ hc rfl rfl hop hv ht]
  simp only [Int.reduceNeg, Int.reduceEq, ite_false, Nat.zero_mod, ite_true]

theorem fetch_next_byte_cart (fn : opcode_fn) (v : static_var) (image : Nat → Nat)
    (a y x pc sp p ci cc ab db : Nat) (riot : mos6532) (tia : atari_tia) (cyc : Nat)
    (st : opcode_fn → static_var → Nat) (h1 : 0x1000 ≤ (pc + 1) % 65536 % 8192) :
    fetch_next_byte fn v ⟨⟨a, y, x, pc, sp, p, ci, cc, ab, db⟩, riot, tia, some image, cyc, st⟩ =
      .ok ((), ⟨⟨a, y, x, (pc + 1) % 65536, sp, p, ci, cc, (pc + 1) % 65536,
        image ((pc + 1) % 65536 % 8192 - 0x1000) % 256⟩, riot, tia, some image, cyc,
        fun f w => if f = fn ∧ w = v then image ((pc + 1) % 65536 % 8192 - 0x1000) % 256
          else st f w⟩) := by
  unfold fetch_next_byte memmap_read_static
  simp only [bind_run, emu_then_ok, on_cpu_run, get_static_run, set_static_run, increment_PC_mk,
    get_PC_mk, set_address_bus_mk, Nat.mod_mod, memmap_read_cart_mk _ _ _ _ _ _ _ _ _ _ _ _ _ _ _ _ h1]

set_option maxRecDepth 1000000 in
theorem ISA_table_get_20 :
    ISA_table_get 0x20 = .ok ⟨.JSR, OPCODE_ADDRESSING_MODE_ABSOLUTE⟩ := by decide!

set_option maxRecDepth 1000000 in
theorem ISA_table_get_60 :
    ISA_table_get 0x60 = .ok ⟨.RTS, OPCODE_ADDRESSING_MODE_IMPLIED⟩ := by decide!

theorem opcode_validate_20 : opcode_validate 0x20 = .ok 0 := by decide!
theorem opcode_validate_60 : opcode_validate 0x60 = .ok 0 := by decide!

theorem call_JSR_0 (mode : addressing_mode_t) (s : Atari) :
    opcode_call .JSR 0 mode s = .ok (-1, s) := by
  unfold opcode_call opcode_JSR
  simp only [pure_run]

theorem call_JSR_1 (mode : addressing_mode_t) (image : Nat → Nat)
    (a y x pc sp p ci cc ab db : Nat) (riot : mos6532) (tia : atari_tia) (cyc : Nat)
    (st : opcode_fn → static_var → Nat) (h1 : 0x1000 ≤ (pc + 1) % 65536 % 8192) :
    opcode_call .JSR 1 mode
      ⟨⟨a, y, x, pc, sp, p, ci, cc, ab, db⟩, riot, tia, some image, cyc, st⟩ =
      .ok (-1, ⟨⟨a, y, x, (pc + 1) % 65536, sp, p, ci, cc, (pc + 1) % 65536,
        image ((pc + 1) % 65536 % 8192 - 0x1000) % 256⟩, riot, tia, some image, cyc,
        fun f w => if f = .JSR ∧ w = .adl then image ((pc + 1) % 65536 % 8192 - 0x1000) % 256
          else st f w⟩) := by
  unfold opcode_call opcode_JSR
  simp only [bind_run, emu_then_ok, pure_run, fetch_next_byte_cart _ _ _ _ _ _ _ _ _ _ _ _ _ _ _ _ _ h1]

theorem call_JSR_2 (mode : addressing_mode_t) (a y x pc sp p ci cc ab db : Nat)
    (riot : mos6532) (tia : atari_tia) (cart : cartridge_t) (cyc : Nat)
    (st : opcode_fn → static_var → Nat) (hs : sp < 256) :
    opcode_call .JSR 2 mode ⟨⟨a, y, x, pc, sp, p, ci, cc, ab, db⟩, riot, tia, cart, cyc, st⟩ =
      .ok (-1, ⟨⟨a, y, x, pc, sp, p, ci, cc, 0x100 + sp, db⟩, riot, tia, cart, cyc,
        fun f w => if f = .JSR ∧ w = .S then sp else st f w⟩) := by
  have e := hl_page STACK_PAGE sp (by norm_num) hs
  have e' : STACK_PAGE * 256 + sp = 0x100 + sp := by norm_num
  rw [e'] at e
  unfold opcode_call opcode_JSR
  simp only [bind_run, emu_then_ok, pure_run, get_run, getThe_run, get_register_S_mk,
    set_static_run, get_static_run, on_cpu_run, set_address_bus_hl_mk, and_self, ite_true, e]

theorem call_JSR_3 (mode : addressing_mode_t) (a y x pc sp p ci cc ab db : Nat)
    (riot : mos6532) (tia : atari_tia) (cart : cartridge_t) (cyc : Nat)
    (st : opcode_fn → static_var → Nat) (h1 : 0x80 ≤ sp) (h2 : sp ≤ 0xFF) :
    opcode_call .JSR 3 mode ⟨⟨a, y, x, pc, sp, p, ci, cc, ab, db⟩, riot, tia, cart, cyc, st⟩ =
      .ok (-1, ⟨⟨a, y, x, pc, (sp + 255) % 256, p, ci, cc, 0x100 + sp, (pc >>> 8) % 256⟩,
        ⟨Function.update riot.memory (sp - 0x80) ((pc >>> 8) % 256), riot.timer,
          riot.joy1_state, riot.switches_state⟩, tia, cart, cyc,
        fun f w => if f = .JSR ∧ w = .pch then (pc >>> 8) % 256 else st f w⟩) := by
  unfold opcode_call opcode_JSR
  simp only [bind_run, emu_then_ok, pure_run, get_run, getThe_run, get_PC_mk,
    set_static_run, get_static_run, and_self, ite_true, push_stack_mk _ _ _ _ _ _ _ _ _ _ _ _ _ _ _ _ h1 h2,
    Nat.mod_mod]

theorem call_JSR_4 (mode : addressing_mode_t) (a y x pc sp p ci cc ab db : Nat)
    (riot : mos6532) (tia : atari_tia) (cart : cartridge_t) (cyc : Nat)
    (st : opcode_fn → static_var → Nat) (h1 : 0x80 ≤ sp) (h2 : sp ≤ 0xFF) :
    opcode_call .JSR 4 mode ⟨⟨a, y, x, pc, sp, p, ci, cc, ab, db⟩, riot, tia, cart, cyc, st⟩ =
      .ok (-1, ⟨⟨a, y, x, pc, (sp + 255) % 256, p, ci, cc, 0x100 + sp, pc % 256⟩,
        ⟨Function.update riot.memory (sp - 0x80) (pc % 256), riot.timer,
          riot.joy1_state, riot.switches_state⟩, tia, cart, cyc,
        fun f w => if f = .JSR ∧ w = .pcl then pc % 256 else st f w⟩) := by
  unfold opcode_call opcode_JSR
  simp only [bind_run, emu_then_ok, pure_run, get_run, getThe_run, get_PC_mk,
    set_static_run, get_static_run, and_self, ite_true, push_stack_mk _ _ _ _ _ _ _ _ _ _ _ _ _ _ _ _ h1 h2,
    Nat.mod_mod]

theorem call_JSR_5 (mode : addressing_mode_t) (image : Nat → Nat)
    (a y x pc sp p ci cc ab db adl : Nat) (riot : mos6532) (tia : atari_tia) (cyc : Nat)
    (st : opcode_fn → static_var → Nat) (h1 : 0x1000 ≤ (pc + 1) % 65536 % 8192)
    (hadl : st .JSR .adl = adl) (hl : adl < 256) :
    opcode_call .JSR 5 mode
      ⟨⟨a, y, x, pc, sp, p, ci, cc, ab, db⟩, riot, tia, some image, cyc, st⟩ =
      .ok (0, ⟨⟨a, y, x, image ((pc + 1) % 65536 % 8192 - 0x1000) % 256 * 256 + adl, sp, p, ci,
        cc, image ((pc + 1) % 65536 % 8192 - 0x1000) % 256 * 256 + adl,
        image ((pc + 1) % 65536 % 8192 - 0x1000) % 256⟩, riot, tia, some image, cyc,
        fun f w => if f = .JSR ∧ w = .adh then image ((pc + 1) % 65536 % 8192 - 0x1000) % 256
          else st f w⟩) := by
  have e := hl_page (image ((pc + 1) % 65536 % 8192 - 0x1000) % 256) adl
    (Nat.mod_lt _ (by norm_num)) hl
  unfold opcode_call opcode_JSR
  simp only [bind_run, emu_then_ok, pure_run, fetch_next_byte_cart _ _ _ _ _ _ _ _ _ _ _ _ _ _ _ _ _ h1,
    get_static_run, on_cpu_run, set_address_bus_hl_mk, set_PC_hl_mk, and_self, ite_true,
    and_false, ite_false, reduceCtorEq, hadl, e]

theorem call_RTS_0 (mode : addressing_mode_t) (s : Atari) :
    opcode_call .RTS 0 mode s = .ok (-1, s) := by
  unfold opcode_call opcode_RTS
  simp only [pure_run]

theorem call_RTS_1 (mode : addressing_mode_t) (a y x pc sp p ci cc ab db : Nat)
    (riot : mos6532) (tia : atari_tia) (cart : cartridge_t) (cyc : Nat)
    (st : opcode_fn → static_var → Nat) :
    opcode_call .RTS 1 mode ⟨⟨a, y, x, pc, sp, p, ci, cc, ab, db⟩, riot, tia, cart, cyc, st⟩ =
      .ok (-1, ⟨⟨a, y, x, (pc + 1) % 65536, sp, p, ci, cc, (pc + 1) % 65536, db⟩, riot, tia,
        cart, cyc, st⟩) := by
  unfold opcode_call opcode_RTS
  simp only [bind_run, emu_then_ok, pure_run, on_cpu_run, increment_PC_mk, get_PC_mk,
    set_address_bus_mk, Nat.mod_mod]

theorem call_RTS_2 (mode : addressing_mode_t) (a y x pc sp p ci cc ab db : Nat)
    (riot : mos6532) (tia : atari_tia) (cart : cartridge_t) (cyc : Nat)
    (st : opcode_fn → static_var → Nat) (hs : sp < 256) :
    opcode_call .RTS 2 mode ⟨⟨a, y, x, pc, sp, p, ci, cc, ab, db⟩, riot, tia, cart, cyc, st⟩ =
      .ok (-1, ⟨⟨a, y, x, pc, sp, p, ci, cc, 0x100 + sp, db⟩, riot, tia, cart, cyc,
        fun f w => if f = .RTS ∧ w = .S then sp else st f w⟩) := by
  have e := hl_page STACK_PAGE sp (by norm_num) hs
  have e' : STACK_PAGE * 256 + sp = 0x100 + sp := by norm_num
  rw [e'] at e
  unfold opcode_call opcode_RTS
  simp only [bind_run, emu_then_ok, pure_run, get_run, getThe_run, get_register_S_mk,
    set_static_run, get_static_run, on_cpu_run, set_address_bus_hl_mk, and_self, ite_true, e]

theorem pull_stack_static_mk (fn : opcode_fn) (v : static_var)
    (a y x pc sp p ci cc ab db : Nat) (riot : mos6532)
    (tia : atari_tia) (cart : cartridge_t) (cyc : Nat) (st : opcode_fn → static_var → Nat)
    (h1 : 0x80 ≤ (sp + 1) % 256) :
    mos6507_pull_stack_static fn v
        ⟨⟨a, y, x, pc, sp, p, ci, cc, ab, db⟩, riot, tia, cart, cyc, st⟩ =
      .ok ((), ⟨⟨a, y, x, pc, (sp + 1) % 256, p, ci, cc, 0x100 + (sp + 1) % 256,
          riot.memory ((sp + 1) % 256 - 0x80) % 256⟩, riot, tia, cart, cyc,
        fun f w => if f = fn ∧ w = v then riot.memory ((sp + 1) % 256 - 0x80) else st f w⟩) := by
  unfold mos6507_pull_stack_static
  simp only [bind_run, emu_then_ok, get_static_run, set_static_run,
    pull_stack_mk _ _ _ _ _ _ _ _ _ _ _ _ _ _ _ _ h1]

theorem call_RTS_3 (mode : addressing_mode_t) (a y x pc sp p ci cc ab db : Nat)
    (riot : mos6532) (tia : atari_tia) (cart : cartridge_t) (cyc : Nat)
    (st : opcode_fn → static_var → Nat) (h1 : 0x80 ≤ (sp + 1) % 256) :
    opcode_call .RTS 3 mode ⟨⟨a, y, x, pc, sp, p, ci, cc, ab, db⟩, riot, tia, cart, cyc, st⟩ =
      .ok (-1, ⟨⟨a, y, x, pc, (sp + 1) % 256, p, ci, cc, 0x100 + (sp + 1) % 256,
          riot.memory ((sp + 1) % 256 - 0x80) % 256⟩, riot, tia, cart, cyc,
        fun f w => if f = .RTS ∧ w = .pcl then riot.memory ((sp + 1) % 256 - 0x80)
          else st f w⟩) := by
  unfold opcode_call opcode_RTS
  simp only [bind_run, emu_then_ok, pure_run,
    pull_stack_static_mk _ _ _ _ _ _ _ _ _ _ _ _ _ _ _ _ _ h1]

theorem call_RTS_4 (mode : addressing_mode_t) (a y x pc sp p ci cc ab db : Nat)
    (riot : mos6532) (tia : atari_tia) (cart : cartridge_t) (cyc : Nat)
    (st : opcode_fn → static_var → Nat) (h1 : 0x80 ≤ (sp + 1) % 256) :
    opcode_call .RTS 4 mode ⟨⟨a, y, x, pc, sp, p, ci, cc, ab, db⟩, riot, tia, cart, cyc, st⟩ =
      .ok (-1, ⟨⟨a, y, x, pc, (sp + 1) % 256, p, ci, cc, 0x100 + (sp + 1) % 256,
          riot.memory ((sp + 1) % 256 - 0x80) % 256⟩, riot, tia, cart, cyc,
        fun f w => if f = .RTS ∧ w = .pch then riot.memory ((sp + 1) % 256 - 0x80)
          else st f w⟩) := by
  unfold opcode_call opcode_RTS
  simp only [bind_run, emu_then_ok, pure_run,
    pull_stack_static_mk _ _ _ _ _ _ _ _ _ _ _ _ _ _ _ _ _ h1]

theorem call_RTS_5 (mode : addressing_mode_t) (a y x pc sp p ci cc ab db pch pcl : Nat)
    (riot : mos6532) (tia : atari_tia) (cart : cartridge_t) (cyc : Nat)
    (st : opcode_fn → static_var → Nat) (hh : st .RTS .pch = pch) (hl : st .RTS .pcl = pcl)
    (h1 : pch < 256) (h2 : pcl < 256) :
    opcode_call .RTS 5 mode ⟨⟨a, y, x, pc, sp, p, ci, cc, ab, db⟩, riot, tia, cart, cyc, st⟩ =
      .ok (0, ⟨⟨a, y, x, (pch * 256 + pcl + 2) % 65536, sp, p, ci, cc,
        (pch * 256 + pcl + 2) % 65536, db⟩, riot, tia, cart, cyc, st⟩) := by
  have e := hl_page pch pcl h1 h2
  have e2 : ((pch * 256 + pcl + 1) % 65536 + 1) % 65536 = (pch * 256 + pcl + 2) % 65536 := by
    omega
  unfold opcode_call opcode_RTS END_OPCODE
  simp only [bind_run, emu_then_ok, pure_run, get_static_run, on_cpu_run, set_PC_hl_mk,
    set_address_bus_hl_mk, increment_PC_mk, get_PC_mk, set_address_bus_mk, hh, hl, e, e2,
    Nat.mod_mod]

/-- JSR, run from its opcode fetch to completion: six calls of
`mos6507_clock_tick`; the address of the last byte of the instruction is
pushed, high byte first. -/
theorem JSR_run (fuel : Nat) (image : Nat → Nat) (a y x pc sp p cc db : Nat) (riot : mos6532)
    (tia : atari_tia) (st : opcode_fn → static_var → Nat)
    (h1 : pc < 65536) (h2 : 0x1000 ≤ pc % 8192) (h3 : pc % 8192 + 2 < 8192)
    (hs1 : 0x81 ≤ sp) (hs2 : sp ≤ 0xFF)
    (hop : image (pc % 8192 - 0x1000) % 256 = 0x20) :
    ∃ st', run_instruction (fuel + 6)
        ⟨⟨a, y, x, pc, sp, p, 0, cc, pc, db⟩, riot, tia, some image, 0, st⟩ =
      .ok (some 6, ⟨⟨a, y, x,
          image (pc % 8192 + 2 - 0x1000) % 256 * 256 + image (pc % 8192 + 1 - 0x1000) % 256,
          sp - 2, p, 0, 0,
          image (pc % 8192 + 2 - 0x1000) % 256 * 256 + image (pc % 8192 + 1 - 0x1000) % 256,
          image (pc % 8192 + 2 - 0x1000) % 256⟩,
        ⟨Function.update (Function.update riot.memory (sp - 0x80) ((pc + 1) / 256))
            (sp - 1 - 0x80) ((pc + 1) % 256),
          riot.timer, riot.joy1_state, riot.switches_state⟩, tia, some image, 0, st'⟩) := by
  have e1 : (pc + 1) % 65536 = pc + 1 := by omega
  have e2 : (pc + 1) % 8192 = pc % 8192 + 1 := by omega
  have e3 : (pc + 1 + 1) % 65536 = pc + 2 := by omega
  have e4 : (pc + 2) % 8192 = pc % 8192 + 2 := by omega
  have e5 : (sp + 255) % 256 = sp - 1 := by omega
  have e6 : (sp - 1 + 255) % 256 = sp - 2 := by omega
  have e7 : ((pc + 1) >>> 8) % 256 = (pc + 1) / 256 := by
    rw [Nat.shiftRight_eq_div_pow]; omega
  have t1 := clock_tick_first image a y x pc sp p cc pc db riot tia st 0x20 _ _ h2 hop
    opcode_validate_20 ISA_table_get_20 (call_JSR_0 _)
  have t2 := tick_more (call_JSR_1 OPCODE_ADDRESSING_MODE_ABSOLUTE image a y x pc sp p 0x20 1 pc
    0x20 riot tia 1 st (by omega)) (by decide) opcode_validate_20 ISA_table_get_20 (by norm_num)
  simp only [e1, e2, Nat.reduceAdd] at t2
  have t3 := tick_more (call_JSR_2 OPCODE_ADDRESSING_MODE_ABSOLUTE a y x (pc + 1) sp p 0x20 2
    (pc + 1) (image (pc % 8192 + 1 - 0x1000) % 256) riot tia (some image) 2
    (fun f w => if f = .JSR ∧ w = .adl then image (pc % 8192 + 1 - 0x1000) % 256 else st f w)
    (by omega)) (by decide) opcode_validate_20 ISA_table_get_20 (by norm_num)
  simp only [Nat.reduceAdd] at t3
  have t4 := tick_more (call_JSR_3 OPCODE_ADDRESSING_MODE_ABSOLUTE a y x (pc + 1) sp p 0x20 3
    (0x100 + sp) (image (pc % 8192 + 1 - 0x1000) % 256) riot tia (some image) 3
    (fun f w => if f = .JSR ∧ w = .S then sp else
      if f = .JSR ∧ w = .adl then image (pc % 8192 + 1 - 0x1000) % 256 else st f w)
    (by omega) hs2) (by decide) opcode_validate_20 ISA_table_get_20 (by norm_num)
  simp only [Nat.reduceAdd, e5, e7] at t4
  have t5 := tick_more (call_JSR_4 OPCODE_ADDRESSING_MODE_ABSOLUTE a y x (pc + 1) (sp - 1) p 0x20
    4 (0x100 + sp) ((pc + 1) / 256)
    ⟨Function.update riot.memory (sp - 0x80) ((pc + 1) / 256), riot.timer, riot.joy1_state,
      riot.switches_state⟩ tia (some image) 4
    (fun f w => if f = .JSR ∧ w = .pch then (pc + 1) / 256 else
      if f = .JSR ∧ w = .S then sp else
      if f = .JSR ∧ w = .adl then image (pc % 8192 + 1 - 0x1000) % 256 else st f w)
    (by omega) (by omega)) (by decide) opcode_validate_20 ISA_table_get_20 (by norm_num)
  simp only [Nat.reduceAdd, e6] at t5
  have t6 := tick_done (call_JSR_5 OPCODE_ADDRESSING_MODE_ABSOLUTE image a y x (pc + 1) (sp - 2) p
    0x20 5 (0x100 + (sp - 1)) ((pc + 1) % 256) (image (pc % 8192 + 1 - 0x1000) % 256)
    ⟨Function.update (Function.update riot.memory (sp - 0x80) ((pc + 1) / 256))
        (sp - 1 - 0x80) ((pc + 1) % 256), riot.timer, riot.joy1_state, riot.switches_state⟩
    tia 5
    (fun f w => if f = .JSR ∧ w = .pcl then (pc + 1) % 256 else
      if f = .JSR ∧ w = .pch then (pc + 1) / 256 else
      if f = .JSR ∧ w = .S then sp else
      if f = .JSR ∧ w = .adl then image (pc % 8192 + 1 - 0x1000) % 256 else st f w)
    (by omega) (by simp only [and_self, and_false, ite_true, ite_false, reduceCtorEq])
    (Nat.mod_lt _ (by norm_num))) (by decide) opcode_validate_20 ISA_table_get_20
  simp only [e3, e4] at t6
  exact ⟨_, run_instruction_step _ _ _ _ _ t1 (show (1 : Nat) ≠ 0 by decide)
    (run_instruction_step _ _ _ _ _ t2 (show (2 : Nat) ≠ 0 by decide)
    (run_instruction_step _ _ _ _ _ t3 (show (3 : Nat) ≠ 0 by decide)
    (run_instruction_step _ _ _ _ _ t4 (show (4 : Nat) ≠ 0 by decide)
    (run_instruction_step _ _ _ _ _ t5 (show (5 : Nat) ≠ 0 by decide)
    (run_instruction_last _ _ _ t6 rfl)))))⟩

/-- RTS, run from its opcode fetch to completion: six calls of
`mos6507_clock_tick`; PC becomes the pulled word plus 2. -/
theorem RTS_run (fuel : Nat) (image : Nat → Nat) (a y x pc sp p cc db pch pcl : Nat)
    (riot : mos6532) (tia : atari_tia) (st : opcode_fn → static_var → Nat)
    (h2 : 0x1000 ≤ pc % 8192) (hs1 : 0x7F ≤ sp) (hs2 : sp + 2 ≤ 0xFF)
    (hop : image (pc % 8192 - 0x1000) % 256 = 0x60)
    (hl : riot.memory (sp + 1 - 0x80) = pcl) (hh : riot.memory (sp + 2 - 0x80) = pch)
    (hpcl : pcl < 256) (hpch : pch < 256) :
    ∃ st' db', run_instruction (fuel + 6)
        ⟨⟨a, y, x, pc, sp, p, 0, cc, pc, db⟩, riot, tia, some image, 0, st⟩ =
      .ok (some 6, ⟨⟨a, y, x, (pch * 256 + pcl + 2) % 65536, sp + 2, p, 0, 0,
          (pch * 256 + pcl + 2) % 65536, db'⟩, riot, tia, some image, 0, st'⟩) := by
  have e5 : (sp + 1) % 256 = sp + 1 := by omega
  have e6 : (sp + 1 + 1) % 256 = sp + 2 := by omega
  have t1 := clock_tick_first image a y x pc sp p cc pc db riot tia st 0x60 _ _ h2 hop
    opcode_validate_60 ISA_table_get_60 (call_RTS_0 _)
  have t2 := tick_more (call_RTS_1 OPCODE_ADDRESSING_MODE_IMPLIED a y x pc sp p 0x60 1 pc
    0x60 riot tia (some image) 1 st) (by decide) opcode_validate_60 ISA_table_get_60
    (by norm_num)
  simp only [Nat.reduceAdd] at t2
  have t3 := tick_more (call_RTS_2 OPCODE_ADDRESSING_MODE_IMPLIED a y x ((pc + 1) % 65536) sp p
    0x60 2 ((pc + 1) % 65536) 0x60 riot tia (some image) 2 st (by omega))
    (by decide) opcode_validate_60 ISA_table_get_60 (by norm_num)
  simp only [Nat.reduceAdd] at t3
  have t4 := tick_more (call_RTS_3 OPCODE_ADDRESSING_MODE_IMPLIED a y x ((pc + 1) % 65536) sp p
    0x60 3 (0x100 + sp) 0x60 riot tia (some image) 3
    (fun f w => if f = .RTS ∧ w = .S then sp else st f w) (by omega))
    (by decide) opcode_validate_60 ISA_table_get_60 (by norm_num)
  simp only [Nat.reduceAdd, e5, hl, Nat.mod_eq_of_lt hpcl] at t4
  have t5 := tick_more (call_RTS_4 OPCODE_ADDRESSING_MODE_IMPLIED a y x ((pc + 1) % 65536)
    (sp + 1) p 0x60 4 (0x100 + (sp + 1)) pcl riot tia (some image) 4
    (fun f w => if f = .RTS ∧ w = .pcl then pcl else
      if f = .RTS ∧ w = .S then sp else st f w) (by omega))
    (by decide) opcode_validate_60 ISA_table_get_60 (by norm_num)
  simp only [Nat.reduceAdd, e6, hh, Nat.mod_eq_of_lt hpch] at t5
  have t6 := tick_done (call_RTS_5 OPCODE_ADDRESSING_MODE_IMPLIED a y x ((pc + 1) % 65536)
    (sp + 2) p 0x60 5 (0x100 + (sp + 2)) pch pch pcl riot tia (some image) 5
    (fun f w => if f = .RTS ∧ w = .pch then pch else
      if f = .RTS ∧ w = .pcl then pcl else
      if f = .RTS ∧ w = .S then sp else st f w)
    (by simp only [and_self, ite_true])
    (by simp only [and_self, and_false, ite_true, ite_false, reduceCtorEq])
    hpch hpcl) (by decide) opcode_validate_60 ISA_table_get_60
  exact ⟨_, _, run_instruction_step _ _ _ _ _ t1 (show (1 : Nat) ≠ 0 by decide)
    (run_instruction_step _ _ _ _ _ t2 (show (2 : Nat) ≠ 0 by decide)
    (run_instruction_step _ _ _ _ _ t3 (show (3 : Nat) ≠ 0 by decide)
    (run_instruction_step _ _ _ _ _ t4 (show (4 : Nat) ≠ 0 by decide)
    (run_instruction_step _ _ _ _ _ t5 (show (5 : Nat) ≠ 0 by decide)
    (run_instruction_last _ _ _ t6 rfl)))))⟩

theorem reads_as_cart (riot : mos6532) (tia : atari_tia) (image : Nat → Nat) (ea : Nat)
    (h : 0x1000 ≤ ea % 8192) :
    reads_as riot tia (some image) ea (image (ea % 8192 - 0x1000) % 256) := by
  intro d a y x pc sp p ci cc db cyc st
  rw [memmap_read_cart_mk image d a y x pc sp p ci cc ea db riot tia cyc st h, Nat.mod_mod]

theorem reads_as_ram (riot : mos6532) (tia : atari_tia) (cart : cartridge_t) (ea k : Nat)
    (hk : k ≤ 0x7F) (h : ea % 8192 = 0x80 + k ∨ ea % 8192 = 0x180 + k) :
    reads_as riot tia cart ea (riot.memory k) := by
  intro d a y x pc sp p ci cc db cyc st
  rw [memmap_read_ram_mk k d a y x pc sp p ci cc ea db riot tia cart cyc st hk h]

theorem memmap_read_static_reads (fn : opcode_fn) (v : static_var)
    (a y x pc sp p ci cc ea db val : Nat) (riot : mos6532) (tia : atari_tia)
    (cart : cartridge_t) (cyc : Nat) (st : opcode_fn → static_var → Nat)
    (h : reads_as riot tia cart ea val) :
    memmap_read_static fn v
        ⟨⟨a, y, x, pc, sp, p, ci, cc, ea, db⟩, riot, tia, cart, cyc, st⟩ =
      .ok ((), ⟨⟨a, y, x, pc, sp, p, ci, cc, ea, val % 256⟩, riot, tia, cart, cyc,
        fun f w => if f = fn ∧ w = v then val else st f w⟩) := by
  unfold memmap_read_static
  simp only [bind_run, emu_then_ok, get_static_run, set_static_run, h _ _ _ _ _ _ _ _ _ _ _ _]

theorem carry_bit (b r : Nat) (hb : b < 256) (hr : r < 256) :
    ((b + r) &&& 0x0100 ≠ 0) ↔ 0xFF < b + r := by
  rw [ne_eq, and_0x100_eq_zero_iff]
  omega

theorem indexed_address_mk (fn : opcode_fn) (reg : mos6507_register_t)
    (a y x pc sp p ci cc ab db r bal bah : Nat) (riot : mos6532) (tia : atari_tia)
    (cart : cartridge_t) (cyc : Nat) (st : opcode_fn → static_var → Nat)
    (hR : mos6507_get_register reg ⟨a, y, x, pc, sp, p, ci, cc, ab, db⟩ = r)
    (hbal : st fn .bal = bal) (hbah : st fn .bah = bah)
    (h1 : bal < 256) (h3 : r < 256) :
    indexed_address fn reg ⟨⟨a, y, x, pc, sp, p, ci, cc, ab, db⟩, riot, tia, cart, cyc, st⟩ =
      .ok (if 0xFF < bal + r then 1 else 0,
        ⟨⟨a, y, x, pc, sp, p, ci, cc, (bah * 256 + bal + r) % 65536, db⟩, riot, tia, cart, cyc,
          fun f w => if f = fn ∧ w = .adh then (bah + if 0xFF < bal + r then 1 else 0) % 256
            else if f = fn ∧ w = .adl then (bal + r) % 256 else st f w⟩) := by
  have e := hl_page ((bah + if 0xFF < bal + r then 1 else 0) % 256) ((bal + r) % 256)
    (Nat.mod_lt _ (by norm_num)) (Nat.mod_lt _ (by norm_num))
  have e2 : (bah + if 0xFF < bal + r then 1 else 0) % 256 * 256 + (bal + r) % 256 =
      (bah * 256 + bal + r) % 65536 := by
    split_ifs <;> omega
  rw [e2] at e
  unfold indexed_address
  simp only [bind_run, emu_then_ok, pure_run, get_run, getThe_run, hR, get_static_run,
    set_static_run, on_cpu_run, set_address_bus_hl_mk, hbal, hbah, carry_bit bal r h1 h3,
    and_self, and_false, ite_true, ite_false, reduceCtorEq, e]

set_option maxRecDepth 1000000 in
theorem ISA_table_get_BD :
    ISA_table_get 0xBD = .ok ⟨.LDA, OPCODE_ADDRESSING_MODE_ABSOLUTE_X_INDEXED⟩ := by decide!

set_option maxRecDepth 1000000 in
theorem ISA_table_get_B9 :
    ISA_table_get 0xB9 = .ok ⟨.LDA, OPCODE_ADDRESSING_MODE_ABSOLUTE_Y_INDEXED⟩ := by decide!

set_option maxRecDepth 1000000 in
theorem ISA_table_get_B1 :
    ISA_table_get 0xB1 = .ok ⟨.LDA, OPCODE_ADDRESSING_MODE_INDIRECT_Y_INDEXED⟩ := by decide!

theorem opcode_validate_BD : opcode_validate 0xBD = .ok 0 := by decide!
theorem opcode_validate_B9 : opcode_validate 0xB9 = .ok 0 := by decide!
theorem opcode_validate_B1 : opcode_validate 0xB1 = .ok 0 := by decide!

theorem opcode_LDA_more (cycle : Nat) (mode : addressing_mode_t) (s s1 : Atari)
    (hf : FETCH_DATA .LDA cycle mode s = .ok (true, s1)) :
    opcode_call .LDA cycle mode s = .ok (-1, s1) := by
  unfold opcode_call opcode_LDA
  simp only [bind_run, hf, emu_then_ok, ite_true, pure_run]

theorem opcode_LDA_done (cycle : Nat) (mode : addressing_mode_t) (s : Atari)
    (a y x pc sp p ci cc ab db v : Nat) (riot : mos6532) (tia : atari_tia)
    (cart : cartridge_t) (cyc : Nat) (st : opcode_fn → static_var → Nat)
    (hf : FETCH_DATA .LDA cycle mode s =
      .ok (false, ⟨⟨a, y, x, pc, sp, p, ci, cc, ab, db⟩, riot, tia, cart, cyc, st⟩))
    (hd : st .LDA .data = v) :
    ∃ p', opcode_call .LDA cycle mode s =
      .ok (0, ⟨⟨v % 256, y, x, (pc + 1) % 65536, sp, p', ci, cc, (pc + 1) % 65536, db⟩,
        riot, tia, cart, cyc, st⟩) := by
  apply Exists.intro
  unfold opcode_call opcode_LDA END_OPCODE
  simp only [bind_run, hf, emu_then_ok, pure_run, get_static_run, hd, on_cpu_run,
    set_register_A_mk, set_status_flag_mk, increment_PC_mk, get_PC_mk, set_address_bus_mk,
    Nat.mod_mod, Bool.false_eq_true, ite_false]
  rfl

theorem fetch_LDA_indexed_0 (mode : addressing_mode_t) (s : Atari)
    (hm : mode = OPCODE_ADDRESSING_MODE_ABSOLUTE_X_INDEXED ∨
      mode = OPCODE_ADDRESSING_MODE_ABSOLUTE_Y_INDEXED ∨
      mode = OPCODE_ADDRESSING_MODE_INDIRECT_Y_INDEXED) :
    opcode_call .LDA 0 mode s = .ok (-1, s) := by
  apply opcode_LDA_more
  rcases hm with rfl | rfl | rfl
  · unfold FETCH_DATA FETCH_DATA_ABSOLUTE_X_INDEXED; simp only [pure_run]
  · unfold FETCH_DATA FETCH_DATA_ABSOLUTE_Y_INDEXED; simp only [pure_run]
  · unfold FETCH_DATA FETCH_DATA_INDIRECT_Y_INDEXED; simp only [pure_run]

theorem call_LDA_absolute_indexed_1 (mode : addressing_mode_t) (image : Nat → Nat)
    (a y x pc sp p ci cc ab db : Nat) (riot : mos6532) (tia : atari_tia) (cyc : Nat)
    (st : opcode_fn → static_var → Nat)
    (hm : mode = OPCODE_ADDRESSING_MODE_ABSOLUTE_X_INDEXED ∨
      mode = OPCODE_ADDRESSING_MODE_ABSOLUTE_Y_INDEXED)
    (h1 : 0x1000 ≤ (pc + 1) % 65536 % 8192) :
    opcode_call .LDA 1 mode
      ⟨⟨a, y, x, pc, sp, p, ci, cc, ab, db⟩, riot, tia, some image, cyc, st⟩ =
      .ok (-1, ⟨⟨a, y, x, (pc + 1) % 65536, sp, p, ci, cc, (pc + 1) % 65536,
        image ((pc + 1) % 65536 % 8192 - 0x1000) % 256⟩, riot, tia, some image, cyc,
        fun f w => if f = .LDA ∧ w = .bal then image ((pc + 1) % 65536 % 8192 - 0x1000) % 256
          else st f w⟩) := by
  apply opcode_LDA_more
  rcases hm with rfl | rfl
  · unfold FETCH_DATA FETCH_DATA_ABSOLUTE_X_INDEXED
    simp only [bind_run, emu_then_ok, pure_run,
      fetch_next_byte_cart _ _ _ _ _ _ _ _ _ _ _ _ _ _ _ _ _ h1]
  · unfold FETCH_DATA FETCH_DATA_ABSOLUTE_Y_INDEXED
    simp only [bind_run, emu_then_ok, pure_run,
      fetch_next_byte_cart _ _ _ _ _ _ _ _ _ _ _ _ _ _ _ _ _ h1]

theorem call_LDA_absolute_indexed_2 (mode : addressing_mode_t) (image : Nat → Nat)
    (a y x pc sp p ci cc ab db : Nat) (riot : mos6532) (tia : atari_tia) (cyc : Nat)
    (st : opcode_fn → static_var → Nat)
    (hm : mode = OPCODE_ADDRESSING_MODE_ABSOLUTE_X_INDEXED ∨
      mode = OPCODE_ADDRESSING_MODE_ABSOLUTE_Y_INDEXED)
    (h1 : 0x1000 ≤ (pc + 1) % 65536 % 8192) :
    opcode_call .LDA 2 mode
      ⟨⟨a, y, x, pc, sp, p, ci, cc, ab, db⟩, riot, tia, some image, cyc, st⟩ =
      .ok (-1, ⟨⟨a, y, x, (pc + 1) % 65536, sp, p, ci, cc, (pc + 1) % 65536,
        image ((pc + 1) % 65536 % 8192 - 0x1000) % 256⟩, riot, tia, some image, cyc,
        fun f w => if f = .LDA ∧ w = .bah then image ((pc + 1) % 65536 % 8192 - 0x1000) % 256
          else st f w⟩) := by
  apply opcode_LDA_more
  rcases hm with rfl | rfl
  · unfold FETCH_DATA FETCH_DATA_ABSOLUTE_X_INDEXED
    simp only [bind_run, emu_then_ok, pure_run,
      fetch_next_byte_cart _ _ _ _ _ _ _ _ _ _ _ _ _ _ _ _ _ h1]
  · unfold FETCH_DATA FETCH_DATA_ABSOLUTE_Y_INDEXED
    simp only [bind_run, emu_then_ok, pure_run,
      fetch_next_byte_cart _ _ _ _ _ _ _ _ _ _ _ _ _ _ _ _ _ h1]

theorem fetch_LDA_absolute_indexed_read (n : Nat) (mode : addressing_mode_t)
    (a y x pc sp p ci cc ab db r bal bah v : Nat) (riot : mos6532) (tia : atari_tia)
    (cart : cartridge_t) (cyc : Nat) (st : opcode_fn → static_var → Nat)
    (hn : n = 3 ∨ n = 4)
    (hm : mode = OPCODE_ADDRESSING_MODE_ABSOLUTE_X_INDEXED ∧ r = x ∨
      mode = OPCODE_ADDRESSING_MODE_ABSOLUTE_Y_INDEXED ∧ r = y)
    (hbal : st .LDA .bal = bal) (hbah : st .LDA .bah = bah)
    (h1 : bal < 256) (h3 : r < 256)
    (hread : reads_as riot tia cart ((bah * 256 + bal + r) % 65536) v) :
    FETCH_DATA .LDA n mode ⟨⟨a, y, x, pc, sp, p, ci, cc, ab, db⟩, riot, tia, cart, cyc, st⟩ =
      .ok (decide (n = 3 ∧ 0xFF < bal + r),
        ⟨⟨a, y, x, pc, sp, p, ci, cc, (bah * 256 + bal + r) % 65536, v % 256⟩, riot, tia, cart,
          cyc, fun f w => if f = .LDA ∧ w = .data then v
            else if f = .LDA ∧ w = .adh then (bah + if 0xFF < bal + r then 1 else 0) % 256
            else if f = .LDA ∧ w = .adl then (bal + r) % 256 else st f w⟩) := by
  rcases hm with ⟨rfl, rfl⟩ | ⟨rfl, rfl⟩
  · have hR := get_register_X_mk a y r pc sp p ci cc ab db
    rcases hn with rfl | rfl
    · unfold FETCH_DATA FETCH_DATA_ABSOLUTE_X_INDEXED
      simp only [bind_run, emu_then_ok, pure_run, ite_run,
        indexed_address_mk .LDA _ a y r pc sp p ci cc ab db r bal bah riot tia cart cyc st
          hR hbal hbah h1 h3,
        memmap_read_static_reads _ _ _ _ _ _ _ _ _ _ _ _ _ _ _ _ _ _ hread]
      by_cases hc : 0xFF < bal + r <;> simp [hc]
    · unfold FETCH_DATA FETCH_DATA_ABSOLUTE_X_INDEXED
      simp only [bind_run, emu_then_ok, pure_run, ite_run,
        indexed_address_mk .LDA _ a y r pc sp p ci cc ab db r bal bah riot tia cart cyc st
          hR hbal hbah h1 h3,
        memmap_read_static_reads _ _ _ _ _ _ _ _ _ _ _ _ _ _ _ _ _ _ hread]
      simp
  · have hR := get_register_Y_mk a r x pc sp p ci cc ab db
    rcases hn with rfl | rfl
    · unfold FETCH_DATA FETCH_DATA_ABSOLUTE_Y_INDEXED
      simp only [bind_run, emu_then_ok, pure_run, ite_run,
        indexed_address_mk .LDA _ a r x pc sp p ci cc ab db r bal bah riot tia cart cyc st
          hR hbal hbah h1 h3,
        memmap_read_static_reads _ _ _ _ _ _ _ _ _ _ _ _ _ _ _ _ _ _ hread]
      by_cases hc : 0xFF < bal + r <;> simp [hc]
    · unfold FETCH_DATA FETCH_DATA_ABSOLUTE_Y_INDEXED
      simp only [bind_run, emu_then_ok, pure_run, ite_run,
        indexed_address_mk .LDA _ a r x pc sp p ci cc ab db r bal bah riot tia cart cyc st
          hR hbal hbah h1 h3,
        memmap_read_static_reads _ _ _ _ _ _ _ _ _ _ _ _ _ _ _ _ _ _ hread]
      simp

/-- LDA absolute,X (0xBD) and absolute,Y (0xB9), run from the opcode fetch to
completion: four calls of `mos6507_clock_tick`, five when the low byte of the
base plus the index exceeds 0xFF; A takes the byte at (base + index) mod
65536. -/
theorem LDA_absolute_indexed_run (fuel op : Nat) (mode : addressing_mode_t)
    (image : Nat → Nat) (a y x pc sp p cc db r v : Nat) (riot : mos6532) (tia : atari_tia)
    (st : opcode_fn → static_var → Nat)
    (hm : op = 0xBD ∧ mode = OPCODE_ADDRESSING_MODE_ABSOLUTE_X_INDEXED ∧ r = x ∨
      op = 0xB9 ∧ mode = OPCODE_ADDRESSING_MODE_ABSOLUTE_Y_INDEXED ∧ r = y)
    (h1 : pc < 65536) (h2 : 0x1000 ≤ pc % 8192) (h3 : pc % 8192 + 2 < 8192)
    (hop : image (pc % 8192 - 0x1000) % 256 = op) (hr : r < 256) (hv : v < 256)
    (hread : reads_as riot tia (some image)
      ((image (pc % 8192 + 2 - 0x1000) % 256 * 256 + image (pc % 8192 + 1 - 0x1000) % 256 + r)
        % 65536) v) :
    ∃ p' st', run_instruction (fuel + 5)
        ⟨⟨a, y, x, pc, sp, p, 0, cc, pc, db⟩, riot, tia, some image, 0, st⟩ =
      .ok (some (if 0xFF < image (pc % 8192 + 1 - 0x1000) % 256 + r then 5 else 4),
        ⟨⟨v, y, x, (pc + 3) % 65536, sp, p', 0, 0, (pc + 3) % 65536, v⟩, riot, tia,
          some image, 0, st'⟩) := by
  have e1 : (pc + 1) % 65536 = pc + 1 := by omega
  have e2 : (pc + 1) % 8192 = pc % 8192 + 1 := by omega
  have e3 : (pc + 1 + 1) % 65536 = pc + 2 := by omega
  have e4 : (pc + 2) % 8192 = pc % 8192 + 2 := by omega
  have e5 : (pc + 2 + 1) % 65536 = (pc + 3) % 65536 := by omega
  have hbl : image (pc % 8192 + 1 - 0x1000) % 256 < 256 := Nat.mod_lt _ (by norm_num)
  have hvm : v % 256 = v := Nat.mod_eq_of_lt hv
  have hm1 : mode = OPCODE_ADDRESSING_MODE_ABSOLUTE_X_INDEXED ∨
      mode = OPCODE_ADDRESSING_MODE_ABSOLUTE_Y_INDEXED := by
    rcases hm with ⟨_, h, _⟩ | ⟨_, h, _⟩
    · exact Or.inl h
    · exact Or.inr h
  have hm2 : mode = OPCODE_ADDRESSING_MODE_ABSOLUTE_X_INDEXED ∧ r = x ∨
      mode = OPCODE_ADDRESSING_MODE_ABSOLUTE_Y_INDEXED ∧ r = y := by
    rcases hm with ⟨_, h, h'⟩ | ⟨_, h, h'⟩
    · exact Or.inl ⟨h, h'⟩
    · exact Or.inr ⟨h, h'⟩
  have ht : ISA_table_get op = .ok ⟨.LDA, mode⟩ := by
    rcases hm with ⟨rfl, rfl, _⟩ | ⟨rfl, rfl, _⟩
    · exact ISA_table_get_BD
    · exact ISA_table_get_B9
  have hval : opcode_validate op = .ok 0 := by
    rcases hm with ⟨rfl, _, _⟩ | ⟨rfl, _, _⟩
    · exact opcode_validate_BD
    · exact opcode_validate_B9
  have hop0 : op ≠ 0 := by
    rcases hm with ⟨rfl, _, _⟩ | ⟨rfl, _, _⟩ <;> decide
  have t1 := clock_tick_first image a y x pc sp p cc pc db riot tia st op _ _ h2 hop
    hval ht (fun s => fetch_LDA_indexed_0 mode s (by
      rcases hm1 with h | h
      · exact Or.inl h
      · exact Or.inr (Or.inl h)))
  have t2 := tick_more (call_LDA_absolute_indexed_1 mode image a y x pc sp p op 1 pc
    op riot tia 1 st hm1 (by omega)) hop0 hval ht (by norm_num)
  simp only [e1, e2, Nat.reduceAdd] at t2
  have t3 := tick_more (call_LDA_absolute_indexed_2 mode image a y x (pc + 1) sp p op 2 (pc + 1)
    (image (pc % 8192 + 1 - 0x1000) % 256) riot tia 2
    (fun f w => if f = .LDA ∧ w = .bal then image (pc % 8192 + 1 - 0x1000) % 256 else st f w)
    hm1 (by omega)) hop0 hval ht (by norm_num)
  simp only [e3, e4, Nat.reduceAdd] at t3
  have f3 := fetch_LDA_absolute_indexed_read 3 mode a y x (pc + 2) sp p op 3 (pc + 2)
    (image (pc % 8192 + 2 - 0x1000) % 256) r (image (pc % 8192 + 1 - 0x1000) % 256)
    (image (pc % 8192 + 2 - 0x1000) % 256) v riot tia (some image) 3
    (fun f w => if f = .LDA ∧ w = .bah then image (pc % 8192 + 2 - 0x1000) % 256 else
      if f = .LDA ∧ w = .bal then image (pc % 8192 + 1 - 0x1000) % 256 else st f w)
    (Or.inl rfl) hm2
    (by simp only [and_self, and_false, ite_true, ite_false, reduceCtorEq])
    (by simp only [and_self, ite_true]) hbl hr hread
  rw [hvm] at f3
  by_cases hc : 0xFF < image (pc % 8192 + 1 - 0x1000) % 256 + r
  · have hd : decide (3 = 3 ∧ 0xFF < image (pc % 8192 + 1 - 0x1000) % 256 + r) = true := by
      simp only [true_and, hc, decide_True]
    rw [hd] at f3
    have t4 := tick_more (opcode_LDA_more 3 mode _ _ f3) hop0 hval ht (by norm_num)
    simp only [Nat.reduceAdd] at t4
    have f4 := fetch_LDA_absolute_indexed_read 4 mode a y x (pc + 2) sp p op 4
      ((image (pc % 8192 + 2 - 0x1000) % 256 * 256 + image (pc % 8192 + 1 - 0x1000) % 256 + r)
        % 65536) v r (image (pc % 8192 + 1 - 0x1000) % 256)
      (image (pc % 8192 + 2 - 0x1000) % 256) v riot tia (some image) 4
      (fun f w => if f = .LDA ∧ w = .data then v
        else if f = .LDA ∧ w = .adh then (image (pc % 8192 + 2 - 0x1000) % 256 +
          if 0xFF < image (pc % 8192 + 1 - 0x1000) % 256 + r then 1 else 0) % 256
        else if f = .LDA ∧ w = .adl then (image (pc % 8192 + 1 - 0x1000) % 256 + r) % 256
        else if f = .LDA ∧ w = .bah then image (pc % 8192 + 2 - 0x1000) % 256 else
        if f = .LDA ∧ w = .bal then image (pc % 8192 + 1 - 0x1000) % 256 else st f w)
      (Or.inr rfl) hm2
      (by simp only [and_self, and_false, ite_true, ite_false, reduceCtorEq])
      (by simp only [and_self, and_false, ite_true, ite_false, reduceCtorEq]) hbl hr hread
    have hd4 : decide (4 = 3 ∧ 0xFF < image (pc % 8192 + 1 - 0x1000) % 256 + r) = false := by
      simp only [Nat.reduceEqDiff, false_and, decide_False]
    rw [hd4, hvm] at f4
    obtain ⟨p', c4⟩ := opcode_LDA_done 4 mode _ _ _ _ _ _ _ _ _ _ _ v _ _ _ _ _ f4
      (by simp only [and_self, ite_true])
    have t5 := tick_done c4 hop0 hval ht
    rw [hvm, e5] at t5
    apply Exists.intro p'
    apply Exists.intro
    rw [if_pos hc]
    exact run_instruction_step _ _ _ _ _ t1 (show (1 : Nat) ≠ 0 by decide)
      (run_instruction_step _ _ _ _ _ t2 (show (2 : Nat) ≠ 0 by decide)
      (run_instruction_step _ _ _ _ _ t3 (show (3 : Nat) ≠ 0 by decide)
      (run_instruction_step _ _ _ _ _ t4 (show (4 : Nat) ≠ 0 by decide)
      (run_instruction_last _ _ _ t5 rfl))))
  · have hd : decide (3 = 3 ∧ 0xFF < image (pc % 8192 + 1 - 0x1000) % 256 + r) = false := by
      simp only [true_and, hc, decide_False]
    rw [hd] at f3
    obtain ⟨p', c3⟩ := opcode_LDA_done 3 mode _ _ _ _ _ _ _ _ _ _ _ v _ _ _ _ _ f3
      (by simp only [and_self, ite_true])
    have t4 := tick_done c3 hop0 hval ht
    rw [hvm, e5] at t4
    apply Exists.intro p'
    apply Exists.intro
    rw [if_neg hc]
    exact run_instruction_step _ _ _ _ _ t1 (show (1 : Nat) ≠ 0 by decide)
      (run_instruction_step _ _ _ _ _ t2 (show (2 : Nat) ≠ 0 by decide)
      (run_instruction_step _ _ _ _ _ t3 (show (3 : Nat) ≠ 0 by decide)
      (run_instruction_last _ _ _ t4 rfl)))

theorem hl_zero_mod (z : Nat) :
    ((0 ||| ((0 % 256) <<< 8)) % 65536 ||| (z % 256)) % 65536 = z % 256 := by
  have e : (0 ||| ((0 % 256) <<< 8)) % 65536 = 0 := by decide
  rw [e, Nat.zero_or]
  omega

theorem call_LDA_indirect_Y_1 (image : Nat → Nat)
    (a y x pc sp p ci cc ab db : Nat) (riot : mos6532) (tia : atari_tia) (cyc : Nat)
    (st : opcode_fn → static_var → Nat)
    (h1 : 0x1000 ≤ (pc + 1) % 65536 % 8192) :
    opcode_call .LDA 1 OPCODE_ADDRESSING_MODE_INDIRECT_Y_INDEXED
      ⟨⟨a, y, x, pc, sp, p, ci, cc, ab, db⟩, riot, tia, some image, cyc, st⟩ =
      .ok (-1, ⟨⟨a, y, x, (pc + 1) % 65536, sp, p, ci, cc, (pc + 1) % 65536,
        image ((pc + 1) % 65536 % 8192 - 0x1000) % 256⟩, riot, tia, some image, cyc,
        fun f w => if f = .LDA ∧ w = .ial then image ((pc + 1) % 65536 % 8192 - 0x1000) % 256
          else st f w⟩) := by
  apply opcode_LDA_more
  unfold FETCH_DATA FETCH_DATA_INDIRECT_Y_INDEXED
  simp only [bind_run, emu_then_ok, pure_run,
    fetch_next_byte_cart _ _ _ _ _ _ _ _ _ _ _ _ _ _ _ _ _ h1]

theorem call_LDA_indirect_Y_2 (a y x pc sp p ci cc ab db ial bal : Nat) (riot : mos6532)
    (tia : atari_tia) (cart : cartridge_t) (cyc : Nat) (st : opcode_fn → static_var → Nat)
    (hial : st .LDA .ial = ial) (hread : reads_as riot tia cart (ial % 256) bal) :
    opcode_call .LDA 2 OPCODE_ADDRESSING_MODE_INDIRECT_Y_INDEXED
      ⟨⟨a, y, x, pc, sp, p, ci, cc, ab, db⟩, riot, tia, cart, cyc, st⟩ =
      .ok (-1, ⟨⟨a, y, x, pc, sp, p, ci, cc, ial % 256, bal % 256⟩, riot, tia, cart, cyc,
        fun f w => if f = .LDA ∧ w = .bal then bal else st f w⟩) := by
  apply opcode_LDA_more
  unfold FETCH_DATA FETCH_DATA_INDIRECT_Y_INDEXED
  simp only [bind_run, emu_then_ok, pure_run, get_static_run, hial, on_cpu_run,
    set_address_bus_hl_mk, hl_zero_mod,
    memmap_read_static_reads _ _ _ _ _ _ _ _ _ _ _ _ _ _ _ _ _ _ hread]

theorem call_LDA_indirect_Y_3 (a y x pc sp p ci cc ab db ial bah : Nat) (riot : mos6532)
    (tia : atari_tia) (cart : cartridge_t) (cyc : Nat) (st : opcode_fn → static_var → Nat)
    (hial : st .LDA .ial = ial) (hread : reads_as riot tia cart ((ial + 1) % 256) bah) :
    opcode_call .LDA 3 OPCODE_ADDRESSING_MODE_INDIRECT_Y_INDEXED
      ⟨⟨a, y, x, pc, sp, p, ci, cc, ab, db⟩, riot, tia, cart, cyc, st⟩ =
      .ok (-1, ⟨⟨a, y, x, pc, sp, p, ci, cc, (ial + 1) % 256, bah % 256⟩, riot, tia, cart, cyc,
        fun f w => if f = .LDA ∧ w = .bah then bah else st f w⟩) := by
  apply opcode_LDA_more
  unfold FETCH_DATA FETCH_DATA_INDIRECT_Y_INDEXED
  simp only [bind_run, emu_then_ok, pure_run, get_static_run, hial, on_cpu_run,
    set_address_bus_hl_mk, hl_zero_mod,
    memmap_read_static_reads _ _ _ _ _ _ _ _ _ _ _ _ _ _ _ _ _ _ hread]

theorem fetch_LDA_indirect_Y_read (n : Nat)
    (a y x pc sp p ci cc ab db bal bah v : Nat) (riot : mos6532) (tia : atari_tia)
    (cart : cartridge_t) (cyc : Nat) (st : opcode_fn → static_var → Nat)
    (hn : n = 4 ∨ n = 5)
    (hbal : st .LDA .bal = bal) (hbah : st .LDA .bah = bah)
    (h1 : bal < 256) (h3 : y < 256)
    (hread : reads_as riot tia cart ((bah * 256 + bal + y) % 65536) v) :
    FETCH_DATA .LDA n OPCODE_ADDRESSING_MODE_INDIRECT_Y_INDEXED
        ⟨⟨a, y, x, pc, sp, p, ci, cc, ab, db⟩, riot, tia, cart, cyc, st⟩ =
      .ok (decide (n = 4 ∧ 0xFF < bal + y),
        ⟨⟨a, y, x, pc, sp, p, ci, cc, (bah * 256 + bal + y) % 65536, v % 256⟩, riot, tia, cart,
          cyc, fun f w => if f = .LDA ∧ w = .data then v
            else if f = .LDA ∧ w = .adh then (bah + if 0xFF < bal + y then 1 else 0) % 256
            else if f = .LDA ∧ w = .adl then (bal + y) % 256 else st f w⟩) := by
  have hR := get_register_Y_mk a y x pc sp p ci cc ab db
  rcases hn with rfl | rfl
  · unfold FETCH_DATA FETCH_DATA_INDIRECT_Y_INDEXED
    simp only [bind_run, emu_then_ok, pure_run, ite_run,
      indexed_address_mk .LDA _ a y x pc sp p ci cc ab db y bal bah riot tia cart cyc st
        hR hbal hbah h1 h3,
      memmap_read_static_reads _ _ _ _ _ _ _ _ _ _ _ _ _ _ _ _ _ _ hread]
    by_cases hc : 0xFF < bal + y <;> simp [hc]
  · unfold FETCH_DATA FETCH_DATA_INDIRECT_Y_INDEXED
    simp only [bind_run, emu_then_ok, pure_run, ite_run,
      indexed_address_mk .LDA _ a y x pc sp p ci cc ab db y bal bah riot tia cart cyc st
        hR hbal hbah h1 h3,
      memmap_read_static_reads _ _ _ _ _ _ _ _ _ _ _ _ _ _ _ _ _ _ hread]
    simp

/-- LDA (indirect),Y (0xB1), run from the opcode fetch to completion: five
calls of `mos6507_clock_tick`, six when the low byte of the base plus Y
exceeds 0xFF; the base is the word at the zero-page pointer and A takes the
byte at (base + Y) mod 65536. -/
theorem LDA_indirect_Y_run (fuel : Nat) (image : Nat → Nat)
    (a y x pc sp p cc db bal bah v : Nat) (riot : mos6532) (tia : atari_tia)
    (st : opcode_fn → static_var → Nat)
    (h1 : pc < 65536) (h2 : 0x1000 ≤ pc % 8192) (h3 : pc % 8192 + 1 < 8192)
    (hop : image (pc % 8192 - 0x1000) % 256 = 0xB1) (hy : y < 256) (hv : v < 256)
    (hbl : bal < 256)
    (hlo : reads_as riot tia (some image) (image (pc % 8192 + 1 - 0x1000) % 256) bal)
    (hhi : reads_as riot tia (some image) ((image (pc % 8192 + 1 - 0x1000) % 256 + 1) % 256)
      bah)
    (hread : reads_as riot tia (some image) ((bah * 256 + bal + y) % 65536) v) :
    ∃ p' st', run_instruction (fuel + 6)
        ⟨⟨a, y, x, pc, sp, p, 0, cc, pc, db⟩, riot, tia, some image, 0, st⟩ =
      .ok (some (if 0xFF < bal + y then 6 else 5),
        ⟨⟨v, y, x, (pc + 2) % 65536, sp, p', 0, 0, (pc + 2) % 65536, v⟩, riot, tia,
          some image, 0, st'⟩) := by
  have e1 : (pc + 1) % 65536 = pc + 1 := by omega
  have e2 : (pc + 1) % 8192 = pc % 8192 + 1 := by omega
  have e5 : (pc + 1 + 1) % 65536 = (pc + 2) % 65536 := by omega
  have hvm : v % 256 = v := Nat.mod_eq_of_lt hv
  have hzm : image (pc % 8192 + 1 - 0x1000) % 256 % 256 = image (pc % 8192 + 1 - 0x1000) % 256 :=
    Nat.mod_mod _ _
  have hlo' : reads_as riot tia (some image) (image (pc % 8192 + 1 - 0x1000) % 256 % 256) bal := by
    rw [hzm]; exact hlo
  have t1 := clock_tick_first image a y x pc sp p cc pc db riot tia st 0xB1 _ _ h2 hop
    opcode_validate_B1 ISA_table_get_B1
    (fun s => fetch_LDA_indexed_0 _ s (Or.inr (Or.inr rfl)))
  have t2 := tick_more (call_LDA_indirect_Y_1 image a y x pc sp p 0xB1 1 pc
    0xB1 riot tia 1 st (by omega)) (by decide) opcode_validate_B1 ISA_table_get_B1
    (by norm_num)
  simp only [e1, e2, Nat.reduceAdd] at t2
  have t3 := tick_more (call_LDA_indirect_Y_2 a y x (pc + 1) sp p 0xB1 2 (pc + 1)
    (image (pc % 8192 + 1 - 0x1000) % 256) (image (pc % 8192 + 1 - 0x1000) % 256) bal
    riot tia (some image) 2
    (fun f w => if f = .LDA ∧ w = .ial then image (pc % 8192 + 1 - 0x1000) % 256 else st f w)
    (by simp only [and_self, ite_true]) hlo') (by decide) opcode_validate_B1 ISA_table_get_B1
    (by norm_num)
  simp only [hzm, Nat.reduceAdd] at t3
  have t4 := tick_more (call_LDA_indirect_Y_3 a y x (pc + 1) sp p 0xB1 3
    (image (pc % 8192 + 1 - 0x1000) % 256) (bal % 256) (image (pc % 8192 + 1 - 0x1000) % 256) bah
    riot tia (some image) 3
    (fun f w => if f = .LDA ∧ w = .bal then bal else
      if f = .LDA ∧ w = .ial then image (pc % 8192 + 1 - 0x1000) % 256 else st f w)
    (by simp only [and_self, and_false, ite_true, ite_false, reduceCtorEq]) hhi)
    (by decide) opcode_validate_B1 ISA_table_get_B1 (by norm_num)
  simp only [Nat.reduceAdd] at t4
  have f4 := fetch_LDA_indirect_Y_read 4 a y x (pc + 1) sp p 0xB1 4
    ((image (pc % 8192 + 1 - 0x1000) % 256 + 1) % 256) (bah % 256) bal bah v
    riot tia (some image) 4
    (fun f w => if f = .LDA ∧ w = .bah then bah else
      if f = .LDA ∧ w = .bal then bal else
      if f = .LDA ∧ w = .ial then image (pc % 8192 + 1 - 0x1000) % 256 else st f w)
    (Or.inl rfl)
    (by simp only [and_self, and_false, ite_true, ite_false, reduceCtorEq])
    (by simp only [and_self, ite_true]) hbl hy hread
  rw [hvm] at f4
  by_cases hc : 0xFF < bal + y
  · have hd : decide (4 = 4 ∧ 0xFF < bal + y) = true := by
      simp only [true_and, hc, decide_True]
    rw [hd] at f4
    have t5 := tick_more (opcode_LDA_more 4 _ _ _ f4) (by decide) opcode_validate_B1
      ISA_table_get_B1 (by norm_num)
    simp only [Nat.reduceAdd] at t5
    have f5 := fetch_LDA_indirect_Y_read 5 a y x (pc + 1) sp p 0xB1 5
      ((bah * 256 + bal + y) % 65536) v bal bah v riot tia (some image) 5
      (fun f w => if f = .LDA ∧ w = .data then v
        else if f = .LDA ∧ w = .adh then (bah + if 0xFF < bal + y then 1 else 0) % 256
        else if f = .LDA ∧ w = .adl then (bal + y) % 256
        else if f = .LDA ∧ w = .bah then bah else
        if f = .LDA ∧ w = .bal then bal else
        if f = .LDA ∧ w = .ial then image (pc % 8192 + 1 - 0x1000) % 256 else st f w)
      (Or.inr rfl)
      (by simp only [and_self, and_false, ite_true, ite_false, reduceCtorEq])
      (by simp only [and_self, and_false, ite_true, ite_false, reduceCtorEq]) hbl hy hread
    have hd5 : decide (5 = 4 ∧ 0xFF < bal + y) = false := by
      simp only [Nat.reduceEqDiff, false_and, decide_False]
    rw [hd5, hvm] at f5
    obtain ⟨p', c5⟩ := opcode_LDA_done 5 _ _ _ _ _ _ _ _ _ _ _ _ v _ _ _ _ _ f5
      (by simp only [and_self, ite_true])
    have t6 := tick_done c5 (by decide) opcode_validate_B1 ISA_table_get_B1
    rw [hvm, e5] at t6
    apply Exists.intro p'
    apply Exists.intro
    rw [if_pos hc]
    exact run_instruction_step _ _ _ _ _ t1 (show (1 : Nat) ≠ 0 by decide)
      (run_instruction_step _ _ _ _ _ t2 (show (2 : Nat) ≠ 0 by decide)
      (run_instruction_step _ _ _ _ _ t3 (show (3 : Nat) ≠ 0 by decide)
      (run_instruction_step _ _ _ _ _ t4 (show (4 : Nat) ≠ 0 by decide)
      (run_instruction_step _ _ _ _ _ t5 (show (5 : Nat) ≠ 0 by decide)
      (run_instruction_last _ _ _ t6 rfl)))))
  · have hd : decide (4 = 4 ∧ 0xFF < bal + y) = false := by
      simp only [true_and, hc, decide_False]
    rw [hd] at f4
    obtain ⟨p', c4⟩ := opcode_LDA_done 4 _ _ _ _ _ _ _ _ _ _ _ _ v _ _ _ _ _ f4
      (by simp only [and_self, ite_true])
    have t5 := tick_done c4 (by decide) opcode_validate_B1 ISA_table_get_B1
    rw [hvm, e5] at t5
    apply Exists.intro p'
    apply Exists.intro
    rw [if_neg hc]
    exact run_instruction_step _ _ _ _ _ t1 (show (1 : Nat) ≠ 0 by decide)
      (run_instruction_step _ _ _ _ _ t2 (show (2 : Nat) ≠ 0 by decide)
      (run_instruction_step _ _ _ _ _ t3 (show (3 : Nat) ≠ 0 by decide)
      (run_instruction_step _ _ _ _ _ t4 (show (4 : Nat) ≠ 0 by decide)
      (run_instruction_last _ _ _ t5 rfl))))

theorem and_0x7F (x : Nat) : x &&& 0x7F = x % 128 := Nat.and_pow_two_sub_one_eq_mod x 7

theorem and_0x80_ne_zero_iff (x : Nat) (h : x < 256) : (x &&& 0x80 ≠ 0) ↔ 128 ≤ x := by
  rw [ne_eq, and_0x80_eq_zero_iff]
  omega

theorem branch_addr_neg (n off : Nat) (hn : n < 65536) (ho : off < 256) (h : 128 ≤ off) :
    u16 ((n : Int) - (((u8 (-((off &&& 0x7F : Nat) : Int) - 1) + 1) % 256 &&& 0x7F : Nat) : Int))
      = computed_target n off := by
  unfold computed_target branch_target signed8 u16 u8
  rw [and_0x7F, and_0x7F]
  split_ifs <;> omega

theorem branch_addr_pos (n off : Nat) (ho : off < 256) (h : ¬ 128 ≤ off) :
    (n + (off &&& 0x7F)) % 65536 = computed_target n off := by
  unfold computed_target branch_target signed8 u16
  rw [and_0x7F]
  split_ifs <;> omega

theorem branch_call_some (fn : opcode_fn) (n : Nat) (mode : addressing_mode_t)
    (cpu : mos6507) (riot : mos6532) (tia : atari_tia) (cart : cartridge_t) (cyc : Nat)
    (st : opcode_fn → static_var → Nat) (r : Int) (s1 : Atari)
    (hfn : fn ∈ [opcode_fn.BCC, .BCS, .BEQ, .BMI, .BNE, .BPL, .BVC, .BVS])
    (h : CALC_BRANCH fn n ⟨cpu, riot, tia, cart, cyc,
        fun f w => if f = fn ∧ w = .condition then branch_condition fn cpu else st f w⟩ =
      .ok (some r, s1)) :
    opcode_call fn n mode ⟨cpu, riot, tia, cart, cyc, st⟩ = .ok (r, s1) := by
  simp only [List.mem_cons, List.mem_singleton, List.not_mem_nil, or_false] at hfn
  rcases hfn with rfl | rfl | rfl | rfl | rfl | rfl | rfl | rfl
  · unfold opcode_call opcode_BCC
    simp only [branch_condition] at h
    simp only [bind_run, get_run, getThe_run, set_static_run, emu_then_ok, h, pure_run]
  · unfold opcode_call opcode_BCS
    simp only [branch_condition] at h
    simp only [bind_run, get_run, getThe_run, set_static_run, emu_then_ok, h, pure_run]
  · unfold opcode_call opcode_BEQ
    simp only [branch_condition] at h
    simp only [bind_run, get_run, getThe_run, set_static_run, emu_then_ok, h, pure_run]
  · unfold opcode_call opcode_BMI
    simp only [branch_condition] at h
    simp only [bind_run, get_run, getThe_run, set_static_run, emu_then_ok, h, pure_run]
  · unfold opcode_call opcode_BNE
    simp only [branch_condition] at h
    simp only [bind_run, get_run, getThe_run, set_static_run, emu_then_ok, h, pure_run]
  · unfold opcode_call opcode_BPL
    simp only [branch_condition] at h
    simp only [bind_run, get_run, getThe_run, set_static_run, emu_then_ok, h, pure_run]
  · unfold opcode_call opcode_BVC
    simp only [branch_condition] at h
    simp only [bind_run, get_run, getThe_run, set_static_run, emu_then_ok, h, pure_run]
  · unfold opcode_call opcode_BVS
    simp only [branch_condition] at h
    simp only [bind_run, get_run, getThe_run, set_static_run, emu_then_ok, h, pure_run]

theorem branch_call_none (fn : opcode_fn) (n : Nat) (mode : addressing_mode_t)
    (cpu : mos6507) (riot : mos6532) (tia : atari_tia) (cart : cartridge_t) (cyc : Nat)
    (st : opcode_fn → static_var → Nat)
    (a y x pc sp p ci cc ab db : Nat) (riot' : mos6532) (tia' : atari_tia)
    (cart' : cartridge_t) (cyc' : Nat) (st' : opcode_fn → static_var → Nat)
    (hfn : fn ∈ [opcode_fn.BCC, .BCS, .BEQ, .BMI, .BNE, .BPL, .BVC, .BVS])
    (h : CALC_BRANCH fn n ⟨cpu, riot, tia, cart, cyc,
        fun f w => if f = fn ∧ w = .condition then branch_condition fn cpu else st f w⟩ =
      .ok (none, ⟨⟨a, y, x, pc, sp, p, ci, cc, ab, db⟩, riot', tia', cart', cyc', st'⟩)) :
    opcode_call fn n mode ⟨cpu, riot, tia, cart, cyc, st⟩ =
      .ok (0, ⟨⟨a, y, x, if fn = .BVS then (pc + 1) % 65536 else pc, sp, p, ci, cc,
        (if fn = .BVS then pc + 1 else pc) % 65536, db⟩, riot', tia', cart', cyc', st'⟩) := by
  simp only [List.mem_cons, List.mem_singleton, List.not_mem_nil, or_false] at hfn
  rcases hfn with rfl | rfl | rfl | rfl | rfl | rfl | rfl | rfl
  · unfold opcode_call opcode_BCC
    simp only [branch_condition] at h
    simp only [bind_run, get_run, getThe_run, set_static_run, emu_then_ok, h, pure_run,
      on_cpu_run, get_PC_mk, set_address_bus_mk, reduceCtorEq, ite_false]
  · unfold opcode_call opcode_BCS
    simp only [branch_condition] at h
    simp only [bind_run, get_run, getThe_run, set_static_run, emu_then_ok, h, pure_run,
      on_cpu_run, get_PC_mk, set_address_bus_mk, reduceCtorEq, ite_false]
  · unfold opcode_call opcode_BEQ
    simp only [branch_condition] at h
    simp only [bind_run, get_run, getThe_run, set_static_run, emu_then_ok, h, pure_run,
      on_cpu_run, get_PC_mk, set_address_bus_mk, reduceCtorEq, ite_false]
  · unfold opcode_call opcode_BMI
    simp only [branch_condition] at h
    simp only [bind_run, get_run, getThe_run, set_static_run, emu_then_ok, h, pure_run,
      on_cpu_run, get_PC_mk, set_address_bus_mk, reduceCtorEq, ite_false]
  · unfold opcode_call opcode_BNE
    simp only [branch_condition] at h
    simp only [bind_run, get_run, getThe_run, set_static_run, emu_then_ok, h, pure_run,
      on_cpu_run, get_PC_mk, set_address_bus_mk, reduceCtorEq, ite_false]
  · unfold opcode_call opcode_BPL
    simp only [branch_condition] at h
    simp only [bind_run, get_run, getThe_run, set_static_run, emu_then_ok, h, pure_run,
      on_cpu_run, get_PC_mk, set_address_bus_mk, reduceCtorEq, ite_false]
  · unfold opcode_call opcode_BVC
    simp only [branch_condition] at h
    simp only [bind_run, get_run, getThe_run, set_static_run, emu_then_ok, h, pure_run,
      on_cpu_run, get_PC_mk, set_address_bus_mk, reduceCtorEq, ite_false]
  · unfold opcode_call opcode_BVS END_OPCODE
    simp only [branch_condition] at h
    simp only [bind_run, get_run, getThe_run, set_static_run, emu_then_ok, h, pure_run,
      on_cpu_run, get_PC_mk, set_address_bus_mk, increment_PC_mk, ite_true, Nat.mod_mod]

theorem computed_target_lt (n off : Nat) (hn : n < 65536) : computed_target n off < 65536 := by
  unfold computed_target branch_target u16
  split_ifs <;> omega

theorem CALC_BRANCH_0 (fn : opcode_fn) (s : Atari) :
    CALC_BRANCH fn 0 s = .ok (some (-1), s) := by
  unfold CALC_BRANCH
  simp only [pure_run]

theorem CALC_BRANCH_1 (fn : opcode_fn) (image : Nat → Nat)
    (a y x pc sp p ci cc ab db c : Nat) (riot : mos6532) (tia : atari_tia) (cyc : Nat)
    (st : opcode_fn → static_var → Nat) (h1 : 0x1000 ≤ (pc + 1) % 65536 % 8192)
    (hc : st fn .condition = c) :
    ∃ st', st' fn .offset = image ((pc + 1) % 65536 % 8192 - 0x1000) % 256 ∧
      CALC_BRANCH fn 1 ⟨⟨a, y, x, pc, sp, p, ci, cc, ab, db⟩, riot, tia, some image, cyc, st⟩ =
      .ok (if c = 0 then some 0 else some (-1),
        ⟨⟨a, y, x, if c = 0 then (pc + 2) % 65536 else (pc + 1) % 65536, sp, p, ci, cc,
          if c = 0 then (pc + 2) % 65536 else (pc + 1) % 65536,
          image ((pc + 1) % 65536 % 8192 - 0x1000) % 256⟩, riot, tia, some image, cyc, st'⟩) := by
  have e : ((pc + 1) % 65536 + 1) % 65536 = (pc + 2) % 65536 := by omega
  refine ⟨fun f w => if f = fn ∧ w = .offset then image ((pc + 1) % 65536 % 8192 - 0x1000) % 256
    else st f w, ?_, ?_⟩
  · simp only [and_self, ite_true]
  · unfold CALC_BRANCH END_OPCODE
    simp only [bind_run, emu_then_ok, pure_run, ite_run,
      fetch_next_byte_cart _ _ _ _ _ _ _ _ _ _ _ _ _ _ _ _ _ h1, get_static_run, and_false,
      reduceCtorEq, ite_false, hc, on_cpu_run, increment_PC_mk, get_PC_mk, set_address_bus_mk,
      Nat.mod_mod, e]
    by_cases h0 : c = 0
    · simp only [h0, ite_true, emu_then_ok]
    · simp only [h0, ite_false]

theorem CALC_BRANCH_2 (fn : opcode_fn)
    (a y x pc sp p ci cc ab db off : Nat) (riot : mos6532) (tia : atari_tia)
    (cart : cartridge_t) (cyc : Nat) (st : opcode_fn → static_var → Nat)
    (ho : st fn .offset = off) (hoff : off < 256) :
    ∃ st', st' fn .addr = computed_target ((pc + 1) % 65536) off ∧
      CALC_BRANCH fn 2 ⟨⟨a, y, x, pc, sp, p, ci, cc, ab, db⟩, riot, tia, cart, cyc, st⟩ =
      .ok (if NOT_SAME_PAGE ((pc + 1) % 65536) (computed_target ((pc + 1) % 65536) off) ≠ 0
          then some (-1) else some 0,
        ⟨⟨a, y, x,
          if NOT_SAME_PAGE ((pc + 1) % 65536) (computed_target ((pc + 1) % 65536) off) ≠ 0
            then (pc + 1) % 65536 else computed_target ((pc + 1) % 65536) off, sp, p, ci, cc,
          if NOT_SAME_PAGE ((pc + 1) % 65536) (computed_target ((pc + 1) % 65536) off) ≠ 0
            then ab else computed_target ((pc + 1) % 65536) off, db⟩,
          riot, tia, cart, cyc, st'⟩) := by
  have hn : (pc + 1) % 65536 < 65536 := Nat.mod_lt _ (by norm_num)
  have hT := Nat.mod_eq_of_lt (computed_target_lt ((pc + 1) % 65536) off hn)
  refine ⟨fun f w => if f = fn ∧ w = .addr then computed_target ((pc + 1) % 65536) off
    else st f w, ?_, ?_⟩
  · simp only [and_self, ite_true]
  · unfold CALC_BRANCH
    by_cases hneg : 128 ≤ off
    · have e := branch_addr_neg ((pc + 1) % 65536) off hn hoff hneg
      simp only [bind_run, emu_then_ok, pure_run, ite_run, on_cpu_run, increment_PC_mk,
        get_static_run, ho, get_run, getThe_run, get_PC_mk,
        (and_0x80_ne_zero_iff off hoff).mpr hneg, ne_eq, not_false_eq_true, ite_true,
        set_static_run, e, and_self]
      split_ifs <;>
        simp only [emu_then_ok, set_PC_mk, set_address_bus_mk, hT]
    · have e := branch_addr_pos ((pc + 1) % 65536) off hoff hneg
      have h80 : ¬ (off &&& 0x80 ≠ 0) := fun h => hneg ((and_0x80_ne_zero_iff off hoff).mp h)
      simp only [bind_run, emu_then_ok, pure_run, ite_run, on_cpu_run, increment_PC_mk,
        get_static_run, ho, get_run, getThe_run, get_PC_mk, h80, ite_false,
        set_static_run, e, and_self, ite_true]
      split_ifs <;>
        simp only [emu_then_ok, set_PC_mk, set_address_bus_mk, hT]

theorem CALC_BRANCH_3 (fn : opcode_fn)
    (a y x pc sp p ci cc ab db T : Nat) (riot : mos6532) (tia : atari_tia)
    (cart : cartridge_t) (cyc : Nat) (st : opcode_fn → static_var → Nat)
    (ha : st fn .addr = T) (hT : T < 65536) :
    CALC_BRANCH fn 3 ⟨⟨a, y, x, pc, sp, p, ci, cc, ab, db⟩, riot, tia, cart, cyc, st⟩ =
      .ok (none, ⟨⟨a, y, x, T, sp, p, ci, cc, ab, db⟩, riot, tia, cart, cyc, st⟩) := by
  unfold CALC_BRANCH
  simp only [bind_run, emu_then_ok, pure_run, get_static_run, ha, on_cpu_run, set_PC_mk,
    Nat.mod_eq_of_lt hT]

theorem tick_fetch (db : Nat) {image : Nat → Nat} {a y x pc sp p cc ab : Nat} {riot : mos6532}
    {tia : atari_tia} {st : opcode_fn → static_var → Nat} {op : Nat} {fn : opcode_fn}
    {mode : addressing_mode_t}
    {a' y' x' pc' sp' p' ci' cc' ab' db' n' : Nat} {riot' : mos6532} {tia' : atari_tia}
    {cart' : cartridge_t} {st' : opcode_fn → static_var → Nat}
    (ha : 0x1000 ≤ ab % 8192) (hb : image (ab % 8192 - 0x1000) % 256 = op)
    (hv : opcode_validate op = .ok 0) (ht : ISA_table_get op = .ok ⟨fn, mode⟩)
    (hc : opcode_call fn 0 mode
        ⟨⟨a, y, x, pc, sp, p, op, cc, ab, op⟩, riot, tia, some image, 0, st⟩ =
      .ok (-1, ⟨⟨a', y', x', pc', sp', p', ci', cc', ab', db'⟩, riot', tia', cart', n', st'⟩))
    (hn : n' + 1 < 256) :
    mos6507_clock_tick ⟨⟨a, y, x, pc, sp, p, 0, cc, ab, db⟩, riot, tia, some image, 0, st⟩ =
      .ok (0, ⟨⟨a', y', x', pc', sp', p', ci', n' + 1, ab', db'⟩, riot', tia', cart', n' + 1,
        st'⟩) := by
  have hf := memmap_read_cart_mk image 0 a y x pc sp p 0 cc ab db riot tia 0 st ha
  rw [hb] at hf
  rw [clock_tick_fetch_ok _ _ _ op _ rfl hf hv (opcode_execute_eq op fn mode _ _ _ ht hc)]
  have e : (n' + 1) % 256 = n' + 1 := Nat.mod_eq_of_lt hn
  simp only [ite_true, e, Nat.succ_ne_zero, ite_false]

set_option maxRecDepth 1000000 in
theorem branch_table_all :
    ∀ x ∈ [(0x10, opcode_fn.BPL), (0x30, .BMI), (0x50, .BVC), (0x70, .BVS),
      (0x90, .BCC), (0xB0, .BCS), (0xD0, .BNE), (0xF0, .BEQ)],
    ISA_table_get x.1 = .ok ⟨x.2, OPCODE_ADDRESSING_MODE_RELATIVE⟩ ∧
      opcode_validate x.1 = .ok 0 ∧ x.1 ≠ 0 ∧
      x.2 ∈ [opcode_fn.BCC, .BCS, .BEQ, .BMI, .BNE, .BPL, .BVC, .BVS] ∧
      (x.2 = .BVS ↔ x.1 = 0x70) := by
  decide!

theorem branch_table (op : Nat) (fn : opcode_fn)
    (hop : (op, fn) ∈ [(0x10, opcode_fn.BPL), (0x30, .BMI), (0x50, .BVC), (0x70, .BVS),
      (0x90, .BCC), (0xB0, .BCS), (0xD0, .BNE), (0xF0, .BEQ)]) :
    ISA_table_get op = .ok ⟨fn, OPCODE_ADDRESSING_MODE_RELATIVE⟩ ∧
      opcode_validate op = .ok 0 ∧ op ≠ 0 ∧
      fn ∈ [opcode_fn.BCC, .BCS, .BEQ, .BMI, .BNE, .BPL, .BVC, .BVS] ∧
      (fn = .BVS ↔ op = 0x70) :=
  branch_table_all (op, fn) hop

theorem branch_condition_spec (op : Nat) (fn : opcode_fn) (p : Nat)
    (hop : (op, fn) ∈ [(0x10, opcode_fn.BPL), (0x30, .BMI), (0x50, .BVC), (0x70, .BVS),
      (0x90, .BCC), (0xB0, .BCS), (0xD0, .BNE), (0xF0, .BEQ)]) :
    ∃ c, (∀ a y x pc sp ci cc ab db,
        branch_condition fn ⟨a, y, x, pc, sp, p, ci, cc, ab, db⟩ = c) ∧
      (c = 0 ↔ branch_taken op p = false) := by
  have b7 := and_two_pow_ne_zero_iff p 7
  have b6 := and_two_pow_ne_zero_iff p 6
  have b1 := and_two_pow_ne_zero_iff p 1
  have b0 := and_two_pow_ne_zero_iff p 0
  simp only [Nat.reducePow] at b7 b6 b1 b0
  simp only [List.mem_cons, List.mem_singleton, List.not_mem_nil, or_false, Prod.mk.injEq]
    at hop
  refine ⟨branch_condition fn ⟨0, 0, 0, 0, 0, p, 0, 0, 0, 0⟩,
    fun a y x pc sp ci cc ab db => ?_, ?_⟩
  · rcases hop with h | h | h | h | h | h | h | h <;> obtain ⟨rfl, rfl⟩ := h <;>
      simp only [branch_condition, get_status_flag_mk]
  · rcases hop with h | h | h | h | h | h | h | h <;> obtain ⟨rfl, rfl⟩ := h <;>
      simp only [branch_condition, get_status_flag_mk, MOS6507_STATUS_FLAG_NEGATIVE,
        MOS6507_STATUS_FLAG_OVERFLOW, MOS6507_STATUS_FLAG_CARRY, MOS6507_STATUS_FLAG_ZERO,
        branch_taken, lnot, Nat.reduceEqDiff, ite_true, ite_false, b7, b6, b1, b0] <;>
      split_ifs <;> simp_all

/-- A branch instruction, run from its opcode fetch to completion: two calls
of `mos6507_clock_tick` when the condition is false; when it is true, three
if the address `CALC_BRANCH` computes is on the page of the next instruction
and four otherwise.  PC ends at the next instruction, or at the computed
address; BVS (0x70) ends one byte past it after a page crossing. -/
theorem branch_run (fuel op : Nat) (fn : opcode_fn) (image : Nat → Nat)
    (a y x pc sp p cc db : Nat) (riot : mos6532) (tia : atari_tia)
    (st : opcode_fn → static_var → Nat)
    (hop : (op, fn) ∈ [(0x10, opcode_fn.BPL), (0x30, .BMI), (0x50, .BVC), (0x70, .BVS),
      (0x90, .BCC), (0xB0, .BCS), (0xD0, .BNE), (0xF0, .BEQ)])
    (h1 : pc < 65536) (h2 : 0x1000 ≤ pc % 8192) (h3 : pc % 8192 + 1 < 8192)
    (hb : image (pc % 8192 - 0x1000) % 256 = op) :
    ∃ s', run_instruction (fuel + 4)
        ⟨⟨a, y, x, pc, sp, p, 0, cc, pc, db⟩, riot, tia, some image, 0, st⟩ =
      .ok (some (if branch_taken op p = false then 2
          else if NOT_SAME_PAGE ((pc + 2) % 65536)
            (computed_target ((pc + 2) % 65536) (image (pc % 8192 + 1 - 0x1000) % 256)) = 0
          then 3 else 4), s') ∧
      s'.cpu.PC = (if branch_taken op p = false then (pc + 2) % 65536
          else if NOT_SAME_PAGE ((pc + 2) % 65536)
            (computed_target ((pc + 2) % 65536) (image (pc % 8192 + 1 - 0x1000) % 256)) = 0
          then computed_target ((pc + 2) % 65536) (image (pc % 8192 + 1 - 0x1000) % 256)
          else if op = 0x70
          then (computed_target ((pc + 2) % 65536) (image (pc % 8192 + 1 - 0x1000) % 256) + 1)
            % 65536
          else computed_target ((pc + 2) % 65536) (image (pc % 8192 + 1 - 0x1000) % 256)) := by
  obtain ⟨ht, hv, hop0, hfn, hbvs⟩ := branch_table op fn hop
  obtain ⟨c, hc, hct⟩ := branch_condition_spec op fn p hop
  have e1 : (pc + 1) % 65536 = pc + 1 := by omega
  have e2 : (pc + 1) % 8192 = pc % 8192 + 1 := by omega
  have e3 : (pc + 1 + 1) % 65536 = (pc + 2) % 65536 := by omega
  have hoff : image (pc % 8192 + 1 - 0x1000) % 256 < 256 := Nat.mod_lt _ (by norm_num)
  have hTlt := computed_target_lt ((pc + 2) % 65536) (image (pc % 8192 + 1 - 0x1000) % 256)
    (Nat.mod_lt _ (by norm_num))
  -- cycle 0
  have c0 := branch_call_some fn 0 OPCODE_ADDRESSING_MODE_RELATIVE
    ⟨a, y, x, pc, sp, p, op, cc, pc, op⟩ riot tia (some image) 0 st (-1) _ hfn
    (CALC_BRANCH_0 fn _)
  rw [hc] at c0
  have t1 := tick_fetch db h2 hb hv ht c0 (by norm_num)
  simp only [Nat.reduceAdd] at t1
  -- cycle 1
  obtain ⟨st1, ho1, k1⟩ := CALC_BRANCH_1 fn image a y x pc sp p op 1 pc op c riot tia 1
    (fun f w => if f = fn ∧ w = .condition then c else
      if f = fn ∧ w = .condition then c else st f w)
    (by omega) (by simp only [and_self, ite_true])
  simp only [e1, e2] at ho1 k1
  by_cases hc0 : c = 0
  · -- not taken
    have hnt : branch_taken op p = false := hct.mp hc0
    subst hc0
    simp only [ite_true] at k1
    have c1 := branch_call_some fn 1 OPCODE_ADDRESSING_MODE_RELATIVE
      ⟨a, y, x, pc, sp, p, op, 1, pc, op⟩ riot tia (some image) 1
      (fun f w => if f = fn ∧ w = .condition then 0 else st f w) 0 _ hfn
      (by rw [hc]; exact k1)
    have t2 := tick_done c1 hop0 hv ht
    have r := run_instruction_step (fuel + 3) _ _ _ _ t1 (show (1 : Nat) ≠ 0 by decide)
      (run_instruction_last _ _ _ t2 rfl)
    rw [if_pos hnt, if_pos hnt]
    exact ⟨_, r, by simp only⟩
  · -- taken
    have htk : ¬ branch_taken op p = false := fun h => hc0 (hct.mpr h)
    simp only [hc0, ite_false] at k1
    have c1 := branch_call_some fn 1 OPCODE_ADDRESSING_MODE_RELATIVE
      ⟨a, y, x, pc, sp, p, op, 1, pc, op⟩ riot tia (some image) 1
      (fun f w => if f = fn ∧ w = .condition then c else st f w) (-1) _ hfn
      (by rw [hc]; exact k1)
    have t2 := tick_more c1 hop0 hv ht (by norm_num)
    simp only [Nat.reduceAdd] at t2
    -- cycle 2
    obtain ⟨st2, ha2, k2⟩ := CALC_BRANCH_2 fn a y x (pc + 1) sp p op 2 (pc + 1)
      (image (pc % 8192 + 1 - 0x1000) % 256) (image (pc % 8192 + 1 - 0x1000) % 256)
      riot tia (some image) 2
      (fun f w => if f = fn ∧ w = .condition then c else st1 f w)
      (by simp only [and_false, ite_false, reduceCtorEq, ho1]) hoff
    simp only [e3] at ha2 k2
    by_cases hpage : NOT_SAME_PAGE ((pc + 2) % 65536)
        (computed_target ((pc + 2) % 65536) (image (pc % 8192 + 1 - 0x1000) % 256)) = 0
    · simp only [hpage, ne_eq, not_true_eq_false, ite_false] at k2
      have c2 := branch_call_some fn 2 OPCODE_ADDRESSING_MODE_RELATIVE
        ⟨a, y, x, pc + 1, sp, p, op, 2, pc + 1, image (pc % 8192 + 1 - 0x1000) % 256⟩
        riot tia (some image) 2 st1 0 _ hfn (by rw [hc]; exact k2)
      have t3 := tick_done c2 hop0 hv ht
      have r := run_instruction_step (fuel + 3) _ _ _ _ t1 (show (1 : Nat) ≠ 0 by decide)
        (run_instruction_step _ _ _ _ _ t2 (show (2 : Nat) ≠ 0 by decide)
        (run_instruction_last _ _ _ t3 rfl))
      rw [if_neg htk, if_pos hpage, if_neg htk, if_pos hpage]
      exact ⟨_, r, by simp only⟩
    · simp only [hpage, ne_eq, not_false_eq_true, ite_true] at k2
      have c2 := branch_call_some fn 2 OPCODE_ADDRESSING_MODE_RELATIVE
        ⟨a, y, x, pc + 1, sp, p, op, 2, pc + 1, image (pc % 8192 + 1 - 0x1000) % 256⟩
        riot tia (some image) 2 st1 (-1) _ hfn (by rw [hc]; exact k2)
      have t3 := tick_more c2 hop0 hv ht (by norm_num)
      simp only [Nat.reduceAdd] at t3
      -- cycle 3
      have k3 := CALC_BRANCH_3 fn a y x ((pc + 2) % 65536) sp p op 3 (pc + 1)
        (image (pc % 8192 + 1 - 0x1000) % 256)
        (computed_target ((pc + 2) % 65536) (image (pc % 8192 + 1 - 0x1000) % 256))
        riot tia (some image) 3
        (fun f w => if f = fn ∧ w = .condition then c else st2 f w)
        (by simp only [and_false, ite_false, reduceCtorEq, ha2]) hTlt
      have c3 := branch_call_none fn 3 OPCODE_ADDRESSING_MODE_RELATIVE
        ⟨a, y, x, (pc + 2) % 65536, sp, p, op, 3, pc + 1, image (pc % 8192 + 1 - 0x1000) % 256⟩
        riot tia (some image) 3 st2 _ _ _ _ _ _ _ _ _ _ _ _ _ _ _ hfn (by rw [hc]; exact k3)
      have t4 := tick_done c3 hop0 hv ht
      have r := run_instruction_step (fuel + 3) _ _ _ _ t1 (show (1 : Nat) ≠ 0 by decide)
        (run_instruction_step _ _ _ _ _ t2 (show (2 : Nat) ≠ 0 by decide)
        (run_instruction_step _ _ _ _ _ t3 (show (3 : Nat) ≠ 0 by decide)
        (run_instruction_last _ _ _ t4 rfl)))
      rw [if_neg htk, if_neg hpage, if_neg htk, if_neg hpage]
      refine ⟨_, r, ?_⟩
      by_cases h70 : op = 0x70
      · rw [if_pos h70]
        simp only [hbvs.mpr h70, ite_true]
      · have hfnb : ¬ fn = .BVS := fun h => h70 (hbvs.mp h)
        rw [if_neg h70]
        simp only [hfnb, ite_false]

theorem NOT_SAME_PAGE_self (n : Nat) : NOT_SAME_PAGE n n = 0 := by
  unfold NOT_SAME_PAGE
  rw [Nat.xor_self, Nat.zero_and]

theorem TIA_update_player_buffer_loop_zero (pattern size_mask : Nat) (i d : Int) (c : Nat)
    (lb : Nat → Nat) : TIA_update_player_buffer_loop pattern size_mask 0 i d c lb = .ok lb := rfl

theorem TIA_update_player_buffer_loop_succ (pattern size_mask n : Nat) (i d : Int) (c : Nat)
    (lb : Nat → Nat) :
    TIA_update_player_buffer_loop pattern size_mask (n + 1) i d c lb =
      if (if c > 7 then d - 1 else d) > -1 ∧
          size_mask &&& (1 <<< (if c > 7 then d - 1 else d).toNat) ≠ 0 then
        match arr_set .player_line_buffer TIA_COLOUR_CLOCK_VISIBLE lb i
            (if pattern &&& (1 <<< (if c > 7 then 0 else c)) ≠ 0 then 1 else 0) with
        | .error e => .error e
        | .ok lb =>
          TIA_update_player_buffer_loop pattern size_mask n (i + 1)
            (if c > 7 then d - 1 else d) ((if c > 7 then 0 else c) + 1) lb
      else
        TIA_update_player_buffer_loop pattern size_mask n (i + 1)
          (if c > 7 then d - 1 else d) ((if c > 7 then 0 else c) + 1) lb := rfl

theorem TIA_fill_loop_zero (id : ArrayId) (i : Nat) (lb : Nat → Nat) :
    TIA_fill_loop id 0 i lb = .ok lb := rfl

set_option maxRecDepth 100000 in
theorem TIA_fill_loop_succ (id : ArrayId) (n i : Nat) (lb : Nat → Nat) :
    TIA_fill_loop id (n + 1) i lb =
      match arr_set id TIA_COLOUR_CLOCK_VISIBLE lb i 1 with
      | .error e => .error e
      | .ok lb => TIA_fill_loop id n ((i + 1) % 4294967296) lb := rfl

theorem TIA_update_player_buffer_loop_spec (pattern size_mask : Nat) :
    ∀ (n i q : Nat) (d : Int) (c : Nat) (lb : Nat → Nat), i + n ≤ 160 →
      ((c ≤ 7 ∧ d = 10 - ((q / 8 : Nat) : Int) ∧ c = q % 8) ∨
        (c = 8 ∧ q % 8 = 0 ∧ 8 ≤ q ∧ d = 11 - ((q / 8 : Nat) : Int))) →
      TIA_update_player_buffer_loop pattern size_mask n (i : Int) d c lb =
        .ok (fun j => if i ≤ j ∧ j < i + n ∧ (q + (j - i)) / 8 ≤ 10 ∧
              size_mask &&& (1 <<< (10 - (q + (j - i)) / 8)) ≠ 0 then
            (if pattern &&& (1 <<< ((q + (j - i)) % 8)) ≠ 0 then 1 else 0)
          else lb j) := by
  intro n
  induction n with
  | zero =>
    intro i q d c lb _ _
    rw [TIA_update_player_buffer_loop_zero]
    congr 1
    funext j
    rw [if_neg (by omega)]
  | succ n ih =>
    intro i q d c lb hi hinv
    have hd : (if c > 7 then d - 1 else d) = 10 - ((q / 8 : Nat) : Int) := by
      rcases hinv with ⟨h1, h2, _⟩ | ⟨h1, _, _, h4⟩
      · rw [if_neg (by omega)]; exact h2
      · rw [if_pos (by omega)]; omega
    have hc : (if c > 7 then 0 else c) = q % 8 := by
      rcases hinv with ⟨h1, _, h3⟩ | ⟨h1, h2, _, _⟩
      · rw [if_neg (by omega)]; exact h3
      · rw [if_pos (by omega)]; omega
    have hnext : ((q % 8 + 1 ≤ 7 ∧ (10 : Int) - ((q / 8 : Nat) : Int) = 10 - (((q + 1) / 8 : Nat) : Int)
          ∧ q % 8 + 1 = (q + 1) % 8) ∨
        (q % 8 + 1 = 8 ∧ (q + 1) % 8 = 0 ∧ 8 ≤ q + 1 ∧
          (10 : Int) - ((q / 8 : Nat) : Int) = 11 - (((q + 1) / 8 : Nat) : Int))) := by
      omega
    have hcast : ((i : Nat) : Int) + 1 = ((i + 1 : Nat) : Int) := by push_cast; rfl
    have hgt : ((10 : Int) - ((q / 8 : Nat) : Int) > -1) ↔ q / 8 ≤ 10 := by omega
    rw [TIA_update_player_buffer_loop_succ, hd, hc]
    by_cases hdraw : q / 8 ≤ 10 ∧ size_mask &&& (1 <<< (10 - q / 8)) ≠ 0
    · have htn : ((10 : Int) - ((q / 8 : Nat) : Int)).toNat = 10 - q / 8 := by omega
      rw [if_pos (by rw [htn]; exact ⟨hgt.mpr hdraw.1, hdraw.2⟩),
        arr_set_ok _ _ _ _ _ (by simp only [TIA_COLOUR_CLOCK_VISIBLE]; omega)]
      simp only
      rw [hcast, ih (i + 1) (q + 1) _ _ _ (by omega) hnext]
      congr 1
      funext j
      by_cases hj : j = i
      · subst hj
        rw [if_neg (by omega), Function.update_same]
        simp only [Nat.sub_self, Nat.add_zero]
        rw [if_pos (show j ≤ j ∧ j < j + (n + 1) ∧ q / 8 ≤ 10 ∧
          size_mask &&& (1 <<< (10 - q / 8)) ≠ 0 from ⟨le_refl _, by omega, hdraw.1, hdraw.2⟩)]
      · rw [Function.update_noteq hj]
        by_cases hlt : i + 1 ≤ j
        · have e : q + 1 + (j - (i + 1)) = q + (j - i) := by omega
          rw [e]
          have e2 : (i + 1 ≤ j ∧ j < i + 1 + n ∧ (q + (j - i)) / 8 ≤ 10 ∧
              size_mask &&& (1 <<< (10 - (q + (j - i)) / 8)) ≠ 0) ↔
              (i ≤ j ∧ j < i + (n + 1) ∧ (q + (j - i)) / 8 ≤ 10 ∧
              size_mask &&& (1 <<< (10 - (q + (j - i)) / 8)) ≠ 0) := by
            constructor
            · rintro ⟨a, b, c⟩; exact ⟨by omega, by omega, c⟩
            · rintro ⟨a, b, c⟩; exact ⟨by omega, by omega, c⟩
          simp only [e2]
        · rw [if_neg (fun h => hlt h.1), if_neg (fun h => by omega)]
    · have htn : ((10 : Int) - ((q / 8 : Nat) : Int) > -1 ∧
          size_mask &&& (1 <<< ((10 : Int) - ((q / 8 : Nat) : Int)).toNat) ≠ 0) → False := by
        rintro ⟨a, b⟩
        have e : ((10 : Int) - ((q / 8 : Nat) : Int)).toNat = 10 - q / 8 := by omega
        rw [e] at b
        exact hdraw ⟨hgt.mp a, b⟩
      rw [if_neg htn, hcast, ih (i + 1) (q + 1) _ _ _ (by omega) hnext]
      congr 1
      funext j
      by_cases hj : j = i
      · subst hj
        rw [if_neg (by omega)]
        simp only [Nat.sub_self, Nat.add_zero]
        rw [if_neg (fun h => hdraw ⟨h.2.2.1, h.2.2.2⟩)]
      · by_cases hlt : i + 1 ≤ j
        · have e : q + 1 + (j - (i + 1)) = q + (j - i) := by omega
          rw [e]
          have e2 : (i + 1 ≤ j ∧ j < i + 1 + n ∧ (q + (j - i)) / 8 ≤ 10 ∧
              size_mask &&& (1 <<< (10 - (q + (j - i)) / 8)) ≠ 0) ↔
              (i ≤ j ∧ j < i + (n + 1) ∧ (q + (j - i)) / 8 ≤ 10 ∧
              size_mask &&& (1 <<< (10 - (q + (j - i)) / 8)) ≠ 0) := by
            constructor
            · rintro ⟨a, b, c⟩; exact ⟨by omega, by omega, c⟩
            · rintro ⟨a, b, c⟩; exact ⟨by omega, by omega, c⟩
          simp only [e2]
        · rw [if_neg (fun h => hlt h.1), if_neg (fun h => by omega)]

theorem TIA_fill_loop_spec (id : ArrayId) :
    ∀ (n i : Nat) (lb : Nat → Nat), i + n ≤ 160 →
      TIA_fill_loop id n i lb = .ok (fun j => if i ≤ j ∧ j < i + n then 1 else lb j) := by
  intro n
  induction n with
  | zero =>
    intro i lb _
    rw [TIA_fill_loop_zero]
    congr 1
    funext j
    rw [if_neg (by omega)]
  | succ n ih =>
    intro i lb hi
    rw [TIA_fill_loop_succ, arr_set_ok _ _ _ _ _ (by simp only [TIA_COLOUR_CLOCK_VISIBLE]; omega)]
    simp only
    rw [show (i + 1) % 4294967296 = i + 1 by omega, ih (i + 1) _ (by omega)]
    congr 1
    funext j
    by_cases hj : j = i
    · subst hj
      rw [if_neg (by omega), Function.update_same, if_pos (by omega)]
    · rw [Function.update_noteq hj]
      by_cases hlt : i + 1 ≤ j ∧ j < i + 1 + n
      · rw [if_pos hlt, if_pos (by omega)]
      · rw [if_neg hlt, if_neg (by omega)]

theorem TIA_update_player_buffer_ok (x : Nat) (tia : atari_tia) (hx : x < 2) (p : Nat)
    (hp : (tia.players x).position_clock = (p : Int)) (hp160 : p ≤ 160) :
    TIA_update_player_buffer x tia =
      .ok { tia with
        players := Function.update tia.players x { tia.players x with
          line_buffer := player_line_mask (TIA_reverse_byte (tia.write_regs (reg_GRP x)))
            (tia_player_size_map (tia.write_regs (reg_NUSIZ x) &&& 0x7)) p
            (tia.players x).line_buffer } } := by
  unfold TIA_update_player_buffer
  rw [arr_get_ok _ _ _ _ hx, except_bind_ok]
  simp only [TIA_get_player_registers, ite_self, hp]
  rw [show ((TIA_COLOUR_CLOCK_VISIBLE : Nat) : Int) - (p : Int) = ((160 - p : Nat) : Int) by
      simp only [TIA_COLOUR_CLOCK_VISIBLE]; omega, Int.toNat_natCast,
    TIA_update_player_buffer_loop_spec _ _ (160 - p) p 0 10 0 _ (by omega)
      (Or.inl ⟨by omega, by omega, by omega⟩), except_bind_ok, except_pure]
  have e : (fun j => if p ≤ j ∧ j < p + (160 - p) ∧ (0 + (j - p)) / 8 ≤ 10 ∧
        tia_player_size_map (tia.write_regs
          (if x ≠ 0 then TIA_WRITE_REG_NUSIZ1 else TIA_WRITE_REG_NUSIZ0) &&& 0x7) &&&
          (1 <<< (10 - (0 + (j - p)) / 8)) ≠ 0 then
        (if TIA_reverse_byte (tia.write_regs
          (if x ≠ 0 then TIA_WRITE_REG_GRP1 else TIA_WRITE_REG_GRP0)) &&&
            (1 <<< ((0 + (j - p)) % 8)) ≠ 0 then 1 else 0)
      else TIA_reset_line_buffer (tia.players x).line_buffer j) =
      player_line_mask (TIA_reverse_byte (tia.write_regs (reg_GRP x)))
        (tia_player_size_map (tia.write_regs (reg_NUSIZ x) &&& 0x7)) p
        (tia.players x).line_buffer := by
    funext j
    unfold player_line_mask TIA_reset_line_buffer reg_GRP reg_NUSIZ TIA_get_player_registers
    simp only [Nat.zero_add, TIA_COLOUR_CLOCK_VISIBLE]
    split_ifs <;> first | rfl | (exfalso; omega)
  rw [e]

theorem TIA_update_missile_buffer_enabled (x : Nat) (tia : atari_tia) (hx : x < 2)
    (hen : tia.write_regs (reg_ENAM x) ≠ 0)
    (hfit : (tia.missiles x).position_clock +
      (1 <<< (tia.write_regs (reg_NUSIZ x) >>> 4)) % 256 ≤ 160) :
    TIA_update_missile_buffer x tia =
      .ok { tia with
        missiles := Function.update tia.missiles x { tia.missiles x with
          width := (1 <<< (tia.write_regs (reg_NUSIZ x) >>> 4)) % 256
          line_buffer := fill_line_mask (tia.missiles x).position_clock
            ((1 <<< (tia.write_regs (reg_NUSIZ x) >>> 4)) % 256)
            (tia.missiles x).line_buffer } } := by
  unfold reg_ENAM TIA_get_missile_registers at hen
  unfold reg_NUSIZ TIA_get_player_registers at hfit ⊢
  try dsimp only at hen
  try dsimp only at hfit
  try dsimp only
  unfold TIA_update_missile_buffer
  rw [arr_get_ok _ _ _ _ hx, except_bind_ok]
  simp only [TIA_get_missile_registers]
  rw [if_pos hen]
  rw [show ((tia.missiles x).position_clock + (1 <<< (tia.write_regs
      (if x ≠ 0 then TIA_WRITE_REG_NUSIZ1 else TIA_WRITE_REG_NUSIZ0) >>> 4)) % 256) % 4294967296 -
      (tia.missiles x).position_clock = (1 <<< (tia.write_regs
      (if x ≠ 0 then TIA_WRITE_REG_NUSIZ1 else TIA_WRITE_REG_NUSIZ0) >>> 4)) % 256 by omega,
    TIA_fill_loop_spec _ _ _ _ hfit, except_bind_ok, except_pure]
  have e : (fun j => if (tia.missiles x).position_clock ≤ j ∧ j < (tia.missiles x).position_clock +
        (1 <<< (tia.write_regs (if x ≠ 0 then TIA_WRITE_REG_NUSIZ1 else TIA_WRITE_REG_NUSIZ0)
          >>> 4)) % 256 then 1
      else TIA_reset_line_buffer (tia.missiles x).line_buffer j) =
      fill_line_mask (tia.missiles x).position_clock ((1 <<< (tia.write_regs
        (if x ≠ 0 then TIA_WRITE_REG_NUSIZ1 else TIA_WRITE_REG_NUSIZ0) >>> 4)) % 256)
        (tia.missiles x).line_buffer := by
    funext j
    unfold fill_line_mask TIA_reset_line_buffer
    simp only [TIA_COLOUR_CLOCK_VISIBLE]
  rw [e]

theorem TIA_update_missile_buffer_disabled (x : Nat) (tia : atari_tia) (hx : x < 2)
    (hen : tia.write_regs (reg_ENAM x) = 0) :
    TIA_update_missile_buffer x tia =
      .ok { tia with
        missiles := Function.update tia.missiles x { tia.missiles x with
          line_buffer := TIA_reset_line_buffer (tia.missiles x).line_buffer } } := by
  unfold reg_ENAM TIA_get_missile_registers at hen
  try dsimp only at hen
  unfold TIA_update_missile_buffer
  rw [arr_get_ok _ _ _ _ hx, except_bind_ok]
  simp only [TIA_get_missile_registers]
  rw [if_neg (fun h => h hen), except_pure]

theorem TIA_update_ball_buffer_enabled (tia : atari_tia)
    (hen : tia.write_regs TIA_WRITE_REG_ENABL ≠ 0)
    (hfit : tia.ball.position_clock +
      (1 <<< (tia.write_regs TIA_WRITE_REG_CTRLPF >>> 4)) % 256 ≤ 160) :
    TIA_update_ball_buffer tia =
      .ok { tia with
        ball := { tia.ball with
          width := (1 <<< (tia.write_regs TIA_WRITE_REG_CTRLPF >>> 4)) % 256
          line_buffer := fill_line_mask tia.ball.position_clock
            ((1 <<< (tia.write_regs TIA_WRITE_REG_CTRLPF >>> 4)) % 256)
            tia.ball.line_buffer } } := by
  unfold TIA_update_ball_buffer
  rw [if_pos hen]
  simp only
  rw [show (tia.ball.position_clock + (1 <<< (tia.write_regs TIA_WRITE_REG_CTRLPF >>> 4)) % 256)
      % 4294967296 - tia.ball.position_clock =
      (1 <<< (tia.write_regs TIA_WRITE_REG_CTRLPF >>> 4)) % 256 by omega,
    TIA_fill_loop_spec _ _ _ _ hfit, except_bind_ok, except_pure]
  have e : (fun j => if tia.ball.position_clock ≤ j ∧ j < tia.ball.position_clock +
        (1 <<< (tia.write_regs TIA_WRITE_REG_CTRLPF >>> 4)) % 256 then 1
      else TIA_reset_line_buffer tia.ball.line_buffer j) =
      fill_line_mask tia.ball.position_clock
        ((1 <<< (tia.write_regs TIA_WRITE_REG_CTRLPF >>> 4)) % 256) tia.ball.line_buffer := by
    funext j
    unfold fill_line_mask TIA_reset_line_buffer
    simp only [TIA_COLOUR_CLOCK_VISIBLE]
  rw [e]

theorem TIA_update_ball_buffer_disabled (tia : atari_tia)
    (hen : tia.write_regs TIA_WRITE_REG_ENABL = 0) :
    TIA_update_ball_buffer tia =
      .ok { tia with
        ball := { tia.ball with
          line_buffer := TIA_reset_line_buffer tia.ball.line_buffer } } := by
  unfold TIA_update_ball_buffer
  rw [if_neg (fun h => h hen), except_pure]

set_option maxRecDepth 1000000 in
theorem TIA_reverse_byte_testBit_byte :
    ∀ b, b < 256 → ∀ c, c < 8 → (TIA_reverse_byte b).testBit c = b.testBit (7 - c) := by
  decide!

theorem TIA_reverse_byte_testBit (g c : Nat) (hc : c < 8) :
    (TIA_reverse_byte g).testBit c = g.testBit (7 - c) := by
  rw [TIA_reverse_byte_mod, TIA_reverse_byte_testBit_byte _ (Nat.mod_lt _ (by norm_num)) c hc,
    show (256 : Nat) = 2 ^ 8 by norm_num, Nat.testBit_mod_two_pow]
  simp [show 7 - c < 8 by omega]

theorem one_copy_section (s : Nat) :
    (s ≤ 10 ∧ tia_player_size_map 0 &&& (1 <<< (10 - s)) ≠ 0) ↔ s = 1 := by
  constructor
  · rintro ⟨h1, h2⟩
    interval_cases s <;> first | rfl | (exfalso; revert h2; decide)
  · rintro rfl
    decide

theorem player_line_mask_one_copy (g p : Nat) (old : Nat → Nat) (j : Nat) (hj : j < 160) :
    player_line_mask (TIA_reverse_byte g) (tia_player_size_map 0) p old j =
      if p + 8 ≤ j ∧ j < p + 16 then (if g.testBit (7 - (j - (p + 8))) then 1 else 0) else 0 := by
  unfold player_line_mask
  by_cases h : p + 8 ≤ j ∧ j < p + 16
  · have hs : (j - p) / 8 = 1 := by omega
    rw [if_pos h, if_pos ⟨by omega, hj, (one_copy_section _).mpr hs⟩]
    have e : (TIA_reverse_byte g &&& (1 <<< ((j - p) % 8)) ≠ 0) ↔
        g.testBit (7 - (j - (p + 8))) = true := by
      rw [and_one_shl, TIA_reverse_byte_testBit _ _ (Nat.mod_lt _ (by norm_num)),
        show (j - p) % 8 = j - (p + 8) by omega]
    simp only [e]
  · rw [if_neg h, if_neg, if_pos hj]
    rintro ⟨h1, _, h3⟩
    have := (one_copy_section _).mp h3
    omega

theorem TIA_update_player_buffer_one_copy (x : Nat) (hx : x < 2) (tia : atari_tia) (p : Nat)
    (hp : (tia.players x).position_clock = (p : Int)) (hfit : p + 16 ≤ 160)
    (hsize : tia.write_regs (reg_NUSIZ x) &&& 0x7 = 0) :
    ∃ tia', TIA_update_player_buffer x tia = .ok tia' ∧
      ∀ j, j < 160 → (tia'.players x).line_buffer j =
        if p + 8 ≤ j ∧ j < p + 16 then
          (if (tia.write_regs (reg_GRP x)).testBit (7 - (j - (p + 8))) then 1 else 0)
        else 0 := by
  refine ⟨_, TIA_update_player_buffer_ok x tia hx p hp (by omega), ?_⟩
  intro j hj
  simp only [Function.update_same]
  rw [hsize]
  exact player_line_mask_one_copy _ _ _ _ hj

theorem TIA_update_player_buffer_reflect (x r : Nat) (tia : atari_tia) :
    Except.map (fun t => (t.players x).line_buffer)
        (TIA_update_player_buffer x
          { tia with write_regs := Function.update tia.write_regs (reg_REFP x) r }) =
      Except.map (fun t => (t.players x).line_buffer) (TIA_update_player_buffer x tia) := by
  have hg : Function.update tia.write_regs (reg_REFP x) r (reg_GRP x) =
      tia.write_regs (reg_GRP x) := by
    apply Function.update_noteq
    unfold reg_GRP reg_REFP TIA_get_player_registers
    by_cases h : x = 0 <;> simp [h]
  have hn : Function.update tia.write_regs (reg_REFP x) r (reg_NUSIZ x) =
      tia.write_regs (reg_NUSIZ x) := by
    apply Function.update_noteq
    unfold reg_NUSIZ reg_REFP TIA_get_player_registers
    by_cases h : x = 0 <;> simp [h]
  unfold reg_GRP reg_REFP TIA_get_player_registers at hg
  unfold reg_NUSIZ reg_REFP TIA_get_player_registers at hn
  unfold TIA_update_player_buffer
  simp only [TIA_get_player_registers, ite_self] at hg hn ⊢
  unfold reg_REFP TIA_get_player_registers
  simp only [hg, hn]
  cases arr_get ArrayId.tia_players 2 tia.players x with
  | error e => rfl
  | ok p =>
    rw [except_bind_ok, except_bind_ok]
    cases TIA_update_player_buffer_loop
        (TIA_reverse_byte (tia.write_regs (if x ≠ 0 then TIA_WRITE_REG_GRP1 else TIA_WRITE_REG_GRP0)))
        (tia_player_size_map
          (tia.write_regs (if x ≠ 0 then TIA_WRITE_REG_NUSIZ1 else TIA_WRITE_REG_NUSIZ0) &&& 0x7))
        ((TIA_COLOUR_CLOCK_VISIBLE : Int) - p.position_clock).toNat p.position_clock 10 0
        (TIA_reset_line_buffer p.line_buffer) with
    | error e => rfl
    | ok lb =>
      rw [except_bind_ok, except_bind_ok, except_pure, except_pure]
      simp only [Except.map, Function.update_same]

theorem TIA_write_register_RESP (x : Nat) (hx : x < 2) (v : Nat) (tia : atari_tia) :
    TIA_write_register (reg_RESP x) v tia = TIA_reset_player x tia := by
  have h : x = 0 ∨ x = 1 := by omega
  rcases h with rfl | rfl <;> rfl

theorem TIA_write_register_RESM (x : Nat) (hx : x < 2) (v : Nat) (tia : atari_tia) :
    TIA_write_register (reg_RESM x) v tia = TIA_reset_missile x tia := by
  have h : x = 0 ∨ x = 1 := by omega
  rcases h with rfl | rfl <;> rfl

theorem TIA_write_register_RESBL (v : Nat) (tia : atari_tia) :
    TIA_write_register TIA_WRITE_REG_RESBL v tia = TIA_reset_ball tia := rfl

theorem TIA_write_register_HMOVE (v : Nat) (tia : atari_tia) :
    TIA_write_register TIA_WRITE_REG_HMOVE v tia =
      if tia.colour_clock < TIA_COLOUR_CLOCK_HSYNC then pure (TIA_apply_HMOVE tia) else pure tia :=
  rfl

theorem TIA_write_register_RESMP (x : Nat) (hx : x < 2) (v : Nat) (tia : atari_tia) :
    TIA_write_register (reg_RESMP x) v tia =
      (TIA_set_write_reg (reg_RESMP x) v tia >>= fun tia =>
        TIA_update_missile_buffer x
          (if v &&& 0b01 ≠ 0 then
            { tia with
              missiles := Function.update tia.missiles x { tia.missiles x with
                position_clock := u32 (tia.players x).position_clock } }
          else tia)) := by
  have h : x = 0 ∨ x = 1 := by omega
  rcases h with rfl | rfl <;> rfl

theorem TIA_set_write_reg_ok (reg value : Nat) (tia : atari_tia) (h : reg < TIA_WRITE_REG_LEN) :
    TIA_set_write_reg reg value tia =
      .ok { tia with write_regs := Function.update tia.write_regs reg (value % 256) } := by
  unfold TIA_set_write_reg
  rw [arr_set_ok _ _ _ _ _ h]
  rfl

theorem TIA_update_missile_buffer_position (x : Nat) (tia : atari_tia) (hx : x < 2)
    (hfit : tia.write_regs (reg_ENAM x) = 0 ∨ (tia.missiles x).position_clock +
      (1 <<< (tia.write_regs (reg_NUSIZ x) >>> 4)) % 256 ≤ 160) :
    ∃ t, TIA_update_missile_buffer x tia = .ok t ∧ t.write_regs = tia.write_regs ∧
      (t.missiles x).position_clock = (tia.missiles x).position_clock := by
  by_cases hen : tia.write_regs (reg_ENAM x) = 0
  · exact ⟨_, TIA_update_missile_buffer_disabled x tia hx hen, rfl,
      by simp only [Function.update_same]⟩
  · exact ⟨_, TIA_update_missile_buffer_enabled x tia hx hen (hfit.resolve_left hen), rfl,
      by simp only [Function.update_same]⟩

theorem TIA_update_player_buffer_loop_skip (pattern size_mask n : Nat) (i d : Int) (c : Nat)
    (lb : Nat → Nat) (hc : c ≤ 7) (hbit : size_mask &&& (1 <<< d.toNat) = 0) :
    TIA_update_player_buffer_loop pattern size_mask (n + 1) i d c lb =
      TIA_update_player_buffer_loop pattern size_mask n (i + 1) d (c + 1) lb := by
  rw [TIA_update_player_buffer_loop_succ, if_neg (show ¬ c > 7 by omega),
    if_neg (show ¬ c > 7 by omega), if_neg (fun h => h.2 hbit)]

theorem TIA_update_player_buffer_loop_before (pattern size_mask n : Nat) (i : Int)
    (lb : Nat → Nat) (h10 : size_mask &&& (1 <<< 10) = 0) (h9 : size_mask &&& (1 <<< 9) ≠ 0)
    (hi : i + 8 < 0) :
    TIA_update_player_buffer_loop pattern size_mask (n + 9) i 10 0 lb =
      .error ⟨.player_line_buffer, i + 8⟩ := by
  have h10b : size_mask &&& (1 <<< (10 : Int).toNat) = 0 := h10
  rw [TIA_update_player_buffer_loop_skip _ _ _ _ _ _ _ (by omega) h10b,
    TIA_update_player_buffer_loop_skip _ _ _ _ _ _ _ (by omega) h10b,
    TIA_update_player_buffer_loop_skip _ _ _ _ _ _ _ (by omega) h10b,
    TIA_update_player_buffer_loop_skip _ _ _ _ _ _ _ (by omega) h10b,
    TIA_update_player_buffer_loop_skip _ _ _ _ _ _ _ (by omega) h10b,
    TIA_update_player_buffer_loop_skip _ _ _ _ _ _ _ (by omega) h10b,
    TIA_update_player_buffer_loop_skip _ _ _ _ _ _ _ (by omega) h10b,
    TIA_update_player_buffer_loop_skip _ _ _ _ _ _ _ (by omega) h10b,
    TIA_update_player_buffer_loop_succ]
  have e : i + 1 + 1 + 1 + 1 + 1 + 1 + 1 + 1 = i + 8 := by omega
  rw [e, if_pos (show 0 + 1 + 1 + 1 + 1 + 1 + 1 + 1 + 1 > 7 by omega),
    if_pos (show 0 + 1 + 1 + 1 + 1 + 1 + 1 + 1 + 1 > 7 by omega),
    if_pos ⟨by omega, h9⟩]
  unfold arr_set
  rw [if_neg (by omega)]

theorem tia_player_size_map_top (k : Nat) :
    tia_player_size_map (k &&& 0x7) &&& (1 <<< 10) = 0 ∧
      tia_player_size_map (k &&& 0x7) &&& (1 <<< 9) ≠ 0 := by
  have h : k &&& 0x7 < 8 := by
    have := @Nat.and_le_right k 0x7
    omega
  generalize k &&& 0x7 = m at h
  interval_cases m <;> decide

theorem TIA_reset_player_overflow (x : Nat) (hx : x < 2) (tia : atari_tia)
    (h1 : 196 ≤ tia.colour_clock) (h2 : tia.colour_clock < 228) :
    TIA_reset_player x tia = .error ⟨.player_line_buffer, (tia.colour_clock : Int) - 316⟩ := by
  unfold TIA_reset_player
  rw [arr_get_ok _ _ _ _ hx, except_bind_ok]
  have hpos : i8 (u32 ((tia.colour_clock : Int) - (TIA_COLOUR_CLOCK_HSYNC : Nat))) =
      (tia.colour_clock : Int) - 324 := by
    unfold i8 u32
    simp only [TIA_COLOUR_CLOCK_HSYNC]
    omega
  simp only [if_pos (show tia.colour_clock > TIA_COLOUR_CLOCK_HSYNC by
    simp only [TIA_COLOUR_CLOCK_HSYNC]; omega), hpos]
  unfold TIA_update_player_buffer
  rw [arr_get_ok _ _ _ _ hx, except_bind_ok]
  simp only [TIA_get_player_registers, ite_self, Function.update_same]
  obtain ⟨n, hn⟩ : ∃ n, ((TIA_COLOUR_CLOCK_VISIBLE : Nat) -
      ((tia.colour_clock : Int) - 324)).toNat = n + 9 := by
    refine ⟨475 - tia.colour_clock, ?_⟩
    simp only [TIA_COLOUR_CLOCK_VISIBLE]
    omega
  rw [hn, TIA_update_player_buffer_loop_before _ _ _ _ _ (tia_player_size_map_top _).1
    (tia_player_size_map_top _).2 (by omega)]
  have e : (tia.colour_clock : Int) - 324 + 8 = (tia.colour_clock : Int) - 316 := by omega
  rw [e]
  rfl

/-- In the visible part of a line, with the colour registers holding bytes,
`TIA_generate_colour` succeeds; it stores the palette entry of the selected
colour at the current pixel, assigns the eight collision registers from the
samples of this pixel, and changes nothing else. -/
theorem TIA_generate_colour_state (tia : atari_tia) (h1 : 68 ≤ tia.colour_clock)
    (h2 : tia.colour_clock < 228) (hregs : ∀ r, tia.write_regs r < 256) :
    ∃ tia', TIA_generate_colour tia = .ok tia' ∧
      tia'.tia_raw_buffer = Function.update tia.tia_raw_buffer (tia.colour_clock - 68)
        (X4 (tia.tia_rgb_color_map (TIA_select_colour tia (tia.colour_clock - 68)
          (line_sample (tia.missiles 0).line_buffer (tia.colour_clock - 68))
          (line_sample (tia.missiles 1).line_buffer (tia.colour_clock - 68))
          (line_sample (tia.players 0).line_buffer (tia.colour_clock - 68))
          (line_sample (tia.players 1).line_buffer (tia.colour_clock - 68))
          (line_sample tia.ball.line_buffer (tia.colour_clock - 68))
          (line_sample tia.playfield.line_buffer (tia.colour_clock - 68)) >>> 1))) ∧
      (∀ k, k < 8 → tia'.read_regs k = collision_latch k
          (line_sample (tia.missiles 0).line_buffer (tia.colour_clock - 68))
          (line_sample (tia.missiles 1).line_buffer (tia.colour_clock - 68))
          (line_sample (tia.players 0).line_buffer (tia.colour_clock - 68))
          (line_sample (tia.players 1).line_buffer (tia.colour_clock - 68))
          (line_sample tia.ball.line_buffer (tia.colour_clock - 68))
          (line_sample tia.playfield.line_buffer (tia.colour_clock - 68)) % 256) ∧
      (∀ k, 8 ≤ k → tia'.read_regs k = tia.read_regs k) ∧
      tia'.write_regs = tia.write_regs ∧ tia'.colour_clock = tia.colour_clock ∧
      tia'.players = tia.players ∧ tia'.missiles = tia.missiles ∧ tia'.ball = tia.ball ∧
      tia'.playfield = tia.playfield ∧ tia'.tia_rgb_color_map = tia.tia_rgb_color_map := by
  have hu : u32 ((tia.colour_clock : Int) - (TIA_COLOUR_CLOCK_HSYNC : Nat)) =
      tia.colour_clock - 68 := by
    unfold u32; simp only [TIA_COLOUR_CLOCK_HSYNC]; omega
  have hi : tia.colour_clock - 68 < TIA_COLOUR_CLOCK_VISIBLE := by
    simp only [TIA_COLOUR_CLOCK_VISIBLE]; omega
  have hsel : ∀ x a b c d e f, TIA_select_colour tia x a b c d e f < 256 := by
    intro x a b c d e f
    unfold TIA_select_colour
    simp only
    split_ifs <;> exact hregs _
  have hpal : ∀ x a b c d e f, TIA_select_colour tia x a b c d e f >>> 1 < 128 := by
    intro x a b c d e f
    have := hsel x a b c d e f
    rw [Nat.shiftRight_eq_div_pow]; omega
  unfold TIA_generate_colour
  rw [TIA_test_missile_bit_visible 0 tia (by norm_num) h1 h2, except_bind_ok,
    TIA_test_missile_bit_visible 1 tia (by norm_num) h1 h2, except_bind_ok,
    TIA_test_player_bit_visible 0 tia (by norm_num) h1 h2, except_bind_ok,
    TIA_test_player_bit_visible 1 tia (by norm_num) h1 h2, except_bind_ok,
    TIA_test_ball_bit_visible tia h1 h2, except_bind_ok,
    TIA_test_playfield_bit_visible tia h1 h2, except_bind_ok]
  simp only [hu, arr_get_ok _ _ _ _ (hpal _ _ _ _ _ _ _), except_bind_ok,
    arr_set_ok _ _ _ _ _ hi,
    TIA_set_read_reg_ok _ _ _ (show TIA_READ_REG_CXM0P < TIA_READ_REG_LEN by decide),
    TIA_set_read_reg_ok _ _ _ (show TIA_READ_REG_CXM1P < TIA_READ_REG_LEN by decide),
    TIA_set_read_reg_ok _ _ _ (show TIA_READ_REG_CXP0FB < TIA_READ_REG_LEN by decide),
    TIA_set_read_reg_ok _ _ _ (show TIA_READ_REG_CXP1FB < TIA_READ_REG_LEN by decide),
    TIA_set_read_reg_ok _ _ _ (show TIA_READ_REG_CXM0FB < TIA_READ_REG_LEN by decide),
    TIA_set_read_reg_ok _ _ _ (show TIA_READ_REG_CXM1FB < TIA_READ_REG_LEN by decide),
    TIA_set_read_reg_ok _ _ _ (show TIA_READ_REG_CXBLPF < TIA_READ_REG_LEN by decide),
    TIA_set_read_reg_ok _ _ _ (show TIA_READ_REG_CXPPMM < TIA_READ_REG_LEN by decide)]
  refine ⟨_, rfl, rfl, ?_, ?_, rfl, rfl, rfl, rfl, rfl, rfl, rfl⟩
  · intro k hk
    interval_cases k <;> rfl
  · intro k hk
    simp only [TIA_READ_REG_CXM0P, TIA_READ_REG_CXM1P, TIA_READ_REG_CXP0FB, TIA_READ_REG_CXP1FB,
      TIA_READ_REG_CXM0FB, TIA_READ_REG_CXM1FB, TIA_READ_REG_CXBLPF, TIA_READ_REG_CXPPMM]
    rw [Function.update_noteq (by omega), Function.update_noteq (by omega),
      Function.update_noteq (by omega), Function.update_noteq (by omega),
      Function.update_noteq (by omega), Function.update_noteq (by omega),
      Function.update_noteq (by omega), Function.update_noteq (by omega)]

theorem TIA_clock_tick_visible (tia : atari_tia) (h1 : 68 < tia.colour_clock)
    (h2 : tia.colour_clock < 228) :
    TIA_clock_tick tia =
      (TIA_generate_colour tia >>= fun t =>
        pure (i32 (((t.colour_clock + 1) % 4294967296 : Nat) : Int),
          { t with colour_clock := (t.colour_clock + 1) % 4294967296 })) := by
  unfold TIA_clock_tick
  simp only [if_neg (show ¬ tia.colour_clock ≥ TIA_COLOUR_CLOCK_TOTAL by
      simp only [TIA_COLOUR_CLOCK_TOTAL, TIA_COLOUR_CLOCK_VISIBLE, TIA_COLOUR_CLOCK_HSYNC]; omega),
    if_neg (show ¬ tia.colour_clock = TIA_COLOUR_CLOCK_HSYNC by
      simp only [TIA_COLOUR_CLOCK_HSYNC]; omega),
    if_pos (show tia.colour_clock > TIA_COLOUR_CLOCK_HSYNC by
      simp only [TIA_COLOUR_CLOCK_HSYNC]; omega), except_pure, except_bind_ok]

theorem TIA_clock_tick_hsync (tia : atari_tia) (h : tia.colour_clock = 68) :
    TIA_clock_tick tia =
      (TIA_update_player_buffer 0 tia >>= fun t =>
        TIA_update_player_buffer 1 t >>= fun t =>
        TIA_update_missile_buffer 0 t >>= fun t =>
        TIA_update_missile_buffer 1 t >>= fun t =>
        TIA_update_ball_buffer t >>= fun t =>
        (if t.colour_clock > TIA_COLOUR_CLOCK_HSYNC then TIA_generate_colour t else pure t)
          >>= fun t =>
        pure (i32 (((t.colour_clock + 1) % 4294967296 : Nat) : Int),
          { t with colour_clock := (t.colour_clock + 1) % 4294967296 })) := by
  unfold TIA_clock_tick
  simp only [if_neg (show ¬ tia.colour_clock ≥ TIA_COLOUR_CLOCK_TOTAL by
      simp only [TIA_COLOUR_CLOCK_TOTAL, TIA_COLOUR_CLOCK_VISIBLE, TIA_COLOUR_CLOCK_HSYNC]; omega),
    if_pos (show tia.colour_clock = TIA_COLOUR_CLOCK_HSYNC from h)]
  cases TIA_update_player_buffer 0 tia with
  | error e => rfl
  | ok a =>
    simp only [except_bind_ok]
    cases TIA_update_player_buffer 1 a with
    | error e => rfl
    | ok b =>
      simp only [except_bind_ok]
      cases TIA_update_missile_buffer 0 b with
      | error e => rfl
      | ok c =>
        simp only [except_bind_ok]
        cases TIA_update_missile_buffer 1 c with
        | error e => rfl
        | ok d =>
          simp only [except_bind_ok]
          cases TIA_update_ball_buffer d with
          | error e => rfl
          | ok f =>
            simp only [except_bind_ok]
            by_cases hh : f.colour_clock > TIA_COLOUR_CLOCK_HSYNC
            · rw [if_pos hh, if_pos hh]
            · rw [if_neg hh, if_neg hh]

theorem TIA_update_player_buffer_frame (x : Nat) (hx : x < 2) (tia : atari_tia)
    (hp : 0 ≤ (tia.players x).position_clock ∧ (tia.players x).position_clock ≤ 160) :
    ∃ t, TIA_update_player_buffer x tia = .ok t ∧ t.write_regs = tia.write_regs ∧
      t.read_regs = tia.read_regs ∧ t.colour_clock = tia.colour_clock ∧ t.ball = tia.ball ∧
      t.missiles = tia.missiles ∧ t.playfield = tia.playfield ∧
      t.tia_raw_buffer = tia.tia_raw_buffer ∧ t.tia_rgb_color_map = tia.tia_rgb_color_map ∧
      (∀ k, k ≠ x → t.players k = tia.players k) ∧
      (t.players x).position_clock = (tia.players x).position_clock := by
  obtain ⟨p, hpp⟩ : ∃ p : Nat, (tia.players x).position_clock = (p : Int) :=
    ⟨(tia.players x).position_clock.toNat, by omega⟩
  refine ⟨_, TIA_update_player_buffer_ok x tia hx p hpp (by omega), rfl, rfl, rfl, rfl, rfl, rfl,
    rfl, rfl, fun k hk => ?_, ?_⟩
  · simp only [Function.update_noteq hk]
  · simp only [Function.update_same]

theorem TIA_update_missile_buffer_frame (x : Nat) (hx : x < 2) (tia : atari_tia)
    (hfit : tia.write_regs (reg_ENAM x) = 0 ∨ (tia.missiles x).position_clock +
      (1 <<< (tia.write_regs (reg_NUSIZ x) >>> 4)) % 256 ≤ 160) :
    ∃ t, TIA_update_missile_buffer x tia = .ok t ∧ t.write_regs = tia.write_regs ∧
      t.read_regs = tia.read_regs ∧ t.colour_clock = tia.colour_clock ∧ t.ball = tia.ball ∧
      t.players = tia.players ∧ t.playfield = tia.playfield ∧
      t.tia_raw_buffer = tia.tia_raw_buffer ∧ t.tia_rgb_color_map = tia.tia_rgb_color_map ∧
      (∀ k, k ≠ x → t.missiles k = tia.missiles k) ∧
      (t.missiles x).position_clock = (tia.missiles x).position_clock := by
  by_cases hen : tia.write_regs (reg_ENAM x) = 0
  · refine ⟨_, TIA_update_missile_buffer_disabled x tia hx hen, rfl, rfl, rfl, rfl, rfl, rfl,
      rfl, rfl, fun k hk => ?_, ?_⟩
    · simp only [Function.update_noteq hk]
    · simp only [Function.update_same]
  · refine ⟨_, TIA_update_missile_buffer_enabled x tia hx hen (hfit.resolve_left hen), rfl, rfl,
      rfl, rfl, rfl, rfl, rfl, rfl, fun k hk => ?_, ?_⟩
    · simp only [Function.update_noteq hk]
    · simp only [Function.update_same]

theorem TIA_update_ball_buffer_frame (tia : atari_tia)
    (hfit : tia.write_regs TIA_WRITE_REG_ENABL = 0 ∨ tia.ball.position_clock +
      (1 <<< (tia.write_regs TIA_WRITE_REG_CTRLPF >>> 4)) % 256 ≤ 160) :
    ∃ t, TIA_update_ball_buffer tia = .ok t ∧ t.write_regs = tia.write_regs ∧
      t.read_regs = tia.read_regs ∧ t.colour_clock = tia.colour_clock ∧
      t.players = tia.players ∧ t.missiles = tia.missiles ∧ t.playfield = tia.playfield ∧
      t.tia_raw_buffer = tia.tia_raw_buffer ∧ t.tia_rgb_color_map = tia.tia_rgb_color_map ∧
      t.ball.position_clock = tia.ball.position_clock := by
  by_cases hen : tia.write_regs TIA_WRITE_REG_ENABL = 0
  · exact ⟨_, TIA_update_ball_buffer_disabled tia hen, rfl, rfl, rfl, rfl, rfl, rfl, rfl, rfl,
      rfl⟩
  · exact ⟨_, TIA_update_ball_buffer_enabled tia hen (hfit.resolve_left hen), rfl, rfl, rfl,
      rfl, rfl, rfl, rfl, rfl, rfl⟩

/-- At colour clock 68, with the objects on the line, `TIA_clock_tick` rebuilds
the line masks and generates no pixel. -/
theorem TIA_clock_tick_at_hsync (tia : atari_tia) (h : tia.colour_clock = 68)
    (hfit : objects_fit tia) :
    ∃ t, TIA_clock_tick tia = .ok (69, t) ∧ t.colour_clock = 69 ∧
      t.tia_raw_buffer = tia.tia_raw_buffer ∧ t.read_regs = tia.read_regs ∧
      t.write_regs = tia.write_regs := by
  obtain ⟨f0, f1, f2, f3, f4⟩ := hfit
  obtain ⟨a, ha, a1, a2, a3, a4, a5, a6, a7, a8, a9, _⟩ :=
    TIA_update_player_buffer_frame 0 (by decide) tia f0
  obtain ⟨b, hb, b1, b2, b3, b4, b5, b6, b7, b8, _, _⟩ :=
    TIA_update_player_buffer_frame 1 (by decide) a
      (by rw [a9 1 (by decide)]; exact f1)
  obtain ⟨c, hc, c1, c2, c3, c4, c5, c6, c7, c8, c9, _⟩ :=
    TIA_update_missile_buffer_frame 0 (by decide) b
      (by rw [b1, a1, b5, a5]; exact f2)
  obtain ⟨d, hd, d1, d2, d3, d4, d5, d6, d7, d8, _, _⟩ :=
    TIA_update_missile_buffer_frame 1 (by decide) c
      (by rw [c1, b1, a1, c9 1 (by decide), b5, a5]; exact f3)
  obtain ⟨e, he, e1, e2, e3, e4, e5, e6, e7, e8, _⟩ :=
    TIA_update_ball_buffer_frame d
      (by rw [d1, c1, b1, a1, d4, c4, b4, a4]; exact f4)
  have hcc : e.colour_clock = 68 := by rw [e3, d3, c3, b3, a3, h]
  refine ⟨{ e with colour_clock := 69 }, ?_, rfl, ?_, ?_, ?_⟩
  · rw [TIA_clock_tick_hsync tia h, ha, except_bind_ok, hb, except_bind_ok, hc, except_bind_ok,
      hd, except_bind_ok, he, except_bind_ok,
      if_neg (by rw [hcc]; decide), except_pure, except_bind_ok, except_pure, hcc]
    rfl
  · show e.tia_raw_buffer = _
    rw [e7, d7, c7, b7, a7]
  · show e.read_regs = _
    rw [e2, d2, c2, b2, a2]
  · show e.write_regs = _
    rw [e1, d1, c1, b1, a1]

theorem TIA_select_colour_score (tia : atari_tia) (x M0 M1 P0 P1 BL PF : Nat)
    (hscore : tia.write_regs TIA_WRITE_REG_CTRLPF &&& 0b10 ≠ 0) (hpf : PF ≠ 0) :
    TIA_select_colour tia x M0 M1 P0 P1 BL PF =
      tia.write_regs (score_register
        (decide (tia.write_regs TIA_WRITE_REG_CTRLPF &&& 0b100 ≠ 0)) P0 P1 M0 M1 x) := by
  unfold TIA_select_colour score_register
  simp only [hscore, hpf, ne_eq, not_false_eq_true, ite_true, decide_eq_true_eq,
    TIA_COLOUR_CLOCK_VISIBLE_HALF, TIA_COLOUR_CLOCK_VISIBLE]
  split_ifs <;> simp_all

theorem tia_line_example_regs (ctrlpf c : Nat) (h : ctrlpf < 256) :
    ∀ r, (tia_line_example ctrlpf c).write_regs r < 256 := by
  intro r
  simp only [tia_line_example, tia_pixel_example]
  split_ifs <;> first | exact h | decide

theorem tia_latched_example_regs (c : Nat) :
    ∀ r, (tia_latched_example c).write_regs r < 256 := by
  intro r
  simp only [tia_latched_example, TIA_init, power_on]
  split_ifs <;> decide

theorem TIA_write_register_CXCLR (v : Nat) (tia : atari_tia) :
    ∃ t, TIA_write_register TIA_WRITE_REG_CXCLR v tia = .ok t ∧
      ∀ k, k < 8 → TIA_read_register k t = .ok 0 := by
  have h : TIA_write_register TIA_WRITE_REG_CXCLR v tia =
      (TIA_set_read_reg TIA_READ_REG_CXM0P 0 tia >>= fun tia =>
        TIA_set_read_reg TIA_READ_REG_CXM1P 0 tia >>= fun tia =>
        TIA_set_read_reg TIA_READ_REG_CXP0FB 0 tia >>= fun tia =>
        TIA_set_read_reg TIA_READ_REG_CXP1FB 0 tia >>= fun tia =>
        TIA_set_read_reg TIA_READ_REG_CXM0FB 0 tia >>= fun tia =>
        TIA_set_read_reg TIA_READ_REG_CXM1FB 0 tia >>= fun tia =>
        TIA_set_read_reg TIA_READ_REG_CXBLPF 0 tia >>= fun tia =>
        TIA_set_read_reg TIA_READ_REG_CXPPMM 0 tia) := rfl
  rw [h]
  simp only [except_bind_ok,
    TIA_set_read_reg_ok _ _ _ (show TIA_READ_REG_CXM0P < TIA_READ_REG_LEN by decide),
    TIA_set_read_reg_ok _ _ _ (show TIA_READ_REG_CXM1P < TIA_READ_REG_LEN by decide),
    TIA_set_read_reg_ok _ _ _ (show TIA_READ_REG_CXP0FB < TIA_READ_REG_LEN by decide),
    TIA_set_read_reg_ok _ _ _ (show TIA_READ_REG_CXP1FB < TIA_READ_REG_LEN by decide),
    TIA_set_read_reg_ok _ _ _ (show TIA_READ_REG_CXM0FB < TIA_READ_REG_LEN by decide),
    TIA_set_read_reg_ok _ _ _ (show TIA_READ_REG_CXM1FB < TIA_READ_REG_LEN by decide),
    TIA_set_read_reg_ok _ _ _ (show TIA_READ_REG_CXBLPF < TIA_READ_REG_LEN by decide),
    TIA_set_read_reg_ok _ _ _ (show TIA_READ_REG_CXPPMM < TIA_READ_REG_LEN by decide)]
  refine ⟨_, rfl, fun k hk => ?_⟩
  unfold TIA_read_register
  rw [arr_get_ok _ _ _ _ (by simp only [TIA_READ_REG_LEN]; omega)]
  interval_cases k <;> rfl

theorem TIA_write_register_HMOVE_visible (v : Nat) (tia : atari_tia)
    (h : 68 ≤ tia.colour_clock) : TIA_write_register TIA_WRITE_REG_HMOVE v tia = .ok tia := by
  rw [TIA_write_register_HMOVE, if_neg (by simp only [TIA_COLOUR_CLOCK_HSYNC]; omega),
    except_pure]

theorem line_sample_bit (lb : Nat → Nat) (x : Nat) : line_sample lb x = 0 ∨ line_sample lb x = 1 := by
  unfold line_sample
  split_ifs
  · exact Or.inr rfl
  · exact Or.inl rfl

theorem collision_latch_table (k M0 M1 P0 P1 BL PF : Nat) (hk1 : 1 ≤ k) (hk : k < 8)
    (h0 : M0 = 0 ∨ M0 = 1) (h1 : M1 = 0 ∨ M1 = 1) (h2 : P0 = 0 ∨ P0 = 1)
    (h3 : P1 = 0 ∨ P1 = 1) (h4 : BL = 0 ∨ BL = 1) (h5 : PF = 0 ∨ PF = 1) :
    collision_latch k M0 M1 P0 P1 BL PF % 256 = collision_table k M0 M1 P0 P1 BL PF := by
  rcases h0 with rfl | rfl <;> rcases h1 with rfl | rfl <;> rcases h2 with rfl | rfl <;>
    rcases h3 with rfl | rfl <;> rcases h4 with rfl | rfl <;> rcases h5 with rfl | rfl <;>
    interval_cases k <;> decide

theorem collision_latch_CXM0P (M0 M1 P0 P1 BL PF : Nat)
    (h0 : M0 = 0 ∨ M0 = 1) (h2 : P0 = 0 ∨ P0 = 1) (h3 : P1 = 0 ∨ P1 = 1) :
    collision_latch TIA_READ_REG_CXM0P M0 M1 P0 P1 BL PF % 256 =
      ((P0 &&& P1) <<< 7) ||| (M0 <<< 6) := by
  have e : collision_latch TIA_READ_REG_CXM0P M0 M1 P0 P1 BL PF =
      ((P0 &&& P1) <<< 7) ||| ((M0 &&& M0) <<< 6) := by
    unfold collision_latch
    rw [if_pos rfl]
  rw [e]
  rcases h0 with rfl | rfl <;> rcases h2 with rfl | rfl <;> rcases h3 with rfl | rfl <;> decide

theorem TIA_write_register_default (reg v : Nat) (tia : atari_tia)
    (h : TIA_WRITE_REG_LEN ≤ reg) :
    TIA_write_register reg v tia = .error ⟨.tia_write_regs, reg⟩ := by
  simp only [TIA_WRITE_REG_LEN] at h
  unfold TIA_write_register
  have hne : ∀ c, c < 45 → ¬ reg = c := fun c hc => by omega
  simp only [TIA_WRITE_REG_COLUBK, TIA_WRITE_REG_PF0, TIA_WRITE_REG_PF1, TIA_WRITE_REG_PF2,
    TIA_WRITE_REG_CTRLPF, TIA_WRITE_REG_WSYNC, TIA_WRITE_REG_RSYNC, TIA_WRITE_REG_RESP0,
    TIA_WRITE_REG_RESP1, TIA_WRITE_REG_RESM0, TIA_WRITE_REG_RESM1, TIA_WRITE_REG_RESBL,
    TIA_WRITE_REG_RESMP0, TIA_WRITE_REG_RESMP1, TIA_WRITE_REG_VDELP0, TIA_WRITE_REG_VDELP1,
    TIA_WRITE_REG_VDELBL, TIA_WRITE_REG_GRP0, TIA_WRITE_REG_GRP1, TIA_WRITE_REG_HMOVE,
    TIA_WRITE_REG_ENAM0, TIA_WRITE_REG_ENAM1, TIA_WRITE_REG_ENABL, TIA_WRITE_REG_HMP0,
    TIA_WRITE_REG_HMP1, TIA_WRITE_REG_HMM0, TIA_WRITE_REG_HMM1, TIA_WRITE_REG_HMBL,
    TIA_WRITE_REG_NUSIZ0, TIA_WRITE_REG_NUSIZ1, TIA_WRITE_REG_HMCLR, TIA_WRITE_REG_CXCLR,
    hne _ (show 0x09 < 45 by norm_num), hne _ (show 0x0D < 45 by norm_num),
    hne _ (show 0x0E < 45 by norm_num), hne _ (show 0x0F < 45 by norm_num),
    hne _ (show 0x0A < 45 by norm_num), hne _ (show 0x02 < 45 by norm_num),
    hne _ (show 0x03 < 45 by norm_num), hne _ (show 0x10 < 45 by norm_num),
    hne _ (show 0x11 < 45 by norm_num), hne _ (show 0x12 < 45 by norm_num),
    hne _ (show 0x13 < 45 by norm_num), hne _ (show 0x14 < 45 by norm_num),
    hne _ (show 0x28 < 45 by norm_num), hne _ (show 0x29 < 45 by norm_num),
    hne _ (show 0x25 < 45 by norm_num), hne _ (show 0x26 < 45 by norm_num),
    hne _ (show 0x27 < 45 by norm_num), hne _ (show 0x1B < 45 by norm_num),
    hne _ (show 0x1C < 45 by norm_num), hne _ (show 0x2A < 45 by norm_num),
    hne _ (show 0x1D < 45 by norm_num), hne _ (show 0x1E < 45 by norm_num),
    hne _ (show 0x1F < 45 by norm_num), hne _ (show 0x20 < 45 by norm_num),
    hne _ (show 0x21 < 45 by norm_num), hne _ (show 0x22 < 45 by norm_num),
    hne _ (show 0x23 < 45 by norm_num), hne _ (show 0x24 < 45 by norm_num),
    hne _ (show 0x04 < 45 by norm_num), hne _ (show 0x05 < 45 by norm_num),
    hne _ (show 0x2B < 45 by norm_num), hne _ (show 0x2C < 45 by norm_num),
    or_self, ite_false]
  unfold TIA_set_write_reg arr_set
  rw [if_neg (by simp only [TIA_WRITE_REG_LEN]; omega)]
  rfl

theorem tia_missile0_example_regs (c : Nat) :
    ∀ r, (tia_missile0_example c).write_regs r < 256 := by
  intro r
  simp only [tia_missile0_example, TIA_init, power_on]
  split_ifs <;> decide

theorem ISA_table_get_0xFF : ISA_table_get 0xFF = .error ⟨.ISA_table, 255⟩ := by decide!

theorem opcode_execute_0xFF (s : Atari) : opcode_execute 0xFF s = .error ⟨.ISA_table, 255⟩ := by
  unfold opcode_execute
  simp only [bind_run, get_run, getThe_run, emu_then_ok, ISA_table_get_0xFF, lift_except_error,
    emu_then_error]

theorem memmap_write_TIA (s : Atari) (a : Nat)
    (ha : memmap_map_address (mos6507_get_address_bus s.cpu) = a) (h7 : a ≤ 0x7F)
    (h : 45 ≤ a) : memmap_write s = .error ⟨.tia_write_regs, a⟩ := by
  have e : (a - MEMMAP_TIA_START) % 256 = a := by simp only [MEMMAP_TIA_START]; omega
  have ht : IS_TIA a = true := by
    simp only [IS_TIA, MEMMAP_TIA_START, MEMMAP_TIA_END, decide_eq_true_eq]; omega
  unfold memmap_write
  simp only [ha, ht, ite_true, e]
  rw [TIA_write_register_default a _ _ (by simp only [TIA_WRITE_REG_LEN]; omega)]
  rfl

theorem memmap_read_TIA_fault (s : Atari) (d a : Nat)
    (ha : memmap_map_address (mos6507_get_address_bus s.cpu) = a) (h7 : a ≤ 0x7F)
    (h : 14 ≤ a) : memmap_read d s = .error ⟨.tia_read_regs, a⟩ := by
  have e : (a - MEMMAP_TIA_START) % 256 = a := by simp only [MEMMAP_TIA_START]; omega
  have ht : IS_TIA a = true := by
    simp only [IS_TIA, MEMMAP_TIA_START, MEMMAP_TIA_END, decide_eq_true_eq]; omega
  unfold memmap_read
  simp only [ha, ht, ite_true, e]
  unfold TIA_read_register arr_get
  rw [if_neg (by simp only [TIA_READ_REG_LEN]; omega)]
  rfl

theorem memmap_read_TIA_ok (s : Atari) (d a : Nat)
    (ha : memmap_map_address (mos6507_get_address_bus s.cpu) = a)
    (h : a < 14) : memmap_read d s =
      .ok (s.tia.read_regs a, { s with cpu := mos6507_set_data_bus (s.tia.read_regs a) s.cpu }) := by
  have e : (a - MEMMAP_TIA_START) % 256 = a := by simp only [MEMMAP_TIA_START]; omega
  have ht : IS_TIA a = true := by
    simp only [IS_TIA, MEMMAP_TIA_START, MEMMAP_TIA_END, decide_eq_true_eq]; omega
  have hr : IS_RIOT a = false := by
    simp only [IS_RIOT, MEMMAP_RIOT_RAM_START, MEMMAP_RIOT_RAM_END, MEMMAP_RIOT_RAM_MIRROR_START,
      MEMMAP_RIOT_RAM_MIRROR_END, MEMMAP_RIOT_PERIPH_START, MEMMAP_RIOT_PERIPH_END,
      MEMMAP_RIOT_PERIPH_MIRROR_START, MEMMAP_RIOT_PERIPH_MIRROR_END, decide_eq_false_iff_not]
    omega
  have hc : IS_CART a = false := by
    simp only [IS_CART, MEMMAP_CART_START, MEMMAP_CART_END, decide_eq_false_iff_not]; omega
  unfold memmap_read
  simp only [ha, ht, hr, hc, ite_true, e]
  unfold TIA_read_register
  rw [arr_get_ok _ _ _ _ (by simp only [TIA_READ_REG_LEN]; omega)]
  simp only [except_bind_ok, Bool.false_eq_true, ite_false, except_pure, hc]

theorem ISA_table_get_ok (b : Nat) (hb : b < 255) :
    ∃ e, ISA_table_get b = .ok e ∧ opcode_validate b = .ok (if e.opcode = .ILL then -1 else 0) := by
  have key : ∀ b, b < 255 → (ISA_table.get? b).isSome = true := by decide!
  have h := key b hb
  unfold opcode_validate ISA_table_get
  cases hg : ISA_table.get? b with
  | none => rw [hg] at h; exact absurd h (by decide)
  | some e =>
    refine ⟨e, rfl, ?_⟩
    show (if e.opcode = .ILL then pure (-1) else pure 0 : Except Fault Int) = _
    split_ifs <;> rfl

theorem mos6532_clock_ticks_add (a b : Nat) (riot : mos6532) :
    mos6532_clock_ticks (a + b) riot = mos6532_clock_ticks b (mos6532_clock_ticks a riot) := by
  induction a generalizing riot with
  | zero => rw [Nat.zero_add]; rfl
  | succ a ih =>
    rw [Nat.add_right_comm]
    exact ih (mos6532_clock_tick riot)

theorem mos6532_clock_ticks_one (riot : mos6532) :
    mos6532_clock_ticks 1 riot = mos6532_clock_tick riot := rfl

theorem mos6532_clock_tick_divisor (riot : mos6532) (d : Nat)
    (hd : d = 1 ∨ d = 8 ∨ d = 64 ∨ d = 1024) (h : riot.timer.timer_set = d) :
    mos6532_clock_tick riot = mos6532_timer_interval d riot := by
  unfold mos6532_clock_tick
  rw [h]
  rcases hd with rfl | rfl | rfl | rfl <;> rfl

/-- A clock tick that leaves the interval count above zero changes nothing
else, as long as the counter is not zero or has fired already. -/
theorem mos6532_clock_tick_wait (riot : mos6532) (c i f d : Nat)
    (h : riot.timer = ⟨c, i, f, d⟩) (hd : d = 1 ∨ d = 8 ∨ d = 64 ∨ d = 1024)
    (hi : i ≠ 1) (hi2 : i < 256) (hc : c ≠ 0 ∨ f = 1) :
    (mos6532_clock_tick riot).timer = ⟨c, (i + 255) % 256, f, d⟩ := by
  rw [mos6532_clock_tick_divisor riot d hd (by rw [h])]
  unfold mos6532_timer_interval
  simp only [h]
  have h0 : ¬ (i + 255) % 256 = 0 := by omega
  rw [if_neg h0]
  rcases hc with hc | hc
  · rw [if_neg hc]
  · subst hc
    split_ifs <;> rfl

/-- The clock tick that takes the interval count to zero reloads it from
`timer_set` (as a byte), decrements the counter, switches `timer_set` to NONE
when `fired` was set before the tick, and sets `fired` when the counter is
zero after it. -/
theorem mos6532_clock_tick_reload (riot : mos6532) (c f d : Nat)
    (h : riot.timer = ⟨c, 1, f, d⟩) (hd : d = 1 ∨ d = 8 ∨ d = 64 ∨ d = 1024) :
    (mos6532_clock_tick riot).timer =
      ⟨(c + 255) % 256, d % 256, if (c + 255) % 256 = 0 then 1 else f,
        if f = 1 then MOS6532_TIMER_DIVISOR_NONE else d⟩ := by
  rw [mos6532_clock_tick_divisor riot d hd (by rw [h])]
  unfold mos6532_timer_interval
  simp only [h]
  have e1 : (1 + 255) % 256 = 0 := rfl
  by_cases hf : f = 1 <;> by_cases h0 : (c + 255) % 256 = 0 <;>
    simp only [e1, hf, h0, if_true, if_false, ite_true, ite_false]

/-- With `timer_set` NONE every clock tick decrements the counter. -/
theorem mos6532_clock_ticks_none (j : Nat) (riot : mos6532) (c i f : Nat)
    (h : riot.timer = ⟨c, i, f, MOS6532_TIMER_DIVISOR_NONE⟩) (hc : c < 256) :
    (mos6532_clock_ticks j riot).timer =
      ⟨(c + 255 * j) % 256, i, f, MOS6532_TIMER_DIVISOR_NONE⟩ := by
  induction j generalizing riot c with
  | zero =>
    show riot.timer = _
    rw [h, Nat.mul_zero, Nat.add_zero, Nat.mod_eq_of_lt hc]
  | succ j ih =>
    have h1 : (mos6532_clock_tick riot).timer =
        ⟨(c + 255) % 256, i, f, MOS6532_TIMER_DIVISOR_NONE⟩ := by
      unfold mos6532_clock_tick
      simp only [h]
      rfl
    show (mos6532_clock_ticks j (mos6532_clock_tick riot)).timer = _
    rw [ih (mos6532_clock_tick riot) _ h1 (Nat.mod_lt _ (by decide))]
    have : ((c + 255) % 256 + 255 * j) % 256 = (c + 255 * (j + 1)) % 256 := by omega
    rw [this]

/-- Ticks that leave the interval count above zero: from the interval count
`i` (0 standing for 256) the first `j` ticks, `j` below that count, only count
the interval down. -/
theorem mos6532_clock_ticks_wait (j : Nat) (riot : mos6532) (c i f d : Nat)
    (h : riot.timer = ⟨c, i, f, d⟩) (hd : d = 1 ∨ d = 8 ∨ d = 64 ∨ d = 1024)
    (hi2 : i < 256) (hc : c ≠ 0 ∨ f = 1) (hj : j < if i = 0 then 256 else i) :
    (mos6532_clock_ticks j riot).timer = ⟨c, (i + 256 - j) % 256, f, d⟩ := by
  induction j generalizing riot i with
  | zero =>
    show riot.timer = _
    rw [h, Nat.sub_zero, Nat.add_mod_right, Nat.mod_eq_of_lt hi2]
  | succ j ih =>
    have hi1 : i ≠ 1 := by
      intro e; subst e
      rw [if_neg (by decide)] at hj; omega
    have h1 := mos6532_clock_tick_wait riot c i f d h hd hi1 hi2 hc
    show (mos6532_clock_ticks j (mos6532_clock_tick riot)).timer = _
    rw [ih (mos6532_clock_tick riot) ((i + 255) % 256) h1 (Nat.mod_lt _ (by decide))
      (by split_ifs at hj ⊢ <;> omega)]
    have : ((i + 255) % 256 + 256 - j) % 256 = (i + 256 - (j + 1)) % 256 := by
      split_ifs at hj <;> omega
    rw [this]

/-- One period of the timer: from a freshly reloaded interval count, `n` ticks
later (`n` = the reload byte, 256 when that byte is 0) the counter has been
decremented once and the interval count is reloaded. -/
theorem mos6532_clock_ticks_period (riot : mos6532) (c f d n : Nat)
    (h : riot.timer = ⟨c, d % 256, f, d⟩) (hd : d = 1 ∨ d = 8 ∨ d = 64 ∨ d = 1024)
    (hn : n = if d % 256 = 0 then 256 else d % 256) (hc : c ≠ 0 ∨ f = 1) :
    (mos6532_clock_ticks n riot).timer =
      ⟨(c + 255) % 256, d % 256, if (c + 255) % 256 = 0 then 1 else f,
        if f = 1 then MOS6532_TIMER_DIVISOR_NONE else d⟩ := by
  have hn1 : n = (n - 1) + 1 := by split_ifs at hn <;> omega
  have hw := mos6532_clock_ticks_wait (n - 1) riot c (d % 256) f d h hd
    (Nat.mod_lt _ (by decide)) hc (by rw [← hn]; omega)
  have hi : (d % 256 + 256 - (n - 1)) % 256 = 1 := by
    split_ifs at hn <;> omega
  rw [hi] at hw
  rw [hn1, mos6532_clock_ticks_add, mos6532_clock_ticks_one]
  exact mos6532_clock_tick_reload _ c f d hw hd

/-- The count-down: `k` periods after a timer write of `c`, `k` at most `c`,
the counter holds `c - k`, and `fired` is set exactly when that is 0. -/
theorem mos6532_clock_ticks_periods (k : Nat) (riot : mos6532) (c d n : Nat)
    (h : riot.timer = ⟨c, d % 256, 0, d⟩) (hd : d = 1 ∨ d = 8 ∨ d = 64 ∨ d = 1024)
    (hn : n = if d % 256 = 0 then 256 else d % 256) (hc : c < 256) (hk : k ≤ c) (hc1 : 1 ≤ c) :
    (mos6532_clock_ticks (k * n) riot).timer =
      ⟨c - k, d % 256, if k = c then 1 else 0, d⟩ := by
  induction k with
  | zero =>
    rw [Nat.zero_mul, if_neg (by omega)]
    exact h
  | succ k ih =>
    have ih2 := ih (by omega)
    rw [if_neg (by omega)] at ih2
    rw [Nat.succ_mul, mos6532_clock_ticks_add,
      mos6532_clock_ticks_period _ (c - k) 0 d n ih2 hd hn (Or.inl (by omega))]
    have e1 : (c - k + 255) % 256 = c - (k + 1) := by omega
    have e2 : (if (0 : Nat) = 1 then MOS6532_TIMER_DIVISOR_NONE else d) = d := rfl
    rw [e1, e2]
    by_cases hkc : k + 1 = c
    · rw [if_pos (show c - (k + 1) = 0 by omega), if_pos hkc]
    · rw [if_neg (show ¬ c - (k + 1) = 0 by omega), if_neg hkc]

theorem mos6532_write_timer (v : Nat) (riot : mos6532) :
    mos6532_write MOS6532_MEMMAP_TIM1T v riot = .ok (0, mos6532_set_timer 1 v riot) ∧
    mos6532_write MOS6532_MEMMAP_TIM8T v riot = .ok (0, mos6532_set_timer 8 v riot) ∧
    mos6532_write MOS6532_MEMMAP_TIM64T v riot = .ok (0, mos6532_set_timer 64 v riot) ∧
    mos6532_write MOS6532_MEMMAP_TIM1024T v riot = .ok (0, mos6532_set_timer 1024 v riot) :=
  ⟨rfl, rfl, rfl, rfl⟩

theorem mos6532_read_INTIM (data : Nat) (riot : mos6532) :
    mos6532_read MOS6532_MEMMAP_INTIM data riot = .ok (0, riot.timer.counter) := rfl

theorem mos6532_set_timer_timer (d v : Nat) (riot : mos6532) (hv : v < 256) :
    (mos6532_set_timer d v riot).timer = ⟨v, d % 256, 0, d⟩ := by
  unfold mos6532_set_timer
  simp only [Nat.mod_eq_of_lt hv]

/-- The run of the timer after a write of `v` (1 .. 255) with divisor `d`, the
period `n` being the reload byte of `d` (256 when that byte is 0): the
count-down to 0, one more period with the counter at 0, then one decrement
per tick with `timer_set` NONE. -/
theorem mos6532_timer_run (riot : mos6532) (v d n : Nat)
    (hd : d = 1 ∨ d = 8 ∨ d = 64 ∨ d = 1024)
    (hn : n = if d % 256 = 0 then 256 else d % 256) (hv : v < 256) (hv1 : 1 ≤ v) :
    (∀ k, k ≤ v → (mos6532_clock_ticks (k * n) (mos6532_set_timer d v riot)).timer =
      ⟨v - k, d % 256, if k = v then 1 else 0, d⟩) ∧
    (∀ j, j < n → (mos6532_clock_ticks (v * n + j) (mos6532_set_timer d v riot)).timer =
      ⟨0, (d % 256 + 256 - j) % 256, 1, d⟩) ∧
    (∀ j, (mos6532_clock_ticks (v * n + n + j) (mos6532_set_timer d v riot)).timer =
      ⟨(255 + 255 * j) % 256, d % 256, 1, MOS6532_TIMER_DIVISOR_NONE⟩) := by
  have h0 := mos6532_set_timer_timer d v riot hv
  have ha : ∀ k, k ≤ v → (mos6532_clock_ticks (k * n) (mos6532_set_timer d v riot)).timer =
      ⟨v - k, d % 256, if k = v then 1 else 0, d⟩ := fun k hk =>
    mos6532_clock_ticks_periods k _ v d n h0 hd hn hv hk hv1
  have hz := ha v (Nat.le_refl v)
  rw [Nat.sub_self, if_pos rfl] at hz
  refine ⟨ha, fun j hj => ?_, fun j => ?_⟩
  · rw [mos6532_clock_ticks_add]
    exact mos6532_clock_ticks_wait j _ 0 (d % 256) 1 d hz hd (Nat.mod_lt _ (by decide))
      (Or.inr rfl) (by rw [← hn]; exact hj)
  · rw [mos6532_clock_ticks_add, mos6532_clock_ticks_add]
    have hp := mos6532_clock_ticks_period _ 0 1 d n hz hd hn (Or.inr rfl)
    have e : ((⟨(0 + 255) % 256, d % 256, if (0 + 255) % 256 = 0 then 1 else 1,
        if (1 : Nat) = 1 then MOS6532_TIMER_DIVISOR_NONE else d⟩ : mos6532_timer_t)) =
        ⟨255, d % 256, 1, MOS6532_TIMER_DIVISOR_NONE⟩ := rfl
    rw [e] at hp
    exact mos6532_clock_ticks_none j _ 255 (d % 256) 1 hp (by decide)

theorem TIA_write_register_HMCLR (v : Nat) (tia : atari_tia) :
    TIA_write_register TIA_WRITE_REG_HMCLR v tia =
      .ok { tia with write_regs :=
        Function.update (Function.update (Function.update (Function.update (Function.update
          tia.write_regs TIA_WRITE_REG_HMM0 0) TIA_WRITE_REG_HMM1 0) TIA_WRITE_REG_HMP0 0)
          TIA_WRITE_REG_HMP1 0) TIA_WRITE_REG_HMBL 0 } := by
  have h : TIA_write_register TIA_WRITE_REG_HMCLR v tia =
      (TIA_set_write_reg TIA_WRITE_REG_HMM0 0 tia >>= fun tia =>
        TIA_set_write_reg TIA_WRITE_REG_HMM1 0 tia >>= fun tia =>
        TIA_set_write_reg TIA_WRITE_REG_HMP0 0 tia >>= fun tia =>
        TIA_set_write_reg TIA_WRITE_REG_HMP1 0 tia >>= fun tia =>
        TIA_set_write_reg TIA_WRITE_REG_HMBL 0 tia) := rfl
  rw [h, TIA_set_write_reg_ok _ _ _ (by decide), except_bind_ok,
    TIA_set_write_reg_ok _ _ _ (by decide), except_bind_ok,
    TIA_set_write_reg_ok _ _ _ (by decide), except_bind_ok,
    TIA_set_write_reg_ok _ _ _ (by decide), except_bind_ok,
    TIA_set_write_reg_ok _ _ _ (by decide)]

/-- Below colour clock 68 a tick only increments the colour clock. -/
theorem TIA_clock_tick_blank (tia : atari_tia) (h : tia.colour_clock < 68) :
    TIA_clock_tick tia = .ok ((tia.colour_clock : Int) + 1,
      { tia with colour_clock := tia.colour_clock + 1 }) := by
  have e : (tia.colour_clock + 1) % 4294967296 = tia.colour_clock + 1 := by omega
  have e2 : i32 ((tia.colour_clock + 1 : Nat) : Int) = (tia.colour_clock : Int) + 1 := by
    unfold i32; omega
  unfold TIA_clock_tick
  simp only [if_neg (show ¬ tia.colour_clock ≥ TIA_COLOUR_CLOCK_TOTAL by
      simp only [TIA_COLOUR_CLOCK_TOTAL, TIA_COLOUR_CLOCK_VISIBLE, TIA_COLOUR_CLOCK_HSYNC]; omega),
    if_neg (show ¬ tia.colour_clock = TIA_COLOUR_CLOCK_HSYNC by
      simp only [TIA_COLOUR_CLOCK_HSYNC]; omega),
    if_neg (show ¬ tia.colour_clock > TIA_COLOUR_CLOCK_HSYNC by
      simp only [TIA_COLOUR_CLOCK_HSYNC]; omega), except_pure, except_bind_ok, e, e2]

/-- At colour clock 228 or above a tick starts the next line: the colour clock
becomes 1 and the registers WSYNC and HMOVE become 0. -/
theorem TIA_clock_tick_wrap (tia : atari_tia) (h : 228 ≤ tia.colour_clock) :
    ∃ t, TIA_clock_tick tia = .ok (1, t) ∧ t.colour_clock = 1 ∧
      t.write_regs = Function.update (Function.update tia.write_regs TIA_WRITE_REG_WSYNC 0)
        TIA_WRITE_REG_HMOVE 0 := by
  unfold TIA_clock_tick
  simp only [if_pos (show tia.colour_clock ≥ TIA_COLOUR_CLOCK_TOTAL by
    simp only [TIA_COLOUR_CLOCK_TOTAL, TIA_COLOUR_CLOCK_VISIBLE, TIA_COLOUR_CLOCK_HSYNC]; omega),
    if_neg (show ¬ (0 : Nat) = TIA_COLOUR_CLOCK_HSYNC by decide),
    if_neg (show ¬ (0 : Nat) > TIA_COLOUR_CLOCK_HSYNC by decide), except_pure, except_bind_ok]
  exact ⟨_, rfl, rfl, rfl⟩

/-- A tick on the line: below colour clock 228, with byte registers and (up to
colour clock 68) the objects on the line, `TIA_clock_tick` returns the
incremented colour clock and leaves the write registers as they are. -/
theorem TIA_clock_tick_line (tia : atari_tia) (hc : tia.colour_clock < 228)
    (hregs : ∀ r, tia.write_regs r < 256) (hfit : tia.colour_clock ≤ 68 → objects_fit tia) :
    ∃ t, TIA_clock_tick tia = .ok ((tia.colour_clock : Int) + 1, t) ∧
      t.colour_clock = tia.colour_clock + 1 ∧ t.write_regs = tia.write_regs ∧
      (t.colour_clock ≤ 68 → objects_fit t) := by
  rcases Nat.lt_trichotomy tia.colour_clock 68 with h | h | h
  · exact ⟨_, TIA_clock_tick_blank tia h, rfl, rfl, fun _ => hfit (by omega)⟩
  · obtain ⟨t, h1, h2, _, _, h5⟩ := TIA_clock_tick_at_hsync tia h (hfit (by omega))
    refine ⟨t, ?_, ?_, h5, fun h' => ?_⟩
    · rw [h1, h]; rfl
    · rw [h2, h]
    · rw [h2] at h'; exact absurd h' (by decide)
  · obtain ⟨g, g1, _, _, _, g5, g6, _⟩ := TIA_generate_colour_state tia (by omega) hc hregs
    have e : (tia.colour_clock + 1) % 4294967296 = tia.colour_clock + 1 := by omega
    have e2 : i32 ((tia.colour_clock + 1 : Nat) : Int) = (tia.colour_clock : Int) + 1 := by
      unfold i32; omega
    refine ⟨{ g with colour_clock := tia.colour_clock + 1 }, ?_, rfl, g5, fun h' => ?_⟩
    · rw [TIA_clock_tick_visible tia h hc, g1, except_bind_ok, except_pure, g6, e, e2]
    · exact absurd (show tia.colour_clock + 1 ≤ 68 from h') (by omega)

/-- An iteration of the loop while the WSYNC register is set: the TIA ticks,
the RIOT and the CPU are not stepped. -/
theorem main_loop_step_stalled (s : Atari) (n : Int) (t : atari_tia)
    (ht : TIA_clock_tick s.tia = .ok (n, t)) (hw : TIA_get_WSYNC t ≠ 0) :
    main_loop_step s = .ok (none, { s with tia := t }) := by
  unfold main_loop_step
  simp only [bind_run, get_run, getThe_run, emu_then_ok, ht, lift_except_ok, modify_run, ite_run,
    hw, false_and, ite_false, pure_run]

/-- An iteration of the loop with the WSYNC register clear, on a colour clock
that steps the CPU: the RIOT ticks, then the CPU. -/
theorem main_loop_step_cpu (s : Atari) (n : Int) (t : atari_tia)
    (ht : TIA_clock_tick s.tia = .ok (n, t)) (hw : TIA_get_WSYNC t = 0)
    (hn : c_rem (n + 1) 3 = 0) :
    main_loop_step s =
      emu_then (mos6507_clock_tick { s with tia := t, riot := mos6532_clock_tick s.riot })
        (fun r s1 => .ok (some r, s1)) := by
  unfold main_loop_step
  simp only [bind_run, get_run, getThe_run, emu_then_ok, ht, lift_except_ok, modify_run, ite_run,
    hw, hn, and_self, ite_true, pure_run]

/-- An iteration of the loop with the WSYNC register clear, on a colour clock
that does not step the CPU. -/
theorem main_loop_step_skip (s : Atari) (n : Int) (t : atari_tia)
    (ht : TIA_clock_tick s.tia = .ok (n, t)) (hn : c_rem (n + 1) 3 ≠ 0) :
    main_loop_step s = .ok (none, { s with tia := t }) := by
  unfold main_loop_step
  simp only [bind_run, get_run, getThe_run, emu_then_ok, ht, lift_except_ok, modify_run, ite_run,
    hn, and_false, ite_false, pure_run]

theorem main_loop_for_succ (n : Nat) (s s1 : Atari) (h : main_loop_step s = .ok (none, s1)) :
    main_loop_for (n + 1) s =
      emu_then (main_loop_for n s1) (fun rs s2 => .ok (none :: rs, s2)) := by
  show (main_loop_step >>= fun r =>
    if r.any (· ≠ 0) then pure [r]
    else main_loop_for n >>= fun rs => pure (r :: rs)) s = _
  rw [bind_run, h, emu_then_ok]
  simp only [Option.any_none, Bool.false_eq_true, ite_false, bind_run, pure_run]

theorem emu_then_assoc {α β γ : Type} (r : Except Fault (α × Atari))
    (f : α → Atari → Except Fault (β × Atari)) (g : β → Atari → Except Fault (γ × Atari)) :
    emu_then (emu_then r f) g = emu_then r (fun a s => emu_then (f a s) g) := by
  unfold emu_then
  cases r with
  | error e => rfl
  | ok v => rfl

theorem emu_then_self {α : Type} (r : Except Fault (α × Atari)) :
    emu_then r (fun a s => .ok (a, s)) = r := by
  unfold emu_then
  cases r with
  | error e => rfl
  | ok v => rfl

/-- The loop while the WSYNC register is set: the first `k` iterations, up to
the end of the line, tick the TIA `k` times and step neither the RIOT nor the
CPU; the loop goes on with the remaining `m` iterations. -/
theorem main_loop_for_stalled (k m : Nat) (s : Atari) (hc : s.tia.colour_clock + k ≤ 228)
    (hregs : ∀ r, s.tia.write_regs r < 256) (hfit : s.tia.colour_clock ≤ 68 → objects_fit s.tia)
    (hw : TIA_get_WSYNC s.tia ≠ 0) :
    ∃ t, main_loop_for (k + m) s =
        emu_then (main_loop_for m { s with tia := t })
          (fun rs s2 => .ok (List.replicate k none ++ rs, s2)) ∧
      t.colour_clock = s.tia.colour_clock + k ∧ t.write_regs = s.tia.write_regs := by
  induction k generalizing s with
  | zero =>
    refine ⟨s.tia, ?_, rfl, rfl⟩
    rw [Nat.zero_add]
    exact (emu_then_self _).symm
  | succ k ih =>
    obtain ⟨t, h1, h2, h3, h4⟩ := TIA_clock_tick_line s.tia (by omega) hregs hfit
    have hw1 : TIA_get_WSYNC t ≠ 0 := by
      unfold TIA_get_WSYNC at hw ⊢
      rw [h3]; exact hw
    have hs := main_loop_step_stalled s _ t h1 hw1
    obtain ⟨t2, g1, g2, g3⟩ := ih { s with tia := t } (by show t.colour_clock + k ≤ 228; omega)
      (by show ∀ r, t.write_regs r < 256; rw [h3]; exact hregs) h4 hw1
    refine ⟨t2, ?_, ?_, ?_⟩
    · rw [Nat.add_right_comm, main_loop_for_succ (k + m) s _ hs, g1, emu_then_assoc]
      rfl
    · rw [g2]; show t.colour_clock + k = _; omega
    · rw [g3]; exact h3

theorem objects_fit_write_regs (tia t : atari_tia) (hp : t.players = tia.players)
    (hm : t.missiles = tia.missiles) (hb : t.ball = tia.ball)
    (hr : ∀ r, r ≠ TIA_WRITE_REG_WSYNC → t.write_regs r = tia.write_regs r)
    (h : objects_fit tia) : objects_fit t := by
  unfold objects_fit at h ⊢
  rw [hp, hm, hb, hr (reg_ENAM 0) (by decide), hr (reg_ENAM 1) (by decide),
    hr (reg_NUSIZ 0) (by decide), hr (reg_NUSIZ 1) (by decide),
    hr TIA_WRITE_REG_ENABL (by decide), hr TIA_WRITE_REG_CTRLPF (by decide)]
  exact h

theorem TIA_write_register_WSYNC (v : Nat) (tia : atari_tia) :
    TIA_write_register TIA_WRITE_REG_WSYNC v tia =
      .ok { tia with write_regs := Function.update tia.write_regs TIA_WRITE_REG_WSYNC 1 } := by
  have h : TIA_write_register TIA_WRITE_REG_WSYNC v tia =
      TIA_set_write_reg TIA_WRITE_REG_WSYNC 1 tia := rfl
  rw [h, TIA_set_write_reg_ok _ _ _ (by decide)]

theorem booted_tia_regs (image : Nat → Nat) : ∀ r, (booted image).tia.write_regs r < 256 := by
  intro r
  simp only [booted, TIA_init, power_on]
  split_ifs <;> decide

theorem reset_flags (pc db : Nat) :
    mos6507_get_status_flag MOS6507_STATUS_FLAG_INTERRUPT
        ⟨0, 0, 0, pc, 0xFD, 4, 0, 0, pc, db⟩ = 1 ∧
    ∀ f ∈ [MOS6507_STATUS_FLAG_NEGATIVE, MOS6507_STATUS_FLAG_OVERFLOW,
        MOS6507_STATUS_FLAG_BREAK, MOS6507_STATUS_FLAG_DECIMAL, MOS6507_STATUS_FLAG_ZERO,
        MOS6507_STATUS_FLAG_CARRY],
      mos6507_get_status_flag f ⟨0, 0, 0, pc, 0xFD, 4, 0, 0, pc, db⟩ = 0 := by
  simp only [get_status_flag_mk]
  decide

/-- Claim C1: for every cartridge image `mos6507_reset` returns, and leaves
A = X = Y = 0, S = 0xFD, the status byte equal to the interrupt-disable mask
(I reads 1, every other flag reads 0), PC = (byte at 0xFFFD << 8) | (byte at
0xFFFC), which the memory map takes from offsets 0xFFD and 0xFFC of the image,
and the address bus equal to PC.  The state `s` before the reset and the
indeterminate initial value `pch0` of the local `pch` are arbitrary. -/
theorem C1_reset (s : Atari) (pch0 : Nat) (image : Nat → Nat) (hc : s.cartridge = some image) :
    ∃ s', mos6507_reset pch0 s = .ok ((), s') ∧
      s'.cpu.A = 0 ∧ s'.cpu.X = 0 ∧ s'.cpu.Y = 0 ∧ s'.cpu.S = 0xFD ∧
      s'.cpu.P = MOS6507_STATUS_FLAG_INTERRUPT ∧
      mos6507_get_status_flag MOS6507_STATUS_FLAG_INTERRUPT s'.cpu = 1 ∧
      (∀ f ∈ [MOS6507_STATUS_FLAG_NEGATIVE, MOS6507_STATUS_FLAG_OVERFLOW,
          MOS6507_STATUS_FLAG_BREAK, MOS6507_STATUS_FLAG_DECIMAL, MOS6507_STATUS_FLAG_ZERO,
          MOS6507_STATUS_FLAG_CARRY], mos6507_get_status_flag f s'.cpu = 0) ∧
      s'.cpu.PC = ((image 0xFFD % 256) <<< 8) ||| (image 0xFFC % 256) ∧
      s'.cpu.address_bus = s'.cpu.PC :=
  ⟨_, mos6507_reset_eq s pch0 image hc, rfl, rfl, rfl, rfl, rfl, (reset_flags _ _).1,
    (reset_flags _ _).2, rfl, rfl⟩

theorem C1_reset_witness :
    ∃ s', mos6507_reset 0 (inserted (program_image [])) = .ok ((), s') ∧
      s'.cpu.PC = 0x1234 ∧ s'.cpu.address_bus = 0x1234 ∧ s'.cpu.S = 0xFD ∧ s'.cpu.P = 0x04 := by
  obtain ⟨s', h, _, _, _, hS, hP, _, _, hPC, hab⟩ :=
    C1_reset (inserted (program_image [])) 0 (program_image []) rfl
  have e : ((program_image [] 0xFFD % 256) <<< 8) ||| (program_image [] 0xFFC % 256) = 0x1234 := by
    decide
  exact ⟨s', h, hPC.trans e, hab.trans (hPC.trans e), hS, hP⟩

theorem not_halt_of_populated (s1 : Atari) (b : Nat) (s' : Atari) :
    emu_then (opcode_execute b { s1 with cpu := { s1.cpu with current_instruction := b } })
      (fun c s2 =>
        if c % 256 = 0 then
          .ok ((0 : Int), { s2 with cpu :=
            { s2.cpu with current_clock := c % 256, current_instruction := 0 } })
        else .ok (0, { s2 with cpu := { s2.cpu with current_clock := c % 256 } }))
      ≠ .ok (-1, s') := by
  intro h
  unfold emu_then at h
  split at h
  · simp only at h
    split at h <;> simp at h
  · simp at h

/-- Claim C2, amended: when no instruction is in flight and the fetch returns
a byte `b` in 0x00..0xFE, `mos6507_clock_tick` returns -1 exactly when `b` is
neither one of the 151 opcodes of the standard 6502 instruction set nor one of
the four further bytes 0x02, 0x77, 0x9C (NOP) and 0x04 (TSB) the table
populates; all 151 standard opcodes and the four further bytes pass
`opcode_validate`.  (The byte 0xFF indexes `ISA_table[255]`, outside the
255-entry table.) -/
theorem C2_halt_iff_unpopulated (s s1 : Atari) (b : Nat)
    (hi : s.cpu.current_instruction = 0) (hf : memmap_read 0 s = .ok (b, s1))
    (hb : b ≤ 0xFE) :
    ((∃ s', mos6507_clock_tick s = .ok (-1, s')) ↔
      ¬ (b ∈ standard_6502_opcodes ∨ b ∈ extra_opcodes)) ∧
    standard_6502_opcodes.length = 151 ∧
    (∀ x ∈ standard_6502_opcodes, x ≤ 0xFE ∧ opcode_validate x = .ok 0) ∧
    (∀ x ∈ extra_opcodes, x ∉ standard_6502_opcodes ∧ opcode_validate x = .ok 0) := by
  refine ⟨?_, by decide!, by decide!, by decide!⟩
  rw [clock_tick_fetch s s1 b hi hf (by omega)]
  by_cases hm : b ∈ standard_6502_opcodes ∨ b ∈ extra_opcodes
  · simp only [hm, ite_true, not_true_eq_false, iff_false, not_exists]
    intro s'
    exact not_halt_of_populated s1 b s'
  · simp only [hm, ite_false, not_false_eq_true, iff_true]
    exact ⟨_, rfl⟩

theorem C2_halt_iff_unpopulated_witness :
    (∃ s', mos6507_clock_tick (booted (program_image [0x03])) = .ok (-1, s')) ∧
      ¬ (0x03 ∈ standard_6502_opcodes ∨ 0x03 ∈ extra_opcodes) := by
  have hf := memmap_read_cart_mk (program_image [0x03]) 0 0 0 0 0x1234 0xFD 4 0 0 0x1234 0x12
    (mos6532_init power_on.riot) (TIA_init power_on.tia) 0 (fun _ _ => 0) (by norm_num)
  rw [show (0x1234 % 8192 - 0x1000 : Nat) = 0x234 by norm_num,
    program_image_at _ _ (by norm_num) (by norm_num),
    show ([0x03] : List Nat).getD (0x234 - 0x234) 0 % 256 = 0x03 by decide] at hf
  have h := (C2_halt_iff_unpopulated (booted (program_image [0x03])) _ 0x03 rfl hf
    (by decide)).1
  have hn : ¬ (0x03 ∈ standard_6502_opcodes ∨ 0x03 ∈ extra_opcodes) := by decide!
  exact ⟨h.mpr hn, hn⟩

set_option maxRecDepth 1000000 in
theorem run_extra_opcode :
    Except.map Prod.fst (run (program_image [0x02]) 1) = .ok [0] := by decide!

theorem C2_counterexample :
    0x02 ∉ standard_6502_opcodes ∧
      Except.map Prod.fst (run (program_image [0x02]) 1) = .ok [0] :=
  ⟨by decide!, run_extra_opcode⟩

/-- Claim C3: for every offset `k` in [0, 0x7F] and every byte `v`, a
`memmap_write` of `v` with the address bus at 0x0080+k or at its mirror
0x0180+k succeeds; afterwards a `memmap_read` at 0x0080+k and one at 0x0180+k
both return `v` (whatever the destination held), every RIOT RAM cell other
than `k` holds what it held before, and the timer and port bytes are
unchanged. -/
theorem C3_ram_mirror (s : Atari) (k v a : Nat) (hk : k ≤ 0x7F) (hv : v < 256)
    (ha : a = 0x80 + k ∨ a = 0x180 + k) :
    ∃ s1, memmap_write
        { s with cpu := mos6507_set_data_bus v (mos6507_set_address_bus a s.cpu) }
          = .ok ((), s1) ∧
      (∀ d, ∃ s2, memmap_read d { s1 with cpu := mos6507_set_address_bus (0x80 + k) s1.cpu }
          = .ok (v, s2)) ∧
      (∀ d, ∃ s2, memmap_read d { s1 with cpu := mos6507_set_address_bus (0x180 + k) s1.cpu }
          = .ok (v, s2)) ∧
      (∀ j, j ≠ k → s1.riot.memory j = s.riot.memory j) ∧
      s1.riot.timer = s.riot.timer ∧ s1.riot.joy1_state = s.riot.joy1_state ∧
      s1.riot.switches_state = s.riot.switches_state := by
  obtain ⟨⟨ra, ry, rx, pc, sp, p, ci, cc, ab, db⟩, riot, tia, cart, cyc, st⟩ := s
  have e1 : (0x80 + k) % 65536 % 8192 = 0x80 + k := by omega
  have e2 : (0x180 + k) % 65536 % 8192 = 0x180 + k := by omega
  have e3 : a % 65536 % 8192 = 0x80 + k ∨ a % 65536 % 8192 = 0x180 + k := by omega
  refine ⟨_, memmap_write_ram k _ hk ?_, ?_, ?_, ?_, ?_, ?_, ?_⟩
  · simpa only [set_data_bus_mk, set_address_bus_mk] using e3
  · intro d
    rw [memmap_read_ram k d _ hk (Or.inl (by simpa only [set_address_bus_mk] using e1))]
    simp [set_data_bus_mk, set_address_bus_mk, Nat.mod_eq_of_lt hv]
  · intro d
    rw [memmap_read_ram k d _ hk (Or.inr (by simpa only [set_address_bus_mk] using e2))]
    simp [set_data_bus_mk, set_address_bus_mk, Nat.mod_eq_of_lt hv]
  · intro j hj
    simp [set_data_bus_mk, set_address_bus_mk, Function.update, hj]
  · rfl
  · rfl
  · rfl

theorem C3_ram_mirror_witness :
    ∃ s1, memmap_write
        { power_on with cpu :=
            mos6507_set_data_bus 0x7F (mos6507_set_address_bus 0x180 power_on.cpu) }
          = .ok ((), s1) ∧
      (∃ s2, memmap_read 0 { s1 with cpu := mos6507_set_address_bus (0x80 + 0) s1.cpu }
          = .ok (0x7F, s2)) ∧
      (∃ s2, memmap_read 0 { s1 with cpu := mos6507_set_address_bus (0x180 + 0) s1.cpu }
          = .ok (0x7F, s2)) := by
  obtain ⟨s1, hw, hr1, hr2, _⟩ :=
    C3_ram_mirror power_on 0 0x7F 0x180 (by decide) (by decide) (Or.inr rfl)
  exact ⟨s1, hw, hr1 0, hr2 0⟩

/-- Claim C4, amended: with no cartridge loaded (the pointer as it is before
any `cartridge_load`, or after `cartridge_eject`), `cartridge_read` leaves the
destination as it was, for every offset and every prior value; it yields 0
only when the destination already held 0. -/
theorem C4_read_unloaded (address data : Nat) (c : cartridge_t) :
    cartridge_read address data power_on.cartridge = data ∧
    cartridge_read address data (cartridge_eject c) = data :=
  ⟨rfl, rfl⟩

theorem C4_counterexample : ¬ (cartridge_read 0 0x55 power_on.cartridge = 0) := by
  decide

theorem map_mirrored_0x80 : mos6532_map_mirrored_addresses 0x80 = 0x80 := by decide

theorem mos6532_write_above (a data : Nat) (riot : mos6532) (h1 : a &&& 0x0100 = 0)
    (h2 : 0x80 < a)
    (hp : a ∉ [SWCHA, SWCHB, SWACNT, SWBCNT, MOS6532_MEMMAP_TIM1T, MOS6532_MEMMAP_TIM8T,
      MOS6532_MEMMAP_TIM64T, MOS6532_MEMMAP_TIM1024T]) :
    mos6532_write a data riot = .ok (-1, riot) := by
  have hm : mos6532_map_mirrored_addresses a = a := by
    simp [mos6532_map_mirrored_addresses, h1]
  have hgt : a > 128 := h2
  simp only [SWCHA, SWCHB, SWACNT, SWBCNT, MOS6532_MEMMAP_TIM1T, MOS6532_MEMMAP_TIM8T,
    MOS6532_MEMMAP_TIM64T, MOS6532_MEMMAP_TIM1024T, List.mem_cons, List.mem_singleton,
    not_or] at hp
  obtain ⟨n1, n2, n3, n4, n5, n6, n7, n8⟩ := hp
  unfold mos6532_write
  simp only [hm, SWCHA, SWCHB, SWACNT, SWBCNT, MOS6532_MEMMAP_TIM1T,
    MOS6532_MEMMAP_TIM8T, MOS6532_MEMMAP_TIM64T, MOS6532_MEMMAP_TIM1024T,
    mos6532_bounds_check, MEM_SIZE, hgt, ite_true]
  simp only [n1, n2, n3, n4, n5, n6, n7, n8.1, ite_false, or_self]
  rfl

/-- Claim C5 fails at its boundary: the address 0x80 has bit 8 clear, is above
0x7F and is none of the peripheral or timer registers, yet
`mos6532_bounds_check` accepts it (the test is `address > MEM_SIZE`) and
`mos6532_write` goes on to the store `memory[128]`, one past the 128-byte
array, instead of reporting an error. -/
theorem C5_write_0x80 (data : Nat) (riot : mos6532) :
    mos6532_map_mirrored_addresses 0x80 = 0x80 ∧
    mos6532_bounds_check 0x80 = 0 ∧
    mos6532_write 0x80 data riot = .error ⟨.riot_memory, 128⟩ := by
  refine ⟨map_mirrored_0x80, by decide, ?_⟩
  unfold mos6532_write
  simp only [map_mirrored_0x80, SWCHA, SWCHB, SWACNT, SWBCNT, MOS6532_MEMMAP_TIM1T,
    MOS6532_MEMMAP_TIM8T, MOS6532_MEMMAP_TIM64T, MOS6532_MEMMAP_TIM1024T,
    mos6532_bounds_check, MEM_SIZE, arr_set]
  simp [bind, Except.bind]

/-- Claim C6: for every byte `v` and every zero-page RAM address `z` in
[0x80, 0xFF], running the program A9 v 85 z (followed by a byte `nb`) from
reset: the first three calls of `mos6507_clock_tick` return 0 and leave A = v;
the first five return 0 and leave RIOT RAM[z - 0x80] = v, no instruction in
flight and the address bus at 0x1238, the address after the program, so that
the read the sixth call starts with fetches `nb`. -/
theorem C6_lda_sta (v z nb : Nat) (hv : v < 256) (hz1 : 0x80 ≤ z) (hz2 : z ≤ 0xFF) :
    ∃ s3 s5 s6, run (program_image [0xA9, v, 0x85, z, nb]) 3 = .ok ([0, 0, 0], s3) ∧
      s3.cpu.A = v ∧
      run (program_image [0xA9, v, 0x85, z, nb]) 5 = .ok ([0, 0, 0, 0, 0], s5) ∧
      s5.riot.memory (z - 0x80) = v ∧
      s5.cpu.current_instruction = 0 ∧ s5.cpu.address_bus = 0x1238 ∧
      memmap_read s5.cpu.current_instruction s5 = .ok (nb % 256, s6) := by
  obtain ⟨i0, i1, i2, i3, i4⟩ := program_image_5 0xA9 v 0x85 z nb
  have hboot := boot_eq [0xA9, v, 0x85, z, nb]
  generalize hI : program_image [0xA9, v, 0x85, z, nb] = image at *
  have t1 := clock_tick_first image 0 0 0 0x1234 0xFD 4 0 0x1234 0x12
    (mos6532_init power_on.riot) (TIA_init power_on.tia) (fun _ _ => 0) 0xA9 _ _
    (by norm_num) (by rw [show (0x1234 % 8192 - 0x1000 : Nat) = 0x234 by norm_num, i0])
    opcode_validate_A9 ISA_table_get_A9 call_LDA_immediate_0
  obtain ⟨p2, st2, c2⟩ := call_LDA_immediate_1 image 0 0 0 0x1234 0xFD 4 0xA9 1 0x1234 0xA9
    (mos6532_init power_on.riot) (TIA_init power_on.tia) 1 (fun _ _ => 0)
    (by norm_num) (by norm_num) (by norm_num)
  have t2 := clock_tick_next _ _ 0xA9 _ _ _ _ c2 rfl rfl (by decide) opcode_validate_A9
    ISA_table_get_A9
  simp only [show (0x1234 % 8192 + 1 - 0x1000 : Nat) = 0x235 by norm_num, i1,
    Nat.mod_eq_of_lt hv, Nat.reduceAdd, Int.reduceNeg, Int.reduceEq, ite_false, ite_true,
    Nat.reduceMod] at t2
  have t3 := clock_tick_first image v 0 0 0x1236 0xFD p2 0 0x1236 v
    (mos6532_init power_on.riot) (TIA_init power_on.tia) st2 0x85 _ _
    (by norm_num) (by rw [show (0x1236 % 8192 - 0x1000 : Nat) = 0x236 by norm_num, i2])
    opcode_validate_85 ISA_table_get_85 call_STA_zero_page_0
  have c4 := call_STA_zero_page_1 image v 0 0 0x1236 0xFD p2 0x85 1 0x1236 0x85
    (mos6532_init power_on.riot) (TIA_init power_on.tia) 1 st2
    (by norm_num) (by norm_num) (by norm_num)
  have t4 := clock_tick_next _ _ 0x85 _ _ _ _ c4 rfl rfl (by decide) opcode_validate_85
    ISA_table_get_85
  simp only [show (0x1236 % 8192 + 1 - 0x1000 : Nat) = 0x237 by norm_num, i3,
    Nat.mod_eq_of_lt (show z < 256 by omega), Nat.reduceAdd, Int.reduceNeg, ite_false,
    ite_true, Nat.reduceMod, Nat.reduceEqDiff] at t4
  obtain ⟨st5, c5⟩ := call_STA_zero_page_2 z v 0 0 0x1237 0xFD p2 0x85 2 0x1237 z
    (mos6532_init power_on.riot) (TIA_init power_on.tia) (some image) 2
    (fun f w => if f = .STA ∧ w = .adl then z else st2 f w) hz1 hz2
    (by simp only [and_self, ite_true]) (by norm_num)
  have t5 := clock_tick_next _ _ 0x85 _ _ _ _ c5 rfl rfl (by decide) opcode_validate_85
    ISA_table_get_85
  simp only [Nat.mod_eq_of_lt hv, Nat.reduceAdd, Int.reduceNeg, Int.reduceEq, ite_false,
    ite_true, Nat.reduceMod] at t5
  have r6 := memmap_read_cart_mk image 0 v 0 0 0x1238 0xFD p2 0 0 0x1238 v
    ⟨Function.update (mos6532_init power_on.riot).memory (z - 0x80) v,
      (mos6532_init power_on.riot).timer, (mos6532_init power_on.riot).joy1_state,
      (mos6532_init power_on.riot).switches_state⟩ (TIA_init power_on.tia) 0 st5 (by norm_num)
  simp only [show (0x1238 % 8192 - 0x1000 : Nat) = 0x238 by norm_num, i4] at r6
  have h3 : ∃ s3, run image 3 = .ok ([0, 0, 0], s3) ∧ s3.cpu.A = v := by
    rw [run_eq _ _ _ hboot]
    simp only [clock_ticks_succ _ _ _ _ t1, clock_ticks_succ _ _ _ _ t2,
      clock_ticks_succ _ _ _ _ t3, clock_ticks_zero, emu_then_ok]
    exact ⟨_, rfl, rfl⟩
  have h5 : ∃ s5 s6, run image 5 = .ok ([0, 0, 0, 0, 0], s5) ∧
      s5.riot.memory (z - 0x80) = v ∧ s5.cpu.current_instruction = 0 ∧
      s5.cpu.address_bus = 0x1238 ∧
      memmap_read s5.cpu.current_instruction s5 = .ok (nb % 256, s6) := by
    rw [run_eq _ _ _ hboot]
    simp only [clock_ticks_succ _ _ _ _ t1, clock_ticks_succ _ _ _ _ t2,
      clock_ticks_succ _ _ _ _ t3, clock_ticks_succ _ _ _ _ t4, clock_ticks_succ _ _ _ _ t5,
      clock_ticks_zero, emu_then_ok]
    refine ⟨_, _, rfl, ?_, ?_, ?_, r6⟩
    · simp only [Function.update_same]
    · rfl
    · rfl
  obtain ⟨s3, a3, b3⟩ := h3
  obtain ⟨s5, s6, a5, b5, c5, d5, e5⟩ := h5
  exact ⟨s3, s5, s6, a3, b3, a5, b5, c5, d5, e5⟩

set_option maxRecDepth 1000000 in
theorem ISA_table_get_00 :
    ISA_table_get 0x00 = .ok ⟨.BRK, OPCODE_ADDRESSING_MODE_IMPLIED⟩ := by decide!

theorem C6_lda_sta_witness :
    (∃ s3 s5 s6, run (program_image [0xA9, 0x7F, 0x85, 0x80, 0x00]) 3 = .ok ([0, 0, 0], s3) ∧
      s3.cpu.A = 0x7F ∧
      run (program_image [0xA9, 0x7F, 0x85, 0x80, 0x00]) 5 = .ok ([0, 0, 0, 0, 0], s5) ∧
      s5.riot.memory (0x80 - 0x80) = 0x7F ∧
      s5.cpu.current_instruction = 0 ∧ s5.cpu.address_bus = 0x1238 ∧
      memmap_read s5.cpu.current_instruction s5 = .ok (0x00 % 256, s6)) ∧
    ISA_table_get (0x00 % 256) = .ok ⟨.BRK, OPCODE_ADDRESSING_MODE_IMPLIED⟩ :=
  ⟨C6_lda_sta 0x7F 0x80 0x00 (by decide) (by decide) (by decide), ISA_table_get_00⟩

/-- Claim C7: for every accumulator `a`, operand `m` and carry-in `c` with
D = 0, `mos6507_ADC` sets A to (a + m + c) mod 256, C to 1 iff a + m + c > 255,
Z iff the new A is 0, N to bit 7 of the new A, and V iff
(~(a ^ m) & (a ^ r) & 0x80) is non-zero, `r` being the new A, which holds
exactly when the signed sum leaves [-128, 127]. -/
theorem C7_adc (cpu : mos6507) (m : Nat) (hA : cpu.A < 256) (hm : m < 256)
    (hD : mos6507_get_status_flag MOS6507_STATUS_FLAG_DECIMAL cpu = 0) :
    (mos6507_ADC m cpu).A
        = (cpu.A + m + mos6507_get_status_flag MOS6507_STATUS_FLAG_CARRY cpu) % 256 ∧
    (mos6507_get_status_flag MOS6507_STATUS_FLAG_CARRY (mos6507_ADC m cpu) = 1 ↔
      cpu.A + m + mos6507_get_status_flag MOS6507_STATUS_FLAG_CARRY cpu > 255) ∧
    (mos6507_get_status_flag MOS6507_STATUS_FLAG_ZERO (mos6507_ADC m cpu) = 1 ↔
      (mos6507_ADC m cpu).A = 0) ∧
    mos6507_get_status_flag MOS6507_STATUS_FLAG_NEGATIVE (mos6507_ADC m cpu)
        = (mos6507_ADC m cpu).A / 128 % 2 ∧
    (mos6507_get_status_flag MOS6507_STATUS_FLAG_OVERFLOW (mos6507_ADC m cpu) = 1 ↔
      (0xFF - (cpu.A ^^^ m)) &&& (cpu.A ^^^ (mos6507_ADC m cpu).A) &&& 0x80 ≠ 0) ∧
    ((0xFF - (cpu.A ^^^ m)) &&& (cpu.A ^^^ (mos6507_ADC m cpu).A) &&& 0x80 ≠ 0 ↔
      (signed8 cpu.A + signed8 m + mos6507_get_status_flag MOS6507_STATUS_FLAG_CARRY cpu < -128 ∨
       127 < signed8 cpu.A + signed8 m + mos6507_get_status_flag MOS6507_STATUS_FLAG_CARRY cpu)) := by
  have hc := get_status_flag_le_one MOS6507_STATUS_FLAG_CARRY cpu
  generalize hcdef : mos6507_get_status_flag MOS6507_STATUS_FLAG_CARRY cpu = c at *
  simp only [mos6507_ADC, hD, hcdef, ne_eq, not_true_eq_false, ite_false,
    MOS6507_STATUS_FLAG_CARRY, MOS6507_STATUS_FLAG_ZERO, MOS6507_STATUS_FLAG_NEGATIVE,
    MOS6507_STATUS_FLAG_OVERFLOW, get_status_flag_set_A, get_set_status_flag,
    set_register_A_A, set_status_flag_A, get_register_A]
  have hxor : cpu.A ^^^ m < 256 := Nat.xor_lt_two_pow (n := 8) hA hm
  have hx := xor_bit7 cpu.A m
  have hc01 : (if ¬c = 0 then 1 else 0) = c := by
    rcases Nat.le_one_iff_eq_zero_or_eq_one.mp hc with h | h <;> simp [h]
  simp only [hc01, Nat.reduceEqDiff, ite_true, ite_false, lnot, cbool, and_0xFF,
    and_0x80_eq_zero_iff, decide_eq_true_eq, xor_bit7, and_bit7, signed8]
  clear hc01
  refine ⟨by omega, ?_, ?_, ?_, ?_, ?_⟩
  · split_ifs <;> first | omega | contradiction | (simp at *; omega)
  · split_ifs <;> first | omega | contradiction | (simp at *; omega)
  · split_ifs <;> omega
  · have hb : (255 - (cpu.A ^^^ m)) / 128 % 2 = 1 - (cpu.A ^^^ m) / 128 % 2 := by omega
    rw [hb, xor_bit7]
    split_ifs <;> first | omega | contradiction | (simp at *; omega)
  · have hb : (255 - (cpu.A ^^^ m)) / 128 % 2 = 1 - (cpu.A ^^^ m) / 128 % 2 := by omega
    rw [hb, xor_bit7]
    split_ifs <;> omega

theorem C7_adc_witness :
    (mos6507_ADC 0x50 (cpu_with 0x50 0x01)).A = 0xA1 ∧
    mos6507_get_status_flag MOS6507_STATUS_FLAG_OVERFLOW
      (mos6507_ADC 0x50 (cpu_with 0x50 0x01)) = 1 ∧
    mos6507_get_status_flag MOS6507_STATUS_FLAG_NEGATIVE
      (mos6507_ADC 0x50 (cpu_with 0x50 0x01)) = 1 := by
  obtain ⟨hA, _, _, hN, hV, _⟩ :=
    C7_adc (cpu_with 0x50 0x01) 0x50 (by decide) (by decide) (by decide)
  exact ⟨hA.trans (by decide), hV.mpr (by decide), hN.trans (by decide)⟩

@[simp] theorem set_status_flag_P (f v : Nat) (cpu : mos6507) :
    (mos6507_set_status_flag f v cpu).P =
      (if v ≠ 0 then (cpu.P ||| f) % 256 else (cpu.P &&& bnot32 f) % 256) % 256 := rfl

/-- Claim C8 fails: for every accumulator `a` and operand `b` with D = 0, ADC
of `b` with carry clear, then carry set, then SBC of `b` leaves the
accumulator at (a - 1) mod 256, not at `a`: `mos6507_SBC` subtracts the carry
flag itself, where the carry it then stores means "no borrow". -/
theorem C8_round_trip_off_by_one (cpu : mos6507) (b : Nat)
    (hD : mos6507_get_status_flag MOS6507_STATUS_FLAG_DECIMAL cpu = 0) :
    (adc_then_sbc b cpu).A = (cpu.A + 255) % 256 := by
  have hD1 : mos6507_get_status_flag MOS6507_STATUS_FLAG_DECIMAL
      (mos6507_set_status_flag MOS6507_STATUS_FLAG_CARRY 0 cpu) = 0 := by
    simp [MOS6507_STATUS_FLAG_DECIMAL, MOS6507_STATUS_FLAG_CARRY, get_set_status_flag] at hD ⊢
    exact hD
  simp only [adc_then_sbc, mos6507_SBC, mos6507_ADC, hD1,
    MOS6507_STATUS_FLAG_CARRY, MOS6507_STATUS_FLAG_ZERO, MOS6507_STATUS_FLAG_NEGATIVE,
    MOS6507_STATUS_FLAG_OVERFLOW, MOS6507_STATUS_FLAG_DECIMAL,
    get_status_flag_set_A, get_set_status_flag,
    set_register_A_A, set_status_flag_A, get_register_A, Nat.reduceEqDiff, ite_true, ite_false,
    ne_eq, not_true_eq_false, not_false_eq_true, one_ne_zero]
  simp only [MOS6507_STATUS_FLAG_DECIMAL] at hD
  simp only [hD, u16, and_0xFF]
  omega

theorem C8_round_trip_off_by_one_witness :
    (adc_then_sbc 3 (cpu_with 5 0)).A = 4 :=
  (C8_round_trip_off_by_one (cpu_with 5 0) 3 (by decide)).trans (by decide)

/-- Claim C9 fails: with the decimal flag set, `mos6507_ADC` and
`mos6507_SBC` leave every status flag (and every other register) as it was but
store 0 in the accumulator: the closing `mos6507_set_register(MOS6507_REG_A,
tmp & 0xFF)` stands after the `if`/`else`, where `tmp` is still 0. -/
theorem C9_decimal_clears_A (cpu : mos6507) (m : Nat)
    (hD : mos6507_get_status_flag MOS6507_STATUS_FLAG_DECIMAL cpu = 1) :
    mos6507_ADC m cpu = { cpu with A := 0 } ∧ mos6507_SBC m cpu = { cpu with A := 0 } := by
  simp [mos6507_ADC, mos6507_SBC, hD, mos6507_set_register]

theorem C9_decimal_clears_A_witness :
    (mos6507_ADC 3 (cpu_with 5 0x08)).A = 0 ∧ (mos6507_SBC 3 (cpu_with 5 0x08)).A = 0 ∧
      (cpu_with 5 0x08).A = 5 := by
  obtain ⟨h1, h2⟩ := C9_decimal_clears_A (cpu_with 5 0x08) 3 (by decide)
  exact ⟨by rw [h1], by rw [h2], rfl⟩

/-- Claim C10, amended: for every accumulator value and every prior flag
state, after ASL A, ROL A and ROR A the N flag equals bit 7 of the new
accumulator and Z is set iff the new accumulator is 0; after LSR A
(`mos6507_LSR_Accumulator`) Z is set iff the new accumulator is 0 and N is
left as it was before the shift. -/
theorem C10_shift_flags (cpu : mos6507) :
    NZ_follow_A (mos6507_ASL_Accumulator cpu) ∧
    NZ_follow_A (mos6507_ROL_Accumulator cpu) ∧
    NZ_follow_A (mos6507_ROR_Accumulator cpu) ∧
    (mos6507_get_status_flag MOS6507_STATUS_FLAG_ZERO (mos6507_LSR_Accumulator cpu) = 1 ↔
      (mos6507_LSR_Accumulator cpu).A = 0) ∧
    mos6507_get_status_flag MOS6507_STATUS_FLAG_NEGATIVE (mos6507_LSR_Accumulator cpu) =
      mos6507_get_status_flag MOS6507_STATUS_FLAG_NEGATIVE cpu := by
  have key : ∀ x : Nat, (if ¬ (x &&& 128 = 0) then 1 else 0) = x % 256 / 128 % 2 := by
    intro x
    have := and_0x80_eq_zero_iff x
    split_ifs <;> omega
  refine ⟨?_, ?_, ?_, ?_, ?_⟩
  · simp only [NZ_follow_A, mos6507_ASL_Accumulator,
      MOS6507_STATUS_FLAG_CARRY, MOS6507_STATUS_FLAG_ZERO, MOS6507_STATUS_FLAG_NEGATIVE,
      get_status_flag_set_A, get_set_status_flag,
      set_register_A_A, set_status_flag_A, get_register_A, Nat.reduceEqDiff, ite_true, ite_false,
      ne_eq, lnot, and_0xFF, key]
    constructor
    · omega
    · split_ifs <;> first | omega | contradiction | (simp at *; omega)
  · simp only [NZ_follow_A, mos6507_ROL_Accumulator,
      MOS6507_STATUS_FLAG_CARRY, MOS6507_STATUS_FLAG_ZERO, MOS6507_STATUS_FLAG_NEGATIVE,
      get_status_flag_set_A, get_set_status_flag,
      set_register_A_A, set_status_flag_A, get_register_A, Nat.reduceEqDiff, ite_true, ite_false,
      ne_eq, lnot, and_0xFF, key]
    constructor
    · omega
    · split_ifs <;> first | omega | contradiction | (simp at *; omega)
  · simp only [NZ_follow_A, mos6507_ROR_Accumulator,
      MOS6507_STATUS_FLAG_CARRY, MOS6507_STATUS_FLAG_ZERO, MOS6507_STATUS_FLAG_NEGATIVE,
      get_status_flag_set_A, get_set_status_flag,
      set_register_A_A, set_status_flag_A, get_register_A, Nat.reduceEqDiff, ite_true, ite_false,
      ne_eq, lnot, and_0xFF, key]
    constructor
    · omega
    · split_ifs <;> first | omega | contradiction | (simp at *; omega)
  · simp only [mos6507_LSR_Accumulator,
      MOS6507_STATUS_FLAG_CARRY, MOS6507_STATUS_FLAG_ZERO, MOS6507_STATUS_FLAG_NEGATIVE,
      get_status_flag_set_A, get_set_status_flag,
      set_register_A_A, set_status_flag_A, get_register_A, Nat.reduceEqDiff, ite_true, ite_false,
      ne_eq, lnot, and_0xFF]
    split_ifs <;> first | omega | contradiction | (simp at *; omega)
  · simp only [mos6507_LSR_Accumulator,
      MOS6507_STATUS_FLAG_CARRY, MOS6507_STATUS_FLAG_ZERO, MOS6507_STATUS_FLAG_NEGATIVE,
      get_status_flag_set_A, get_set_status_flag,
      set_register_A_A, set_status_flag_A, get_register_A, Nat.reduceEqDiff, ite_true, ite_false,
      ne_eq, lnot, and_0xFF]

theorem C10_counterexample : ¬ NZ_follow_A (mos6507_LSR_Accumulator (cpu_with 0x02 0x80)) := by
  decide

/-- Claim C11 fails for the offset byte 0x80.  For each of the eight branch
opcodes, fetched from cartridge space with no instruction in flight, every PC
and every offset byte, the number of `mos6507_clock_tick` calls from the
opcode fetch until the instruction completes is 2 when the condition is false
and, when the branch is taken, 3 if the offset byte is 0x80, whatever page
the target next - 128 lies on (`CALC_BRANCH` computes the address of the next
instruction in that case); for every other offset it is 3 when the target is
on the page of the next instruction and 4 when it is on a different page, as
the claim says.  Any fuel of at least four gives the result. -/
theorem C11_branch_timing (fuel : Nat) (s : Atari) (image : Nat → Nat) (op : Nat)
    (hfuel : 4 ≤ fuel) (hcart : s.cartridge = some image)
    (hidle : s.cpu.current_instruction = 0) (hcyc : s.cycle = 0)
    (hab : s.cpu.address_bus = s.cpu.PC) (hpc : s.cpu.PC < 65536)
    (hp1 : 0x1000 ≤ s.cpu.PC % 8192) (hp2 : s.cpu.PC % 8192 + 1 < 8192)
    (hop : op ∈ [0x10, 0x30, 0x50, 0x70, 0x90, 0xB0, 0xD0, 0xF0])
    (hb : image (s.cpu.PC % 8192 - 0x1000) % 256 = op) :
    ∃ s', run_instruction fuel s =
      .ok (some (if branch_taken op s.cpu.P = false then 2
        else if image (s.cpu.PC % 8192 + 1 - 0x1000) % 256 = 0x80 then 3
        else if NOT_SAME_PAGE ((s.cpu.PC + 2) % 65536)
          (branch_target ((s.cpu.PC + 2) % 65536) (image (s.cpu.PC % 8192 + 1 - 0x1000) % 256))
            = 0
        then 3 else 4), s') := by
  obtain ⟨⟨ra, ry, rx, pc, sp, rp, ci, cc, ab, db⟩, riot, tia, cart, cyc, st⟩ := s
  simp only at hcart hidle hcyc hab hpc hp1 hp2 hb ⊢
  have hab' := hab.symm
  subst hcart hidle hcyc hab'
  obtain ⟨f, rfl⟩ := Nat.exists_eq_add_of_le' hfuel
  have hfn : ∃ fn, (op, fn) ∈ [(0x10, opcode_fn.BPL), (0x30, .BMI), (0x50, .BVC),
      (0x70, .BVS), (0x90, .BCC), (0xB0, .BCS), (0xD0, .BNE), (0xF0, .BEQ)] := by
    simp only [List.mem_cons, List.mem_singleton, List.not_mem_nil, or_false] at hop
    rcases hop with rfl | rfl | rfl | rfl | rfl | rfl | rfl | rfl
    · exact ⟨.BPL, by decide⟩
    · exact ⟨.BMI, by decide⟩
    · exact ⟨.BVC, by decide⟩
    · exact ⟨.BVS, by decide⟩
    · exact ⟨.BCC, by decide⟩
    · exact ⟨.BCS, by decide⟩
    · exact ⟨.BNE, by decide⟩
    · exact ⟨.BEQ, by decide⟩
  obtain ⟨fn, hfn⟩ := hfn
  obtain ⟨s', r, _⟩ := branch_run f op fn image ra ry rx pc sp rp cc db riot tia st hfn hpc hp1
    hp2 hb
  refine ⟨s', ?_⟩
  rw [r]
  by_cases h80 : image (pc % 8192 + 1 - 0x1000) % 256 = 0x80
  · rw [if_pos h80, h80]
    simp only [computed_target, ite_true, NOT_SAME_PAGE_self]
  · rw [if_neg h80]
    simp only [computed_target, h80, ite_false]

theorem C11_branch_timing_witness :
    (∃ s', run_instruction 4 (booted (program_image [0xD0, 0x80])) = .ok (some 3, s')) ∧
      branch_taken 0xD0 (booted (program_image [0xD0, 0x80])).cpu.P = true ∧
      branch_target 0x1236 0x80 = 0x11B6 ∧ NOT_SAME_PAGE 0x1236 0x11B6 ≠ 0 := by
  obtain ⟨s', h⟩ := C11_branch_timing 4 (booted (program_image [0xD0, 0x80]))
    (program_image [0xD0, 0x80]) 0xD0 (by decide) rfl rfl rfl rfl (by decide) (by decide)
    (by decide) (by decide) (by decide)
  exact ⟨⟨s', h⟩, by decide, by decide, by decide⟩

/-- Claim C12: for every JSR (0x20) whose three bytes lie in cartridge space
at address `p`, with S in [0x81, 0xFF] and a target `t` in cartridge space
that holds RTS (0x60): from the opcode fetch, six calls of
`mos6507_clock_tick` complete the JSR and leave PC and the address bus at `t`;
six further calls complete the RTS and leave PC = p + 3 (modulo 65536), the
address of the instruction after the JSR, and S equal to its value before the
JSR.  `run_instruction` counts the calls up to the one that leaves no
instruction in flight; any fuel of at least six gives the result. -/
theorem C12_jsr_rts (fuel : Nat) (s : Atari) (image : Nat → Nat) (p t : Nat)
    (hfuel : 6 ≤ fuel)
    (hcart : s.cartridge = some image) (hidle : s.cpu.current_instruction = 0)
    (hcyc : s.cycle = 0) (hpc : s.cpu.PC = p) (hab : s.cpu.address_bus = p)
    (hp : p < 65536) (hp1 : 0x1000 ≤ p % 8192) (hp2 : p % 8192 + 2 < 8192)
    (hs1 : 0x81 ≤ s.cpu.S) (hs2 : s.cpu.S ≤ 0xFF)
    (hjsr : image (p % 8192 - 0x1000) % 256 = 0x20)
    (hlo : image (p % 8192 + 1 - 0x1000) % 256 = t % 256)
    (hhi : image (p % 8192 + 2 - 0x1000) % 256 = t / 256)
    (ht : 0x1000 ≤ t % 8192) (hrts : image (t % 8192 - 0x1000) % 256 = 0x60) :
    ∃ s1 s2, run_instruction fuel s = .ok (some 6, s1) ∧
      s1.cpu.PC = t ∧ s1.cpu.address_bus = t ∧ s1.cpu.current_instruction = 0 ∧
      run_instruction fuel s1 = .ok (some 6, s2) ∧
      s2.cpu.PC = (p + 3) % 65536 ∧ s2.cpu.address_bus = (p + 3) % 65536 ∧
      s2.cpu.S = s.cpu.S ∧ s2.cpu.current_instruction = 0 := by
  obtain ⟨⟨ra, ry, rx, pc, sp, rp, ci, cc, ab, db⟩, riot, tia, cart, cyc, st⟩ := s
  simp only at hcart hidle hcyc hpc hab hs1 hs2
  have hpc' := hpc.symm
  subst hcart hidle hcyc hpc'
  have hab' := hab.symm
  subst hab'
  obtain ⟨f, rfl⟩ := Nat.exists_eq_add_of_le' hfuel
  have et : t / 256 * 256 + t % 256 = t := by omega
  obtain ⟨st1, r1⟩ := JSR_run f image ra ry rx p sp rp cc db riot tia st hp hp1 hp2 hs1 hs2 hjsr
  rw [hlo, hhi, et] at r1
  have em1 : Function.update (Function.update riot.memory (sp - 0x80) ((p + 1) / 256))
      (sp - 1 - 0x80) ((p + 1) % 256) (sp - 2 + 1 - 0x80) = (p + 1) % 256 := by
    rw [show sp - 2 + 1 - 0x80 = sp - 1 - 0x80 by omega, Function.update_same]
  have em2 : Function.update (Function.update riot.memory (sp - 0x80) ((p + 1) / 256))
      (sp - 1 - 0x80) ((p + 1) % 256) (sp - 2 + 2 - 0x80) = (p + 1) / 256 := by
    rw [show sp - 2 + 2 - 0x80 = sp - 0x80 by omega,
      Function.update_noteq (by omega), Function.update_same]
  obtain ⟨st2, db2, r2⟩ := RTS_run f image ra ry rx t (sp - 2) rp 0 (t / 256)
    ((p + 1) / 256) ((p + 1) % 256)
    ⟨Function.update (Function.update riot.memory (sp - 0x80) ((p + 1) / 256))
        (sp - 1 - 0x80) ((p + 1) % 256), riot.timer, riot.joy1_state, riot.switches_state⟩
    tia st1 ht (by omega) (by omega) hrts (by simp only; exact em1)
    (by simp only; exact em2) (by omega) (by omega)
  have e3 : ((p + 1) / 256 * 256 + (p + 1) % 256 + 2) % 65536 = (p + 3) % 65536 := by omega
  have e4 : sp - 2 + 2 = sp := by omega
  rw [e3, e4] at r2
  exact ⟨_, _, r1, rfl, rfl, rfl, r2, rfl, rfl, rfl, rfl⟩

theorem C12_jsr_rts_witness :
    ∃ s1 s2,
      run_instruction 6
          (booted (program_image [0x20, 0x40, 0x12, 0, 0, 0, 0, 0, 0, 0, 0, 0, 0x60])) =
        .ok (some 6, s1) ∧
      s1.cpu.PC = 0x1240 ∧ run_instruction 6 s1 = .ok (some 6, s2) ∧
      s2.cpu.PC = 0x1237 ∧ s2.cpu.S = 0xFD := by
  obtain ⟨s1, s2, h1, hpc, _, _, h2, hpc2, _, hS, _⟩ :=
    C12_jsr_rts 6 (booted (program_image [0x20, 0x40, 0x12, 0, 0, 0, 0, 0, 0, 0, 0, 0, 0x60]))
      (program_image [0x20, 0x40, 0x12, 0, 0, 0, 0, 0, 0, 0, 0, 0, 0x60]) 0x1234 0x1240
      (by decide) rfl rfl rfl rfl rfl (by decide) (by decide) (by decide) (by decide)
      (by decide) (by decide) (by decide) (by decide) (by decide) (by decide)
  exact ⟨s1, s2, h1, hpc, h2, hpc2, hS⟩

/-- Claim C13, failing input: BRK (0x00) at 0x1234 with S = 0xFD.  The first
two calls of `mos6507_clock_tick` run cycles 0 and 1 of `opcode_BRK`, the
third pushes PCH = 0x12 at 0x01FD (RIOT RAM offset 0x7D) and leaves the
address bus on the stack; as opcode 0x00 is also the value of
`current_instruction` that means "nothing in flight", the fourth call fetches
a new opcode from the address bus, reads the pushed byte 0x12, which is no
instruction, and returns -1, as does every later call: PCL and P are never
pushed (S stays 0xFC, offsets 0x7C and 0x7B stay 0) and PC stays 0x1235
instead of the vector at 0xFFFE/0xFFFF (0x0000 in this image). -/
theorem C13_brk_refetched :
    cpu_after (program_image [0x00]) 3 =
      .ok ([0, 0, 0], ⟨0, 0, 0, 0x1235, 0xFC, 4, 0, 3, 0x01FD, 0x12⟩) ∧
    ram_after (program_image [0x00]) 3 0x7D = .ok 0x12 ∧
    cpu_after (program_image [0x00]) 4 =
      .ok ([0, 0, 0, -1], ⟨0, 0, 0, 0x1235, 0xFC, 4, 0x12, 3, 0x01FD, 0x12⟩) ∧
    cpu_after (program_image [0x00]) 12 =
      .ok ([0, 0, 0, -1, -1, -1, -1, -1, -1, -1, -1, -1],
        ⟨0, 0, 0, 0x1235, 0xFC, 4, 0x12, 3, 0x01FD, 0x12⟩) ∧
    ram_after (program_image [0x00]) 12 0x7C = .ok 0 ∧
    ram_after (program_image [0x00]) 12 0x7B = .ok 0 ∧
    program_image [0x00] 0xFFE = 0 ∧ program_image [0x00] 0xFFF = 0 := by
  set_option maxRecDepth 1000000 in
  exact ⟨by decide!, by decide!, by decide!, by decide!, by decide!, by decide!, by decide!,
    by decide!⟩

/-- Claim C14: for every byte `v` and stack pointer S in [0x80, 0xFF],
`mos6507_push_stack v` succeeds, puts 0x0100 + S on the address bus, stores
`v` in RIOT RAM at offset S - 0x80 (no other RAM cell changes) and leaves
S - 1 mod 256 in the stack pointer; a `mos6507_pull_stack` right after it
returns `v` (whatever the destination held), restores S and leaves the RAM as
the push left it. -/
theorem C14_push_pull (s : Atari) (v : Nat) (hv : v < 256) (h1 : 0x80 ≤ s.cpu.S)
    (h2 : s.cpu.S ≤ 0xFF) :
    ∃ s1, mos6507_push_stack v s = .ok ((), s1) ∧
      s1.cpu.address_bus = 0x0100 + s.cpu.S ∧
      s1.riot.memory (s.cpu.S - 0x80) = v ∧
      (∀ j, j ≠ s.cpu.S - 0x80 → s1.riot.memory j = s.riot.memory j) ∧
      s1.cpu.S = (s.cpu.S + 255) % 256 ∧
      ∀ d, ∃ s2, mos6507_pull_stack d s1 = .ok (v, s2) ∧ s2.cpu.S = s.cpu.S ∧
        s2.riot.memory = s1.riot.memory := by
  obtain ⟨⟨ra, ry, rx, pc, sp, p, ci, cc, ab, db⟩, riot, tia, cart, cyc, st⟩ := s
  simp only at h1 h2
  have e2 : ((sp + 255) % 256 + 1) % 256 = sp := by omega
  have hpush := push_stack_mk v ra ry rx pc sp p ci cc ab db riot tia cart cyc st h1 h2
  rw [Nat.mod_eq_of_lt hv] at hpush
  have hpull : ∀ d, ∃ s2, mos6507_pull_stack d
      ⟨⟨ra, ry, rx, pc, (sp + 255) % 256, p, ci, cc, 0x100 + sp, v⟩,
        ⟨Function.update riot.memory (sp - 0x80) v, riot.timer, riot.joy1_state,
          riot.switches_state⟩, tia, cart, cyc, st⟩ = .ok (v, s2) ∧ s2.cpu.S = sp ∧
      s2.riot.memory = Function.update riot.memory (sp - 0x80) v := by
    intro d
    have hp := pull_stack_mk d ra ry rx pc ((sp + 255) % 256) p ci cc (0x100 + sp) v
      ⟨Function.update riot.memory (sp - 0x80) v, riot.timer, riot.joy1_state,
        riot.switches_state⟩ tia cart cyc st (by omega)
    rw [e2] at hp
    simp only at hp
    simp only [Function.update_same] at hp
    refine ⟨_, hp, ?_, ?_⟩ <;> simp only
  refine ⟨_, hpush, ?_, ?_, ?_, ?_, hpull⟩
  · simp only
  · simp only [Function.update_same]
  · intro j hj
    simp only [Function.update_noteq hj]
  · simp only


theorem C14_push_pull_witness :
    ∃ s1, mos6507_push_stack 0xAB (booted (program_image [])) = .ok ((), s1) ∧
      s1.cpu.address_bus = 0x01FD ∧ s1.riot.memory 0x7D = 0xAB ∧ s1.cpu.S = 0xFC ∧
      ∃ s2, mos6507_pull_stack 0 s1 = .ok (0xAB, s2) ∧ s2.cpu.S = 0xFD := by
  obtain ⟨s1, h, hab, hm, _, hs, hp⟩ :=
    C14_push_pull (booted (program_image [])) 0xAB (by decide) (by decide) (by decide)
  obtain ⟨s2, h2, hs2, _⟩ := hp 0
  exact ⟨s1, h, hab, hm, hs, s2, h2, hs2⟩

/-- Claim C15: LDA in absolute,X (0xBD), absolute,Y (0xB9) and (indirect),Y
(0xB1) mode, fetched from cartridge space with no instruction in flight, for
every base address `base` and every index.  The instruction completes, A
holds the byte `v` at (base + index) mod 65536 (`reads_as`), and the number of
`mos6507_clock_tick` calls from the opcode fetch to completion is 4 for the
absolute indexed modes and 5 for (indirect),Y, plus one when (low byte of
base) + index exceeds 0xFF.  For (indirect),Y the base is the word at the
zero-page pointer (high byte at pointer + 1 modulo 256).  Any fuel of at least
six gives the result. -/
theorem C15_lda_indexed (fuel : Nat) (s : Atari) (image : Nat → Nat) (base v : Nat)
    (hfuel : 6 ≤ fuel) (hcart : s.cartridge = some image)
    (hidle : s.cpu.current_instruction = 0) (hcyc : s.cycle = 0)
    (hab : s.cpu.address_bus = s.cpu.PC) (hpc : s.cpu.PC < 65536)
    (hp1 : 0x1000 ≤ s.cpu.PC % 8192) (hx : s.cpu.X < 256) (hy : s.cpu.Y < 256)
    (hv : v < 256) :
    (s.cpu.PC % 8192 + 2 < 8192 → image (s.cpu.PC % 8192 - 0x1000) % 256 = 0xBD →
      image (s.cpu.PC % 8192 + 1 - 0x1000) % 256 = base % 256 →
      image (s.cpu.PC % 8192 + 2 - 0x1000) % 256 = base / 256 →
      reads_as s.riot s.tia s.cartridge ((base + s.cpu.X) % 65536) v →
      ∃ s', run_instruction fuel s =
          .ok (some (if 0xFF < base % 256 + s.cpu.X then 5 else 4), s') ∧
        s'.cpu.A = v ∧ s'.cpu.PC = (s.cpu.PC + 3) % 65536 ∧ s'.cpu.current_instruction = 0) ∧
    (s.cpu.PC % 8192 + 2 < 8192 → image (s.cpu.PC % 8192 - 0x1000) % 256 = 0xB9 →
      image (s.cpu.PC % 8192 + 1 - 0x1000) % 256 = base % 256 →
      image (s.cpu.PC % 8192 + 2 - 0x1000) % 256 = base / 256 →
      reads_as s.riot s.tia s.cartridge ((base + s.cpu.Y) % 65536) v →
      ∃ s', run_instruction fuel s =
          .ok (some (if 0xFF < base % 256 + s.cpu.Y then 5 else 4), s') ∧
        s'.cpu.A = v ∧ s'.cpu.PC = (s.cpu.PC + 3) % 65536 ∧ s'.cpu.current_instruction = 0) ∧
    (s.cpu.PC % 8192 + 1 < 8192 → image (s.cpu.PC % 8192 - 0x1000) % 256 = 0xB1 →
      reads_as s.riot s.tia s.cartridge (image (s.cpu.PC % 8192 + 1 - 0x1000) % 256)
        (base % 256) →
      reads_as s.riot s.tia s.cartridge
        ((image (s.cpu.PC % 8192 + 1 - 0x1000) % 256 + 1) % 256) (base / 256) →
      reads_as s.riot s.tia s.cartridge ((base + s.cpu.Y) % 65536) v →
      ∃ s', run_instruction fuel s =
          .ok (some (if 0xFF < base % 256 + s.cpu.Y then 6 else 5), s') ∧
        s'.cpu.A = v ∧ s'.cpu.PC = (s.cpu.PC + 2) % 65536 ∧ s'.cpu.current_instruction = 0) := by
  obtain ⟨⟨ra, ry, rx, pc, sp, rp, ci, cc, ab, db⟩, riot, tia, cart, cyc, st⟩ := s
  simp only at hcart hidle hcyc hab hpc hp1 hx hy
  have hab' := hab.symm
  subst hcart hidle hcyc hab'
  obtain ⟨f, rfl⟩ := Nat.exists_eq_add_of_le' hfuel
  have eb : base / 256 * 256 + base % 256 = base := by omega
  refine ⟨?_, ?_, ?_⟩
  · intro hp2 hop hlo hhi hread
    simp only at hp2 hop hlo hhi hread ⊢
    obtain ⟨p', st', r⟩ := LDA_absolute_indexed_run (f + 1) 0xBD
      OPCODE_ADDRESSING_MODE_ABSOLUTE_X_INDEXED image ra ry rx pc sp rp cc db rx v riot tia st
      (Or.inl ⟨rfl, rfl, rfl⟩) hpc hp1 hp2 hop hx hv (by rw [hlo, hhi, eb]; exact hread)
    rw [hlo] at r
    exact ⟨_, r, rfl, rfl, rfl⟩
  · intro hp2 hop hlo hhi hread
    simp only at hp2 hop hlo hhi hread ⊢
    obtain ⟨p', st', r⟩ := LDA_absolute_indexed_run (f + 1) 0xB9
      OPCODE_ADDRESSING_MODE_ABSOLUTE_Y_INDEXED image ra ry rx pc sp rp cc db ry v riot tia st
      (Or.inr ⟨rfl, rfl, rfl⟩) hpc hp1 hp2 hop hy hv (by rw [hlo, hhi, eb]; exact hread)
    rw [hlo] at r
    exact ⟨_, r, rfl, rfl, rfl⟩
  · intro hp2 hop hlo hhi hread
    simp only at hp2 hop hlo hhi hread ⊢
    obtain ⟨p', st', r⟩ := LDA_indirect_Y_run f image ra ry rx pc sp rp cc db (base % 256)
      (base / 256) v riot tia st hpc hp1 hp2 hop hy hv (by omega) hlo hhi
      (by rw [eb]; exact hread)
    exact ⟨_, r, rfl, rfl, rfl⟩

theorem C15_lda_indexed_witness :
    (∃ s', run_instruction 6
          (booted_xy (program_image [0xBD, 0xF0, 0x11, 0, 0, 0, 0, 0, 0, 0, 0, 0, 0x77]) 0x50 0) =
        .ok (some 5, s') ∧ s'.cpu.A = 0x77 ∧ s'.cpu.PC = 0x1237) ∧
    (∃ s', run_instruction 6
          (booted_xy (program_image [0xB9, 0x34, 0x12, 0, 0, 0, 0, 0, 0, 0, 0, 0, 0x77]) 0 0x0C) =
        .ok (some 4, s') ∧ s'.cpu.A = 0x77 ∧ s'.cpu.PC = 0x1237) ∧
    (∃ s', run_instruction 6 (booted_xy (program_image [0xB1, 0x80]) 0 0x90) =
        .ok (some 5, s') ∧ s'.cpu.A = 0 ∧ s'.cpu.PC = 0x1236) := by
  obtain ⟨s1, h1, a1, p1, _⟩ :=
    (C15_lda_indexed 6
      (booted_xy (program_image [0xBD, 0xF0, 0x11, 0, 0, 0, 0, 0, 0, 0, 0, 0, 0x77]) 0x50 0)
      (program_image [0xBD, 0xF0, 0x11, 0, 0, 0, 0, 0, 0, 0, 0, 0, 0x77]) 0x11F0 0x77
      (by decide) rfl rfl rfl rfl (by decide) (by decide) (by decide) (by decide)
      (by decide)).1 (by decide) (by decide) (by decide) (by decide)
      (reads_as_cart _ _ _ 0x1240 (by decide))
  obtain ⟨s2, h2, a2, p2, _⟩ :=
    (C15_lda_indexed 6
      (booted_xy (program_image [0xB9, 0x34, 0x12, 0, 0, 0, 0, 0, 0, 0, 0, 0, 0x77]) 0 0x0C)
      (program_image [0xB9, 0x34, 0x12, 0, 0, 0, 0, 0, 0, 0, 0, 0, 0x77]) 0x1234 0x77
      (by decide) rfl rfl rfl rfl (by decide) (by decide) (by decide) (by decide)
      (by decide)).2.1 (by decide) (by decide) (by decide) (by decide)
      (reads_as_cart _ _ _ 0x1240 (by decide))
  obtain ⟨s3, h3, a3, p3, _⟩ :=
    (C15_lda_indexed 6 (booted_xy (program_image [0xB1, 0x80]) 0 0x90)
      (program_image [0xB1, 0x80]) 0 0
      (by decide) rfl rfl rfl rfl (by decide) (by decide) (by decide) (by decide)
      (by decide)).2.2 (by decide) (by decide)
      (reads_as_ram _ _ _ 0x80 0 (by decide) (Or.inl (by decide)))
      (reads_as_ram _ _ _ 0x81 1 (by decide) (Or.inl (by decide)))
      (reads_as_ram _ _ _ 0x90 0x10 (by decide) (Or.inl (by decide)))
  exact ⟨⟨s1, h1, a1, p1⟩, ⟨s2, h2, a2, p2⟩, ⟨s3, h3, a3, p3⟩⟩

/-- Claim C16, failing input: JMP indirect (0x6C) at 0x1234 with operand
q = 0x1240, where the image holds the word 0x1250 (0x50 at 0x1240, 0x12 at
0x1241).  The instruction completes with PC = 0x1240, the operand itself, not
0x1250. -/
theorem C16_jmp_indirect_ignores_pointer :
    program_image [0x6C, 0x40, 0x12, 0, 0, 0, 0, 0, 0, 0, 0, 0, 0x50, 0x12] 0x240 = 0x50 ∧
    program_image [0x6C, 0x40, 0x12, 0, 0, 0, 0, 0, 0, 0, 0, 0, 0x50, 0x12] 0x241 = 0x12 ∧
    cpu_after (program_image [0x6C, 0x40, 0x12, 0, 0, 0, 0, 0, 0, 0, 0, 0, 0x50, 0x12]) 3 =
      .ok ([0, 0, 0], ⟨0, 0, 0, 0x1236, 0xFD, 4, 0x6C, 3, 0x1236, 0x12⟩) ∧
    cpu_after (program_image [0x6C, 0x40, 0x12, 0, 0, 0, 0, 0, 0, 0, 0, 0, 0x50, 0x12]) 4 =
      .ok ([0, 0, 0, 0], ⟨0, 0, 0, 0x1240, 0xFD, 4, 0, 0, 0x1240, 0x12⟩) := by
  set_option maxRecDepth 1000000 in
  exact ⟨by decide!, by decide!, by decide!, by decide!⟩

/-- Claim C17, failing input: the program LDA #$90; STA $80; LDA #$41;
STA ($80),Y at 0x1234 with Y = 0, so that the pointer at 0x80/0x81 is 0x0090
(RIOT RAM offset 0x10) and the store should put 0x41 there.  After the seven
calls of `mos6507_clock_tick` that run the first three instructions, a single
further call completes the STA (0x91): PC has advanced by 1 only (0x123A to
0x123B), offset 0x10 still holds 0, and the next call fetches the operand byte
0x80 as an opcode and returns -1. -/
theorem C17_sta_indirect_y_one_tick :
    cpu_after (program_image [0xA9, 0x90, 0x85, 0x80, 0xA9, 0x41, 0x91, 0x80]) 7 =
      .ok ([0, 0, 0, 0, 0, 0, 0], ⟨0x41, 0, 0, 0x123A, 0xFD, 4, 0, 0, 0x123A, 0x41⟩) ∧
    ram_after (program_image [0xA9, 0x90, 0x85, 0x80, 0xA9, 0x41, 0x91, 0x80]) 7 0 = .ok 0x90 ∧
    ram_after (program_image [0xA9, 0x90, 0x85, 0x80, 0xA9, 0x41, 0x91, 0x80]) 7 1 = .ok 0 ∧
    cpu_after (program_image [0xA9, 0x90, 0x85, 0x80, 0xA9, 0x41, 0x91, 0x80]) 8 =
      .ok ([0, 0, 0, 0, 0, 0, 0, 0], ⟨0x41, 0, 0, 0x123B, 0xFD, 4, 0, 0, 0x123B, 0x41⟩) ∧
    ram_after (program_image [0xA9, 0x90, 0x85, 0x80, 0xA9, 0x41, 0x91, 0x80]) 8 0x10 = .ok 0 ∧
    cpu_after (program_image [0xA9, 0x90, 0x85, 0x80, 0xA9, 0x41, 0x91, 0x80]) 9 =
      .ok ([0, 0, 0, 0, 0, 0, 0, 0, -1],
        ⟨0x41, 0, 0, 0x123B, 0xFD, 4, 0x80, 0, 0x123B, 0x80⟩) := by
  set_option maxRecDepth 1000000 in
  exact ⟨by decide!, by decide!, by decide!, by decide!, by decide!, by decide!⟩

/-- Claim C18, failing input: the program LDA #$41; STA $80 followed by a
zero-page read-modify-write instruction on 0x80, run until that instruction
is complete (eight calls of `mos6507_clock_tick`).  With ASL (0x06), LSR
(0x46), ROL (0x26) and ROR (0x66) the RAM byte still holds 0x41 (the claim
requires 0x82, 0x20, 0x82 and 0x20); with INC (0xE6) and DEC (0xC6) it holds
0x42 and 0x40. -/
theorem C18_memory_shift_not_stored :
    (∀ op ∈ [0x06, 0x46, 0x26, 0x66, 0xE6, 0xC6],
      Except.map (fun r => (r.1, r.2.PC, r.2.current_instruction))
          (cpu_after (program_image [0xA9, 0x41, 0x85, 0x80, op, 0x80]) 8) =
        .ok ([0, 0, 0, 0, 0, 0, 0, 0], 0x123A, 0) ∧
      ram_after (program_image [0xA9, 0x41, 0x85, 0x80, op, 0x80]) 5 0 = .ok 0x41) ∧
    (∀ op ∈ [0x06, 0x46, 0x26, 0x66],
      ram_after (program_image [0xA9, 0x41, 0x85, 0x80, op, 0x80]) 8 0 = .ok 0x41) ∧
    ram_after (program_image [0xA9, 0x41, 0x85, 0x80, 0xE6, 0x80]) 8 0 = .ok 0x42 ∧
    ram_after (program_image [0xA9, 0x41, 0x85, 0x80, 0xC6, 0x80]) 8 0 = .ok 0x40 := by
  set_option maxRecDepth 1000000 in
  exact ⟨by decide!, by decide!, by decide!, by decide!⟩

/-- Claim C19: for every PF0, PF1, PF2 and CTRLPF, after
`TIA_update_playfield` the playfield line mask holds, with
pattern = (PF0 >> 4) | (reverse_bits(PF1) << 4) | (PF2 << 12): in slot
`i < 80` bit `i / 4` of the pattern; in slot `80 ≤ i < 160` bit
`19 - (i - 80) / 4` when CTRLPF bit 0 is set and bit `(i - 80) / 4` otherwise;
slots from 160 on are not written. -/
theorem C19_playfield (tia : atari_tia) :
    (∀ i, i < 80 → (TIA_update_playfield tia).playfield.line_buffer i =
      if (playfield_pattern (tia.write_regs TIA_WRITE_REG_PF0)
          (tia.write_regs TIA_WRITE_REG_PF1) (tia.write_regs TIA_WRITE_REG_PF2)).testBit (i / 4)
        then 1 else 0) ∧
    (∀ i, 80 ≤ i → i < 160 → (TIA_update_playfield tia).playfield.line_buffer i =
      if (playfield_pattern (tia.write_regs TIA_WRITE_REG_PF0)
          (tia.write_regs TIA_WRITE_REG_PF1) (tia.write_regs TIA_WRITE_REG_PF2)).testBit
            (if tia.write_regs TIA_WRITE_REG_CTRLPF &&& 0x01 ≠ 0 then 19 - (i - 80) / 4
              else (i - 80) / 4)
        then 1 else 0) ∧
    (∀ i, 160 ≤ i → (TIA_update_playfield tia).playfield.line_buffer i =
      tia.playfield.line_buffer i) := by
  have hfold := fun j => fold_two_halves
    (fun i => if ((tia.write_regs TIA_WRITE_REG_PF0 >>> 4)
      ||| (TIA_reverse_byte (tia.write_regs TIA_WRITE_REG_PF1) <<< 4)
      ||| (tia.write_regs TIA_WRITE_REG_PF2 <<< 12)) % 4294967296 &&& (1 <<< (i >>> 2)) ≠ 0
      then 1 else 0)
    (fun i => if (if tia.write_regs TIA_WRITE_REG_CTRLPF &&& 0x01 ≠ 0 then 1 else 0) ≠ 0 then
        (if ((tia.write_regs TIA_WRITE_REG_PF0 >>> 4)
          ||| (TIA_reverse_byte (tia.write_regs TIA_WRITE_REG_PF1) <<< 4)
          ||| (tia.write_regs TIA_WRITE_REG_PF2 <<< 12)) % 4294967296
            &&& (0x80000 >>> (i >>> 2)) ≠ 0 then 1 else 0)
        else (if ((tia.write_regs TIA_WRITE_REG_PF0 >>> 4)
          ||| (TIA_reverse_byte (tia.write_regs TIA_WRITE_REG_PF1) <<< 4)
          ||| (tia.write_regs TIA_WRITE_REG_PF2 <<< 12)) % 4294967296
            &&& (1 <<< (i >>> 2)) ≠ 0 then 1 else 0))
    tia.playfield.line_buffer 80 (le_refl _) j
  have hlb : ∀ j, (TIA_update_playfield tia).playfield.line_buffer j = _ := fun j => by
    refine Eq.trans ?_ (hfold j)
    unfold TIA_update_playfield
    simp only [playfield_step]
    rfl
  have hdiv : ∀ i : Nat, i >>> 2 = i / 4 := fun i => by
    rw [Nat.shiftRight_eq_div_pow]
  refine ⟨?_, ?_, ?_⟩
  · intro i hi
    rw [hlb i, if_pos hi]
    simp only [and_one_shl, hdiv, testBit_mod_u32 _ (i / 4) (by omega), TIA_reverse_byte_eq,
      playfield_pattern]
  · intro i h1 h2
    rw [hlb i, if_neg (by omega), if_pos (by omega)]
    by_cases hm : tia.write_regs TIA_WRITE_REG_CTRLPF &&& 0x01 = 0
    · simp only [hm, ne_eq, not_true_eq_false, ite_false, and_one_shl, hdiv,
        testBit_mod_u32 _ ((i - 80) / 4) (by omega), TIA_reverse_byte_eq, playfield_pattern]
    · simp only [hm, ne_eq, not_false_eq_true, ite_true, one_ne_zero, hdiv,
        and_top_shr _ ((i - 80) / 4) (by omega),
        testBit_mod_u32 _ (19 - (i - 80) / 4) (by omega), TIA_reverse_byte_eq,
        playfield_pattern]
  · intro i hi
    rw [hlb i, if_neg (by omega), if_neg (by omega)]


theorem C19_playfield_witness :
    (∀ i, i < 160 →
      (TIA_update_playfield (tia_with_playfield 0 0 0x80 0)).playfield.line_buffer i =
        if i ∈ [76, 77, 78, 79, 156, 157, 158, 159] then 1 else 0) ∧
    (∀ i, i < 160 →
      (TIA_update_playfield (tia_with_playfield 0 0 0x80 1)).playfield.line_buffer i =
        if i ∈ [76, 77, 78, 79, 80, 81, 82, 83] then 1 else 0) := by
  have h0 := C19_playfield (tia_with_playfield 0 0 0x80 0)
  have h1 := C19_playfield (tia_with_playfield 0 0 0x80 1)
  have e0 : ∀ i, i < 80 →
      (if (playfield_pattern 0 0 0x80).testBit (i / 4) then 1 else 0) =
        if i ∈ [76, 77, 78, 79, 156, 157, 158, 159] then 1 else 0 := by decide
  have e1 : ∀ i, i < 80 →
      (if (playfield_pattern 0 0 0x80).testBit (i / 4) then 1 else 0) =
        if i + 80 ∈ [76, 77, 78, 79, 156, 157, 158, 159] then 1 else 0 := by decide
  have e2 : ∀ i, i < 80 →
      (if (playfield_pattern 0 0 0x80).testBit (i / 4) then 1 else 0) =
        if i ∈ [76, 77, 78, 79, 80, 81, 82, 83] then 1 else 0 := by decide
  have e3 : ∀ i, i < 80 →
      (if (playfield_pattern 0 0 0x80).testBit (19 - i / 4) then 1 else 0) =
        if i + 80 ∈ [76, 77, 78, 79, 80, 81, 82, 83] then 1 else 0 := by decide
  refine ⟨fun i hi => ?_, fun i hi => ?_⟩
  · by_cases h : i < 80
    · exact (h0.1 i h).trans (e0 i h)
    · have e : i - 80 + 80 = i := by omega
      have := (h0.2.1 i (by omega) hi).trans (e1 (i - 80) (by omega))
      rwa [e] at this
  · by_cases h : i < 80
    · exact (h1.1 i h).trans (e2 i h)
    · have e : i - 80 + 80 = i := by omega
      have := (h1.2.1 i (by omega) hi).trans (e3 (i - 80) (by omega))
      rwa [e] at this

/-- Claim C20: at a visible pixel (colour clock in [68, 228)) with score
mode off (CTRLPF bit 1 clear) and bytes in the write registers,
`TIA_generate_colour` succeeds and the word it stores at the pixel is the
palette entry, replicated by `X4`, at index (selected byte >> 1), where the
selected byte is the colour register `priority_register` names from CTRLPF
bit 2 and the six object samples at the pixel: COLUP0 if P0 or M0, else
COLUP1 if P1 or M1, else COLUPF if PF or BL, else COLUBK when the bit is
clear; COLUPF if PF or BL, else COLUP0 if P0 or M0, else COLUP1 if P1 or M1,
else COLUBK when it is set. -/
theorem C20_colour_priority (tia : atari_tia) (h1 : 68 ≤ tia.colour_clock)
    (h2 : tia.colour_clock < 228) (hregs : ∀ r, tia.write_regs r < 256)
    (hscore : tia.write_regs TIA_WRITE_REG_CTRLPF &&& 0b10 = 0) :
    ∃ tia', TIA_generate_colour tia = .ok tia' ∧
      tia'.tia_raw_buffer (tia.colour_clock - 68) =
        X4 (tia.tia_rgb_color_map (tia.write_regs (priority_register
          (decide (tia.write_regs TIA_WRITE_REG_CTRLPF &&& 0b100 ≠ 0))
          (line_sample (tia.players 0).line_buffer (tia.colour_clock - 68))
          (line_sample (tia.players 1).line_buffer (tia.colour_clock - 68))
          (line_sample (tia.missiles 0).line_buffer (tia.colour_clock - 68))
          (line_sample (tia.missiles 1).line_buffer (tia.colour_clock - 68))
          (line_sample tia.ball.line_buffer (tia.colour_clock - 68))
          (line_sample tia.playfield.line_buffer (tia.colour_clock - 68))) >>> 1)) := by
  obtain ⟨tia', h, hb⟩ := TIA_generate_colour_visible tia h1 h2 hregs
  refine ⟨tia', h, ?_⟩
  rw [hb, Function.update_same, TIA_select_colour_priority _ _ _ _ _ _ _ _ hscore]


theorem tia_pixel_example_regs (ctrlpf : Nat) (h : ctrlpf < 256) :
    ∀ r, (tia_pixel_example ctrlpf).write_regs r < 256 := by
  intro r
  simp only [tia_pixel_example]
  split_ifs <;> first | exact h | decide

theorem C20_colour_priority_witness :
    (∃ tia', TIA_generate_colour (tia_pixel_example 0) = .ok tia' ∧
      tia'.tia_raw_buffer 32 = X4 ((TIA_init power_on.tia).tia_rgb_color_map (0x42 >>> 1))) ∧
    (∃ tia', TIA_generate_colour (tia_pixel_example 4) = .ok tia' ∧
      tia'.tia_raw_buffer 32 = X4 ((TIA_init power_on.tia).tia_rgb_color_map (0xC6 >>> 1))) := by
  obtain ⟨t0, h0, e0⟩ := C20_colour_priority (tia_pixel_example 0) (by decide) (by decide)
    (tia_pixel_example_regs 0 (by decide)) (by decide)
  obtain ⟨t4, h4, e4⟩ := C20_colour_priority (tia_pixel_example 4) (by decide) (by decide)
    (tia_pixel_example_regs 4 (by decide)) (by decide)
  exact ⟨⟨t0, h0, e0⟩, ⟨t4, h4, e4⟩⟩

/-- Claim C21, counterexample: in score mode with CTRLPF bit 2 clear, at pixel
132 of the right half, where the playfield sample and the player-0 sample are
both set, the pixel has the colour COLUP0 = 0x42, not COLUP1 = 0x84. -/
theorem C21_counterexample :
    (tia_line_example 0b10 200).write_regs TIA_WRITE_REG_CTRLPF &&& 0b10 ≠ 0 ∧
    line_sample (tia_line_example 0b10 200).playfield.line_buffer 132 = 1 ∧
    ∃ t, TIA_generate_colour (tia_line_example 0b10 200) = .ok t ∧
      t.tia_raw_buffer 132 = X4 ((tia_line_example 0b10 200).tia_rgb_color_map
        ((tia_line_example 0b10 200).write_regs TIA_WRITE_REG_COLUP0 >>> 1)) ∧
      t.tia_raw_buffer 132 ≠ X4 ((tia_line_example 0b10 200).tia_rgb_color_map
        ((tia_line_example 0b10 200).write_regs TIA_WRITE_REG_COLUP1 >>> 1)) := by
  refine ⟨by decide, by decide, ?_⟩
  obtain ⟨t, h1, h2, _⟩ := TIA_generate_colour_state (tia_line_example 0b10 200) (by decide)
    (by decide) (tia_line_example_regs _ _ (by decide))
  have e : t.tia_raw_buffer 132 = X4 ((tia_line_example 0b10 200).tia_rgb_color_map
      ((tia_line_example 0b10 200).write_regs TIA_WRITE_REG_COLUP0 >>> 1)) := by
    rw [h2]
    have hc : (tia_line_example 0b10 200).colour_clock - 68 = 132 := by decide
    rw [hc, Function.update_same,
      TIA_select_colour_score _ _ _ _ _ _ _ _ (by decide) (by decide)]
    decide
  refine ⟨t, h1, e, ?_⟩
  rw [e]
  decide

/-- Claim C21, amended: at a visible pixel `x` with the playfield sample set,
in score mode, `TIA_generate_colour` succeeds and stores the palette entry of
the register `score_register` selects: COLUP0 for `x < 80` and COLUP1 for
`x ≥ 80` when CTRLPF bit 2 is set or no player or missile sample is set; with
bit 2 clear, COLUP0 when a player-0 or missile-0 sample is set and otherwise
COLUP1 when a player-1 or missile-1 sample is set. -/
theorem C21_score_mode (tia : atari_tia) (h1 : 68 ≤ tia.colour_clock)
    (h2 : tia.colour_clock < 228) (hregs : ∀ r, tia.write_regs r < 256)
    (hscore : tia.write_regs TIA_WRITE_REG_CTRLPF &&& 0b10 ≠ 0)
    (hpf : line_sample tia.playfield.line_buffer (tia.colour_clock - 68) = 1) :
    ∃ tia', TIA_generate_colour tia = .ok tia' ∧
      tia'.tia_raw_buffer (tia.colour_clock - 68) =
        X4 (tia.tia_rgb_color_map (tia.write_regs (score_register
          (decide (tia.write_regs TIA_WRITE_REG_CTRLPF &&& 0b100 ≠ 0))
          (line_sample (tia.players 0).line_buffer (tia.colour_clock - 68))
          (line_sample (tia.players 1).line_buffer (tia.colour_clock - 68))
          (line_sample (tia.missiles 0).line_buffer (tia.colour_clock - 68))
          (line_sample (tia.missiles 1).line_buffer (tia.colour_clock - 68))
          (tia.colour_clock - 68)) >>> 1)) := by
  obtain ⟨t, k1, k2, _⟩ := TIA_generate_colour_state tia h1 h2 hregs
  refine ⟨t, k1, ?_⟩
  rw [k2, Function.update_same, TIA_select_colour_score _ _ _ _ _ _ _ _ hscore
    (by rw [hpf]; decide)]

/-- The witness of the amended claim: with CTRLPF bits 1 and 2 set, pixel 32
has the colour COLUP0 = 0x42 and pixel 132 the colour COLUP1 = 0x84. -/
theorem C21_score_mode_witness :
    (∃ t, TIA_generate_colour (tia_line_example 0b110 100) = .ok t ∧
      t.tia_raw_buffer 32 = X4 ((TIA_init power_on.tia).tia_rgb_color_map (0x42 >>> 1))) ∧
    ∃ t, TIA_generate_colour (tia_line_example 0b110 200) = .ok t ∧
      t.tia_raw_buffer 132 = X4 ((TIA_init power_on.tia).tia_rgb_color_map (0x84 >>> 1)) := by
  obtain ⟨a, a1, a2⟩ := C21_score_mode (tia_line_example 0b110 100) (by decide) (by decide)
    (tia_line_example_regs _ _ (by decide)) (by decide) (by decide)
  obtain ⟨b, b1, b2⟩ := C21_score_mode (tia_line_example 0b110 200) (by decide) (by decide)
    (tia_line_example_regs _ _ (by decide)) (by decide) (by decide)
  exact ⟨⟨a, a1, a2⟩, ⟨b, b1, b2⟩⟩

/-- Claim C22 fails: `TIA_clock_tick` generates a pixel only when the
colour clock is above 68.  The tick made at a colour clock `c` with
68 < c < 228 stores a pixel in slot `c - 68` of the output line and changes no
other slot; the tick made at colour clock 68 rebuilds the line masks and leaves
the whole output line as it was, so that slot 0 is never written. -/
theorem C22_pixel_slot (tia : atari_tia) (h1 : 68 ≤ tia.colour_clock)
    (h2 : tia.colour_clock < 228) (hregs : ∀ r, tia.write_regs r < 256)
    (hfit : tia.colour_clock = 68 → objects_fit tia) :
    ∃ t, TIA_clock_tick tia = .ok ((tia.colour_clock : Int) + 1, t) ∧
      t.colour_clock = tia.colour_clock + 1 ∧
      (tia.colour_clock = 68 → t.tia_raw_buffer = tia.tia_raw_buffer) ∧
      (68 < tia.colour_clock → ∃ pixel,
        t.tia_raw_buffer = Function.update tia.tia_raw_buffer (tia.colour_clock - 68) pixel) := by
  by_cases h : tia.colour_clock = 68
  · obtain ⟨t, k1, k2, k3, _⟩ := TIA_clock_tick_at_hsync tia h (hfit h)
    refine ⟨t, ?_, ?_, fun _ => k3, fun hh => by omega⟩
    · rw [k1, h]; rfl
    · rw [k2, h]
  · obtain ⟨g, g1, g2, _, _, _, g6, _⟩ := TIA_generate_colour_state tia h1 h2 hregs
    have e : (tia.colour_clock + 1) % 4294967296 = tia.colour_clock + 1 := by omega
    refine ⟨{ g with colour_clock := tia.colour_clock + 1 }, ?_, rfl, fun hh => absurd hh h,
      fun _ => ⟨_, g2⟩⟩
    rw [TIA_clock_tick_visible tia (by omega) h2, g1, except_bind_ok, except_pure, g6, e]
    have e2 : i32 ((tia.colour_clock + 1 : Nat) : Int) = (tia.colour_clock : Int) + 1 := by
      unfold i32; omega
    rw [e2]

/-- The witness of the claim: at colour clock 68 the tick succeeds and the
output line, filled with the value 7 before, holds 7 in every slot after. -/
theorem C22_pixel_slot_witness :
    ∃ t, TIA_clock_tick (tia_line_example 0 68) = .ok (69, t) ∧ t.colour_clock = 69 ∧
      ∀ j, t.tia_raw_buffer j = 7 := by
  obtain ⟨t, h1, h2, h3, _⟩ := C22_pixel_slot (tia_line_example 0 68) (by decide) (by decide)
    (tia_line_example_regs _ _ (by decide)) (fun _ => by decide)
  refine ⟨t, h1, h2, fun j => ?_⟩
  rw [h3 rfl]
  rfl

/-- Claim C23 fails: with one copy selected (NUSIZ low three bits 0) and
the player at position `p` with `p + 16 ≤ 160`, `TIA_update_player_buffer`
leaves the eight slots `p .. p + 7` clear and draws the graphics byte in the
slots `p + 8 .. p + 15`: slot `p + 8 + k` holds bit `7 - k` of the graphics
byte, every other slot is 0. The claim puts bit `7 - k` in slot `p + k`. -/
theorem C23_player_mask_offset (x : Nat) (hx : x < 2) (tia : atari_tia) (p : Nat)
    (hp : (tia.players x).position_clock = (p : Int)) (hfit : p + 16 ≤ 160)
    (hsize : tia.write_regs (reg_NUSIZ x) &&& 0x7 = 0) :
    ∃ tia', TIA_update_player_buffer x tia = .ok tia' ∧
      ∀ j, j < 160 → (tia'.players x).line_buffer j =
        if p + 8 ≤ j ∧ j < p + 16 then
          (if (tia.write_regs (reg_GRP x)).testBit (7 - (j - (p + 8))) then 1 else 0)
        else 0 := by
  exact TIA_update_player_buffer_one_copy x hx tia p hp hfit hsize

/-- The witness of the claim: graphics byte 0x80 at position 0 sets slot 8,
not slot 0. -/
theorem C23_player_mask_offset_witness :
    ∃ tia', TIA_update_player_buffer 0 (tia_player_example 0x80 0) = .ok tia' ∧
      (tia'.players 0).line_buffer 0 = 0 ∧ (tia'.players 0).line_buffer 8 = 1 ∧
      ∀ j, j < 160 → j ≠ 8 → (tia'.players 0).line_buffer j = 0 := by
  obtain ⟨tia', h1, h2⟩ := C23_player_mask_offset 0 (by decide) (tia_player_example 0x80 0) 0
    rfl (by decide) (by decide)
  refine ⟨tia', h1, ?_, ?_, ?_⟩
  · rw [h2 0 (by decide)]; decide
  · rw [h2 8 (by decide)]; decide
  · intro j hj hne
    rw [h2 j hj]
    have hg : (tia_player_example 0x80 0).write_regs (reg_GRP 0) = 0x80 := by decide
    rw [hg]
    by_cases h : 0 + 8 ≤ j ∧ j < 0 + 16
    · rw [if_pos h]
      have : j = 9 ∨ j = 10 ∨ j = 11 ∨ j = 12 ∨ j = 13 ∨ j = 14 ∨ j = 15 := by omega
      rcases this with h | h | h | h | h | h | h <;> subst h <;> decide
    · rw [if_neg h]

/-- Claim C24 fails: the line mask `TIA_update_player_buffer` builds does
not depend on the reflect register REFPx at all (both arms of the test call
`TIA_reverse_byte`), so the two settings of bit 3 give the same mask for every
graphics byte.  For the byte 0x80: with REFP0 = 0x08 slot 8 is set, whereas
with REFP0 = 0 and the reversed byte 0x01 slot 8 is clear and slot 15 is set. -/
theorem C24_reflect_ignored :
    (∀ (x r : Nat) (tia : atari_tia),
      Except.map (fun t => (t.players x).line_buffer)
          (TIA_update_player_buffer x
            { tia with write_regs := Function.update tia.write_regs (reg_REFP x) r }) =
        Except.map (fun t => (t.players x).line_buffer) (TIA_update_player_buffer x tia)) ∧
    ∃ a b, TIA_update_player_buffer 0 (tia_player_example 0x80 0x08) = .ok a ∧
      TIA_update_player_buffer 0 (tia_player_example (reverse_bits 0x80) 0) = .ok b ∧
      (a.players 0).line_buffer 8 = 1 ∧ (b.players 0).line_buffer 8 = 0 ∧
      (b.players 0).line_buffer 15 = 1 := by
  refine ⟨TIA_update_player_buffer_reflect, ?_⟩
  obtain ⟨a, ha, ha2⟩ := TIA_update_player_buffer_one_copy 0 (by decide)
    (tia_player_example 0x80 0x08) 0 rfl (by decide) (by decide)
  obtain ⟨b, hb, hb2⟩ := TIA_update_player_buffer_one_copy 0 (by decide)
    (tia_player_example (reverse_bits 0x80) 0) 0 rfl (by decide) (by decide)
  refine ⟨a, b, ha, hb, ?_, ?_, ?_⟩
  · rw [ha2 8 (by decide)]; decide
  · rw [hb2 8 (by decide)]; decide
  · rw [hb2 15 (by decide)]; decide

/-- Claim C26 fails: a RESM0, RESM1 or RESBL strobe at colour clock 69
leaves the position 4294967295, the `uint32_t` value of 69 - 68 - 2, which is
not in [0, 160); a RESP0 or RESP1 strobe at a colour clock `c` in [196, 228)
stores `c - 68` in an `int8_t`, so that the position is `c - 324`, a negative
number, and the line mask is then written at index `c - 316`, before the
start of the buffer. -/
theorem C26_reset_position :
    (∀ (tia : atari_tia) (v : Nat), tia.colour_clock = 69 →
      (∀ x, x < 2 → ∃ t, TIA_write_register (reg_RESM x) v tia = .ok t ∧
        (t.missiles x).position_clock = 4294967295 ∧ (t.missiles x).horizontal_offset = 0) ∧
      ∃ t, TIA_write_register TIA_WRITE_REG_RESBL v tia = .ok t ∧
        t.ball.position_clock = 4294967295 ∧ t.ball.horizontal_offset = 0) ∧
    (∀ (tia : atari_tia) (v x : Nat), x < 2 → 196 ≤ tia.colour_clock → tia.colour_clock < 228 →
      TIA_write_register (reg_RESP x) v tia =
        .error ⟨.player_line_buffer, (tia.colour_clock : Int) - 316⟩) := by
  refine ⟨?_, fun tia v x hx h1 h2 => by
    rw [TIA_write_register_RESP x hx]; exact TIA_reset_player_overflow x hx tia h1 h2⟩
  intro tia v hc
  have hpos : u32 (((69 : Nat) : Int) - (TIA_COLOUR_CLOCK_HSYNC : Nat) - 2) = 4294967295 := by
    decide
  constructor
  · intro x hx
    rw [TIA_write_register_RESM x hx]
    unfold TIA_reset_missile
    rw [arr_get_ok _ _ _ _ hx, except_bind_ok, hc]
    simp only [if_pos (show (69 : Nat) > TIA_COLOUR_CLOCK_HSYNC by decide), hpos]
    by_cases hen : tia.write_regs (reg_ENAM x) = 0
    · exact ⟨_, TIA_update_missile_buffer_disabled x _ hx (by exact hen),
        by simp only [Function.update_same], by simp only [Function.update_same]⟩
    · unfold TIA_update_missile_buffer
      rw [arr_get_ok _ _ _ _ hx, except_bind_ok]
      unfold reg_ENAM at hen
      simp only [Function.update_same]
      rw [if_pos hen]
      have hn : ∀ w, w < 256 → (4294967295 + w) % 4294967296 - 4294967295 = 0 := by
        intro w hw; omega
      simp only [hn _ (Nat.mod_lt _ (by norm_num)), TIA_fill_loop_zero, except_bind_ok,
        except_pure]
      exact ⟨_, rfl, by simp only [Function.update_same], by simp only [Function.update_same]⟩
  · rw [TIA_write_register_RESBL]
    unfold TIA_reset_ball
    rw [hc]
    simp only [if_pos (show (69 : Nat) > TIA_COLOUR_CLOCK_HSYNC by decide), hpos]
    by_cases hen : tia.write_regs TIA_WRITE_REG_ENABL = 0
    · exact ⟨_, TIA_update_ball_buffer_disabled _ (by exact hen), rfl, rfl⟩
    · unfold TIA_update_ball_buffer
      rw [if_pos hen]
      have hn : ∀ w, w < 256 → (4294967295 + w) % 4294967296 - 4294967295 = 0 := by
        intro w hw; omega
      simp only [hn _ (Nat.mod_lt _ (by norm_num)), TIA_fill_loop_zero, except_bind_ok,
        except_pure]
      exact ⟨_, rfl, rfl, rfl⟩

/-- The instances of the claim's failing inputs: RESM0 at colour clock 69, RESP0
at colour clock 196. -/
theorem C26_reset_position_witness :
    (∃ t, TIA_write_register TIA_WRITE_REG_RESM0 0 (tia_objects_example 69 0 0) = .ok t ∧
      (t.missiles 0).position_clock = 4294967295) ∧
    TIA_write_register TIA_WRITE_REG_RESP0 0 (tia_objects_example 196 0 0) =
      .error ⟨.player_line_buffer, -120⟩ := by
  refine ⟨?_, C26_reset_position.2 (tia_objects_example 196 0 0) 0 0 (by decide) (by decide)
    (by decide)⟩
  obtain ⟨t, h1, h2, _⟩ := (C26_reset_position.1 (tia_objects_example 69 0 0) 0 rfl).1 0
    (by decide)
  exact ⟨t, h1, h2⟩

/-- Claim C27 fails: a write of `v` to RESMPx stores the byte and copies
the player's position into the missile when bit 0 of `v` is set, not bit 1;
the missile keeps its position when bit 0 is clear.  (The write succeeds when
the missile is disabled or its mask fits on the line.) -/
theorem C27_resmp_bit0 (x : Nat) (hx : x < 2) (v : Nat) (tia : atari_tia)
    (hfit : tia.write_regs (reg_ENAM x) = 0 ∨
      (if v &&& 0b01 ≠ 0 then u32 (tia.players x).position_clock
        else (tia.missiles x).position_clock) +
        (1 <<< (tia.write_regs (reg_NUSIZ x) >>> 4)) % 256 ≤ 160) :
    ∃ t, TIA_write_register (reg_RESMP x) v tia = .ok t ∧
      t.write_regs (reg_RESMP x) = v % 256 ∧
      (t.missiles x).position_clock =
        if v &&& 0b01 ≠ 0 then u32 (tia.players x).position_clock
        else (tia.missiles x).position_clock := by
  have hlen : reg_RESMP x < TIA_WRITE_REG_LEN := by
    unfold reg_RESMP; split_ifs <;> decide
  have hne1 : reg_ENAM x ≠ reg_RESMP x := by
    unfold reg_ENAM reg_RESMP TIA_get_missile_registers; split_ifs <;> decide
  have hne2 : reg_NUSIZ x ≠ reg_RESMP x := by
    unfold reg_NUSIZ reg_RESMP TIA_get_player_registers; split_ifs <;> decide
  rw [TIA_write_register_RESMP x hx, TIA_set_write_reg_ok _ _ _ hlen, except_bind_ok]
  by_cases hv : v &&& 0b01 ≠ 0
  · rw [if_pos hv] at hfit ⊢
    rw [if_pos hv]
    obtain ⟨t, h1, h2, h3⟩ := TIA_update_missile_buffer_position x
      { ({ tia with write_regs := Function.update tia.write_regs (reg_RESMP x) (v % 256) } :
          atari_tia) with
        missiles := Function.update tia.missiles x { tia.missiles x with
          position_clock := u32 (tia.players x).position_clock } } hx
      (by simp only [Function.update_noteq hne1, Function.update_noteq hne2,
            Function.update_same]; exact hfit)
    refine ⟨t, h1, ?_, ?_⟩
    · rw [h2]; simp only [Function.update_same]
    · rw [h3]; simp only [Function.update_same]
  · rw [if_neg hv] at hfit ⊢
    rw [if_neg hv]
    obtain ⟨t, h1, h2, h3⟩ := TIA_update_missile_buffer_position x
      { tia with write_regs := Function.update tia.write_regs (reg_RESMP x) (v % 256) } hx
      (by simp only [Function.update_noteq hne1, Function.update_noteq hne2]; exact hfit)
    refine ⟨t, h1, ?_, h3⟩
    rw [h2]; simp only [Function.update_same]

/-- The instances of the claim's example: with player 0 at position 40 and
missile 0 at position 10, the byte 0x02 (bit 1 set) leaves the missile at 10,
and the byte 0x01 (bit 1 clear) moves it to 40. -/
theorem C27_resmp_bit0_witness :
    (∃ t, TIA_write_register TIA_WRITE_REG_RESMP0 0x02 tia_resmp_example = .ok t ∧
      t.write_regs TIA_WRITE_REG_RESMP0 = 0x02 ∧ (t.missiles 0).position_clock = 10) ∧
    ∃ t, TIA_write_register TIA_WRITE_REG_RESMP0 0x01 tia_resmp_example = .ok t ∧
      t.write_regs TIA_WRITE_REG_RESMP0 = 0x01 ∧ (t.missiles 0).position_clock = 40 :=
  ⟨C27_resmp_bit0 0 (by decide) 0x02 tia_resmp_example (Or.inl rfl),
   C27_resmp_bit0 0 (by decide) 0x01 tia_resmp_example (Or.inl rfl)⟩

/-- Claim C28 fails: when an object's offset `h` exceeds its position `p`
the HMOVE strobe (colour clock below 68) does not wrap to `p - h + 160`: the
players, whose position is an `int8_t` and whose remainder is taken on `int`,
get the negative position `p - h`; the missiles and the ball, whose position
is a `uint32_t`, get `p - h + 4294967296` reduced modulo 160, which is
`p + 96 - h`.  The other half of the claim holds: at a colour clock of 68 or
more the strobe changes nothing. -/
theorem C28_hmove_underflow (tia : atari_tia) (v p : Nat) (h : Int)
    (hc : tia.colour_clock < 68) (hobj : objects_at tia p h) (hp : p < 160)
    (hlt : (p : Int) < h) (hh : h ≤ 7) :
    (∃ t, TIA_write_register TIA_WRITE_REG_HMOVE v tia = .ok t ∧
      (t.players 0).position_clock = p - h ∧ (t.players 1).position_clock = p - h ∧
      ((t.missiles 0).position_clock : Int) = p + 96 - h ∧
      ((t.missiles 1).position_clock : Int) = p + 96 - h ∧
      (t.ball.position_clock : Int) = p + 96 - h) ∧
    ∀ (s : atari_tia) (w : Nat), 68 ≤ s.colour_clock →
      TIA_write_register TIA_WRITE_REG_HMOVE w s = .ok s := by
  refine ⟨?_, fun s w hs => TIA_write_register_HMOVE_visible w s hs⟩
  obtain ⟨a1, a2, b1, b2, c1, c2, d1, d2, e1, e2⟩ := hobj
  have hpl : i8 (c_rem ((p : Int) - h) 160) = p - h := by
    have hk : -7 ≤ (p : Int) - h ∧ (p : Int) - h ≤ -1 := by omega
    generalize (p : Int) - h = k at hk
    obtain ⟨k1, k2⟩ := hk
    interval_cases k <;> rfl
  have hmi : ((u32 ((p : Int) - h) % 160 : Nat) : Int) = p + 96 - h := by
    unfold u32
    omega
  rw [TIA_write_register_HMOVE, if_pos (by simp only [TIA_COLOUR_CLOCK_HSYNC]; exact hc)]
  refine ⟨_, rfl, ?_, ?_, ?_, ?_, ?_⟩
  · simp only [TIA_apply_HMOVE, Function.update_same,
      Function.update_noteq (show (0 : Nat) ≠ 1 by decide), a1, a2, hpl]
  · simp only [TIA_apply_HMOVE, Function.update_same, b1, b2, hpl]
  · simp only [TIA_apply_HMOVE, Function.update_same,
      Function.update_noteq (show (0 : Nat) ≠ 1 by decide), c1, c2, hmi]
  · simp only [TIA_apply_HMOVE, Function.update_same, d1, d2, hmi]
  · simp only [TIA_apply_HMOVE, e1, e2, hmi]

/-- The witness of the claim: position 0 and offset 3 give -3 for the players
and 93 for the missiles and the ball, not 157. -/
theorem C28_hmove_underflow_witness :
    ∃ t, TIA_write_register TIA_WRITE_REG_HMOVE 0 (tia_objects_example 0 0 3) = .ok t ∧
      (t.players 0).position_clock = -3 ∧ (t.players 1).position_clock = -3 ∧
      ((t.missiles 0).position_clock : Int) = 93 ∧
      ((t.missiles 1).position_clock : Int) = 93 ∧
      (t.ball.position_clock : Int) = 93 :=
  (C28_hmove_underflow (tia_objects_example 0 0 3) 0 0 3 (by decide) (by decide) (by decide)
    (by decide) (by decide)).1

/-- Claim C29 fails: the width of an enabled missile or ball is 1 shifted
left by the whole upper nibble of the register (bits 4 to 7), kept in a
`uint8_t`, so that it need not be one of 1, 2, 4, 8; when the mask fits on the
line, exactly the slots `position .. position + width - 1` are set. -/
theorem C29_width_upper_nibble (x : Nat) (hx : x < 2) (tia : atari_tia)
    (hm : tia.write_regs (reg_ENAM x) ≠ 0)
    (hmfit : (tia.missiles x).position_clock +
      (1 <<< (tia.write_regs (reg_NUSIZ x) >>> 4)) % 256 ≤ 160)
    (hb : tia.write_regs TIA_WRITE_REG_ENABL ≠ 0)
    (hbfit : tia.ball.position_clock +
      (1 <<< (tia.write_regs TIA_WRITE_REG_CTRLPF >>> 4)) % 256 ≤ 160) :
    (∃ t, TIA_update_missile_buffer x tia = .ok t ∧
      (t.missiles x).width = (1 <<< (tia.write_regs (reg_NUSIZ x) >>> 4)) % 256 ∧
      ∀ j, j < 160 → (t.missiles x).line_buffer j =
        if (tia.missiles x).position_clock ≤ j ∧
          j < (tia.missiles x).position_clock + (t.missiles x).width then 1 else 0) ∧
    ∃ t, TIA_update_ball_buffer tia = .ok t ∧
      t.ball.width = (1 <<< (tia.write_regs TIA_WRITE_REG_CTRLPF >>> 4)) % 256 ∧
      ∀ j, j < 160 → t.ball.line_buffer j =
        if tia.ball.position_clock ≤ j ∧ j < tia.ball.position_clock + t.ball.width then 1
        else 0 := by
  constructor
  · refine ⟨_, TIA_update_missile_buffer_enabled x tia hx hm hmfit, ?_, ?_⟩
    · simp only [Function.update_same]
    · intro j hj
      simp only [Function.update_same, fill_line_mask, hj, if_true]
  · refine ⟨_, TIA_update_ball_buffer_enabled tia hb hbfit, rfl, ?_⟩
    intro j hj
    simp only [fill_line_mask, hj, if_true]

/-- The witness of the claim: NUSIZ0 = 0x40 and CTRLPF = 0x40 (bits 4 and 5
clear) give width 16 and sixteen slots set, where the claim has width 1.  A
mask that does not fit is not clipped: at position 158 with width 8
(NUSIZ0 = 0x30) the loop writes `line_buffer[160]`. -/
theorem C29_width_upper_nibble_witness :
    (∃ t, TIA_update_missile_buffer 0 (tia_missile_example 0x40 0x40 0) = .ok t ∧
      (t.missiles 0).width = 16 ∧
      ∀ j, j < 160 → (t.missiles 0).line_buffer j = if j < 16 then 1 else 0) ∧
    (∃ t, TIA_update_ball_buffer (tia_missile_example 0x40 0x40 0) = .ok t ∧
      t.ball.width = 16 ∧ ∀ j, j < 160 → t.ball.line_buffer j = if j < 16 then 1 else 0) ∧
    Except.map (fun t => (t.missiles 0).width)
      (TIA_update_missile_buffer 0 (tia_missile_example 0x30 0 158)) =
        .error ⟨.missile_line_buffer, 160⟩ := by
  obtain ⟨⟨t, h1, h2, h3⟩, ⟨b, k1, k2, k3⟩⟩ := C29_width_upper_nibble 0 (by decide)
    (tia_missile_example 0x40 0x40 0) (by decide) (by decide) (by decide) (by decide)
  have hw : (1 <<< ((tia_missile_example 0x40 0x40 0).write_regs (reg_NUSIZ 0) >>> 4)) % 256
      = 16 := by decide
  have hv : (1 <<< ((tia_missile_example 0x40 0x40 0).write_regs TIA_WRITE_REG_CTRLPF >>> 4))
      % 256 = 16 := by decide
  rw [hw] at h2
  rw [hv] at k2
  have e1 : ((tia_missile_example 0x40 0x40 0).missiles 0).position_clock = 0 := rfl
  have e2 : (tia_missile_example 0x40 0x40 0).ball.position_clock = 0 := rfl
  refine ⟨⟨t, h1, h2, ?_⟩, ⟨b, k1, k2, ?_⟩, by decide!⟩
  · intro j hj
    rw [h3 j hj, h2, e1]
    simp only [Nat.zero_le, true_and, Nat.zero_add]
  · intro j hj
    rw [k3 j hj, k2, e2]
    simp only [Nat.zero_le, true_and, Nat.zero_add]

/-- Claim C30 fails: a `TIA_clock_tick` at a visible colour clock assigns
each of the eight collision registers the value computed from the samples of
this pixel alone, whatever the register held: a bit that was 1 is cleared by
the next pixel without that collision.  The last part of the claim holds: a
write to CXCLR succeeds and leaves all eight registers at 0. -/
theorem C30_latches_overwritten (tia : atari_tia) (h1 : 68 < tia.colour_clock)
    (h2 : tia.colour_clock < 228) (hregs : ∀ r, tia.write_regs r < 256) :
    (∃ t, TIA_clock_tick tia = .ok ((tia.colour_clock : Int) + 1, t) ∧
      ∀ k, k < 8 → TIA_read_register k t = .ok (collision_latch k
        (line_sample (tia.missiles 0).line_buffer (tia.colour_clock - 68))
        (line_sample (tia.missiles 1).line_buffer (tia.colour_clock - 68))
        (line_sample (tia.players 0).line_buffer (tia.colour_clock - 68))
        (line_sample (tia.players 1).line_buffer (tia.colour_clock - 68))
        (line_sample tia.ball.line_buffer (tia.colour_clock - 68))
        (line_sample tia.playfield.line_buffer (tia.colour_clock - 68)) % 256)) ∧
    ∀ (s : atari_tia) (w : Nat), ∃ t, TIA_write_register TIA_WRITE_REG_CXCLR w s = .ok t ∧
      ∀ k, k < 8 → TIA_read_register k t = .ok 0 := by
  refine ⟨?_, fun s w => TIA_write_register_CXCLR w s⟩
  obtain ⟨g, g1, _, g3, _, _, g6, _⟩ := TIA_generate_colour_state tia (by omega) h2 hregs
  have e : (tia.colour_clock + 1) % 4294967296 = tia.colour_clock + 1 := by omega
  have e2 : i32 ((tia.colour_clock + 1 : Nat) : Int) = (tia.colour_clock : Int) + 1 := by
    unfold i32; omega
  refine ⟨{ g with colour_clock := tia.colour_clock + 1 }, ?_, fun k hk => ?_⟩
  · rw [TIA_clock_tick_visible tia h1 h2, g1, except_bind_ok, except_pure, g6, e, e2]
  · unfold TIA_read_register
    rw [arr_get_ok _ _ _ _ (by simp only [TIA_READ_REG_LEN]; omega)]
    exact congrArg Except.ok (g3 k hk)

/-- The witness of the claim: the eight collision registers hold 0xC0 (bits 7
and 6 set); one tick at colour clock 100, where no object is drawn, leaves all
eight at 0, without any write to CXCLR. -/
theorem C30_latches_overwritten_witness :
    (∀ k, k < 8 → TIA_read_register k (tia_latched_example 100) = .ok 0xC0) ∧
    ∃ t, TIA_clock_tick (tia_latched_example 100) = .ok (101, t) ∧
      ∀ k, k < 8 → TIA_read_register k t = .ok 0 := by
  refine ⟨by decide, ?_⟩
  obtain ⟨t, h1, h2⟩ := (C30_latches_overwritten (tia_latched_example 100) (by decide)
    (by decide) (tia_latched_example_regs 100)).1
  refine ⟨t, h1, fun k hk => ?_⟩
  rw [h2 k hk]
  interval_cases k <;> decide

/-- Claim C31 fails for CXM0P: `TIA_generate_colour` at a visible colour clock
succeeds and assigns the seven registers CXM1P .. CXPPMM the pairs of the
table, but it assigns CXM0P the value `((P0 & P1) << 7) | ((M0 & M0) << 6)`:
bit 7 is the overlap of the two players, not of missile 0 and player 1, and
bit 6 is the sample of missile 0 alone, not its overlap with player 0. -/
theorem C31_collision_pairs (tia : atari_tia) (h1 : 68 ≤ tia.colour_clock)
    (h2 : tia.colour_clock < 228) (hregs : ∀ r, tia.write_regs r < 256) :
    ∃ t, TIA_generate_colour tia = .ok t ∧
      (∀ k, 1 ≤ k → k < 8 → t.read_regs k = collision_table k
        (line_sample (tia.missiles 0).line_buffer (tia.colour_clock - 68))
        (line_sample (tia.missiles 1).line_buffer (tia.colour_clock - 68))
        (line_sample (tia.players 0).line_buffer (tia.colour_clock - 68))
        (line_sample (tia.players 1).line_buffer (tia.colour_clock - 68))
        (line_sample tia.ball.line_buffer (tia.colour_clock - 68))
        (line_sample tia.playfield.line_buffer (tia.colour_clock - 68))) ∧
      t.read_regs TIA_READ_REG_CXM0P =
        (((line_sample (tia.players 0).line_buffer (tia.colour_clock - 68)) &&&
          (line_sample (tia.players 1).line_buffer (tia.colour_clock - 68))) <<< 7) |||
        ((line_sample (tia.missiles 0).line_buffer (tia.colour_clock - 68)) <<< 6) := by
  obtain ⟨g, g1, _, g3, _⟩ := TIA_generate_colour_state tia h1 h2 hregs
  refine ⟨g, g1, fun k hk1 hk => ?_, ?_⟩
  · rw [g3 k hk]
    exact collision_latch_table k _ _ _ _ _ _ hk1 hk (line_sample_bit _ _) (line_sample_bit _ _)
      (line_sample_bit _ _) (line_sample_bit _ _) (line_sample_bit _ _) (line_sample_bit _ _)
  · rw [g3 TIA_READ_REG_CXM0P (by decide)]
    exact collision_latch_CXM0P _ _ _ _ _ _ (line_sample_bit _ _) (line_sample_bit _ _)
      (line_sample_bit _ _)

/-- Claim C31, failing input: at colour clock 100 only missile 0 covers the
pixel; no player does.  The table gives CXM0P = 0 for these samples, the code
leaves 0x40 (bit 6) in CXM0P. -/
theorem C31_collision_pairs_witness :
    collision_table TIA_READ_REG_CXM0P 1 0 0 0 0 0 = 0 ∧
    ∃ t, TIA_generate_colour (tia_missile0_example 100) = .ok t ∧
      t.read_regs TIA_READ_REG_CXM0P = 0x40 ∧
      ∀ k, 1 ≤ k → k < 8 → t.read_regs k = 0 := by
  refine ⟨by decide, ?_⟩
  obtain ⟨t, h1, h2, h3⟩ := C31_collision_pairs (tia_missile0_example 100) (by decide)
    (by decide) (tia_missile0_example_regs 100)
  refine ⟨t, h1, ?_, fun k hk1 hk => ?_⟩
  · rw [h3]; decide
  · rw [h2 k hk1 hk]
    interval_cases k <;> decide

/-- Claim C32: from a state at a colour clock `c` below 228 (the write
registers holding bytes and, if `c` is at most 68, the objects lying on the
line, so that the ticks are defined), a write of any value to WSYNC succeeds
and leaves the colour clock; for every `k` up to 228 - c, the next `k`
iterations of the loop of `main_loop` tick the TIA `k` times, call neither
`mos6532_clock_tick` nor `mos6507_clock_tick` (every iteration yields `none`,
and only the TIA has changed), and leave `TIA_get_WSYNC` at 1.  The iteration
after these 228 - c takes the colour clock through 0 to 1 and clears WSYNC, and
the one after it calls `mos6532_clock_tick` and `mos6507_clock_tick`. -/
theorem C32_wsync_stall (s : Atari) (v : Nat) (hc : s.tia.colour_clock < 228)
    (hregs : ∀ r, s.tia.write_regs r < 256)
    (hfit : s.tia.colour_clock ≤ 68 → objects_fit s.tia) :
    ∃ t0, TIA_write_register TIA_WRITE_REG_WSYNC v s.tia = .ok t0 ∧
      t0.colour_clock = s.tia.colour_clock ∧
      (∀ k, k ≤ 228 - s.tia.colour_clock →
        ∃ t, main_loop_for k { s with tia := t0 } =
            .ok (List.replicate k none, { s with tia := t }) ∧
          t.colour_clock = s.tia.colour_clock + k ∧ TIA_get_WSYNC t = 1) ∧
      ∃ t1, main_loop_for (228 - s.tia.colour_clock + 1) { s with tia := t0 } =
          .ok (List.replicate (228 - s.tia.colour_clock) none ++ [none],
            { s with tia := t1 }) ∧
        t1.colour_clock = 1 ∧ TIA_get_WSYNC t1 = 0 ∧
        main_loop_step { s with tia := t1 } =
          emu_then (mos6507_clock_tick
            { s with tia := { t1 with colour_clock := 2 }, riot := mos6532_clock_tick s.riot })
            (fun r s1 => .ok (some r, s1)) := by
  have hr0 : ∀ r, (Function.update s.tia.write_regs TIA_WRITE_REG_WSYNC 1) r < 256 := by
    intro r
    by_cases h : r = TIA_WRITE_REG_WSYNC
    · rw [h, Function.update_same]; decide
    · rw [Function.update_noteq h]; exact hregs r
  have hf0 : s.tia.colour_clock ≤ 68 → objects_fit
      { s.tia with write_regs := Function.update s.tia.write_regs TIA_WRITE_REG_WSYNC 1 } :=
    fun h => objects_fit_write_regs s.tia _ rfl rfl rfl
      (fun r hr => Function.update_noteq hr _ _) (hfit h)
  have hw0 : TIA_get_WSYNC
      { s.tia with write_regs := Function.update s.tia.write_regs TIA_WRITE_REG_WSYNC 1 } ≠ 0 := by
    unfold TIA_get_WSYNC
    simp only [Function.update_same]
    decide
  have hget : ∀ t : atari_tia,
      t.write_regs = Function.update s.tia.write_regs TIA_WRITE_REG_WSYNC 1 →
      TIA_get_WSYNC t = 1 := by
    intro t ht
    unfold TIA_get_WSYNC
    rw [ht, Function.update_same]
    rfl
  refine ⟨_, TIA_write_register_WSYNC v s.tia, rfl, fun k hk => ?_, ?_⟩
  · obtain ⟨t, h1, h2, h3⟩ := main_loop_for_stalled k 0
      { s with tia :=
        { s.tia with write_regs := Function.update s.tia.write_regs TIA_WRITE_REG_WSYNC 1 } }
      (by show s.tia.colour_clock + k ≤ 228; omega) hr0 hf0 hw0
    refine ⟨t, ?_, h2, hget t h3⟩
    rw [Nat.add_zero] at h1
    rw [h1]
    show Except.ok (List.replicate k none ++ [], _) = _
    rw [List.append_nil]
  · obtain ⟨t, h1, h2, h3⟩ := main_loop_for_stalled (228 - s.tia.colour_clock) 1
      { s with tia :=
        { s.tia with write_regs := Function.update s.tia.write_regs TIA_WRITE_REG_WSYNC 1 } }
      (by show s.tia.colour_clock + (228 - s.tia.colour_clock) ≤ 228; omega) hr0 hf0 hw0
    have hcc : t.colour_clock = 228 := by
      rw [h2]; show s.tia.colour_clock + (228 - s.tia.colour_clock) = 228; omega
    obtain ⟨t1, w1, w2, w3⟩ := TIA_clock_tick_wrap t (by omega)
    have hw1 : TIA_get_WSYNC t1 = 0 := by
      unfold TIA_get_WSYNC
      rw [w3]
      rfl
    have hstep : main_loop_step { s with tia := t } = .ok (none, { s with tia := t1 }) :=
      main_loop_step_skip { s with tia := t } 1 t1 w1 (by decide)
    have hone : main_loop_for 1 { s with tia := t } = .ok ([none], { s with tia := t1 }) := by
      rw [main_loop_for_succ 0 _ _ hstep]
      rfl
    refine ⟨t1, ?_, w2, hw1, ?_⟩
    · rw [h1, hone, emu_then_ok]
    · have hb := TIA_clock_tick_blank t1 (by omega)
      rw [w2] at hb
      have hw2 : TIA_get_WSYNC { t1 with colour_clock := 1 + 1 } = 0 := hw1
      exact main_loop_step_cpu { s with tia := t1 } _ _ hb hw2 (by decide)

/-- The witness of the claim: after the set-up of `main` (colour clock 0) and a
write to WSYNC, 228 iterations of the loop yield `none` each and leave colour
clock 228 with WSYNC set; the 229th takes the colour clock to 1 and clears
WSYNC. -/
theorem C32_wsync_stall_witness :
    ∃ t0 t t1, TIA_write_register TIA_WRITE_REG_WSYNC 0 (booted (program_image [0xEA])).tia =
        .ok t0 ∧
      main_loop_for 228 { booted (program_image [0xEA]) with tia := t0 } =
        .ok (List.replicate 228 none, { booted (program_image [0xEA]) with tia := t }) ∧
      t.colour_clock = 228 ∧ TIA_get_WSYNC t = 1 ∧
      main_loop_for 229 { booted (program_image [0xEA]) with tia := t0 } =
        .ok (List.replicate 228 none ++ [none],
          { booted (program_image [0xEA]) with tia := t1 }) ∧
      t1.colour_clock = 1 ∧ TIA_get_WSYNC t1 = 0 := by
  obtain ⟨t0, h0, _, h1, t1, h2, h3, h4, _⟩ := C32_wsync_stall (booted (program_image [0xEA])) 0
    (by decide) (booted_tia_regs _) (fun _ => by decide)
  obtain ⟨t, g1, g2, g3⟩ := h1 228 (by decide)
  exact ⟨t0, t, t1, h0, g1, g2, g3, h2, h3, h4⟩

/-- Claim C33 fails for TIM1024T: a write of the byte `v` to TIM1T, TIM8T or
TIM64T (divisor `d` = 1, 8, 64) sets the interval count to `d`, the counter to
`v` and `fired` to 0, and INTIM reads `v - k` after `k * d` clock ticks, for
1 <= k <= v.  A write to TIM1024T stores the divisor 1024 in the 8-bit
interval count, which then holds 0: the counter is decremented every 256
clock ticks, and INTIM reads `v - k` after `k * 256` ticks already. -/
theorem C33_timer_divisors (riot : mos6532) (v k data : Nat) (hv : v < 256) (hk1 : 1 ≤ k)
    (hk : k ≤ v) :
    (∃ r, mos6532_write MOS6532_MEMMAP_TIM1T v riot = .ok (0, r) ∧ r.timer = ⟨v, 1, 0, 1⟩ ∧
      mos6532_read MOS6532_MEMMAP_INTIM data (mos6532_clock_ticks (k * 1) r) = .ok (0, v - k)) ∧
    (∃ r, mos6532_write MOS6532_MEMMAP_TIM8T v riot = .ok (0, r) ∧ r.timer = ⟨v, 8, 0, 8⟩ ∧
      mos6532_read MOS6532_MEMMAP_INTIM data (mos6532_clock_ticks (k * 8) r) = .ok (0, v - k)) ∧
    (∃ r, mos6532_write MOS6532_MEMMAP_TIM64T v riot = .ok (0, r) ∧ r.timer = ⟨v, 64, 0, 64⟩ ∧
      mos6532_read MOS6532_MEMMAP_INTIM data (mos6532_clock_ticks (k * 64) r) = .ok (0, v - k)) ∧
    (∃ r, mos6532_write MOS6532_MEMMAP_TIM1024T v riot = .ok (0, r) ∧
      r.timer = ⟨v, 0, 0, 1024⟩ ∧
      mos6532_read MOS6532_MEMMAP_INTIM data (mos6532_clock_ticks (k * 256) r) =
        .ok (0, v - k)) := by
  have hw := mos6532_write_timer v riot
  have key : ∀ d n, (d = 1 ∨ d = 8 ∨ d = 64 ∨ d = 1024) →
      n = (if d % 256 = 0 then 256 else d % 256) →
      (mos6532_set_timer d v riot).timer = ⟨v, d % 256, 0, d⟩ ∧
      mos6532_read MOS6532_MEMMAP_INTIM data
        (mos6532_clock_ticks (k * n) (mos6532_set_timer d v riot)) = .ok (0, v - k) := by
    intro d n hd hn
    refine ⟨mos6532_set_timer_timer d v riot hv, ?_⟩
    rw [mos6532_read_INTIM, (mos6532_timer_run riot v d n hd hn hv (by omega)).1 k hk]
  exact ⟨⟨_, hw.1, key 1 1 (by decide) (by decide)⟩, ⟨_, hw.2.1, key 8 8 (by decide) (by decide)⟩,
    ⟨_, hw.2.2.1, key 64 64 (by decide) (by decide)⟩,
    ⟨_, hw.2.2.2, key 1024 256 (by decide) (by decide)⟩⟩

/-- Claim C33, failing input: TIM1024T = 4 after `mos6532_init`.  The interval
count is 0 after the write, and INTIM reads 0 after 4 * 256 = 1024 clock
ticks, where the claim has 4 - 1 = 3. -/
theorem C33_timer_divisors_witness :
    ∃ r, mos6532_write MOS6532_MEMMAP_TIM1024T 4 (mos6532_init power_on.riot) = .ok (0, r) ∧
      r.timer = ⟨4, 0, 0, 1024⟩ ∧
      mos6532_read MOS6532_MEMMAP_INTIM 0 (mos6532_clock_ticks (4 * 256) r) = .ok (0, 4 - 4) :=
  (C33_timer_divisors (mos6532_init power_on.riot) 4 4 0 (by decide) (by decide)
    (by decide)).2.2.2

/-- Claim C35 fails in two cases.  For each of the eight branch opcodes,
fetched from cartridge space with no instruction in flight, every PC and every
offset byte with the branch condition true, the instruction completes (any
fuel of at least four) and PC ends at next + signed8(offset) mod 65536, except
that for the offset byte 0x80 it ends at the address of the next instruction,
and for BVS (0x70) with the target on another page it ends one byte past the
target. -/
theorem C35_branch_destination (fuel : Nat) (s : Atari) (image : Nat → Nat) (op : Nat)
    (hfuel : 4 ≤ fuel) (hcart : s.cartridge = some image)
    (hidle : s.cpu.current_instruction = 0) (hcyc : s.cycle = 0)
    (hab : s.cpu.address_bus = s.cpu.PC) (hpc : s.cpu.PC < 65536)
    (hp1 : 0x1000 ≤ s.cpu.PC % 8192) (hp2 : s.cpu.PC % 8192 + 1 < 8192)
    (hop : op ∈ [0x10, 0x30, 0x50, 0x70, 0x90, 0xB0, 0xD0, 0xF0])
    (hb : image (s.cpu.PC % 8192 - 0x1000) % 256 = op)
    (htaken : branch_taken op s.cpu.P = true) :
    ∃ n s', run_instruction fuel s = .ok (some n, s') ∧
      s'.cpu.PC =
        if image (s.cpu.PC % 8192 + 1 - 0x1000) % 256 = 0x80 then (s.cpu.PC + 2) % 65536
        else if op = 0x70 ∧ NOT_SAME_PAGE ((s.cpu.PC + 2) % 65536)
          (branch_target ((s.cpu.PC + 2) % 65536) (image (s.cpu.PC % 8192 + 1 - 0x1000) % 256))
            ≠ 0
        then (branch_target ((s.cpu.PC + 2) % 65536)
          (image (s.cpu.PC % 8192 + 1 - 0x1000) % 256) + 1) % 65536
        else branch_target ((s.cpu.PC + 2) % 65536)
          (image (s.cpu.PC % 8192 + 1 - 0x1000) % 256) := by
  obtain ⟨⟨ra, ry, rx, pc, sp, rp, ci, cc, ab, db⟩, riot, tia, cart, cyc, st⟩ := s
  simp only at hcart hidle hcyc hab hpc hp1 hp2 hb htaken ⊢
  have hab' := hab.symm
  subst hcart hidle hcyc hab'
  obtain ⟨f, rfl⟩ := Nat.exists_eq_add_of_le' hfuel
  have hfn : ∃ fn, (op, fn) ∈ [(0x10, opcode_fn.BPL), (0x30, .BMI), (0x50, .BVC),
      (0x70, .BVS), (0x90, .BCC), (0xB0, .BCS), (0xD0, .BNE), (0xF0, .BEQ)] := by
    simp only [List.mem_cons, List.mem_singleton, List.not_mem_nil, or_false] at hop
    rcases hop with rfl | rfl | rfl | rfl | rfl | rfl | rfl | rfl
    · exact ⟨.BPL, by decide⟩
    · exact ⟨.BMI, by decide⟩
    · exact ⟨.BVC, by decide⟩
    · exact ⟨.BVS, by decide⟩
    · exact ⟨.BCC, by decide⟩
    · exact ⟨.BCS, by decide⟩
    · exact ⟨.BNE, by decide⟩
    · exact ⟨.BEQ, by decide⟩
  obtain ⟨fn, hfn⟩ := hfn
  obtain ⟨s', r, hPC⟩ := branch_run f op fn image ra ry rx pc sp rp cc db riot tia st hfn hpc hp1
    hp2 hb
  refine ⟨_, s', r, ?_⟩
  rw [hPC, if_neg (by rw [htaken]; decide)]
  by_cases h80 : image (pc % 8192 + 1 - 0x1000) % 256 = 0x80
  · rw [if_pos h80, h80]
    simp only [computed_target, ite_true, NOT_SAME_PAGE_self]
  · rw [if_neg h80]
    simp only [computed_target, h80, ite_false]
    by_cases hpg : NOT_SAME_PAGE ((pc + 2) % 65536)
        (branch_target ((pc + 2) % 65536) (image (pc % 8192 + 1 - 0x1000) % 256)) = 0
    · rw [if_pos hpg, if_neg (by intro h; exact h.2 hpg)]
    · rw [if_neg hpg]
      by_cases h70 : op = 0x70
      · rw [if_pos h70, if_pos ⟨h70, hpg⟩]
      · rw [if_neg h70, if_neg (by intro h; exact h70 h.1)]

/-- Claim C35, failing inputs: BNE with the offset byte 0x80 at 0x1234 (Z
clear) ends with PC = 0x1236, where next - 128 is 0x11B6; BVS with the offset
byte 0xC0 at 0x1234 (V set) ends with PC = 0x11F7, where next - 64 is
0x11F6. -/
theorem C35_branch_destination_witness :
    (∃ n s', run_instruction 4 (booted (program_image [0xD0, 0x80])) = .ok (some n, s') ∧
      s'.cpu.PC = 0x1236) ∧ branch_target 0x1236 0x80 = 0x11B6 ∧
    (∃ n s', run_instruction 4 (booted_status (program_image [0x70, 0xC0]) 0x44) =
      .ok (some n, s') ∧ s'.cpu.PC = 0x11F7) ∧ branch_target 0x1236 0xC0 = 0x11F6 := by
  obtain ⟨n, s', h, hpc⟩ := C35_branch_destination 4 (booted (program_image [0xD0, 0x80]))
    (program_image [0xD0, 0x80]) 0xD0 (by decide) rfl rfl rfl rfl (by decide) (by decide)
    (by decide) (by decide) (by decide) (by decide)
  obtain ⟨m, t', g, gpc⟩ := C35_branch_destination 4
    (booted_status (program_image [0x70, 0xC0]) 0x44)
    (program_image [0x70, 0xC0]) 0x70 (by decide) rfl rfl rfl rfl (by decide) (by decide)
    (by decide) (by decide) (by decide) (by decide)
  refine ⟨⟨n, s', h, ?_⟩, by decide, ⟨m, t', g, ?_⟩, by decide⟩
  · rw [hpc]; decide
  · rw [gpc]; decide

/-- Claim C36 fails at the byte 0xFF: `ISA_table` has `ISA_LENGTH` = 255
entries, which `opcode_populate_ISA_table` initialises all, so the lookup is
inside the table for every byte below 0xFF, and `ISA_table[0xFF]` is one past
its end, in `opcode_validate`, in `opcode_execute`, and in the first
`mos6507_clock_tick` of a cartridge whose first opcode is 0xFF. -/
theorem C36_table_bound :
    ISA_table.length = ISA_LENGTH ∧ ISA_LENGTH = 255 ∧
    (∀ b, b < 255 → ∃ e, ISA_table_get b = .ok e ∧ opcode_validate b =
      .ok (if e.opcode = .ILL then -1 else 0)) ∧
    ISA_table_get 0xFF = .error ⟨.ISA_table, 255⟩ ∧
    opcode_validate 0xFF = .error ⟨.ISA_table, 255⟩ ∧
    (∀ s, opcode_execute 0xFF s = .error ⟨.ISA_table, 255⟩) ∧
    cpu_after (program_image [0xFF]) 1 = .error ⟨.ISA_table, 255⟩ := by
  set_option maxRecDepth 1000000 in
  exact ⟨by decide!, rfl, ISA_table_get_ok, by decide!, by decide!, opcode_execute_0xFF,
    by decide!⟩

/-- Claim C37 fails: `memmap_write` and `memmap_read` pass the whole mapped
address 0x00..0x7F as the register code.  A write at a mapped address `a` in
[0x2D, 0x7F] reaches `tia.write_regs[a]`, past the 45 entries; a read at `a`
in [0x0E, 0x7F] reaches `tia.read_regs[a]`, past the 14 entries; a read below
0x0E returns `read_regs[a]` and puts it on the data bus. -/
theorem C37_register_code (s : Atari) (d a : Nat)
    (ha : memmap_map_address (mos6507_get_address_bus s.cpu) = a) (h7 : a ≤ 0x7F) :
    (45 ≤ a → memmap_write s = .error ⟨.tia_write_regs, a⟩) ∧
    (14 ≤ a → memmap_read d s = .error ⟨.tia_read_regs, a⟩) ∧
    (a < 14 → memmap_read d s =
      .ok (s.tia.read_regs a,
        { s with cpu := mos6507_set_data_bus (s.tia.read_regs a) s.cpu })) :=
  ⟨memmap_write_TIA s a ha h7, memmap_read_TIA_fault s d a ha h7, memmap_read_TIA_ok s d a ha⟩

/-- Claim C37, failing input: after the set-up of `main`, a write of 0 with
the address bus at 0x002D accesses `write_regs[45]`, and a read with the
address bus at 0x000E accesses `read_regs[14]`. -/
theorem C37_register_code_witness :
    memmap_write (booted_bus (program_image []) 0x002D 0) = .error ⟨.tia_write_regs, 45⟩ ∧
    memmap_read 0 (booted_bus (program_image []) 0x000E 0) = .error ⟨.tia_read_regs, 14⟩ :=
  ⟨(C37_register_code (booted_bus (program_image []) 0x002D 0) 0 0x2D (by decide)
      (by decide)).1 (by decide),
    (C37_register_code (booted_bus (program_image []) 0x000E 0) 0 0x0E (by decide)
      (by decide)).2.1 (by decide)⟩

/-- Claim C38 fails: states reached from `TIA_init` by register writes and
clock ticks make the line-buffer updates write outside [0, 160).  (1) After
227 ticks, NUSIZ0 := 0x30 and ENAM0 := 2 the colour clock is 227 and missile 0
is 8 wide; the strobe RESM0 then places it at 227 - 68 - 2 = 157 and
`TIA_update_missile_buffer` writes `line_buffer[160]`.  (2) A missile at
position 159 (RESM0 at colour clock 227, HMM0 := 0xE0, HMOVE in the next
horizontal sync) with width 8: ENAM0 := 2 writes `line_buffer[160]`.
(3) After 198 ticks the strobe RESP0 stores 198 - 68 = 130 in the 8-bit signed
position, and `TIA_update_player_buffer` writes `line_buffer[-118]`. -/
theorem C38_line_buffer_overrun :
    Except.map TIA_positions (TIA_run (List.replicate 227 .tick ++
      [.write TIA_WRITE_REG_NUSIZ0 0x30, .write TIA_WRITE_REG_ENAM0 2])
      (TIA_init power_on.tia)) = .ok (227, (0, 8, 0), (0, 0)) ∧
    Except.map TIA_positions (TIA_run (List.replicate 227 .tick ++
      [.write TIA_WRITE_REG_NUSIZ0 0x30, .write TIA_WRITE_REG_ENAM0 2,
        .write TIA_WRITE_REG_RESM0 0])
      (TIA_init power_on.tia)) = .error ⟨.missile_line_buffer, 160⟩ ∧
    Except.map TIA_positions (TIA_run (List.replicate 227 .tick ++
      [.write TIA_WRITE_REG_RESM0 0, .write TIA_WRITE_REG_HMM0 0xE0, .tick, .tick,
        .write TIA_WRITE_REG_HMOVE 0, .write TIA_WRITE_REG_NUSIZ0 0x30])
      (TIA_init power_on.tia)) = .ok (1, (159, 0, -2), (0, 0)) ∧
    Except.map TIA_positions (TIA_run (List.replicate 227 .tick ++
      [.write TIA_WRITE_REG_RESM0 0, .write TIA_WRITE_REG_HMM0 0xE0, .tick, .tick,
        .write TIA_WRITE_REG_HMOVE 0, .write TIA_WRITE_REG_NUSIZ0 0x30,
        .write TIA_WRITE_REG_ENAM0 2])
      (TIA_init power_on.tia)) = .error ⟨.missile_line_buffer, 160⟩ ∧
    Except.map TIA_positions (TIA_run (List.replicate 198 .tick) (TIA_init power_on.tia)) =
      .ok (198, (0, 0, 0), (0, 0)) ∧
    Except.map TIA_positions (TIA_run (List.replicate 198 .tick ++
      [.write TIA_WRITE_REG_RESP0 0]) (TIA_init power_on.tia)) =
      .error ⟨.player_line_buffer, -118⟩ := by
  set_option maxRecDepth 1000000 in
  exact ⟨by decide!, by decide!, by decide!, by decide!, by decide!, by decide!⟩

/-- Claim C39 fails: a write to HMCLR succeeds and zeroes the five motion
registers HMP0, HMP1, HMM0, HMM1 and HMBL, but it leaves the players, the
missiles and the ball as they are, their `horizontal_offset` fields included.
After HMP0 := 0x30 and the strobe HMCLR, from `TIA_init`, the register HMP0
is 0 and the offset of player 0 is still 3, where `motion_decode 0` is 0; an
HMOVE then, at colour clock 0, moves player 0 from 0 to -3.  The strobe RESP0
breaks the invariant the other way: it zeroes the offset and leaves the
register. -/
theorem C39_hmclr_keeps_offsets :
    (∀ (tia : atari_tia) (v : Nat), ∃ t, TIA_write_register TIA_WRITE_REG_HMCLR v tia = .ok t ∧
      t.write_regs TIA_WRITE_REG_HMP0 = 0 ∧ t.write_regs TIA_WRITE_REG_HMP1 = 0 ∧
      t.write_regs TIA_WRITE_REG_HMM0 = 0 ∧ t.write_regs TIA_WRITE_REG_HMM1 = 0 ∧
      t.write_regs TIA_WRITE_REG_HMBL = 0 ∧
      t.players = tia.players ∧ t.missiles = tia.missiles ∧ t.ball = tia.ball) ∧
    Except.map (fun t => (t.write_regs TIA_WRITE_REG_HMP0, TIA_positions t))
      (TIA_run [.write TIA_WRITE_REG_HMP0 0x30] (TIA_init power_on.tia)) =
      .ok (0x30, 0, (0, 0, 0), (0, 3)) ∧
    Except.map (fun t => (t.write_regs TIA_WRITE_REG_HMP0, TIA_positions t))
      (TIA_run [.write TIA_WRITE_REG_HMP0 0x30, .write TIA_WRITE_REG_HMCLR 0]
        (TIA_init power_on.tia)) = .ok (0, 0, (0, 0, 0), (0, 3)) ∧
    motion_decode 0 = 0 ∧ motion_decode 0x30 = 3 ∧
    Except.map (fun t => (t.write_regs TIA_WRITE_REG_HMP0, TIA_positions t))
      (TIA_run [.write TIA_WRITE_REG_HMP0 0x30, .write TIA_WRITE_REG_HMCLR 0,
        .write TIA_WRITE_REG_HMOVE 0] (TIA_init power_on.tia)) =
      .ok (0, 0, (0, 0, 0), (-3, 3)) ∧
    Except.map (fun t => (t.write_regs TIA_WRITE_REG_HMP0, TIA_positions t))
      (TIA_run [.write TIA_WRITE_REG_HMP0 0x30, .write TIA_WRITE_REG_RESP0 0]
        (TIA_init power_on.tia)) = .ok (0x30, 0, (0, 0, 0), (0, 0)) := by
  set_option maxRecDepth 1000000 in
  exact ⟨fun tia v => ⟨_, TIA_write_register_HMCLR v tia, rfl, rfl, rfl, rfl, rfl, rfl, rfl,
    rfl⟩, by decide!, by decide!, by decide!, by decide!, by decide!, by decide!⟩

/-- Claim C40 fails: cycle 3 of `opcode_RTI` stores the status byte it pulls
in the stack pointer, not in the status register.  From PC = 0x1234,
S = 0xFD and P = 0xB4, seven calls of `opcode_execute(0x00)` complete BRK
(return values 1 .. 6, 0), which pushes 0x12, 0x35 and 0xB4; the six calls of
`opcode_execute(0x40)` that complete RTI then leave S = 0xB6 (the pulled
status byte plus the two pulls that follow) where the claim has 0xFD, and
PC = 0x0000, read from 0x01B5 and 0x01B6, where the claim has 0x1235.  P is
0xB4 at the end because neither instruction writes it.  With P = 0x04, the
value after reset, S ends at 0x06. -/
theorem C40_rti_loads_stack_pointer :
    brk_then_rti (booted_status interrupt_image 0xB4) =
      .ok ([1, 2, 3, 4, 5, 6, 0], [1, 2, 3, 4, 5, 0],
        ⟨0, 0, 0, 0x0000, 0xB6, 0xB4, 0, 0, 0x0000, 0⟩, [0x12, 0x35, 0xB4]) ∧
    brk_then_rti (booted interrupt_image) =
      .ok ([1, 2, 3, 4, 5, 6, 0], [1, 2, 3, 4, 5, 0],
        ⟨0, 0, 0, 0x0000, 0x06, 0x04, 0, 0, 0x0000, 0⟩, [0x12, 0x35, 0x04]) ∧
    Except.map (fun r => (r.1, r.2.cpu))
      (opcode_execute_calls 0x00 7 (booted_status interrupt_image 0xB4)) =
      .ok ([1, 2, 3, 4, 5, 6, 0], ⟨0, 0, 0, 0x1300, 0xFA, 0xB4, 0, 0, 0x1300, 0x13⟩) := by
  set_option maxRecDepth 1000000 in
  exact ⟨by decide!, by decide!, by decide!⟩

end Atari2600
